import Mathlib

/-! Virtual audio driver: capability dispatch, I/O engine, configuration change.

A shallow embedding of `src/driver.cpp` and the capability objects under
`src/mts/object/` (plug-in, box, device, stream, mute control, volume control).

Conventions of the embedding

* `Float32` / `Float64` values live in an arbitrary linearly ordered field `F`
  with a floor function; no value is an infinity. The model is executable at `F := ℚ`.
  Arithmetic is exact, except in `GetZeroTimeStampImpl`, which takes the rounding of the
  `Float64` operations as an argument (`roundFloat64` for the arithmetic of the machine,
  the identity for exact arithmetic).
* No value of `F` is NaN. The members that set the gain are given a second time, under
  `IEEE`, on floating-point values that may be NaN (`IEEE.Value`), where the operators
  `<`, `>` and `==` are false for NaN.
* `UInt32` / `UInt64` values are natural numbers; `u32` / `u64` reduce modulo the
  word size where the source computes in that width.
* Out-parameters (`*outDataSize`, `*outNumberPropertiesChanged`) are passed in with the
  value they hold before the call and returned with the value they hold afterwards.
* Calls into the host (`PropertiesChanged`, `RequestDeviceConfigurationChange`,
  `WriteToStorage`, `DeleteFromStorage`) are recorded, in program order, in a list.
* The constants of `config.h`, which is not part of the sources at hand, are the fields
  of `Config`; the values read from the operating system are the fields of `Environment`.
-/

namespace MtsDriver

/-! ## Machine integers -/

/-- Truncation to an unsigned 32-bit value. -/
def u32 (n : Nat) : Nat := n % 2 ^ 32

/-- Truncation to an unsigned 64-bit value. -/
def u64 (n : Nat) : Nat := n % 2 ^ 64

/-- The constant `UINT64_MAX`. -/
def UINT64_MAX : Nat := 2 ^ 64 - 1

/-- The constant `UINT32_MAX`. -/
def UINT32_MAX : Nat := 2 ^ 32 - 1

/-! ## CoreAudio vocabulary -/

/-- The `OSStatus` codes the driver returns. -/
inductive OSStatus
  | kAudioHardwareNoError
  | kAudioHardwareUnspecifiedError
  | kAudioHardwareUnknownPropertyError
  | kAudioHardwareBadPropertySizeError
  | kAudioHardwareIllegalOperationError
  | kAudioHardwareBadObjectError
  | kAudioHardwareUnsupportedOperationError
  | kAudioDeviceUnsupportedFormatError
  deriving DecidableEq, Repr

open OSStatus

/-- Object identifiers are `UInt32` handles. -/
abbrev AudioObjectID := Nat

/-- The constant `kAudioObjectUnknown`. -/
def kAudioObjectUnknown : AudioObjectID := 0

/-- The constant `kAudioObjectPlugInObject`. -/
def kAudioObjectPlugInObject : AudioObjectID := 1

/-- Property selectors: the four-character codes named in the sources, and `other code`
for every code that none of these names denotes. -/
inductive Selector
  | kAudioObjectPropertyBaseClass
  | kAudioObjectPropertyClass
  | kAudioObjectPropertyOwner
  | kAudioObjectPropertyName
  | kAudioObjectPropertyModelName
  | kAudioObjectPropertyManufacturer
  | kAudioObjectPropertyOwnedObjects
  | kAudioObjectPropertySerialNumber
  | kAudioObjectPropertyFirmwareVersion
  | kAudioObjectPropertyControlList
  | kAudioPlugInPropertyBoxList
  | kAudioPlugInPropertyTranslateUIDToBox
  | kAudioPlugInPropertyDeviceList
  | kAudioPlugInPropertyTranslateUIDToDevice
  | kAudioPlugInPropertyResourceBundle
  | kAudioBoxPropertyBoxUID
  | kAudioBoxPropertyHasAudio
  | kAudioBoxPropertyHasVideo
  | kAudioBoxPropertyHasMIDI
  | kAudioBoxPropertyIsProtected
  | kAudioBoxPropertyAcquired
  | kAudioBoxPropertyAcquisitionFailed
  | kAudioBoxPropertyDeviceList
  | kAudioDevicePropertyDeviceUID
  | kAudioDevicePropertyModelUID
  | kAudioDevicePropertyTransportType
  | kAudioDevicePropertyRelatedDevices
  | kAudioDevicePropertyClockDomain
  | kAudioDevicePropertyDeviceIsAlive
  | kAudioDevicePropertyDeviceIsRunning
  | kAudioDevicePropertyDeviceCanBeDefaultDevice
  | kAudioDevicePropertyDeviceCanBeDefaultSystemDevice
  | kAudioDevicePropertyLatency
  | kAudioDevicePropertyStreams
  | kAudioDevicePropertySafetyOffset
  | kAudioDevicePropertyNominalSampleRate
  | kAudioDevicePropertyAvailableNominalSampleRates
  | kAudioDevicePropertyIcon
  | kAudioDevicePropertyIsHidden
  | kAudioDevicePropertyPreferredChannelsForStereo
  | kAudioDevicePropertyPreferredChannelLayout
  | kAudioDevicePropertyZeroTimeStampPeriod
  | kAudioStreamPropertyIsActive
  | kAudioStreamPropertyDirection
  | kAudioStreamPropertyTerminalType
  | kAudioStreamPropertyStartingChannel
  | kAudioStreamPropertyVirtualFormat
  | kAudioStreamPropertyPhysicalFormat
  | kAudioStreamPropertyAvailableVirtualFormats
  | kAudioStreamPropertyAvailablePhysicalFormats
  | kAudioControlPropertyScope
  | kAudioControlPropertyElement
  | kAudioBooleanControlPropertyValue
  | kAudioLevelControlPropertyScalarValue
  | kAudioLevelControlPropertyDecibelValue
  | kAudioLevelControlPropertyDecibelRange
  | kAudioLevelControlPropertyConvertScalarToDecibels
  | kAudioLevelControlPropertyConvertDecibelsToScalar
  | other (code : Nat)
  deriving Repr

/-- Position of a selector among the names of `Selector`; `other code` comes last. -/
def Selector.index : Selector → Nat
  | .kAudioObjectPropertyBaseClass => 0
  | .kAudioObjectPropertyClass => 1
  | .kAudioObjectPropertyOwner => 2
  | .kAudioObjectPropertyName => 3
  | .kAudioObjectPropertyModelName => 4
  | .kAudioObjectPropertyManufacturer => 5
  | .kAudioObjectPropertyOwnedObjects => 6
  | .kAudioObjectPropertySerialNumber => 7
  | .kAudioObjectPropertyFirmwareVersion => 8
  | .kAudioObjectPropertyControlList => 9
  | .kAudioPlugInPropertyBoxList => 10
  | .kAudioPlugInPropertyTranslateUIDToBox => 11
  | .kAudioPlugInPropertyDeviceList => 12
  | .kAudioPlugInPropertyTranslateUIDToDevice => 13
  | .kAudioPlugInPropertyResourceBundle => 14
  | .kAudioBoxPropertyBoxUID => 15
  | .kAudioBoxPropertyHasAudio => 16
  | .kAudioBoxPropertyHasVideo => 17
  | .kAudioBoxPropertyHasMIDI => 18
  | .kAudioBoxPropertyIsProtected => 19
  | .kAudioBoxPropertyAcquired => 20
  | .kAudioBoxPropertyAcquisitionFailed => 21
  | .kAudioBoxPropertyDeviceList => 22
  | .kAudioDevicePropertyDeviceUID => 23
  | .kAudioDevicePropertyModelUID => 24
  | .kAudioDevicePropertyTransportType => 25
  | .kAudioDevicePropertyRelatedDevices => 26
  | .kAudioDevicePropertyClockDomain => 27
  | .kAudioDevicePropertyDeviceIsAlive => 28
  | .kAudioDevicePropertyDeviceIsRunning => 29
  | .kAudioDevicePropertyDeviceCanBeDefaultDevice => 30
  | .kAudioDevicePropertyDeviceCanBeDefaultSystemDevice => 31
  | .kAudioDevicePropertyLatency => 32
  | .kAudioDevicePropertyStreams => 33
  | .kAudioDevicePropertySafetyOffset => 34
  | .kAudioDevicePropertyNominalSampleRate => 35
  | .kAudioDevicePropertyAvailableNominalSampleRates => 36
  | .kAudioDevicePropertyIcon => 37
  | .kAudioDevicePropertyIsHidden => 38
  | .kAudioDevicePropertyPreferredChannelsForStereo => 39
  | .kAudioDevicePropertyPreferredChannelLayout => 40
  | .kAudioDevicePropertyZeroTimeStampPeriod => 41
  | .kAudioStreamPropertyIsActive => 42
  | .kAudioStreamPropertyDirection => 43
  | .kAudioStreamPropertyTerminalType => 44
  | .kAudioStreamPropertyStartingChannel => 45
  | .kAudioStreamPropertyVirtualFormat => 46
  | .kAudioStreamPropertyPhysicalFormat => 47
  | .kAudioStreamPropertyAvailableVirtualFormats => 48
  | .kAudioStreamPropertyAvailablePhysicalFormats => 49
  | .kAudioControlPropertyScope => 50
  | .kAudioControlPropertyElement => 51
  | .kAudioBooleanControlPropertyValue => 52
  | .kAudioLevelControlPropertyScalarValue => 53
  | .kAudioLevelControlPropertyDecibelValue => 54
  | .kAudioLevelControlPropertyDecibelRange => 55
  | .kAudioLevelControlPropertyConvertScalarToDecibels => 56
  | .kAudioLevelControlPropertyConvertDecibelsToScalar => 57
  | .other _ => 58

/-- The code carried by `other code`, and 0 for a named selector. -/
def Selector.payload : Selector → Nat
  | .other code => code
  | _ => 0

/-- The named selectors, in the order of `Selector.index`. -/
def Selector.names : List Selector :=
  [
    .kAudioObjectPropertyBaseClass,
    .kAudioObjectPropertyClass,
    .kAudioObjectPropertyOwner,
    .kAudioObjectPropertyName,
    .kAudioObjectPropertyModelName,
    .kAudioObjectPropertyManufacturer,
    .kAudioObjectPropertyOwnedObjects,
    .kAudioObjectPropertySerialNumber,
    .kAudioObjectPropertyFirmwareVersion,
    .kAudioObjectPropertyControlList,
    .kAudioPlugInPropertyBoxList,
    .kAudioPlugInPropertyTranslateUIDToBox,
    .kAudioPlugInPropertyDeviceList,
    .kAudioPlugInPropertyTranslateUIDToDevice,
    .kAudioPlugInPropertyResourceBundle,
    .kAudioBoxPropertyBoxUID,
    .kAudioBoxPropertyHasAudio,
    .kAudioBoxPropertyHasVideo,
    .kAudioBoxPropertyHasMIDI,
    .kAudioBoxPropertyIsProtected,
    .kAudioBoxPropertyAcquired,
    .kAudioBoxPropertyAcquisitionFailed,
    .kAudioBoxPropertyDeviceList,
    .kAudioDevicePropertyDeviceUID,
    .kAudioDevicePropertyModelUID,
    .kAudioDevicePropertyTransportType,
    .kAudioDevicePropertyRelatedDevices,
    .kAudioDevicePropertyClockDomain,
    .kAudioDevicePropertyDeviceIsAlive,
    .kAudioDevicePropertyDeviceIsRunning,
    .kAudioDevicePropertyDeviceCanBeDefaultDevice,
    .kAudioDevicePropertyDeviceCanBeDefaultSystemDevice,
    .kAudioDevicePropertyLatency,
    .kAudioDevicePropertyStreams,
    .kAudioDevicePropertySafetyOffset,
    .kAudioDevicePropertyNominalSampleRate,
    .kAudioDevicePropertyAvailableNominalSampleRates,
    .kAudioDevicePropertyIcon,
    .kAudioDevicePropertyIsHidden,
    .kAudioDevicePropertyPreferredChannelsForStereo,
    .kAudioDevicePropertyPreferredChannelLayout,
    .kAudioDevicePropertyZeroTimeStampPeriod,
    .kAudioStreamPropertyIsActive,
    .kAudioStreamPropertyDirection,
    .kAudioStreamPropertyTerminalType,
    .kAudioStreamPropertyStartingChannel,
    .kAudioStreamPropertyVirtualFormat,
    .kAudioStreamPropertyPhysicalFormat,
    .kAudioStreamPropertyAvailableVirtualFormats,
    .kAudioStreamPropertyAvailablePhysicalFormats,
    .kAudioControlPropertyScope,
    .kAudioControlPropertyElement,
    .kAudioBooleanControlPropertyValue,
    .kAudioLevelControlPropertyScalarValue,
    .kAudioLevelControlPropertyDecibelValue,
    .kAudioLevelControlPropertyDecibelRange,
    .kAudioLevelControlPropertyConvertScalarToDecibels,
    .kAudioLevelControlPropertyConvertDecibelsToScalar]

/-- The selector at a position, `other code` past the names. -/
def Selector.ofIndex (i code : Nat) : Selector :=
  Selector.names.getD i (.other code)

/-- Equality of selectors is decided on their position and code. -/
instance : DecidableEq Selector := fun a b =>
  have back : ∀ s : Selector, Selector.ofIndex s.index s.payload = s := by
    intro s
    cases s <;> rfl
  if h : a.index = b.index ∧ a.payload = b.payload then
    isTrue (by rw [← back a, ← back b, h.1, h.2])
  else
    isFalse (by
      intro hab
      exact h (by rw [hab]; exact ⟨rfl, rfl⟩))

/-- The box transport type has the same four-character code as the device one. -/
@[match_pattern] def Selector.kAudioBoxPropertyTransportType : Selector :=
  Selector.kAudioDevicePropertyTransportType

/-- The stream latency has the same four-character code as the device one. -/
@[match_pattern] def Selector.kAudioStreamPropertyLatency : Selector :=
  Selector.kAudioDevicePropertyLatency

/-- Property scopes: the three the sources name and `other code` for the rest. -/
inductive Scope
  | kAudioObjectPropertyScopeGlobal
  | kAudioObjectPropertyScopeInput
  | kAudioObjectPropertyScopeOutput
  | other (code : Nat)
  deriving DecidableEq, Repr

/-- The constant `kAudioObjectPropertyElementMain`. -/
def kAudioObjectPropertyElementMain : Nat := 0

/-- The triple `AudioObjectPropertyAddress`. -/
structure Address where
  mSelector : Selector
  mScope : Scope
  mElement : Nat
  deriving DecidableEq, Repr

/-- Class identifiers written by the `BaseClass` and `Class` properties. -/
inductive AudioClassID
  | kAudioObjectClassID
  | kAudioPlugInClassID
  | kAudioBoxClassID
  | kAudioDeviceClassID
  | kAudioStreamClassID
  | kAudioBooleanControlClassID
  | kAudioMuteControlClassID
  | kAudioLevelControlClassID
  | kAudioVolumeControlClassID
  deriving DecidableEq, Repr

/-- The constant `kAudioDeviceTransportTypeVirtual`, the code 'virt'. -/
def kAudioDeviceTransportTypeVirtual : Nat := 0x76697274

/-- The constant `kAudioStreamTerminalTypeMicrophone`, the code 'micr'. -/
def kAudioStreamTerminalTypeMicrophone : Nat := 0x6D696372

/-- The constant `kAudioStreamTerminalTypeSpeaker`, the code 'spkr'. -/
def kAudioStreamTerminalTypeSpeaker : Nat := 0x73706B72

/-- The constant `kAudioChannelLayoutTag_UseChannelDescriptions`. -/
def kAudioChannelLayoutTag_UseChannelDescriptions : Nat := 0

/-- The constant `kAudioChannelLabel_Left`. -/
def kAudioChannelLabel_Left : Nat := 1

/-- A `CFStringRef`: a null reference or a string. -/
abbrev CFStringRef := Option String

/-! ### Byte sizes (64-bit macOS ABI) -/

def sizeof_AudioClassID : Nat := 4
def sizeof_AudioObjectID : Nat := 4
def sizeof_AudioObjectPropertyScope : Nat := 4
def sizeof_AudioObjectPropertyElement : Nat := 4
def sizeof_UInt32 : Nat := 4
def sizeof_Float32 : Nat := 4
def sizeof_Float64 : Nat := 8
def sizeof_CFStringRef : Nat := 8
def sizeof_CFURLRef : Nat := 8
def sizeof_AudioValueRange : Nat := 16
def sizeof_AudioStreamBasicDescription : Nat := 40
def sizeof_AudioStreamRangedDescription : Nat := 56
def sizeof_AudioChannelDescription : Nat := 20
def offsetof_AudioChannelLayout_mChannelDescriptions : Nat := 12

/-! ## `mts/common.h` -/

namespace mts

inductive direction
  | input
  | output
  deriving DecidableEq, Repr

inductive object_type
  | plugin
  | box
  | device
  | stream
  | control
  deriving DecidableEq, Repr

structure object_description where
  id : AudioObjectID
  type : object_type
  direction : direction
  deriving DecidableEq, Repr

end mts

/-- The enumeration `ObjectID` of `driver.cpp`, as the numeric handles. -/
inductive ObjectID
  | Plugin
  | Box
  | Device
  | StreamInput
  | VolumeInputMaster
  | MuteInputMaster
  | StreamOutput
  | VolumeOutputMaster
  | MuteOutputMaster
  deriving DecidableEq, Repr

/-- The numeric value of an `ObjectID` enumerator: `Plugin` is
`kAudioObjectPlugInObject` and the others count up from it. -/
def ObjectID.toAudioObjectID : ObjectID → AudioObjectID
  | .Plugin => kAudioObjectPlugInObject
  | .Box => kAudioObjectPlugInObject + 1
  | .Device => kAudioObjectPlugInObject + 2
  | .StreamInput => kAudioObjectPlugInObject + 3
  | .VolumeInputMaster => kAudioObjectPlugInObject + 4
  | .MuteInputMaster => kAudioObjectPlugInObject + 5
  | .StreamOutput => kAudioObjectPlugInObject + 6
  | .VolumeOutputMaster => kAudioObjectPlugInObject + 7
  | .MuteOutputMaster => kAudioObjectPlugInObject + 8

/-- The cast `static_cast<ObjectID>(auid)` followed by a `switch` over the enumerators:
the enumerator with that value, if there is one. -/
def ObjectID.ofAudioObjectID (auid : AudioObjectID) : Option ObjectID :=
  if auid = ObjectID.Plugin.toAudioObjectID then some .Plugin
  else if auid = ObjectID.Box.toAudioObjectID then some .Box
  else if auid = ObjectID.Device.toAudioObjectID then some .Device
  else if auid = ObjectID.StreamInput.toAudioObjectID then some .StreamInput
  else if auid = ObjectID.VolumeInputMaster.toAudioObjectID then some .VolumeInputMaster
  else if auid = ObjectID.MuteInputMaster.toAudioObjectID then some .MuteInputMaster
  else if auid = ObjectID.StreamOutput.toAudioObjectID then some .StreamOutput
  else if auid = ObjectID.VolumeOutputMaster.toAudioObjectID then some .VolumeOutputMaster
  else if auid = ObjectID.MuteOutputMaster.toAudioObjectID then some .MuteOutputMaster
  else none

/-! ## `mts/util.h` -/

namespace mts

variable {F : Type} [LinearOrderedField F]

/-- The template `clamp`. -/
def clamp (d min max : F) : F :=
  let t := if d < min then min else d
  if t > max then max else t

/-- The two-argument case of the template `min`. -/
def min {T : Type} [LT T] [DecidableRel (fun a b : T => a < b)] (v1 v2 : T) : T :=
  if v2 < v1 then v2 else v1

/-- The two-argument case of the template `max`. -/
def max {T : Type} [LT T] [DecidableRel (fun a b : T => a < b)] (v1 v2 : T) : T :=
  if v2 > v1 then v2 else v1

/-- The template `is_power_of_two`, which returns `v && !(v & (v - 1))` converted
back to the integer type: one or zero. -/
def is_power_of_two (v : Nat) : Nat :=
  if v ≠ 0 ∧ ¬ (v &&& (v - 1)) ≠ 0 then 1 else 0

/-- The template `is_one_of` for two candidates. -/
def is_one_of {T : Type} [DecidableEq T] (t t1 t2 : T) : Bool :=
  decide (t = t1) || decide (t = t2)

end mts

/-- The functions of the C mathematics library the sources call. They are external to the
repository and are parameters of the model. -/
structure MathLib (F : Type) where
  log10 : F → F
  pow : F → F → F
  sqrtf : F → F

namespace mts

variable {F : Type} [LinearOrderedField F]

/-- The template `amplitude_to_decibel`; the literal `1e-23` is `1 / 10 ^ 23`. -/
def amplitude_to_decibel (m : MathLib F) (amp : F) : F :=
  20 * m.log10 (if amp < 1 / 10 ^ 23 then 1 / 10 ^ 23 else amp)

/-- The template `decibel_to_amplitude`. -/
def decibel_to_amplitude (m : MathLib F) (db : F) : F :=
  m.pow 10 (db / 20)

/-- The template `amplitude_to_normalized_value`. -/
def amplitude_to_normalized_value (m : MathLib F) (amp minDB maxDB : F) : F :=
  let db := clamp (amplitude_to_decibel m amp) minDB maxDB
  (db - minDB) / (maxDB - minDB)

/-- The template `normalized_value_to_amplitude`. -/
def normalized_value_to_amplitude (m : MathLib F) (value minDB maxDB : F) : F :=
  let db := minDB + clamp value 0 1 * (maxDB - minDB)
  decibel_to_amplitude m db

end mts

/-! ## Conversions between floating-point and integer values -/

section Conversions

variable {F : Type} [LinearOrderedField F] [FloorRing F]

/-- The cast `(UInt64)x` of a floating-point value: truncation of the fraction; the result is
reduced modulo `2 ^ 64` (the cast is only defined by the language for `0 ≤ x < 2 ^ 64`). -/
def toUInt64 (x : F) : Nat := u64 (Int.toNat ⌊x⌋)

/-- The number an unsigned integer stands for. The cast `(Float64)n` is this number rounded to
`Float64`; the rounding is applied where the cast is made (see `GetZeroTimeStampImpl`). -/
def ofUInt64 (n : Nat) : F := (n : F)

end Conversions

/-! ## `mts/dsp.h` -/

namespace mts.dsp

variable {F : Type} [LinearOrderedField F]

/-- The template `clear`: the first `size` samples of `buffer` become zero. -/
def clear (buffer : List F) (size : Nat) : List F :=
  (List.range buffer.length).map (fun j => if j < size then 0 else buffer.getD j 0)

/-- The template `copy`, a `memcpy` of `size` samples from `src + srcOffset` to
`dst + dstOffset`; the result is the destination array. Positions of the destination outside
`[dstOffset, dstOffset + size)` keep their value. A source position beyond the source array
(undefined in the language) reads as zero and a destination position beyond the destination
array (undefined in the language) is not stored. -/
def copy (src : List F) (srcOffset : Nat) (dst : List F) (dstOffset : Nat) (size : Nat) : List F :=
  (List.range dst.length).map (fun j =>
    if dstOffset ≤ j ∧ j < dstOffset + size then src.getD (srcOffset + (j - dstOffset)) 0
    else dst.getD j 0)

/-- The template `mul`: the first `size` samples of `buffer` are multiplied by `value`. -/
def mul (buffer : List F) (value : F) (size : Nat) : List F :=
  (List.range buffer.length).map (fun j =>
    if j < size then buffer.getD j 0 * value else buffer.getD j 0)

end mts.dsp

/-! ## `config.h` (not among the sources at hand) -/

/-- The constants and string macros of `config.h` that the sources refer to. -/
structure Config (F : Type) where
  bits_per_channel : Nat
  ring_buffer_size : Nat
  ring_buffer_frame_size : Nat
  channel_count : Nat
  default_sample_rate : F
  supported_sample_rates : List F
  volume_min_db : F
  volume_max_db : F
  volume_min_amplitude : F
  hidden : Bool
  allows_default_device : Bool
  format_id : Nat
  format_flags : Nat
  bytes_per_packet : Nat
  frames_per_packet : Nat
  bytes_per_frame : Nat
  MTS_PROPERTY_BOX_ACQUIRED : String
  MTS_PROPERTY_BOX_NAME : String
  MTS_DEFAULT_BOX_NAME : String
  MTS_BOX_MODEL_NAME : String
  MTS_MANUFACTURER_NAME : String
  MTS_SERIAL_NUMBER : String
  MTS_FIRMWARE_VERSION : String
  MTS_BOX_UID : String
  MTS_DEVICE_NAME : String
  MTS_DEVICE_UID : String
  MTS_DEVICE_MODEL_UID : String
  MTS_PLUGIN_BUNDLE_ID : String
  MTS_ICON_FILE : String

/-- The structure `AudioValueRange`. -/
structure AudioValueRange (F : Type) where
  mMinimum : F
  mMaximum : F
  deriving DecidableEq, Repr

namespace Config

variable {F : Type} [LinearOrderedField F] [FloorRing F]

/-- Modelled from the spec: `supported_sample_rates_count` of `config.h` is the number of
entries of the supported-rate set. -/
def supported_sample_rates_count (cfg : Config F) : Nat :=
  cfg.supported_sample_rates.length

/-- Modelled from the spec: `is_supported_sample_rate` of `config.h` validates a rate
"against the supported-rate set". -/
def is_supported_sample_rate (cfg : Config F) (sr : F) : Bool :=
  decide (sr ∈ cfg.supported_sample_rates)

/-- Modelled from the spec: `ring_buffer_frame_mask` of `config.h`; the frame offset is
"`sample_time & (frame_capacity - 1)`". -/
def ring_buffer_frame_mask (cfg : Config F) : Nat :=
  cfg.ring_buffer_frame_size - 1

/-- Modelled from the spec: `volume_range_db` of `config.h`, the decibel range of the gain. -/
def volume_range_db (cfg : Config F) : AudioValueRange F :=
  ⟨cfg.volume_min_db, cfg.volume_max_db⟩

/-- Modelled from the spec: `is_default_sample_rate_supported` of `config.h`
("defaultSampleRate must be a supported sample rate"). -/
def is_default_sample_rate_supported (cfg : Config F) : Bool :=
  cfg.is_supported_sample_rate cfg.default_sample_rate

/-- Modelled from the spec: `is_all_sample_rate_integers` of `config.h` ("supported sample
rates must be integers"): every supported rate survives the round trip through `UInt64`. -/
def is_all_sample_rate_integers (cfg : Config F) : Bool :=
  cfg.supported_sample_rates.all (fun sr => decide (ofUInt64 (toUInt64 sr) = sr))

/-- The static assertions at the head of `driver.cpp`. -/
def static_assertions (cfg : Config F) : Bool :=
  decide (cfg.bits_per_channel = 32)
    && decide (mts.is_power_of_two cfg.ring_buffer_size ≠ 0)
    && decide (mts.is_power_of_two cfg.ring_buffer_frame_size ≠ 0)
    && cfg.is_default_sample_rate_supported
    && cfg.is_all_sample_rate_integers

/-- The constants are `UInt32` values, and so are the sample count of the ring buffer and the
byte sizes of the supported-rate lists. -/
def fits_UInt32 (cfg : Config F) : Bool :=
  decide (cfg.ring_buffer_size < 2 ^ 32)
    && decide (cfg.ring_buffer_frame_size < 2 ^ 32)
    && decide (cfg.channel_count < 2 ^ 32)
    && decide (cfg.ring_buffer_frame_size * cfg.channel_count < 2 ^ 32)
    && decide (cfg.supported_sample_rates_count * sizeof_AudioStreamRangedDescription < 2 ^ 32)

end Config

/-- The values the driver reads from the operating system. -/
structure Environment where
  /-- The field `numer` of `mach_timebase_info`. -/
  timebase_numer : Nat
  /-- The field `denom` of `mach_timebase_info`. -/
  timebase_denom : Nat
  /-- Does `CFBundleGetBundleWithIdentifier(get_bundle_id())` return a bundle? -/
  bundleFound : Bool
  /-- The result of `CFBundleCopyResourceURL` for the icon file: null or a URL. -/
  iconURL : Option String
  deriving DecidableEq, Repr

/-! ## Driver state and host interface -/

/-- The data members of the class `Driver` (the host handle and the two mutexes are not
represented). -/
structure DriverState (F : Type) where
  m_refCount : Nat
  m_boxName : CFStringRef
  m_isBoxAcquired : Bool
  m_sampleRate : F
  m_ioRunning : Nat
  m_hostTicksPerFrame : F
  m_numberTimeStamps : Nat
  m_anchorSampleTime : F
  m_anchorHostTime : Nat
  m_streamInputActive : Bool
  m_streamOutputActive : Bool
  m_volumeMasterValue : F
  m_muteMasterValue : Bool
  /-- The ring buffer: `none` is the null pointer. -/
  m_ringBuffer : Option (List F)
  m_lastOutputSampleTime : F
  m_isBufferClear : Bool
  deriving DecidableEq, Repr

/-- The in-class member initialisers of `Driver` together with its constructor. -/
def DriverState.initial {F : Type} [LinearOrderedField F] (cfg : Config F) : DriverState F where
  m_refCount := 0
  m_boxName := none
  m_isBoxAcquired := true
  m_sampleRate := cfg.default_sample_rate
  m_ioRunning := 0
  m_hostTicksPerFrame := 0
  m_numberTimeStamps := 0
  m_anchorSampleTime := 0
  m_anchorHostTime := 0
  m_streamInputActive := true
  m_streamOutputActive := true
  m_volumeMasterValue := 1
  m_muteMasterValue := false
  m_ringBuffer := none
  m_lastOutputSampleTime := 0
  m_isBufferClear := true

/-- A value handed to `WriteToStorage`. -/
inductive StorageValue
  | boolean (b : Bool)
  | string (s : String)
  deriving DecidableEq, Repr

/-- The entries of the host callback table the driver invokes. -/
inductive HostCall
  | PropertiesChanged (inObjectID : AudioObjectID) (inAddresses : List Address)
  | RequestDeviceConfigurationChange (inDeviceObjectID : AudioObjectID) (inChangeAction : Nat)
  | WriteToStorage (key : String) (value : StorageValue)
  | DeleteFromStorage (key : String)
  deriving DecidableEq, Repr

/-- Is the call a properties-changed notification? -/
def HostCall.isPropertiesChanged : HostCall → Bool
  | .PropertiesChanged _ _ => true
  | _ => false

/-- Is the call a request for a configuration change? -/
def HostCall.isRequestDeviceConfigurationChange : HostCall → Bool
  | .RequestDeviceConfigurationChange _ _ => true
  | _ => false

/-- Is the call one of the two storage entries of the host table? -/
def HostCall.isStorage : HostCall → Bool
  | .WriteToStorage _ _ => true
  | .DeleteFromStorage _ => true
  | _ => false

/-- One recorded host call. -/
structure HostEvent where
  call : HostCall
  /-- Was the call posted through `async`, to run later on the global queue? -/
  dispatched : Bool
  /-- Is the state mutex held by the calling code at the point of the call? -/
  stateLocked : Bool
  deriving DecidableEq, Repr

/-- The structure `AudioStreamBasicDescription` (without the reserved field). -/
structure AudioStreamBasicDescription (F : Type) where
  mSampleRate : F
  mFormatID : Nat
  mFormatFlags : Nat
  mBytesPerPacket : Nat
  mFramesPerPacket : Nat
  mBytesPerFrame : Nat
  mChannelsPerFrame : Nat
  mBitsPerChannel : Nat
  deriving DecidableEq, Repr

/-- The structure `AudioStreamRangedDescription`. -/
structure AudioStreamRangedDescription (F : Type) where
  mFormat : AudioStreamBasicDescription F
  mSampleRateRange : AudioValueRange F
  deriving DecidableEq, Repr

/-- The structure `AudioChannelDescription`. -/
structure AudioChannelDescription (F : Type) where
  mChannelLabel : Nat
  mChannelFlags : Nat
  mCoordinates : List F
  deriving DecidableEq, Repr

/-- What a `get` stores through `outData`. -/
inductive PropertyValue (F : Type)
  | classID (c : AudioClassID)
  | objectID (o : AudioObjectID)
  | uint32 (v : Nat)
  | scope (sc : Scope)
  | float32 (x : F)
  | float64 (x : F)
  | cfString (str : CFStringRef)
  | cfURL (url : String)
  | objectList (objs : List AudioObjectID)
  | uint32List (vs : List Nat)
  | valueRange (r : AudioValueRange F)
  | valueRanges (rs : List (AudioValueRange F))
  | channelLayout (mChannelLayoutTag mChannelBitmap mNumberChannelDescriptions : Nat)
      (mChannelDescriptions : List (AudioChannelDescription F))
  | basicDescription (d : AudioStreamBasicDescription F)
  | rangedDescriptions (ds : List (AudioStreamRangedDescription F))
  deriving DecidableEq, Repr

/-- A caller-provided untyped buffer (`inData`, or `outData` on entry), seen through each of the
types the sources cast it to. -/
structure Blob (F : Type) where
  asUInt32 : Nat
  asFloat32 : F
  asFloat64 : F
  asCFStringRef : CFStringRef
  asAudioStreamBasicDescription : AudioStreamBasicDescription F
  deriving DecidableEq, Repr

/-- The outcome of `size`: the status and the value of `*outDataSize` after the call. -/
structure SizeResult where
  status : OSStatus
  outDataSize : Nat
  deriving DecidableEq, Repr

/-- The outcome of `get`: the status, the value of `*outDataSize` after the call and what was
stored through `outData` (`none`: nothing was stored). -/
structure GetResult (F : Type) where
  status : OSStatus
  outDataSize : Nat
  outData : Option (PropertyValue F)
  deriving DecidableEq, Repr

/-- The outcome of `set`: the status, the driver state after the call, the value of
`*outNumberPropertiesChanged` after the call, the entries stored in `outChangedAddresses` and
the host calls issued. -/
structure SetResult (F : Type) where
  status : OSStatus
  state : DriverState F
  outNumberPropertiesChanged : Nat
  outChangedAddresses : List Address
  hostCalls : List HostEvent
  deriving DecidableEq, Repr

/-! ## The object classes of `mts/object/*.h`: data members -/

namespace mts.core

structure plugin where
  id : AudioObjectID
  deriving DecidableEq, Repr

structure box where
  id : AudioObjectID
  m_plugin : AudioObjectID
  deriving DecidableEq, Repr

structure device where
  id : AudioObjectID
  m_plugin : AudioObjectID
  deriving DecidableEq, Repr

structure stream where
  id : AudioObjectID
  m_device : AudioObjectID
  m_direction : mts.direction
  deriving DecidableEq, Repr

structure mute_control where
  id : AudioObjectID
  m_device : AudioObjectID
  m_direction : mts.direction
  deriving DecidableEq, Repr

structure volume_control where
  id : AudioObjectID
  m_device : AudioObjectID
  m_direction : mts.direction
  deriving DecidableEq, Repr

end mts.core

/-! ## The implementation classes of `driver.cpp` -/

section Implementations

variable {F : Type} [LinearOrderedField F] [FloorRing F]

/-- An effectful member function: its return value, the driver state afterwards and the host
calls it issued. -/
structure Effect (F : Type) (R : Type) where
  ret : R
  state : DriverState F
  hostCalls : List HostEvent

namespace MasterMute

/-- The member `MasterMute::set_muted`. -/
def set_muted (s : DriverState F) (muted : Bool) : DriverState F :=
  { s with m_muteMasterValue := muted }

/-- The member `MasterMute::is_muted`. -/
def is_muted (s : DriverState F) : Bool := s.m_muteMasterValue

end MasterMute

namespace Driver

/-- The member `Driver::getMasterVolumeDecibel`. -/
def getMasterVolumeDecibel (cfg : Config F) (m : MathLib F) (s : DriverState F) : F :=
  mts.clamp (mts.amplitude_to_decibel m s.m_volumeMasterValue) cfg.volume_min_db cfg.volume_max_db

/-- The member `Driver::getMasterVolumeNormalized`. -/
def getMasterVolumeNormalized (cfg : Config F) (m : MathLib F) (s : DriverState F) : F :=
  mts.amplitude_to_normalized_value m s.m_volumeMasterValue cfg.volume_min_db cfg.volume_max_db

end Driver

namespace MasterVolume

/-- The member `MasterVolume::set_volume_normalized` for a stored gain and an input that are
numbers, where `getMasterVolume() == volume` is equality; `IEEE.MasterVolume.set_volume_normalized`
is the member on floating-point values that may be NaN. -/
def set_volume_normalized (cfg : Config F) (m : MathLib F) (s : DriverState F) (value : F) :
    Bool × DriverState F :=
  let volume := mts.normalized_value_to_amplitude m value cfg.volume_min_db cfg.volume_max_db
  if s.m_volumeMasterValue = volume then (false, s)
  else (true, { s with m_volumeMasterValue := volume })

/-- The member `MasterVolume::set_volume_decibel` for a stored gain and an input that are
numbers; `IEEE.MasterVolume.set_volume_decibel` is the member on floating-point values that may
be NaN. -/
def set_volume_decibel (cfg : Config F) (m : MathLib F) (s : DriverState F) (db : F) :
    Bool × DriverState F :=
  let volume := mts.max (mts.decibel_to_amplitude m db) cfg.volume_min_amplitude
  if s.m_volumeMasterValue = volume then (false, s)
  else (true, { s with m_volumeMasterValue := volume })

/-- The member `MasterVolume::get_volume_decibel`. -/
def get_volume_decibel (cfg : Config F) (m : MathLib F) (s : DriverState F) : F :=
  Driver.getMasterVolumeDecibel cfg m s

/-- The member `MasterVolume::get_volume_normalized`. -/
def get_volume_normalized (cfg : Config F) (m : MathLib F) (s : DriverState F) : F :=
  Driver.getMasterVolumeNormalized cfg m s

/-- The member `MasterVolume::convert_normalized_to_decibel`. -/
def convert_normalized_to_decibel (cfg : Config F) (value : F) : F :=
  let value := mts.clamp value 0 1
  cfg.volume_min_db + value * value * (cfg.volume_max_db - cfg.volume_min_db)

/-- The member `MasterVolume::convert_decibel_to_normalized`. -/
def convert_decibel_to_normalized (cfg : Config F) (m : MathLib F) (db : F) : F :=
  let db := mts.clamp db cfg.volume_min_db cfg.volume_max_db
  m.sqrtf ((db - cfg.volume_min_db) / (cfg.volume_max_db - cfg.volume_min_db))

/-- The member `MasterVolume::get_volume_decibel_range`. -/
def get_volume_decibel_range (cfg : Config F) : AudioValueRange F := cfg.volume_range_db

end MasterVolume

/-- The comparison `CFStringCompare(a, b, kCFCompareCaseInsensitive) == kCFCompareEqualTo` of
CoreFoundation, modelled on the lower-cased strings. -/
def CFStringEqualCaseInsensitive (a b : String) : Bool :=
  a.toLower == b.toLower

namespace Box

/-- The member `Box::is_acquired`. -/
def is_acquired (s : DriverState F) : Bool := s.m_isBoxAcquired

/-- The member `Box::save_box_acquired_property`, called with the state mutex held. -/
def save_box_acquired_property (cfg : Config F) (s : DriverState F) : HostEvent :=
  ⟨HostCall.WriteToStorage cfg.MTS_PROPERTY_BOX_ACQUIRED (StorageValue.boolean s.m_isBoxAcquired),
    false, true⟩

/-- The member `Box::save_box_name_property`, called with the state mutex held. -/
def save_box_name_property (cfg : Config F) (s : DriverState F) : HostEvent :=
  match s.m_boxName with
  | some name =>
    ⟨HostCall.WriteToStorage cfg.MTS_PROPERTY_BOX_NAME (StorageValue.string name), false, true⟩
  | none => ⟨HostCall.DeleteFromStorage cfg.MTS_PROPERTY_BOX_NAME, false, true⟩

/-- The member `Box::set_acquired`. -/
def set_acquired (cfg : Config F) (self : mts.core.box) (s : DriverState F) (acquired : Bool) :
    Effect F Bool :=
  if s.m_isBoxAcquired = acquired then ⟨false, s, []⟩
  else
    let s1 := { s with m_isBoxAcquired := acquired }
    let theAddress : Address :=
      ⟨Selector.kAudioPlugInPropertyDeviceList, Scope.kAudioObjectPropertyScopeGlobal,
        kAudioObjectPropertyElementMain⟩
    ⟨true, s1,
      [save_box_acquired_property cfg s1,
       ⟨HostCall.PropertiesChanged self.m_plugin [theAddress], true, false⟩]⟩

/-- The member `Box::set_box_name`. -/
def set_box_name (cfg : Config F) (s : DriverState F) (name : CFStringRef) : Effect F Bool :=
  match name, s.m_boxName with
  | none, none => ⟨false, s, []⟩
  | some n, none =>
    let s1 := { s with m_boxName := some n }
    ⟨true, s1, [save_box_name_property cfg s1]⟩
  | none, some _ =>
    let s1 := { s with m_boxName := none }
    ⟨true, s1, [save_box_name_property cfg s1]⟩
  | some n, some old =>
    if CFStringEqualCaseInsensitive n old then ⟨false, s, []⟩
    else
      let s1 := { s with m_boxName := some n }
      ⟨true, s1, [save_box_name_property cfg s1]⟩

/-- The member `Box::get_box_name`. -/
def get_box_name (s : DriverState F) : CFStringRef := s.m_boxName

/-- The member `Box::get_device_list_count`. -/
def get_device_list_count : Nat := 1

/-- The member `Box::get_device_list`: the identifiers stored and the returned count. -/
def get_device_list (itemCount : Nat) : List AudioObjectID × Nat :=
  if itemCount ≥ 1 then ([ObjectID.Device.toAudioObjectID], 1) else ([], itemCount)

end Box

namespace Device

/-- The static member `Device::objectsDescription`. -/
def objectsDescription : List mts.object_description :=
  [ ⟨ObjectID.StreamInput.toAudioObjectID, .stream, .input⟩,
    ⟨ObjectID.VolumeInputMaster.toAudioObjectID, .control, .input⟩,
    ⟨ObjectID.MuteInputMaster.toAudioObjectID, .control, .input⟩,
    ⟨ObjectID.StreamOutput.toAudioObjectID, .stream, .output⟩,
    ⟨ObjectID.VolumeOutputMaster.toAudioObjectID, .control, .output⟩,
    ⟨ObjectID.MuteOutputMaster.toAudioObjectID, .control, .output⟩ ]

/-- The member `Device::get_sample_rate`. -/
def get_sample_rate (s : DriverState F) : F := s.m_sampleRate

/-- The member `Device::get_sample_rate_count`. -/
def get_sample_rate_count (cfg : Config F) : Nat := cfg.supported_sample_rates_count

/-- The member `Device::get_sample_rates`: the ranges stored and the returned count. -/
def get_sample_rates (cfg : Config F) (itemCount : Nat) : List (AudioValueRange F) × Nat :=
  let itemCount := mts.min itemCount cfg.supported_sample_rates_count
  ((cfg.supported_sample_rates.take itemCount).map (fun sr => ⟨sr, sr⟩), itemCount)

/-- The member `Device::set_sample_rate`: the status and the host calls issued; the driver
state is only read. -/
def set_sample_rate (cfg : Config F) (s : DriverState F) (sr : F) : OSStatus × List HostEvent :=
  if !cfg.is_supported_sample_rate sr then (kAudioHardwareIllegalOperationError, [])
  else
    let oldSampleRate := s.m_sampleRate
    if oldSampleRate ≠ sr then
      (kAudioHardwareNoError,
        [⟨HostCall.RequestDeviceConfigurationChange ObjectID.Device.toAudioObjectID (toUInt64 sr),
          true, false⟩])
    else (kAudioHardwareNoError, [])

/-- The member `Device::is_io_running`. -/
def is_io_running (s : DriverState F) : Bool := decide (s.m_ioRunning > 0)

end Device

namespace MasterStream

/-- The member `MasterStream::isInput`. -/
def isInput (self : mts.core.stream) : Bool := decide (self.m_direction = mts.direction.input)

/-- The member `MasterStream::is_active`. -/
def is_active (self : mts.core.stream) (s : DriverState F) : Bool :=
  if isInput self then s.m_streamInputActive else s.m_streamOutputActive

/-- The member `MasterStream::set_active`. -/
def set_active (self : mts.core.stream) (s : DriverState F) (active : Bool) :
    Bool × DriverState F :=
  if isInput self then
    if s.m_streamInputActive = active then (false, s)
    else (true, { s with m_streamInputActive := active })
  else if s.m_streamOutputActive = active then (false, s)
  else (true, { s with m_streamOutputActive := active })

/-- The member `MasterStream::get_basic_description`. -/
def get_basic_description (cfg : Config F) (s : DriverState F) : AudioStreamBasicDescription F where
  mSampleRate := s.m_sampleRate
  mFormatID := cfg.format_id
  mFormatFlags := cfg.format_flags
  mBytesPerPacket := cfg.bytes_per_packet
  mFramesPerPacket := cfg.frames_per_packet
  mBytesPerFrame := cfg.bytes_per_frame
  mChannelsPerFrame := cfg.channel_count
  mBitsPerChannel := cfg.bits_per_channel

/-- The member `MasterStream::get_ranged_descriptions`: entry `i < itemCount` is built from
`supported_sample_rates[i]` (the caller never asks for more entries than there are rates). -/
def get_ranged_descriptions (cfg : Config F) (itemCount : Nat) :
    List (AudioStreamRangedDescription F) :=
  (cfg.supported_sample_rates.take itemCount).map (fun sr =>
    ⟨⟨sr, cfg.format_id, cfg.format_flags, cfg.bytes_per_packet, cfg.frames_per_packet,
      cfg.bytes_per_frame, cfg.channel_count, cfg.bits_per_channel⟩, ⟨sr, sr⟩⟩)

/-- The member `MasterStream::set_format`: the status and the host calls issued; the driver
state is only read. -/
def set_format (cfg : Config F) (self : mts.core.stream) (s : DriverState F)
    (desc : AudioStreamBasicDescription F) : OSStatus × List HostEvent :=
  if desc.mFormatID ≠ cfg.format_id then (kAudioDeviceUnsupportedFormatError, [])
  else if desc.mFormatFlags ≠ cfg.format_flags then (kAudioDeviceUnsupportedFormatError, [])
  else if desc.mBytesPerPacket ≠ cfg.bytes_per_packet then (kAudioDeviceUnsupportedFormatError, [])
  else if desc.mFramesPerPacket ≠ cfg.frames_per_packet then
    (kAudioDeviceUnsupportedFormatError, [])
  else if desc.mBytesPerFrame ≠ cfg.bytes_per_frame then (kAudioDeviceUnsupportedFormatError, [])
  else if desc.mChannelsPerFrame ≠ cfg.channel_count then (kAudioDeviceUnsupportedFormatError, [])
  else if desc.mBitsPerChannel ≠ cfg.bits_per_channel then (kAudioDeviceUnsupportedFormatError, [])
  else if !cfg.is_supported_sample_rate desc.mSampleRate then
    (kAudioHardwareIllegalOperationError, [])
  else
    let oldSampleRate := s.m_sampleRate
    if desc.mSampleRate ≠ oldSampleRate then
      (kAudioHardwareNoError,
        [⟨HostCall.RequestDeviceConfigurationChange self.m_device (toUInt64 desc.mSampleRate),
          true, false⟩])
    else (kAudioHardwareNoError, [])

end MasterStream

namespace Plugin

/-- The member `Plugin::get_device_from_uid`; a null reference matches no identifier. -/
def get_device_from_uid (cfg : Config F) (uid : CFStringRef) : AudioObjectID :=
  if uid = some cfg.MTS_DEVICE_UID then ObjectID.Device.toAudioObjectID else kAudioObjectUnknown

/-- The member `Plugin::get_box_from_uid`; a null reference matches no identifier. -/
def get_box_from_uid (cfg : Config F) (uid : CFStringRef) : AudioObjectID :=
  if uid = some cfg.MTS_BOX_UID then ObjectID.Box.toAudioObjectID else kAudioObjectUnknown

/-- The member `Plugin::get_device_list_size`: the flag converted to `UInt32`. -/
def get_device_list_size (s : DriverState F) : Nat := if s.m_isBoxAcquired then 1 else 0

/-- The member `Plugin::get_box_list_size`. -/
def get_box_list_size : Nat := 1

/-- The member `Plugin::get_object_list_size`. -/
def get_object_list_size (s : DriverState F) : Nat := 1 + (if s.m_isBoxAcquired then 1 else 0)

/-- The member `Plugin::get_device_list`: the identifiers stored and the returned count. -/
def get_device_list (s : DriverState F) (itemCount : Nat) : List AudioObjectID × Nat :=
  if s.m_isBoxAcquired ∧ itemCount ≥ 1 then ([ObjectID.Device.toAudioObjectID], 1) else ([], 0)

/-- The member `Plugin::get_box_list`: the identifiers stored and the returned count. -/
def get_box_list (itemCount : Nat) : List AudioObjectID × Nat :=
  if itemCount ≥ 1 then ([ObjectID.Box.toAudioObjectID], 1) else ([], itemCount)

/-- The member `Plugin::get_object_list`: the identifiers stored and the returned count. -/
def get_object_list (s : DriverState F) (itemCount : Nat) : List AudioObjectID × Nat :=
  if itemCount = 0 then ([], 0)
  else if s.m_isBoxAcquired ∧ itemCount ≥ 2 then
    ([ObjectID.Box.toAudioObjectID, ObjectID.Device.toAudioObjectID], 2)
  else ([ObjectID.Box.toAudioObjectID], 1)

end Plugin

end Implementations

/-! ## The capability protocol of each object class (`mts/object/*.h`) -/

namespace mts.core

variable {F : Type} [LinearOrderedField F] [FloorRing F]

open Selector Scope

/-! ### `plugin.h` -/

/-- The member `plugin::exists`. -/
def plugin.exists (_self : plugin) (inAddress : Address) : Bool :=
  match inAddress.mSelector with
  | kAudioObjectPropertyBaseClass
  | kAudioObjectPropertyClass
  | kAudioObjectPropertyOwner
  | kAudioObjectPropertyManufacturer
  | kAudioObjectPropertyOwnedObjects
  | kAudioPlugInPropertyBoxList
  | kAudioPlugInPropertyTranslateUIDToBox
  | kAudioPlugInPropertyDeviceList
  | kAudioPlugInPropertyTranslateUIDToDevice
  | kAudioPlugInPropertyResourceBundle => true
  | _ => false

/-- The member `plugin::is_settable`. -/
def plugin.is_settable (_self : plugin) (inAddress : Address) (outIsSettable : Bool) :
    OSStatus × Bool :=
  match inAddress.mSelector with
  | kAudioObjectPropertyBaseClass
  | kAudioObjectPropertyClass
  | kAudioObjectPropertyOwner
  | kAudioObjectPropertyManufacturer
  | kAudioObjectPropertyOwnedObjects
  | kAudioPlugInPropertyBoxList
  | kAudioPlugInPropertyTranslateUIDToBox
  | kAudioPlugInPropertyDeviceList
  | kAudioPlugInPropertyTranslateUIDToDevice
  | kAudioPlugInPropertyResourceBundle => (kAudioHardwareNoError, false)
  | _ => (kAudioHardwareUnknownPropertyError, outIsSettable)

/-- The member `plugin::size`. -/
def plugin.size (_self : plugin) (s : DriverState F) (inAddress : Address)
    (_inQualifierDataSize : Nat) (_inQualifierData : Option CFStringRef) (outDataSize : Nat) :
    SizeResult :=
  match inAddress.mSelector with
  | kAudioObjectPropertyBaseClass => ⟨kAudioHardwareNoError, sizeof_AudioClassID⟩
  | kAudioObjectPropertyClass => ⟨kAudioHardwareNoError, sizeof_AudioClassID⟩
  | kAudioObjectPropertyOwner => ⟨kAudioHardwareNoError, sizeof_AudioObjectID⟩
  | kAudioObjectPropertyManufacturer => ⟨kAudioHardwareNoError, sizeof_CFStringRef⟩
  | kAudioObjectPropertyOwnedObjects =>
    ⟨kAudioHardwareNoError, u32 (Plugin.get_object_list_size s * sizeof_AudioClassID)⟩
  | kAudioPlugInPropertyBoxList =>
    ⟨kAudioHardwareNoError, u32 (Plugin.get_box_list_size * sizeof_AudioClassID)⟩
  | kAudioPlugInPropertyTranslateUIDToBox => ⟨kAudioHardwareNoError, sizeof_AudioObjectID⟩
  | kAudioPlugInPropertyDeviceList =>
    ⟨kAudioHardwareNoError, u32 (Plugin.get_device_list_size s * sizeof_AudioClassID)⟩
  | kAudioPlugInPropertyTranslateUIDToDevice => ⟨kAudioHardwareNoError, sizeof_AudioObjectID⟩
  | kAudioPlugInPropertyResourceBundle => ⟨kAudioHardwareNoError, sizeof_CFStringRef⟩
  | _ => ⟨kAudioHardwareUnknownPropertyError, outDataSize⟩

/-- The member `plugin::get`. The resource bundle of the implementation class is the empty
string, and the manufacturer name is the macro of `config.h`. -/
def plugin.get (cfg : Config F) (_self : plugin) (s : DriverState F) (inAddress : Address)
    (inQualifierDataSize : Nat) (inQualifierData : Option CFStringRef) (inDataSize : Nat)
    (outDataSize : Nat) : GetResult F :=
  match inAddress.mSelector with
  | kAudioObjectPropertyBaseClass =>
    if inDataSize < sizeof_AudioClassID then
      ⟨kAudioHardwareBadPropertySizeError, outDataSize, none⟩
    else ⟨kAudioHardwareNoError, sizeof_AudioClassID,
      some (.classID AudioClassID.kAudioObjectClassID)⟩
  | kAudioObjectPropertyClass =>
    if inDataSize < sizeof_AudioClassID then
      ⟨kAudioHardwareBadPropertySizeError, outDataSize, none⟩
    else ⟨kAudioHardwareNoError, sizeof_AudioClassID,
      some (.classID AudioClassID.kAudioPlugInClassID)⟩
  | kAudioObjectPropertyOwner =>
    if inDataSize < sizeof_AudioObjectID then
      ⟨kAudioHardwareBadPropertySizeError, outDataSize, none⟩
    else ⟨kAudioHardwareNoError, sizeof_AudioObjectID, some (.objectID kAudioObjectUnknown)⟩
  | kAudioObjectPropertyManufacturer =>
    if inDataSize < sizeof_CFStringRef then
      ⟨kAudioHardwareBadPropertySizeError, outDataSize, none⟩
    else ⟨kAudioHardwareNoError, sizeof_CFStringRef,
      some (.cfString (some cfg.MTS_MANUFACTURER_NAME))⟩
  | kAudioObjectPropertyOwnedObjects =>
    let itemCount := inDataSize / sizeof_AudioObjectID
    let r := Plugin.get_object_list s itemCount
    ⟨kAudioHardwareNoError, u32 (r.2 * sizeof_AudioClassID), some (.objectList r.1)⟩
  | kAudioPlugInPropertyBoxList =>
    let itemCount := inDataSize / sizeof_AudioObjectID
    let r := Plugin.get_box_list itemCount
    ⟨kAudioHardwareNoError, u32 (r.2 * sizeof_AudioClassID), some (.objectList r.1)⟩
  | kAudioPlugInPropertyTranslateUIDToBox =>
    if inDataSize < sizeof_AudioObjectID then
      ⟨kAudioHardwareBadPropertySizeError, outDataSize, none⟩
    else if inQualifierDataSize ≠ sizeof_CFStringRef then
      ⟨kAudioHardwareBadPropertySizeError, outDataSize, none⟩
    else match inQualifierData with
      | none => ⟨kAudioHardwareBadPropertySizeError, outDataSize, none⟩
      | some uid =>
        ⟨kAudioHardwareNoError, sizeof_AudioObjectID,
          some (.objectID (Plugin.get_box_from_uid cfg uid))⟩
  | kAudioPlugInPropertyDeviceList =>
    let itemCount := inDataSize / sizeof_AudioObjectID
    let r := Plugin.get_device_list s itemCount
    ⟨kAudioHardwareNoError, u32 (r.2 * sizeof_AudioClassID), some (.objectList r.1)⟩
  | kAudioPlugInPropertyTranslateUIDToDevice =>
    if inDataSize < sizeof_AudioObjectID then
      ⟨kAudioHardwareBadPropertySizeError, outDataSize, none⟩
    else if inQualifierDataSize ≠ sizeof_CFStringRef then
      ⟨kAudioHardwareBadPropertySizeError, outDataSize, none⟩
    else match inQualifierData with
      | none => ⟨kAudioHardwareBadPropertySizeError, outDataSize, none⟩
      | some uid =>
        ⟨kAudioHardwareNoError, sizeof_AudioObjectID,
          some (.objectID (Plugin.get_device_from_uid cfg uid))⟩
  | kAudioPlugInPropertyResourceBundle =>
    if inDataSize < sizeof_AudioObjectID then
      ⟨kAudioHardwareBadPropertySizeError, outDataSize, none⟩
    else ⟨kAudioHardwareNoError, sizeof_CFStringRef, some (.cfString (some ""))⟩
  | _ => ⟨kAudioHardwareUnknownPropertyError, outDataSize, none⟩

/-- The member `plugin::set`. -/
def plugin.set (_self : plugin) (s : DriverState F) (_inAddress : Address)
    (_inQualifierDataSize : Nat) (_inQualifierData : Option CFStringRef) (_inDataSize : Nat)
    (_inData : Blob F) (outNumberPropertiesChanged : Nat) : SetResult F :=
  ⟨kAudioHardwareUnknownPropertyError, s, outNumberPropertiesChanged, [], []⟩

/-! ### `box.h` -/

/-- The member `box::exists`. -/
def box.exists (_self : box) (inAddress : Address) : Bool :=
  match inAddress.mSelector with
  | kAudioObjectPropertyBaseClass
  | kAudioObjectPropertyClass
  | kAudioObjectPropertyOwner
  | kAudioObjectPropertyName
  | kAudioObjectPropertyModelName
  | kAudioObjectPropertyManufacturer
  | kAudioObjectPropertyOwnedObjects
  | kAudioObjectPropertySerialNumber
  | kAudioObjectPropertyFirmwareVersion
  | kAudioBoxPropertyBoxUID
  | kAudioBoxPropertyTransportType
  | kAudioBoxPropertyHasAudio
  | kAudioBoxPropertyHasVideo
  | kAudioBoxPropertyHasMIDI
  | kAudioBoxPropertyIsProtected
  | kAudioBoxPropertyAcquired
  | kAudioBoxPropertyAcquisitionFailed
  | kAudioBoxPropertyDeviceList => true
  | _ => false

/-- The member `box::is_settable`. -/
def box.is_settable (_self : box) (inAddress : Address) (outIsSettable : Bool) :
    OSStatus × Bool :=
  match inAddress.mSelector with
  | kAudioObjectPropertyBaseClass
  | kAudioObjectPropertyClass
  | kAudioObjectPropertyOwner
  | kAudioObjectPropertyModelName
  | kAudioObjectPropertyManufacturer
  | kAudioObjectPropertyOwnedObjects
  | kAudioObjectPropertySerialNumber
  | kAudioObjectPropertyFirmwareVersion
  | kAudioBoxPropertyBoxUID
  | kAudioBoxPropertyTransportType
  | kAudioBoxPropertyHasAudio
  | kAudioBoxPropertyHasVideo
  | kAudioBoxPropertyHasMIDI
  | kAudioBoxPropertyIsProtected
  | kAudioBoxPropertyAcquisitionFailed
  | kAudioBoxPropertyDeviceList => (kAudioHardwareNoError, false)
  | kAudioObjectPropertyName
  | kAudioBoxPropertyAcquired => (kAudioHardwareNoError, true)
  | _ => (kAudioHardwareUnknownPropertyError, outIsSettable)

/-- The member `box::size`. -/
def box.size (_self : box) (inAddress : Address) (_inQualifierDataSize : Nat)
    (_inQualifierData : Option CFStringRef) (outDataSize : Nat) : SizeResult :=
  match inAddress.mSelector with
  | kAudioObjectPropertyBaseClass => ⟨kAudioHardwareNoError, sizeof_AudioClassID⟩
  | kAudioObjectPropertyClass => ⟨kAudioHardwareNoError, sizeof_AudioClassID⟩
  | kAudioObjectPropertyOwner => ⟨kAudioHardwareNoError, sizeof_AudioObjectID⟩
  | kAudioObjectPropertyName => ⟨kAudioHardwareNoError, sizeof_CFStringRef⟩
  | kAudioObjectPropertyModelName => ⟨kAudioHardwareNoError, sizeof_CFStringRef⟩
  | kAudioObjectPropertyManufacturer => ⟨kAudioHardwareNoError, sizeof_CFStringRef⟩
  | kAudioObjectPropertyOwnedObjects => ⟨kAudioHardwareNoError, 0⟩
  | kAudioObjectPropertySerialNumber => ⟨kAudioHardwareNoError, sizeof_CFStringRef⟩
  | kAudioObjectPropertyFirmwareVersion => ⟨kAudioHardwareNoError, sizeof_CFStringRef⟩
  | kAudioBoxPropertyBoxUID => ⟨kAudioHardwareNoError, sizeof_CFStringRef⟩
  | kAudioBoxPropertyTransportType => ⟨kAudioHardwareNoError, sizeof_UInt32⟩
  | kAudioBoxPropertyHasAudio => ⟨kAudioHardwareNoError, sizeof_UInt32⟩
  | kAudioBoxPropertyHasVideo => ⟨kAudioHardwareNoError, sizeof_UInt32⟩
  | kAudioBoxPropertyHasMIDI => ⟨kAudioHardwareNoError, sizeof_UInt32⟩
  | kAudioBoxPropertyIsProtected => ⟨kAudioHardwareNoError, sizeof_UInt32⟩
  | kAudioBoxPropertyAcquired => ⟨kAudioHardwareNoError, sizeof_UInt32⟩
  | kAudioBoxPropertyAcquisitionFailed => ⟨kAudioHardwareNoError, sizeof_UInt32⟩
  | kAudioBoxPropertyDeviceList =>
    ⟨kAudioHardwareNoError, u32 (Box.get_device_list_count * sizeof_AudioObjectID)⟩
  | _ => ⟨kAudioHardwareUnknownPropertyError, outDataSize⟩

/-- The recurring pair of statements `RETURN_SIZE_ERROR_IF(inDataSize < required);`
`*outDataSize = mts::assign<T>(outData, value);` where `written` is `sizeof(T)`. -/
def checkedAssign (inDataSize required outDataSize written : Nat) (value : PropertyValue F) :
    GetResult F :=
  if inDataSize < required then ⟨kAudioHardwareBadPropertySizeError, outDataSize, none⟩
  else ⟨kAudioHardwareNoError, written, some value⟩

/-- The member `box::get`; the strings of the implementation class are the macros of
`config.h`. -/
def box.get (cfg : Config F) (self : box) (s : DriverState F) (inAddress : Address)
    (_inQualifierDataSize : Nat) (_inQualifierData : Option CFStringRef) (inDataSize : Nat)
    (outDataSize : Nat) : GetResult F :=
  match inAddress.mSelector with
  | kAudioObjectPropertyBaseClass =>
    checkedAssign inDataSize sizeof_AudioClassID outDataSize sizeof_AudioClassID
      (.classID AudioClassID.kAudioObjectClassID)
  | kAudioObjectPropertyClass =>
    checkedAssign inDataSize sizeof_AudioClassID outDataSize sizeof_AudioClassID
      (.classID AudioClassID.kAudioBoxClassID)
  | kAudioObjectPropertyOwner =>
    checkedAssign inDataSize sizeof_AudioObjectID outDataSize sizeof_AudioObjectID
      (.objectID self.m_plugin)
  | kAudioObjectPropertyName =>
    checkedAssign inDataSize sizeof_CFStringRef outDataSize sizeof_CFStringRef
      (.cfString (Box.get_box_name s))
  | kAudioObjectPropertyModelName =>
    checkedAssign inDataSize sizeof_CFStringRef outDataSize sizeof_CFStringRef
      (.cfString (some cfg.MTS_BOX_MODEL_NAME))
  | kAudioObjectPropertyManufacturer =>
    checkedAssign inDataSize sizeof_CFStringRef outDataSize sizeof_CFStringRef
      (.cfString (some cfg.MTS_MANUFACTURER_NAME))
  | kAudioObjectPropertyOwnedObjects => ⟨kAudioHardwareNoError, 0, none⟩
  | kAudioObjectPropertySerialNumber =>
    checkedAssign inDataSize sizeof_CFStringRef outDataSize sizeof_CFStringRef
      (.cfString (some cfg.MTS_SERIAL_NUMBER))
  | kAudioObjectPropertyFirmwareVersion =>
    checkedAssign inDataSize sizeof_CFStringRef outDataSize sizeof_CFStringRef
      (.cfString (some cfg.MTS_FIRMWARE_VERSION))
  | kAudioBoxPropertyBoxUID =>
    checkedAssign inDataSize sizeof_CFStringRef outDataSize sizeof_CFStringRef
      (.cfString (some cfg.MTS_BOX_UID))
  | kAudioBoxPropertyTransportType =>
    checkedAssign inDataSize sizeof_UInt32 outDataSize sizeof_UInt32
      (.uint32 kAudioDeviceTransportTypeVirtual)
  | kAudioBoxPropertyHasAudio =>
    checkedAssign inDataSize sizeof_UInt32 outDataSize sizeof_UInt32 (.uint32 1)
  | kAudioBoxPropertyHasVideo =>
    checkedAssign inDataSize sizeof_UInt32 outDataSize sizeof_UInt32 (.uint32 0)
  | kAudioBoxPropertyHasMIDI =>
    checkedAssign inDataSize sizeof_UInt32 outDataSize sizeof_UInt32 (.uint32 0)
  | kAudioBoxPropertyIsProtected =>
    checkedAssign inDataSize sizeof_UInt32 outDataSize sizeof_UInt32 (.uint32 0)
  | kAudioBoxPropertyAcquired =>
    checkedAssign inDataSize sizeof_UInt32 outDataSize sizeof_UInt32
      (.uint32 (if Box.is_acquired s then 1 else 0))
  | kAudioBoxPropertyAcquisitionFailed =>
    checkedAssign inDataSize sizeof_UInt32 outDataSize sizeof_UInt32 (.uint32 0)
  | kAudioBoxPropertyDeviceList =>
    let itemCount := inDataSize / sizeof_AudioObjectID
    let r := Box.get_device_list itemCount
    ⟨kAudioHardwareNoError, u32 (r.2 * sizeof_AudioObjectID), some (.objectList r.1)⟩
  | _ => ⟨kAudioHardwareUnknownPropertyError, outDataSize, none⟩

/-- The address `{selector, kAudioObjectPropertyScopeGlobal, kAudioObjectPropertyElementMain}`
stored in `outChangedAddresses`. -/
def changedAddress (selector : Selector) : Address :=
  ⟨selector, kAudioObjectPropertyScopeGlobal, kAudioObjectPropertyElementMain⟩

/-- The member `box::set`. -/
def box.set (cfg : Config F) (self : box) (s : DriverState F) (inAddress : Address)
    (_inQualifierDataSize : Nat) (_inQualifierData : Option CFStringRef) (inDataSize : Nat)
    (inData : Blob F) (outNumberPropertiesChanged : Nat) : SetResult F :=
  match inAddress.mSelector with
  | kAudioObjectPropertyName =>
    if inDataSize < sizeof_CFStringRef then
      ⟨kAudioHardwareBadPropertySizeError, s, outNumberPropertiesChanged, [], []⟩
    else
      let r := Box.set_box_name cfg s inData.asCFStringRef
      if r.ret then
        ⟨kAudioHardwareNoError, r.state, 1, [changedAddress kAudioObjectPropertyName], r.hostCalls⟩
      else ⟨kAudioHardwareNoError, r.state, outNumberPropertiesChanged, [], r.hostCalls⟩
  | kAudioBoxPropertyAcquired =>
    if inDataSize ≠ sizeof_UInt32 then
      ⟨kAudioHardwareBadPropertySizeError, s, outNumberPropertiesChanged, [], []⟩
    else
      let acquired := decide (inData.asUInt32 ≠ 0)
      let r := Box.set_acquired cfg self s acquired
      if r.ret then
        ⟨kAudioHardwareNoError, r.state, 2,
          [changedAddress kAudioBoxPropertyAcquired, changedAddress kAudioBoxPropertyDeviceList],
          r.hostCalls⟩
      else ⟨kAudioHardwareNoError, r.state, outNumberPropertiesChanged, [], r.hostCalls⟩
  | _ => ⟨kAudioHardwareUnknownPropertyError, s, outNumberPropertiesChanged, [], []⟩

/-! ### `mute_control.h` -/

/-- The member `mute_control::exists`. -/
def mute_control.exists (_self : mute_control) (inAddress : Address) : Bool :=
  match inAddress.mSelector with
  | kAudioObjectPropertyBaseClass
  | kAudioObjectPropertyClass
  | kAudioObjectPropertyOwner
  | kAudioObjectPropertyOwnedObjects
  | kAudioControlPropertyScope
  | kAudioControlPropertyElement
  | kAudioBooleanControlPropertyValue => true
  | _ => false

/-- The member `mute_control::is_settable`. -/
def mute_control.is_settable (_self : mute_control) (inAddress : Address)
    (outIsSettable : Bool) : OSStatus × Bool :=
  match inAddress.mSelector with
  | kAudioObjectPropertyBaseClass
  | kAudioObjectPropertyClass
  | kAudioObjectPropertyOwner
  | kAudioObjectPropertyOwnedObjects
  | kAudioControlPropertyScope
  | kAudioControlPropertyElement => (kAudioHardwareNoError, false)
  | kAudioBooleanControlPropertyValue => (kAudioHardwareNoError, true)
  | _ => (kAudioHardwareUnknownPropertyError, outIsSettable)

/-- The member `mute_control::size`. -/
def mute_control.size (_self : mute_control) (inAddress : Address) (_inQualifierDataSize : Nat)
    (_inQualifierData : Option CFStringRef) (outDataSize : Nat) : SizeResult :=
  match inAddress.mSelector with
  | kAudioObjectPropertyBaseClass => ⟨kAudioHardwareNoError, sizeof_AudioClassID⟩
  | kAudioObjectPropertyClass => ⟨kAudioHardwareNoError, sizeof_AudioClassID⟩
  | kAudioObjectPropertyOwner => ⟨kAudioHardwareNoError, sizeof_AudioObjectID⟩
  | kAudioObjectPropertyOwnedObjects => ⟨kAudioHardwareNoError, 0⟩
  | kAudioControlPropertyScope => ⟨kAudioHardwareNoError, sizeof_AudioObjectPropertyScope⟩
  | kAudioControlPropertyElement => ⟨kAudioHardwareNoError, sizeof_AudioObjectPropertyElement⟩
  | kAudioBooleanControlPropertyValue => ⟨kAudioHardwareNoError, sizeof_UInt32⟩
  | _ => ⟨kAudioHardwareUnknownPropertyError, outDataSize⟩

/-- The scope a control or stream of the given direction is attached to. -/
def directionScope (d : mts.direction) : Scope :=
  if d = mts.direction.input then kAudioObjectPropertyScopeInput
  else kAudioObjectPropertyScopeOutput

/-- The member `mute_control::get`. -/
def mute_control.get (self : mute_control) (s : DriverState F) (inAddress : Address)
    (_inQualifierDataSize : Nat) (_inQualifierData : Option CFStringRef) (inDataSize : Nat)
    (outDataSize : Nat) : GetResult F :=
  match inAddress.mSelector with
  | kAudioObjectPropertyBaseClass =>
    checkedAssign inDataSize sizeof_AudioClassID outDataSize sizeof_AudioClassID
      (.classID AudioClassID.kAudioBooleanControlClassID)
  | kAudioObjectPropertyClass =>
    checkedAssign inDataSize sizeof_AudioClassID outDataSize sizeof_AudioClassID
      (.classID AudioClassID.kAudioMuteControlClassID)
  | kAudioObjectPropertyOwner =>
    checkedAssign inDataSize sizeof_AudioObjectID outDataSize sizeof_AudioObjectID
      (.objectID self.m_device)
  | kAudioObjectPropertyOwnedObjects => ⟨kAudioHardwareNoError, 0, none⟩
  | kAudioControlPropertyScope =>
    checkedAssign inDataSize sizeof_AudioObjectPropertyScope outDataSize
      sizeof_AudioObjectPropertyScope (.scope (directionScope self.m_direction))
  | kAudioControlPropertyElement =>
    checkedAssign inDataSize sizeof_AudioObjectPropertyElement outDataSize
      sizeof_AudioObjectPropertyElement (.uint32 kAudioObjectPropertyElementMain)
  | kAudioBooleanControlPropertyValue =>
    checkedAssign inDataSize sizeof_UInt32 outDataSize sizeof_UInt32
      (.uint32 (if MasterMute.is_muted s then 1 else 0))
  | _ => ⟨kAudioHardwareUnknownPropertyError, outDataSize, none⟩

/-- The member `mute_control::set`. -/
def mute_control.set (_self : mute_control) (s : DriverState F) (inAddress : Address)
    (_inQualifierDataSize : Nat) (_inQualifierData : Option CFStringRef) (inDataSize : Nat)
    (inData : Blob F) (outNumberPropertiesChanged : Nat) : SetResult F :=
  match inAddress.mSelector with
  | kAudioBooleanControlPropertyValue =>
    if inDataSize ≠ sizeof_UInt32 then
      ⟨kAudioHardwareBadPropertySizeError, s, outNumberPropertiesChanged, [], []⟩
    else
      let muted := decide (inData.asUInt32 ≠ 0)
      if MasterMute.is_muted s ≠ muted then
        ⟨kAudioHardwareNoError, MasterMute.set_muted s muted, 1,
          [changedAddress kAudioBooleanControlPropertyValue], []⟩
      else ⟨kAudioHardwareNoError, s, outNumberPropertiesChanged, [], []⟩
  | _ => ⟨kAudioHardwareUnknownPropertyError, s, outNumberPropertiesChanged, [], []⟩

/-! ### `volume_control.h` -/

/-- The member `volume_control::exists`. -/
def volume_control.exists (_self : volume_control) (inAddress : Address) : Bool :=
  match inAddress.mSelector with
  | kAudioObjectPropertyBaseClass
  | kAudioObjectPropertyClass
  | kAudioObjectPropertyOwner
  | kAudioObjectPropertyOwnedObjects
  | kAudioControlPropertyScope
  | kAudioControlPropertyElement
  | kAudioLevelControlPropertyScalarValue
  | kAudioLevelControlPropertyDecibelValue
  | kAudioLevelControlPropertyDecibelRange
  | kAudioLevelControlPropertyConvertScalarToDecibels
  | kAudioLevelControlPropertyConvertDecibelsToScalar => true
  | _ => false

/-- The member `volume_control::is_settable`. -/
def volume_control.is_settable (_self : volume_control) (inAddress : Address)
    (outIsSettable : Bool) : OSStatus × Bool :=
  match inAddress.mSelector with
  | kAudioObjectPropertyBaseClass
  | kAudioObjectPropertyClass
  | kAudioObjectPropertyOwner
  | kAudioObjectPropertyOwnedObjects
  | kAudioControlPropertyScope
  | kAudioControlPropertyElement
  | kAudioLevelControlPropertyDecibelRange
  | kAudioLevelControlPropertyConvertScalarToDecibels
  | kAudioLevelControlPropertyConvertDecibelsToScalar => (kAudioHardwareNoError, false)
  | kAudioLevelControlPropertyScalarValue
  | kAudioLevelControlPropertyDecibelValue => (kAudioHardwareNoError, true)
  | _ => (kAudioHardwareUnknownPropertyError, outIsSettable)

/-- The member `volume_control::size`. -/
def volume_control.size (_self : volume_control) (inAddress : Address)
    (_inQualifierDataSize : Nat) (_inQualifierData : Option CFStringRef) (outDataSize : Nat) :
    SizeResult :=
  match inAddress.mSelector with
  | kAudioObjectPropertyBaseClass => ⟨kAudioHardwareNoError, sizeof_AudioClassID⟩
  | kAudioObjectPropertyClass => ⟨kAudioHardwareNoError, sizeof_AudioClassID⟩
  | kAudioObjectPropertyOwner => ⟨kAudioHardwareNoError, sizeof_AudioObjectID⟩
  | kAudioObjectPropertyOwnedObjects => ⟨kAudioHardwareNoError, 0⟩
  | kAudioControlPropertyScope => ⟨kAudioHardwareNoError, sizeof_AudioObjectPropertyScope⟩
  | kAudioControlPropertyElement => ⟨kAudioHardwareNoError, sizeof_AudioObjectPropertyElement⟩
  | kAudioLevelControlPropertyScalarValue => ⟨kAudioHardwareNoError, sizeof_Float32⟩
  | kAudioLevelControlPropertyDecibelValue => ⟨kAudioHardwareNoError, sizeof_Float32⟩
  | kAudioLevelControlPropertyDecibelRange => ⟨kAudioHardwareNoError, sizeof_AudioValueRange⟩
  | kAudioLevelControlPropertyConvertScalarToDecibels => ⟨kAudioHardwareNoError, sizeof_Float32⟩
  | kAudioLevelControlPropertyConvertDecibelsToScalar => ⟨kAudioHardwareNoError, sizeof_Float32⟩
  | _ => ⟨kAudioHardwareUnknownPropertyError, outDataSize⟩

/-- The member `volume_control::get`; `outData` is the caller's buffer on entry, which the two
conversion properties read. -/
def volume_control.get (cfg : Config F) (m : MathLib F) (self : volume_control)
    (s : DriverState F) (inAddress : Address) (_inQualifierDataSize : Nat)
    (_inQualifierData : Option CFStringRef) (inDataSize : Nat) (outDataSize : Nat)
    (outData : Blob F) : GetResult F :=
  match inAddress.mSelector with
  | kAudioObjectPropertyBaseClass =>
    checkedAssign inDataSize sizeof_AudioClassID outDataSize sizeof_AudioClassID
      (.classID AudioClassID.kAudioLevelControlClassID)
  | kAudioObjectPropertyClass =>
    checkedAssign inDataSize sizeof_AudioClassID outDataSize sizeof_AudioClassID
      (.classID AudioClassID.kAudioVolumeControlClassID)
  | kAudioObjectPropertyOwner =>
    checkedAssign inDataSize sizeof_AudioObjectID outDataSize sizeof_AudioObjectID
      (.objectID self.m_device)
  | kAudioObjectPropertyOwnedObjects => ⟨kAudioHardwareNoError, 0, none⟩
  | kAudioControlPropertyScope =>
    checkedAssign inDataSize sizeof_AudioObjectPropertyScope outDataSize
      sizeof_AudioObjectPropertyScope (.scope (directionScope self.m_direction))
  | kAudioControlPropertyElement =>
    checkedAssign inDataSize sizeof_AudioObjectPropertyElement outDataSize
      sizeof_AudioObjectPropertyElement (.uint32 kAudioObjectPropertyElementMain)
  | kAudioLevelControlPropertyScalarValue =>
    checkedAssign inDataSize sizeof_Float32 outDataSize sizeof_Float32
      (.float32 (MasterVolume.get_volume_normalized cfg m s))
  | kAudioLevelControlPropertyDecibelValue =>
    checkedAssign inDataSize sizeof_Float32 outDataSize sizeof_Float32
      (.float32 (MasterVolume.get_volume_decibel cfg m s))
  | kAudioLevelControlPropertyDecibelRange =>
    checkedAssign inDataSize sizeof_AudioValueRange outDataSize sizeof_AudioValueRange
      (.valueRange (MasterVolume.get_volume_decibel_range cfg))
  | kAudioLevelControlPropertyConvertScalarToDecibels =>
    checkedAssign inDataSize sizeof_Float32 outDataSize sizeof_Float32
      (.float32 (MasterVolume.convert_normalized_to_decibel cfg outData.asFloat32))
  | kAudioLevelControlPropertyConvertDecibelsToScalar =>
    checkedAssign inDataSize sizeof_Float32 outDataSize sizeof_Float32
      (.float32 (MasterVolume.convert_decibel_to_normalized cfg m outData.asFloat32))
  | _ => ⟨kAudioHardwareUnknownPropertyError, outDataSize, none⟩

/-- The member `volume_control::set`. -/
def volume_control.set (cfg : Config F) (m : MathLib F) (_self : volume_control)
    (s : DriverState F) (inAddress : Address) (_inQualifierDataSize : Nat)
    (_inQualifierData : Option CFStringRef) (inDataSize : Nat) (inData : Blob F)
    (outNumberPropertiesChanged : Nat) : SetResult F :=
  match inAddress.mSelector with
  | kAudioLevelControlPropertyScalarValue =>
    if inDataSize < sizeof_Float32 then
      ⟨kAudioHardwareBadPropertySizeError, s, outNumberPropertiesChanged, [], []⟩
    else
      let r := MasterVolume.set_volume_normalized cfg m s inData.asFloat32
      if r.1 then
        ⟨kAudioHardwareNoError, r.2, 2,
          [changedAddress kAudioLevelControlPropertyScalarValue,
           changedAddress kAudioLevelControlPropertyDecibelValue], []⟩
      else ⟨kAudioHardwareNoError, r.2, outNumberPropertiesChanged, [], []⟩
  | kAudioLevelControlPropertyDecibelValue =>
    if inDataSize < sizeof_Float32 then
      ⟨kAudioHardwareBadPropertySizeError, s, outNumberPropertiesChanged, [], []⟩
    else
      let r := MasterVolume.set_volume_decibel cfg m s inData.asFloat32
      if r.1 then
        ⟨kAudioHardwareNoError, r.2, 2,
          [changedAddress kAudioLevelControlPropertyScalarValue,
           changedAddress kAudioLevelControlPropertyDecibelValue], []⟩
      else ⟨kAudioHardwareNoError, r.2, outNumberPropertiesChanged, [], []⟩
  | _ => ⟨kAudioHardwareUnknownPropertyError, s, outNumberPropertiesChanged, [], []⟩

/-! ### `stream.h` -/

/-- The member `stream::exists`. -/
def stream.exists (_self : stream) (inAddress : Address) : Bool :=
  match inAddress.mSelector with
  | kAudioObjectPropertyBaseClass
  | kAudioObjectPropertyClass
  | kAudioObjectPropertyOwner
  | kAudioObjectPropertyOwnedObjects
  | kAudioStreamPropertyIsActive
  | kAudioStreamPropertyDirection
  | kAudioStreamPropertyTerminalType
  | kAudioStreamPropertyStartingChannel
  | kAudioStreamPropertyLatency
  | kAudioStreamPropertyVirtualFormat
  | kAudioStreamPropertyPhysicalFormat
  | kAudioStreamPropertyAvailableVirtualFormats
  | kAudioStreamPropertyAvailablePhysicalFormats => true
  | _ => false

/-- The member `stream::is_settable`. -/
def stream.is_settable (_self : stream) (inAddress : Address) (outIsSettable : Bool) :
    OSStatus × Bool :=
  match inAddress.mSelector with
  | kAudioObjectPropertyBaseClass
  | kAudioObjectPropertyClass
  | kAudioObjectPropertyOwner
  | kAudioObjectPropertyOwnedObjects
  | kAudioStreamPropertyDirection
  | kAudioStreamPropertyTerminalType
  | kAudioStreamPropertyStartingChannel
  | kAudioStreamPropertyLatency
  | kAudioStreamPropertyAvailableVirtualFormats
  | kAudioStreamPropertyAvailablePhysicalFormats => (kAudioHardwareNoError, false)
  | kAudioStreamPropertyIsActive
  | kAudioStreamPropertyVirtualFormat
  | kAudioStreamPropertyPhysicalFormat => (kAudioHardwareNoError, true)
  | _ => (kAudioHardwareUnknownPropertyError, outIsSettable)

/-- The member `stream::size`; the rate count of the implementation class is
`supported_sample_rates_count`. -/
def stream.size (cfg : Config F) (_self : stream) (inAddress : Address)
    (_inQualifierDataSize : Nat) (_inQualifierData : Option CFStringRef) (outDataSize : Nat) :
    SizeResult :=
  match inAddress.mSelector with
  | kAudioObjectPropertyBaseClass => ⟨kAudioHardwareNoError, sizeof_AudioClassID⟩
  | kAudioObjectPropertyClass => ⟨kAudioHardwareNoError, sizeof_AudioClassID⟩
  | kAudioObjectPropertyOwner => ⟨kAudioHardwareNoError, sizeof_AudioObjectID⟩
  | kAudioObjectPropertyOwnedObjects => ⟨kAudioHardwareNoError, 0⟩
  | kAudioStreamPropertyIsActive => ⟨kAudioHardwareNoError, sizeof_UInt32⟩
  | kAudioStreamPropertyDirection => ⟨kAudioHardwareNoError, sizeof_UInt32⟩
  | kAudioStreamPropertyTerminalType => ⟨kAudioHardwareNoError, sizeof_UInt32⟩
  | kAudioStreamPropertyStartingChannel => ⟨kAudioHardwareNoError, sizeof_UInt32⟩
  | kAudioStreamPropertyLatency => ⟨kAudioHardwareNoError, sizeof_UInt32⟩
  | kAudioStreamPropertyVirtualFormat
  | kAudioStreamPropertyPhysicalFormat =>
    ⟨kAudioHardwareNoError, sizeof_AudioStreamBasicDescription⟩
  | kAudioStreamPropertyAvailableVirtualFormats
  | kAudioStreamPropertyAvailablePhysicalFormats =>
    ⟨kAudioHardwareNoError,
      u32 (cfg.supported_sample_rates_count * sizeof_AudioStreamRangedDescription)⟩
  | _ => ⟨kAudioHardwareUnknownPropertyError, outDataSize⟩

/-- The member `stream::get`. -/
def stream.get (cfg : Config F) (self : stream) (s : DriverState F) (inAddress : Address)
    (_inQualifierDataSize : Nat) (_inQualifierData : Option CFStringRef) (inDataSize : Nat)
    (outDataSize : Nat) : GetResult F :=
  match inAddress.mSelector with
  | kAudioObjectPropertyBaseClass =>
    checkedAssign inDataSize sizeof_AudioClassID outDataSize sizeof_AudioClassID
      (.classID AudioClassID.kAudioObjectClassID)
  | kAudioObjectPropertyClass =>
    checkedAssign inDataSize sizeof_AudioClassID outDataSize sizeof_AudioClassID
      (.classID AudioClassID.kAudioStreamClassID)
  | kAudioObjectPropertyOwner =>
    checkedAssign inDataSize sizeof_AudioObjectID outDataSize sizeof_AudioObjectID
      (.objectID self.m_device)
  | kAudioObjectPropertyOwnedObjects => ⟨kAudioHardwareNoError, 0, none⟩
  | kAudioStreamPropertyIsActive =>
    checkedAssign inDataSize sizeof_UInt32 outDataSize sizeof_UInt32
      (.uint32 (if MasterStream.is_active self s then 1 else 0))
  | kAudioStreamPropertyDirection =>
    checkedAssign inDataSize sizeof_UInt32 outDataSize sizeof_UInt32
      (.uint32 (if self.m_direction = mts.direction.input then 1 else 0))
  | kAudioStreamPropertyTerminalType =>
    checkedAssign inDataSize sizeof_UInt32 outDataSize sizeof_UInt32
      (.uint32 (if self.m_direction = mts.direction.input then kAudioStreamTerminalTypeMicrophone
        else kAudioStreamTerminalTypeSpeaker))
  | kAudioStreamPropertyStartingChannel =>
    checkedAssign inDataSize sizeof_UInt32 outDataSize sizeof_UInt32 (.uint32 1)
  | kAudioStreamPropertyLatency =>
    checkedAssign inDataSize sizeof_UInt32 outDataSize sizeof_UInt32 (.uint32 0)
  | kAudioStreamPropertyVirtualFormat
  | kAudioStreamPropertyPhysicalFormat =>
    checkedAssign inDataSize sizeof_AudioStreamBasicDescription outDataSize
      sizeof_AudioStreamBasicDescription
      (.basicDescription (MasterStream.get_basic_description cfg s))
  | kAudioStreamPropertyAvailableVirtualFormats
  | kAudioStreamPropertyAvailablePhysicalFormats =>
    let itemCount :=
      mts.min (inDataSize / sizeof_AudioStreamRangedDescription) cfg.supported_sample_rates_count
    ⟨kAudioHardwareNoError, u32 (itemCount * sizeof_AudioStreamRangedDescription),
      some (.rangedDescriptions (MasterStream.get_ranged_descriptions cfg itemCount))⟩
  | _ => ⟨kAudioHardwareUnknownPropertyError, outDataSize, none⟩

/-- The member `stream::set`. -/
def stream.set (cfg : Config F) (self : stream) (s : DriverState F) (inAddress : Address)
    (_inQualifierDataSize : Nat) (_inQualifierData : Option CFStringRef) (inDataSize : Nat)
    (inData : Blob F) (outNumberPropertiesChanged : Nat) : SetResult F :=
  match inAddress.mSelector with
  | kAudioStreamPropertyIsActive =>
    if inDataSize < sizeof_UInt32 then
      ⟨kAudioHardwareBadPropertySizeError, s, outNumberPropertiesChanged, [], []⟩
    else
      let active := decide (inData.asUInt32 ≠ 0)
      let r := MasterStream.set_active self s active
      if r.1 then
        ⟨kAudioHardwareNoError, r.2, 1, [changedAddress kAudioStreamPropertyIsActive], []⟩
      else ⟨kAudioHardwareNoError, r.2, outNumberPropertiesChanged, [], []⟩
  | kAudioStreamPropertyVirtualFormat
  | kAudioStreamPropertyPhysicalFormat =>
    if inDataSize ≠ sizeof_AudioStreamBasicDescription then
      ⟨kAudioHardwareBadPropertySizeError, s, outNumberPropertiesChanged, [], []⟩
    else
      let r := MasterStream.set_format cfg self s inData.asAudioStreamBasicDescription
      ⟨r.1, s, outNumberPropertiesChanged, [], r.2⟩
  | _ => ⟨kAudioHardwareUnknownPropertyError, s, outNumberPropertiesChanged, [], []⟩

/-! ### `device.h` -/

/-- The counting loops `for (auto o : objectsDescription) count += p(o)`. -/
def countMatching (p : mts.object_description → Bool) (descs : List mts.object_description) :
    Nat :=
  descs.foldl (fun count o => count + (if p o then 1 else 0)) 0

/-- The filling loops `for (i = 0, k = 0; k < itemCount; i++) if (p(d[i])) objs[k++] = d[i].id`:
`descs` is the part of the array from index `i` on and `remaining` is `itemCount - k`. The
loop ends when `k` reaches `itemCount`; running off the end of the array (reading past it in
the source) ends the model loop as well. -/
def fillMatching (p : mts.object_description → Bool) :
    List mts.object_description → Nat → List AudioObjectID
  | _, 0 => []
  | [], _ + 1 => []
  | d :: ds, remaining + 1 =>
    if p d then d.id :: fillMatching p ds remaining else fillMatching p ds (remaining + 1)

namespace device

def isInput (o : mts.object_description) : Bool := decide (o.direction = mts.direction.input)
def isOutput (o : mts.object_description) : Bool := decide (o.direction = mts.direction.output)
def isStream (o : mts.object_description) : Bool := decide (o.type = mts.object_type.stream)
def isControl (o : mts.object_description) : Bool := decide (o.type = mts.object_type.control)

def get_global_object_list_size : Nat := Device.objectsDescription.length
def get_input_object_list_size : Nat := countMatching isInput Device.objectsDescription
def get_output_object_list_size : Nat := countMatching isOutput Device.objectsDescription
def get_global_stream_list_size : Nat := countMatching isStream Device.objectsDescription

def get_input_stream_list_size : Nat :=
  countMatching (fun o => isStream o && isInput o) Device.objectsDescription

def get_output_stream_list_size : Nat :=
  countMatching (fun o => isStream o && isOutput o) Device.objectsDescription

def get_control_list_size : Nat := countMatching isControl Device.objectsDescription

/-- The member `device::get_global_object_list`: identifiers stored and returned count. -/
def get_global_object_list (itemCount : Nat) : List AudioObjectID × Nat :=
  let itemCount := mts.min itemCount get_global_object_list_size
  ((Device.objectsDescription.take itemCount).map (fun o => o.id), itemCount)

/-- The filtered list members of `device`, which differ in the size bound and the filter:
identifiers stored and returned count. -/
def get_filtered_list (p : mts.object_description → Bool) (listSize itemCount : Nat) :
    List AudioObjectID × Nat :=
  let itemCount := mts.min itemCount listSize
  (fillMatching p Device.objectsDescription itemCount, itemCount)

def get_input_object_list (itemCount : Nat) : List AudioObjectID × Nat :=
  get_filtered_list isInput get_input_object_list_size itemCount

def get_output_object_list (itemCount : Nat) : List AudioObjectID × Nat :=
  get_filtered_list isOutput get_output_object_list_size itemCount

def get_global_stream_list (itemCount : Nat) : List AudioObjectID × Nat :=
  get_filtered_list isStream get_global_stream_list_size itemCount

def get_input_stream_list (itemCount : Nat) : List AudioObjectID × Nat :=
  get_filtered_list (fun o => isStream o && isInput o) get_input_stream_list_size itemCount

def get_output_stream_list (itemCount : Nat) : List AudioObjectID × Nat :=
  get_filtered_list (fun o => isStream o && isOutput o) get_output_stream_list_size itemCount

def get_control_list (itemCount : Nat) : List AudioObjectID × Nat :=
  get_filtered_list isControl get_control_list_size itemCount

end device

/-- The member `device::exists`. -/
def device.exists (_self : device) (inAddress : Address) : Bool :=
  match inAddress.mSelector with
  | kAudioObjectPropertyBaseClass
  | kAudioObjectPropertyClass
  | kAudioObjectPropertyOwner
  | kAudioObjectPropertyName
  | kAudioObjectPropertyManufacturer
  | kAudioObjectPropertyOwnedObjects
  | kAudioDevicePropertyDeviceUID
  | kAudioDevicePropertyModelUID
  | kAudioDevicePropertyTransportType
  | kAudioDevicePropertyRelatedDevices
  | kAudioDevicePropertyClockDomain
  | kAudioDevicePropertyDeviceIsAlive
  | kAudioDevicePropertyDeviceIsRunning
  | kAudioObjectPropertyControlList
  | kAudioDevicePropertyNominalSampleRate
  | kAudioDevicePropertyAvailableNominalSampleRates
  | kAudioDevicePropertyIsHidden
  | kAudioDevicePropertyZeroTimeStampPeriod
  | kAudioDevicePropertyIcon
  | kAudioDevicePropertyStreams => true
  | kAudioDevicePropertyDeviceCanBeDefaultDevice
  | kAudioDevicePropertyDeviceCanBeDefaultSystemDevice
  | kAudioDevicePropertyLatency
  | kAudioDevicePropertySafetyOffset
  | kAudioDevicePropertyPreferredChannelsForStereo
  | kAudioDevicePropertyPreferredChannelLayout =>
    mts.is_one_of inAddress.mScope kAudioObjectPropertyScopeInput kAudioObjectPropertyScopeOutput
  | _ => false

/-- The member `device::is_settable`. -/
def device.is_settable (_self : device) (inAddress : Address) (outIsSettable : Bool) :
    OSStatus × Bool :=
  match inAddress.mSelector with
  | kAudioObjectPropertyBaseClass
  | kAudioObjectPropertyClass
  | kAudioObjectPropertyOwner
  | kAudioObjectPropertyName
  | kAudioObjectPropertyManufacturer
  | kAudioObjectPropertyOwnedObjects
  | kAudioDevicePropertyDeviceUID
  | kAudioDevicePropertyModelUID
  | kAudioDevicePropertyTransportType
  | kAudioDevicePropertyRelatedDevices
  | kAudioDevicePropertyClockDomain
  | kAudioDevicePropertyDeviceIsAlive
  | kAudioDevicePropertyDeviceIsRunning
  | kAudioDevicePropertyDeviceCanBeDefaultDevice
  | kAudioDevicePropertyDeviceCanBeDefaultSystemDevice
  | kAudioDevicePropertyLatency
  | kAudioDevicePropertyStreams
  | kAudioObjectPropertyControlList
  | kAudioDevicePropertySafetyOffset
  | kAudioDevicePropertyAvailableNominalSampleRates
  | kAudioDevicePropertyIsHidden
  | kAudioDevicePropertyPreferredChannelsForStereo
  | kAudioDevicePropertyPreferredChannelLayout
  | kAudioDevicePropertyZeroTimeStampPeriod
  | kAudioDevicePropertyIcon => (kAudioHardwareNoError, false)
  | kAudioDevicePropertyNominalSampleRate => (kAudioHardwareNoError, true)
  | _ => (kAudioHardwareUnknownPropertyError, outIsSettable)

/-- The member `device::size`. In the two inner switches over the scope no case stores
through `outDataSize` for a scope other than global, input and output. -/
def device.size (cfg : Config F) (_self : device) (inAddress : Address)
    (_inQualifierDataSize : Nat) (_inQualifierData : Option CFStringRef) (outDataSize : Nat) :
    SizeResult :=
  match inAddress.mSelector with
  | kAudioObjectPropertyBaseClass => ⟨kAudioHardwareNoError, sizeof_AudioClassID⟩
  | kAudioObjectPropertyClass => ⟨kAudioHardwareNoError, sizeof_AudioClassID⟩
  | kAudioObjectPropertyOwner => ⟨kAudioHardwareNoError, sizeof_AudioObjectID⟩
  | kAudioObjectPropertyName => ⟨kAudioHardwareNoError, sizeof_CFStringRef⟩
  | kAudioObjectPropertyManufacturer => ⟨kAudioHardwareNoError, sizeof_CFStringRef⟩
  | kAudioObjectPropertyOwnedObjects =>
    match inAddress.mScope with
    | kAudioObjectPropertyScopeGlobal =>
      ⟨kAudioHardwareNoError, u32 (device.get_global_object_list_size * sizeof_AudioObjectID)⟩
    | kAudioObjectPropertyScopeInput =>
      ⟨kAudioHardwareNoError, u32 (device.get_input_object_list_size * sizeof_AudioObjectID)⟩
    | kAudioObjectPropertyScopeOutput =>
      ⟨kAudioHardwareNoError, u32 (device.get_output_object_list_size * sizeof_AudioObjectID)⟩
    | Scope.other _ => ⟨kAudioHardwareNoError, outDataSize⟩
  | kAudioDevicePropertyDeviceUID => ⟨kAudioHardwareNoError, sizeof_CFStringRef⟩
  | kAudioDevicePropertyModelUID => ⟨kAudioHardwareNoError, sizeof_CFStringRef⟩
  | kAudioDevicePropertyTransportType => ⟨kAudioHardwareNoError, sizeof_UInt32⟩
  | kAudioDevicePropertyRelatedDevices => ⟨kAudioHardwareNoError, sizeof_AudioObjectID⟩
  | kAudioDevicePropertyClockDomain => ⟨kAudioHardwareNoError, sizeof_UInt32⟩
  | kAudioDevicePropertyDeviceIsAlive => ⟨kAudioHardwareNoError, sizeof_AudioClassID⟩
  | kAudioDevicePropertyDeviceIsRunning => ⟨kAudioHardwareNoError, sizeof_UInt32⟩
  | kAudioDevicePropertyDeviceCanBeDefaultDevice => ⟨kAudioHardwareNoError, sizeof_UInt32⟩
  | kAudioDevicePropertyDeviceCanBeDefaultSystemDevice => ⟨kAudioHardwareNoError, sizeof_UInt32⟩
  | kAudioDevicePropertyLatency => ⟨kAudioHardwareNoError, sizeof_UInt32⟩
  | kAudioDevicePropertyStreams =>
    match inAddress.mScope with
    | kAudioObjectPropertyScopeGlobal =>
      ⟨kAudioHardwareNoError, u32 (device.get_global_stream_list_size * sizeof_AudioObjectID)⟩
    | kAudioObjectPropertyScopeInput =>
      ⟨kAudioHardwareNoError, u32 (device.get_input_stream_list_size * sizeof_AudioObjectID)⟩
    | kAudioObjectPropertyScopeOutput =>
      ⟨kAudioHardwareNoError, u32 (device.get_output_stream_list_size * sizeof_AudioObjectID)⟩
    | Scope.other _ => ⟨kAudioHardwareNoError, outDataSize⟩
  | kAudioObjectPropertyControlList =>
    ⟨kAudioHardwareNoError, u32 (device.get_control_list_size * sizeof_AudioObjectID)⟩
  | kAudioDevicePropertySafetyOffset => ⟨kAudioHardwareNoError, sizeof_UInt32⟩
  | kAudioDevicePropertyNominalSampleRate => ⟨kAudioHardwareNoError, sizeof_Float64⟩
  | kAudioDevicePropertyAvailableNominalSampleRates =>
    ⟨kAudioHardwareNoError, u32 (Device.get_sample_rate_count cfg * sizeof_AudioValueRange)⟩
  | kAudioDevicePropertyIsHidden => ⟨kAudioHardwareNoError, sizeof_UInt32⟩
  | kAudioDevicePropertyPreferredChannelsForStereo => ⟨kAudioHardwareNoError, 2 * sizeof_UInt32⟩
  | kAudioDevicePropertyPreferredChannelLayout =>
    ⟨kAudioHardwareNoError,
      u32 (offsetof_AudioChannelLayout_mChannelDescriptions
        + cfg.channel_count * sizeof_AudioChannelDescription)⟩
  | kAudioDevicePropertyZeroTimeStampPeriod => ⟨kAudioHardwareNoError, sizeof_UInt32⟩
  | kAudioDevicePropertyIcon => ⟨kAudioHardwareNoError, sizeof_CFURLRef⟩
  | _ => ⟨kAudioHardwareUnknownPropertyError, outDataSize⟩

/-- The channel descriptions stored by the loop of the preferred-channel-layout case. -/
def device.channelDescriptions (cfg : Config F) : List (AudioChannelDescription F) :=
  (List.range cfg.channel_count).map (fun i => ⟨u32 (kAudioChannelLabel_Left + i), 0, [0, 0, 0]⟩)

/-- The member `device::get`; the strings of the implementation class are the macros of
`config.h`. -/
def device.get (cfg : Config F) (env : Environment) (self : device) (s : DriverState F)
    (inAddress : Address) (_inQualifierDataSize : Nat) (_inQualifierData : Option CFStringRef)
    (inDataSize : Nat) (outDataSize : Nat) : GetResult F :=
  match inAddress.mSelector with
  | kAudioObjectPropertyBaseClass =>
    checkedAssign inDataSize sizeof_AudioClassID outDataSize sizeof_AudioClassID
      (.classID AudioClassID.kAudioObjectClassID)
  | kAudioObjectPropertyClass =>
    checkedAssign inDataSize sizeof_AudioClassID outDataSize sizeof_AudioClassID
      (.classID AudioClassID.kAudioDeviceClassID)
  | kAudioObjectPropertyOwner =>
    checkedAssign inDataSize sizeof_AudioObjectID outDataSize sizeof_AudioObjectID
      (.objectID self.m_plugin)
  | kAudioObjectPropertyName =>
    checkedAssign inDataSize sizeof_CFStringRef outDataSize sizeof_CFStringRef
      (.cfString (some cfg.MTS_DEVICE_NAME))
  | kAudioObjectPropertyManufacturer =>
    checkedAssign inDataSize sizeof_CFStringRef outDataSize sizeof_CFStringRef
      (.cfString (some cfg.MTS_MANUFACTURER_NAME))
  | kAudioObjectPropertyOwnedObjects =>
    let itemCount := inDataSize / sizeof_AudioObjectID
    match inAddress.mScope with
    | kAudioObjectPropertyScopeGlobal =>
      let r := device.get_global_object_list itemCount
      ⟨kAudioHardwareNoError, u32 (r.2 * sizeof_AudioObjectID), some (.objectList r.1)⟩
    | kAudioObjectPropertyScopeInput =>
      let r := device.get_input_object_list itemCount
      ⟨kAudioHardwareNoError, u32 (r.2 * sizeof_AudioObjectID), some (.objectList r.1)⟩
    | kAudioObjectPropertyScopeOutput =>
      let r := device.get_output_object_list itemCount
      ⟨kAudioHardwareNoError, u32 (r.2 * sizeof_AudioObjectID), some (.objectList r.1)⟩
    | Scope.other _ => ⟨kAudioHardwareNoError, u32 (itemCount * sizeof_AudioObjectID), none⟩
  | kAudioDevicePropertyDeviceUID =>
    checkedAssign inDataSize sizeof_CFStringRef outDataSize sizeof_CFStringRef
      (.cfString (some cfg.MTS_DEVICE_UID))
  | kAudioDevicePropertyModelUID =>
    checkedAssign inDataSize sizeof_CFStringRef outDataSize sizeof_CFStringRef
      (.cfString (some cfg.MTS_DEVICE_MODEL_UID))
  | kAudioDevicePropertyTransportType =>
    checkedAssign inDataSize sizeof_UInt32 outDataSize sizeof_UInt32
      (.uint32 kAudioDeviceTransportTypeVirtual)
  | kAudioDevicePropertyRelatedDevices =>
    let itemCount := mts.min (inDataSize / sizeof_AudioObjectID) 1
    ⟨kAudioHardwareNoError, u32 (itemCount * sizeof_AudioObjectID),
      if itemCount > 0 then some (.objectList [self.id]) else none⟩
  | kAudioDevicePropertyClockDomain =>
    checkedAssign inDataSize sizeof_UInt32 outDataSize sizeof_UInt32 (.uint32 0)
  | kAudioDevicePropertyDeviceIsAlive =>
    checkedAssign inDataSize sizeof_UInt32 outDataSize sizeof_UInt32 (.uint32 1)
  | kAudioDevicePropertyDeviceIsRunning =>
    checkedAssign inDataSize sizeof_UInt32 outDataSize sizeof_UInt32
      (.uint32 (if Device.is_io_running s then 1 else 0))
  | kAudioDevicePropertyDeviceCanBeDefaultDevice =>
    checkedAssign inDataSize sizeof_UInt32 outDataSize sizeof_UInt32
      (.uint32 (if cfg.allows_default_device then 1 else 0))
  | kAudioDevicePropertyDeviceCanBeDefaultSystemDevice =>
    checkedAssign inDataSize sizeof_UInt32 outDataSize sizeof_UInt32
      (.uint32 (if cfg.allows_default_device then 1 else 0))
  | kAudioDevicePropertyLatency =>
    checkedAssign inDataSize sizeof_UInt32 outDataSize sizeof_UInt32 (.uint32 0)
  | kAudioDevicePropertyStreams =>
    let itemCount := inDataSize / sizeof_AudioObjectID
    match inAddress.mScope with
    | kAudioObjectPropertyScopeGlobal =>
      let r := device.get_global_stream_list itemCount
      ⟨kAudioHardwareNoError, u32 (r.2 * sizeof_AudioObjectID), some (.objectList r.1)⟩
    | kAudioObjectPropertyScopeInput =>
      let r := device.get_input_stream_list itemCount
      ⟨kAudioHardwareNoError, u32 (r.2 * sizeof_AudioObjectID), some (.objectList r.1)⟩
    | kAudioObjectPropertyScopeOutput =>
      let r := device.get_output_stream_list itemCount
      ⟨kAudioHardwareNoError, u32 (r.2 * sizeof_AudioObjectID), some (.objectList r.1)⟩
    | Scope.other _ => ⟨kAudioHardwareNoError, u32 (itemCount * sizeof_AudioObjectID), none⟩
  | kAudioObjectPropertyControlList =>
    let itemCount := inDataSize / sizeof_AudioObjectID
    let r := device.get_control_list itemCount
    ⟨kAudioHardwareNoError, u32 (r.2 * sizeof_AudioObjectID), some (.objectList r.1)⟩
  | kAudioDevicePropertySafetyOffset =>
    checkedAssign inDataSize sizeof_UInt32 outDataSize sizeof_UInt32 (.uint32 0)
  | kAudioDevicePropertyNominalSampleRate =>
    checkedAssign inDataSize sizeof_Float64 outDataSize sizeof_Float64
      (.float64 (Device.get_sample_rate s))
  | kAudioDevicePropertyAvailableNominalSampleRates =>
    let itemCount := inDataSize / sizeof_AudioValueRange
    let r := Device.get_sample_rates cfg itemCount
    ⟨kAudioHardwareNoError, u32 (r.2 * sizeof_AudioValueRange), some (.valueRanges r.1)⟩
  | kAudioDevicePropertyIsHidden =>
    checkedAssign inDataSize sizeof_UInt32 outDataSize sizeof_UInt32
      (.uint32 (if cfg.hidden then 1 else 0))
  | kAudioDevicePropertyPreferredChannelsForStereo =>
    checkedAssign inDataSize (2 * sizeof_UInt32) outDataSize (2 * sizeof_UInt32)
      (.uint32List [1, 2])
  | kAudioDevicePropertyPreferredChannelLayout =>
    let theACLSize := u32 (offsetof_AudioChannelLayout_mChannelDescriptions
      + cfg.channel_count * sizeof_AudioChannelDescription)
    checkedAssign inDataSize theACLSize outDataSize theACLSize
      (.channelLayout kAudioChannelLayoutTag_UseChannelDescriptions 0 cfg.channel_count
        (device.channelDescriptions cfg))
  | kAudioDevicePropertyZeroTimeStampPeriod =>
    checkedAssign inDataSize sizeof_UInt32 outDataSize sizeof_UInt32
      (.uint32 cfg.ring_buffer_size)
  | kAudioDevicePropertyIcon =>
    if inDataSize < sizeof_CFURLRef then ⟨kAudioHardwareBadPropertySizeError, outDataSize, none⟩
    else if !env.bundleFound then ⟨kAudioHardwareUnspecifiedError, outDataSize, none⟩
    else match env.iconURL with
      | none => ⟨kAudioHardwareUnspecifiedError, outDataSize, none⟩
      | some theURL => ⟨kAudioHardwareNoError, sizeof_CFURLRef, some (.cfURL theURL)⟩
  | _ => ⟨kAudioHardwareUnknownPropertyError, outDataSize, none⟩

/-- The member `device::set`. -/
def device.set (cfg : Config F) (_self : device) (s : DriverState F) (inAddress : Address)
    (_inQualifierDataSize : Nat) (_inQualifierData : Option CFStringRef) (inDataSize : Nat)
    (inData : Blob F) (outNumberPropertiesChanged : Nat) : SetResult F :=
  match inAddress.mSelector with
  | kAudioDevicePropertyNominalSampleRate =>
    if inDataSize ≠ sizeof_Float64 then
      ⟨kAudioHardwareBadPropertySizeError, s, outNumberPropertiesChanged, [], []⟩
    else
      let r := Device.set_sample_rate cfg s inData.asFloat64
      ⟨r.1, s, outNumberPropertiesChanged, [], r.2⟩
  | _ => ⟨kAudioHardwareUnknownPropertyError, s, outNumberPropertiesChanged, [], []⟩

end mts.core

/-! ## The class `Driver` of `driver.cpp` -/

/-- The objects `callObject` constructs, one per identifier of the registry. -/
inductive AnyObject
  | plugin (o : mts.core.plugin)
  | box (o : mts.core.box)
  | device (o : mts.core.device)
  | stream (o : mts.core.stream)
  | volume_control (o : mts.core.volume_control)
  | mute_control (o : mts.core.mute_control)
  deriving DecidableEq, Repr

/-- The function template `callObject`: the object for the identifier is handed to `fct`, and
`ret` is returned for an identifier outside the registry. -/
def callObject {R : Type} (auid : AudioObjectID) (fct : AnyObject → R) (ret : R) : R :=
  match ObjectID.ofAudioObjectID auid with
  | some .Plugin => fct (.plugin ⟨ObjectID.Plugin.toAudioObjectID⟩)
  | some .Box => fct (.box ⟨ObjectID.Box.toAudioObjectID, ObjectID.Plugin.toAudioObjectID⟩)
  | some .Device =>
    fct (.device ⟨ObjectID.Device.toAudioObjectID, ObjectID.Plugin.toAudioObjectID⟩)
  | some .StreamInput =>
    fct (.stream ⟨ObjectID.StreamInput.toAudioObjectID, ObjectID.Device.toAudioObjectID,
      mts.direction.input⟩)
  | some .VolumeInputMaster =>
    fct (.volume_control ⟨ObjectID.VolumeInputMaster.toAudioObjectID,
      ObjectID.Device.toAudioObjectID, mts.direction.input⟩)
  | some .MuteInputMaster =>
    fct (.mute_control ⟨ObjectID.MuteInputMaster.toAudioObjectID,
      ObjectID.Device.toAudioObjectID, mts.direction.input⟩)
  | some .StreamOutput =>
    fct (.stream ⟨ObjectID.StreamOutput.toAudioObjectID, ObjectID.Device.toAudioObjectID,
      mts.direction.output⟩)
  | some .VolumeOutputMaster =>
    fct (.volume_control ⟨ObjectID.VolumeOutputMaster.toAudioObjectID,
      ObjectID.Device.toAudioObjectID, mts.direction.output⟩)
  | some .MuteOutputMaster =>
    fct (.mute_control ⟨ObjectID.MuteOutputMaster.toAudioObjectID,
      ObjectID.Device.toAudioObjectID, mts.direction.output⟩)
  | none => ret

/-- The operation identifiers of `DoIOOperation`: the two the sources name and `other code`
for the rest. -/
inductive IOOperationID
  | kAudioServerPlugInIOOperationReadInput
  | kAudioServerPlugInIOOperationWriteMix
  | other (code : Nat)
  deriving DecidableEq, Repr

/-- The structure `AudioTimeStamp`, reduced to the field the driver reads. -/
structure AudioTimeStamp (F : Type) where
  mSampleTime : F
  deriving DecidableEq, Repr

/-- The structure `AudioServerPlugInIOCycleInfo`, reduced to the fields the driver reads. -/
structure AudioServerPlugInIOCycleInfo (F : Type) where
  mInputTime : AudioTimeStamp F
  mOutputTime : AudioTimeStamp F
  deriving DecidableEq, Repr

/-- Subtraction of `UInt32` values. -/
def sub32 (a b : Nat) : Nat := u32 (u32 a + 2 ^ 32 - u32 b)

namespace Driver

variable {F : Type} [LinearOrderedField F] [FloorRing F]

/-- The generic lambdas `obj.exists(inAddress)` handed to `callObject`. -/
def objExists (inAddress : Address) : AnyObject → Bool
  | .plugin o => o.exists inAddress
  | .box o => o.exists inAddress
  | .device o => o.exists inAddress
  | .stream o => o.exists inAddress
  | .volume_control o => o.exists inAddress
  | .mute_control o => o.exists inAddress

/-- The generic lambdas `obj.is_settable(inAddress, outIsSettable)` handed to `callObject`. -/
def objIsSettable (inAddress : Address) (outIsSettable : Bool) : AnyObject → OSStatus × Bool
  | .plugin o => o.is_settable inAddress outIsSettable
  | .box o => o.is_settable inAddress outIsSettable
  | .device o => o.is_settable inAddress outIsSettable
  | .stream o => o.is_settable inAddress outIsSettable
  | .volume_control o => o.is_settable inAddress outIsSettable
  | .mute_control o => o.is_settable inAddress outIsSettable

/-- The generic lambdas `obj.size(...)` handed to `callObject`. -/
def objSize (cfg : Config F) (s : DriverState F) (inAddress : Address)
    (inQualifierDataSize : Nat) (inQualifierData : Option CFStringRef) (outDataSize : Nat) :
    AnyObject → SizeResult
  | .plugin o => o.size s inAddress inQualifierDataSize inQualifierData outDataSize
  | .box o => o.size inAddress inQualifierDataSize inQualifierData outDataSize
  | .device o => o.size cfg inAddress inQualifierDataSize inQualifierData outDataSize
  | .stream o => o.size cfg inAddress inQualifierDataSize inQualifierData outDataSize
  | .volume_control o => o.size inAddress inQualifierDataSize inQualifierData outDataSize
  | .mute_control o => o.size inAddress inQualifierDataSize inQualifierData outDataSize

/-- The generic lambdas `obj.get(...)` handed to `callObject`. -/
def objGet (cfg : Config F) (m : MathLib F) (env : Environment) (s : DriverState F)
    (inAddress : Address) (inQualifierDataSize : Nat) (inQualifierData : Option CFStringRef)
    (inDataSize : Nat) (outDataSize : Nat) (outData : Blob F) : AnyObject → GetResult F
  | .plugin o => o.get cfg s inAddress inQualifierDataSize inQualifierData inDataSize outDataSize
  | .box o => o.get cfg s inAddress inQualifierDataSize inQualifierData inDataSize outDataSize
  | .device o =>
    o.get cfg env s inAddress inQualifierDataSize inQualifierData inDataSize outDataSize
  | .stream o => o.get cfg s inAddress inQualifierDataSize inQualifierData inDataSize outDataSize
  | .volume_control o =>
    o.get cfg m s inAddress inQualifierDataSize inQualifierData inDataSize outDataSize outData
  | .mute_control o => o.get s inAddress inQualifierDataSize inQualifierData inDataSize outDataSize

/-- The generic lambdas `obj.set(...)` handed to `callObject`. -/
def objSet (cfg : Config F) (m : MathLib F) (s : DriverState F) (inAddress : Address)
    (inQualifierDataSize : Nat) (inQualifierData : Option CFStringRef) (inDataSize : Nat)
    (inData : Blob F) (outNumberPropertiesChanged : Nat) : AnyObject → SetResult F
  | .plugin o =>
    o.set s inAddress inQualifierDataSize inQualifierData inDataSize inData
      outNumberPropertiesChanged
  | .box o =>
    o.set cfg s inAddress inQualifierDataSize inQualifierData inDataSize inData
      outNumberPropertiesChanged
  | .device o =>
    o.set cfg s inAddress inQualifierDataSize inQualifierData inDataSize inData
      outNumberPropertiesChanged
  | .stream o =>
    o.set cfg s inAddress inQualifierDataSize inQualifierData inDataSize inData
      outNumberPropertiesChanged
  | .volume_control o =>
    o.set cfg m s inAddress inQualifierDataSize inQualifierData inDataSize inData
      outNumberPropertiesChanged
  | .mute_control o =>
    o.set s inAddress inQualifierDataSize inQualifierData inDataSize inData
      outNumberPropertiesChanged

/-- The member `Driver::HasPropertyImpl`; `none` is a null `inAddress`. -/
def HasPropertyImpl (inObjectID : AudioObjectID) (inAddress : Option Address) : Bool :=
  match inAddress with
  | none => false
  | some a => callObject inObjectID (objExists a) false

/-- The member `Driver::IsPropertySettableImpl`; `none` is a null pointer, and the second
component is `*outIsSettable` after the call (`false` when the pointer is null). -/
def IsPropertySettableImpl (inObjectID : AudioObjectID) (inAddress : Option Address)
    (outIsSettable : Option Bool) : OSStatus × Bool :=
  match inAddress, outIsSettable with
  | none, _ => (kAudioHardwareIllegalOperationError, outIsSettable.getD false)
  | some _, none => (kAudioHardwareIllegalOperationError, false)
  | some a, some b => callObject inObjectID (objIsSettable a b) (kAudioHardwareBadObjectError, b)

/-- The member `Driver::GetPropertyDataSizeImpl`; `none` is a null pointer, and the field
`outDataSize` of the result is `*outDataSize` after the call (zero when the pointer is null). -/
def GetPropertyDataSizeImpl (cfg : Config F) (s : DriverState F) (inObjectID : AudioObjectID)
    (inAddress : Option Address) (inQualifierDataSize : Nat)
    (inQualifierData : Option CFStringRef) (outDataSize : Option Nat) : SizeResult :=
  match inAddress, outDataSize with
  | none, _ => ⟨kAudioHardwareIllegalOperationError, outDataSize.getD 0⟩
  | some _, none => ⟨kAudioHardwareIllegalOperationError, 0⟩
  | some a, some n =>
    callObject inObjectID (objSize cfg s a inQualifierDataSize inQualifierData n)
      ⟨kAudioHardwareBadObjectError, n⟩

/-- The member `Driver::GetPropertyDataImpl`; `none` is a null pointer, and the field
`outDataSize` of the result is `*outDataSize` after the call (zero when the pointer is null). -/
def GetPropertyDataImpl (cfg : Config F) (m : MathLib F) (env : Environment) (s : DriverState F)
    (inObjectID : AudioObjectID) (inAddress : Option Address) (inQualifierDataSize : Nat)
    (inQualifierData : Option CFStringRef) (inDataSize : Nat) (outDataSize : Option Nat)
    (outData : Option (Blob F)) : GetResult F :=
  match inAddress, outDataSize, outData with
  | none, _, _ => ⟨kAudioHardwareIllegalOperationError, outDataSize.getD 0, none⟩
  | some _, none, _ => ⟨kAudioHardwareIllegalOperationError, 0, none⟩
  | some _, some n, none => ⟨kAudioHardwareIllegalOperationError, n, none⟩
  | some a, some n, some d =>
    callObject inObjectID
      (objGet cfg m env s a inQualifierDataSize inQualifierData inDataSize n d)
      ⟨kAudioHardwareBadObjectError, n, none⟩

/-- The member `Driver::SetPropertyDataImpl`; `none` is a null `inAddress`. The fields
`outNumberPropertiesChanged` and `outChangedAddresses` of the result are the local variables
`theNumberPropertiesChanged` and `theChangedAddresses` at the end of the call. -/
def SetPropertyDataImpl (cfg : Config F) (m : MathLib F) (s : DriverState F)
    (inObjectID : AudioObjectID) (inAddress : Option Address) (inQualifierDataSize : Nat)
    (inQualifierData : Option CFStringRef) (inDataSize : Nat) (inData : Blob F) : SetResult F :=
  match inAddress with
  | none => ⟨kAudioHardwareIllegalOperationError, s, 0, [], []⟩
  | some a =>
    let theNumberPropertiesChanged := 0
    let r := callObject inObjectID
      (objSet cfg m s a inQualifierDataSize inQualifierData inDataSize inData
        theNumberPropertiesChanged)
      ⟨kAudioHardwareBadObjectError, s, theNumberPropertiesChanged, [], []⟩
    if r.outNumberPropertiesChanged > 0 then
      { r with hostCalls := r.hostCalls ++
          [⟨HostCall.PropertiesChanged inObjectID r.outChangedAddresses, false, false⟩] }
    else r

/-- The value `theHostClockFrequency` computed from `mach_timebase_info`. -/
def hostClockFrequency (env : Environment) : F :=
  ((env.timebase_denom : F) / (env.timebase_numer : F)) * 1000000000

/-- The member `Driver::PerformDeviceConfigurationChangeImpl`. -/
def PerformDeviceConfigurationChangeImpl (cfg : Config F) (env : Environment)
    (s : DriverState F) (inDeviceObjectID : AudioObjectID) (inChangeAction : Nat) :
    OSStatus × DriverState F :=
  if inDeviceObjectID ≠ ObjectID.Device.toAudioObjectID then (kAudioHardwareBadObjectError, s)
  else if !cfg.is_supported_sample_rate (ofUInt64 inChangeAction) then
    (kAudioHardwareBadObjectError, s)
  else
    let m_sampleRate : F := ofUInt64 inChangeAction
    (kAudioHardwareNoError,
      { s with
        m_sampleRate := m_sampleRate
        m_hostTicksPerFrame := hostClockFrequency env / m_sampleRate })

/-- The member `Driver::AbortDeviceConfigurationChangeImpl`. -/
def AbortDeviceConfigurationChangeImpl (s : DriverState F) (inDeviceObjectID : AudioObjectID)
    (_inChangeAction : Nat) : OSStatus × DriverState F :=
  if inDeviceObjectID ≠ ObjectID.Device.toAudioObjectID then (kAudioHardwareBadObjectError, s)
  else (kAudioHardwareNoError, s)

/-- The number of samples of the ring buffer, `ring_buffer_frame_size * channel_count`. -/
def ringBufferSampleCount (cfg : Config F) : Nat :=
  u32 (cfg.ring_buffer_frame_size * cfg.channel_count)

/-- The member `Driver::StartIOImpl`; `now` is the value of `mach_absolute_time()`, and the
allocation by `calloc` succeeds and yields zeroed memory. -/
def StartIOImpl (cfg : Config F) (s : DriverState F) (inDeviceObjectID : AudioObjectID)
    (_inClientID : Nat) (now : Nat) : OSStatus × DriverState F :=
  if inDeviceObjectID ≠ ObjectID.Device.toAudioObjectID then (kAudioHardwareBadObjectError, s)
  else if s.m_ioRunning = UINT64_MAX then (kAudioHardwareIllegalOperationError, s)
  else if s.m_ioRunning = 0 then
    (kAudioHardwareNoError,
      { s with
        m_ioRunning := 1
        m_numberTimeStamps := 0
        m_anchorSampleTime := 0
        m_anchorHostTime := now
        m_ringBuffer := some (List.replicate (ringBufferSampleCount cfg) 0) })
  else (kAudioHardwareNoError, { s with m_ioRunning := u64 (s.m_ioRunning + 1) })

/-- The member `Driver::StopIOImpl`. -/
def StopIOImpl (s : DriverState F) (inDeviceObjectID : AudioObjectID) (_inClientID : Nat) :
    OSStatus × DriverState F :=
  if inDeviceObjectID ≠ ObjectID.Device.toAudioObjectID then (kAudioHardwareBadObjectError, s)
  else if s.m_ioRunning = 0 then (kAudioHardwareIllegalOperationError, s)
  else if s.m_ioRunning = 1 then
    (kAudioHardwareNoError, { s with m_ioRunning := 0, m_ringBuffer := none })
  else (kAudioHardwareNoError, { s with m_ioRunning := s.m_ioRunning - 1 })

/-- The local variable `ringBufferFrameLocationStart` of `DoIOOperationImpl`. -/
def ringBufferFrameLocationStart (cfg : Config F) (mSampleTime : Nat) : Nat :=
  u32 (mSampleTime &&& cfg.ring_buffer_frame_mask)

/-- The local variable `firstPartFrameSize` of `DoIOOperationImpl` after the `if`. -/
def firstPartFrameSize (cfg : Config F) (ringBufferFrameLocationStart inIOBufferFrameSize : Nat) :
    Nat :=
  let firstPartFrameSize := sub32 cfg.ring_buffer_frame_size ringBufferFrameLocationStart
  if firstPartFrameSize ≥ inIOBufferFrameSize then inIOBufferFrameSize else firstPartFrameSize

/-- The local variable `secondPartFrameSize` of `DoIOOperationImpl` after the `if`. -/
def secondPartFrameSize (cfg : Config F) (ringBufferFrameLocationStart inIOBufferFrameSize : Nat) :
    Nat :=
  let firstPartFrameSize := sub32 cfg.ring_buffer_frame_size ringBufferFrameLocationStart
  if firstPartFrameSize ≥ inIOBufferFrameSize then 0
  else sub32 inIOBufferFrameSize firstPartFrameSize

/-- The member `Driver::DoIOOperationImpl`: the status, the driver state afterwards and the
contents of `ioMainBuffer` afterwards. A null ring buffer, which the source would
dereference, reads as an empty array and stays null. -/
def DoIOOperationImpl (cfg : Config F) (s : DriverState F)
    (inDeviceObjectID inStreamObjectID : AudioObjectID) (_inClientID : Nat)
    (inOperationID : IOOperationID) (inIOBufferFrameSize : Nat)
    (inIOCycleInfo : AudioServerPlugInIOCycleInfo F) (ioMainBuffer : List F) :
    OSStatus × DriverState F × List F :=
  if inDeviceObjectID ≠ ObjectID.Device.toAudioObjectID then
    (kAudioHardwareBadObjectError, s, ioMainBuffer)
  else if !mts.is_one_of inStreamObjectID ObjectID.StreamInput.toAudioObjectID
      ObjectID.StreamOutput.toAudioObjectID then
    (kAudioHardwareBadObjectError, s, ioMainBuffer)
  else if !mts.is_one_of inOperationID IOOperationID.kAudioServerPlugInIOOperationReadInput
      IOOperationID.kAudioServerPlugInIOOperationWriteMix then
    (kAudioHardwareNoError, s, ioMainBuffer)
  else
    let isReading :=
      decide (inOperationID = IOOperationID.kAudioServerPlugInIOOperationReadInput)
    let mSampleTime : Nat :=
      toUInt64 (if isReading then inIOCycleInfo.mInputTime.mSampleTime
        else inIOCycleInfo.mOutputTime.mSampleTime)
    let start := ringBufferFrameLocationStart cfg mSampleTime
    let first := firstPartFrameSize cfg start inIOBufferFrameSize
    let second := secondPartFrameSize cfg start inIOBufferFrameSize
    if isReading then
      if s.m_muteMasterValue ∨
          s.m_lastOutputSampleTime - (inIOBufferFrameSize : F)
            < inIOCycleInfo.mInputTime.mSampleTime then
        let outputBuffer :=
          mts.dsp.clear ioMainBuffer (u32 (inIOBufferFrameSize * cfg.channel_count))
        if !s.m_isBufferClear then
          (kAudioHardwareNoError,
            { s with
              m_ringBuffer :=
                s.m_ringBuffer.map (fun rb => mts.dsp.clear rb (ringBufferSampleCount cfg))
              m_isBufferClear := true },
            outputBuffer)
        else (kAudioHardwareNoError, s, outputBuffer)
      else
        let ring := s.m_ringBuffer.getD []
        let outputBuffer1 :=
          mts.dsp.copy ring (u32 (start * cfg.channel_count)) ioMainBuffer 0
            (u32 (first * cfg.channel_count))
        let outputBuffer2 :=
          mts.dsp.copy ring 0 outputBuffer1 (u32 (first * cfg.channel_count))
            (u32 (second * cfg.channel_count))
        let outputBuffer3 :=
          mts.dsp.mul outputBuffer2 s.m_volumeMasterValue
            (u32 (inIOBufferFrameSize * cfg.channel_count))
        (kAudioHardwareNoError, s, outputBuffer3)
    else
      let inputBuffer := ioMainBuffer
      let ring1 := s.m_ringBuffer.map (fun rb =>
        mts.dsp.copy inputBuffer 0 rb (u32 (start * cfg.channel_count))
          (u32 (first * cfg.channel_count)))
      let ring2 := ring1.map (fun rb =>
        mts.dsp.copy inputBuffer (u32 (first * cfg.channel_count)) rb 0
          (u32 (second * cfg.channel_count)))
      (kAudioHardwareNoError,
        { s with
          m_lastOutputSampleTime := inIOCycleInfo.mOutputTime.mSampleTime
          m_isBufferClear := false
          m_ringBuffer := ring2 },
        ioMainBuffer)

end Driver

/-! ## A concrete configuration -/

/-- A small configuration over the rationals: four frames of two channels in the ring buffer
and two supported rates. -/
def exampleConfig : Config ℚ where
  bits_per_channel := 32
  ring_buffer_size := 8
  ring_buffer_frame_size := 4
  channel_count := 2
  default_sample_rate := 44100
  supported_sample_rates := [44100, 48000]
  volume_min_db := -96
  volume_max_db := 0
  volume_min_amplitude := 1 / 100000
  hidden := false
  allows_default_device := true
  format_id := 0x6C70636D
  format_flags := 9
  bytes_per_packet := 8
  frames_per_packet := 1
  bytes_per_frame := 8
  MTS_PROPERTY_BOX_ACQUIRED := "box acquired"
  MTS_PROPERTY_BOX_NAME := "box name"
  MTS_DEFAULT_BOX_NAME := "Box"
  MTS_BOX_MODEL_NAME := "Model"
  MTS_MANUFACTURER_NAME := "Maker"
  MTS_SERIAL_NUMBER := "0001"
  MTS_FIRMWARE_VERSION := "1.0"
  MTS_BOX_UID := "box-uid"
  MTS_DEVICE_NAME := "Device"
  MTS_DEVICE_UID := "device-uid"
  MTS_DEVICE_MODEL_UID := "model-uid"
  MTS_PLUGIN_BUNDLE_ID := "bundle-id"
  MTS_ICON_FILE := "icon.icns"

/-- Stand-ins for the mathematics library in the worked examples, which do not depend on what
these functions compute. -/
def exampleMathLib : MathLib ℚ where
  log10 := fun x => x
  pow := fun _ y => y
  sqrtf := fun x => x

/-- An operating system in which the bundle and its icon are found. -/
def exampleEnvironment : Environment where
  timebase_numer := 1
  timebase_denom := 1
  bundleFound := true
  iconURL := some "file:///icon.icns"

/-- An operating system in which the bundle is not found. -/
def exampleEnvironmentNoBundle : Environment where
  timebase_numer := 1
  timebase_denom := 1
  bundleFound := false
  iconURL := none

/-- A caller's buffer holding zeros. -/
def exampleBlob : Blob ℚ where
  asUInt32 := 0
  asFloat32 := 0
  asFloat64 := 0
  asCFStringRef := none
  asAudioStreamBasicDescription := ⟨0, 0, 0, 0, 0, 0, 0, 0⟩

/-- The example driver after its first `StartIO`, with the master gain at one half. -/
def exampleRunningState : DriverState ℚ :=
  { (Driver.StartIOImpl exampleConfig (DriverState.initial exampleConfig)
      ObjectID.Device.toAudioObjectID 0 1000).2 with m_volumeMasterValue := 1 / 2 }

/-! ## Calls in sequence -/

/-- A call of `StartIO` (with the host time it reads) or of `StopIO` on the device. -/
inductive ActivationCall
  | start (inClientID now : Nat)
  | stop (inClientID : Nat)
  deriving DecidableEq, Repr

namespace Driver

variable {F : Type} [LinearOrderedField F] [FloorRing F]

/-- The activation calls are made one after the other on the device: the statuses returned,
in order, and the final driver state. -/
def runActivation (cfg : Config F) : DriverState F → List ActivationCall →
    List OSStatus × DriverState F
  | s, [] => ([], s)
  | s, ActivationCall.start inClientID now :: rest =>
    let r := StartIOImpl cfg s ObjectID.Device.toAudioObjectID inClientID now
    let rs := runActivation cfg r.2 rest
    (r.1 :: rs.1, rs.2)
  | s, ActivationCall.stop inClientID :: rest =>
    let r := StopIOImpl s ObjectID.Device.toAudioObjectID inClientID
    let rs := runActivation cfg r.2 rest
    (r.1 :: rs.1, rs.2)

end Driver

/-- The number of `start` calls in a sequence. -/
def ActivationCall.starts (calls : List ActivationCall) : Nat :=
  calls.countP (fun c => match c with | .start _ _ => true | .stop _ => false)

/-- The number of `stop` calls in a sequence. -/
def ActivationCall.stops (calls : List ActivationCall) : Nat :=
  calls.countP (fun c => match c with | .start _ _ => false | .stop _ => true)

/-! ## The zero time stamp -/

/-- The three values `GetZeroTimeStamp` stores through its result pointers. -/
structure ZeroTimeStamp (F : Type) where
  outSampleTime : F
  outHostTime : Nat
  outSeed : Nat
  deriving DecidableEq, Repr

namespace Driver

variable {F : Type} [LinearOrderedField F] [FloorRing F]

/-- The member `Driver::GetZeroTimeStampImpl`: the status, the driver state afterwards and the
values behind the three result pointers afterwards (`out` holds them before the call);
`currentHostTime` is the value of `mach_absolute_time()`. The counter and the host times are
`UInt64` values, the tick counts are `Float64` values. `fl` is the rounding of the `Float64`
arithmetic: it is applied to every integer converted to `Float64` and to every `Float64`
product and sum (`roundFloat64` for the arithmetic of the machine, the identity for exact
arithmetic). -/
def GetZeroTimeStampImpl (fl : F → F) (cfg : Config F) (s : DriverState F)
    (inDeviceObjectID : AudioObjectID) (_inClientID : Nat) (currentHostTime : Nat)
    (out : ZeroTimeStamp F) : OSStatus × DriverState F × ZeroTimeStamp F :=
  if inDeviceObjectID ≠ ObjectID.Device.toAudioObjectID then (kAudioHardwareBadObjectError, s, out)
  else
    let hostTicksPerRingBuffer : F :=
      fl (s.m_hostTicksPerFrame * fl (ofUInt64 cfg.ring_buffer_size))
    let hostTickOffset : F :=
      fl (fl (ofUInt64 (u64 (s.m_numberTimeStamps + 1))) * hostTicksPerRingBuffer)
    let nextHostTime : Nat := u64 (s.m_anchorHostTime + toUInt64 hostTickOffset)
    let m_numberTimeStamps : Nat :=
      if nextHostTime ≤ currentHostTime then u64 (s.m_numberTimeStamps + 1)
      else s.m_numberTimeStamps
    (kAudioHardwareNoError,
      { s with m_numberTimeStamps := m_numberTimeStamps },
      { outSampleTime := fl (ofUInt64 (u64 (m_numberTimeStamps * cfg.ring_buffer_size)))
        outHostTime :=
          toUInt64 (fl (fl (ofUInt64 s.m_anchorHostTime)
            + fl (fl (ofUInt64 m_numberTimeStamps) * hostTicksPerRingBuffer)))
        outSeed := 1 })

end Driver

/-! ## Calls on the device in sequence -/

/-- A call of `StartIO` (with the host time it reads), of `StopIO` or of `DoIOOperation` on the
device. -/
inductive DeviceCall (F : Type)
  | start (inClientID now : Nat)
  | stop (inClientID : Nat)
  | transfer (inStreamObjectID : AudioObjectID) (inClientID : Nat)
      (inOperationID : IOOperationID) (inIOBufferFrameSize : Nat)
      (inIOCycleInfo : AudioServerPlugInIOCycleInfo F) (ioMainBuffer : List F)

namespace Driver

variable {F : Type} [LinearOrderedField F] [FloorRing F]

/-- May the call be made in state `s`? `DoIOOperation` is only called while I/O is running, for
at most as many frames as the ring buffer holds. -/
def admissible (cfg : Config F) (s : DriverState F) : DeviceCall F → Bool
  | .start _ _ => true
  | .stop _ => true
  | .transfer _ _ _ inIOBufferFrameSize _ _ =>
    decide (s.m_ioRunning > 0) && decide (inIOBufferFrameSize ≤ cfg.ring_buffer_frame_size)

/-- The driver state after one call on the device. -/
def callDevice (cfg : Config F) (s : DriverState F) : DeviceCall F → DriverState F
  | .start inClientID now => (StartIOImpl cfg s ObjectID.Device.toAudioObjectID inClientID now).2
  | .stop inClientID => (StopIOImpl s ObjectID.Device.toAudioObjectID inClientID).2
  | .transfer inStreamObjectID inClientID inOperationID inIOBufferFrameSize inIOCycleInfo
      ioMainBuffer =>
    (DoIOOperationImpl cfg s ObjectID.Device.toAudioObjectID inStreamObjectID inClientID
      inOperationID inIOBufferFrameSize inIOCycleInfo ioMainBuffer).2.1

/-- The calls are made one after the other: the final driver state, or `none` when one of the
calls may not be made in the state it meets. -/
def runDeviceCalls (cfg : Config F) : DriverState F → List (DeviceCall F) →
    Option (DriverState F)
  | s, [] => some s
  | s, call :: rest =>
    if admissible cfg s call then runDeviceCalls cfg (callDevice cfg s call) rest else none

end Driver

/-- The samples a call hands to the driver for writing: the buffer of a `DoIOOperation` with
the operation `WriteMix`, nothing for any other call. -/
def DeviceCall.written {F : Type} : DeviceCall F → List F
  | .transfer _ _ IOOperationID.kAudioServerPlugInIOOperationWriteMix _ _ ioMainBuffer =>
    ioMainBuffer
  | _ => []

/-- The samples handed to the driver for writing by a sequence of calls. -/
def DeviceCall.writtenSamples {F : Type} (calls : List (DeviceCall F)) : List F :=
  calls.foldr (fun call acc => call.written ++ acc) []

/-! ## Further worked examples -/

/-- The example driver with I/O running and ten host ticks per frame. -/
def exampleClockState : DriverState ℚ :=
  { exampleRunningState with m_hostTicksPerFrame := 10 }

/-- The example driver with I/O running, the samples 1 to 8 in the ring buffer and the last
output at sample time 100. -/
def exampleFilledState : DriverState ℚ :=
  { exampleRunningState with
    m_ringBuffer := some [1, 2, 3, 4, 5, 6, 7, 8]
    m_lastOutputSampleTime := 100
    m_isBufferClear := false }

/-- A `StartIO` followed by a `WriteMix` of one frame of ones at sample time 0. -/
def exampleWriteCalls : List (DeviceCall ℚ) :=
  [ .start 0 1000,
    .transfer ObjectID.StreamOutput.toAudioObjectID 0
      IOOperationID.kAudioServerPlugInIOOperationWriteMix 1 ⟨⟨0⟩, ⟨0⟩⟩ [1, 1] ]

/-- The example driver after `exampleWriteCalls`. -/
def exampleWrittenState : DriverState ℚ :=
  { (Driver.StartIOImpl exampleConfig (DriverState.initial exampleConfig)
      ObjectID.Device.toAudioObjectID 0 1000).2 with
    m_ringBuffer := some [1, 1, 0, 0, 0, 0, 0, 0]
    m_isBufferClear := false }

/-! ## A configuration for the gain -/

/-- A mathematics library over the rationals whose `pow` is exact at integral exponents (the
exponent is rounded down to an integer); `log10` and `sqrtf` are stand-ins, which the `set`
operations on the gain do not call. -/
def examplePowerLib : MathLib ℚ where
  log10 := fun x => x
  pow := fun b y => b ^ ⌊y⌋
  sqrtf := fun x => x

/-- The example configuration with a gain range of -100 dB to 0 dB, whose minimum amplitude
`1 / 100000` is `10 ^ (-100 / 20)`. -/
def exampleGainConfig : Config ℚ :=
  { exampleConfig with volume_min_db := -100 }

/-! ## The list properties as the specification states them -/

/-- The outcome the specification states for `get` on a list property whose full list is
`full` and whose items take `itemSize` bytes each, for a capacity of `capacity` bytes: success,
the first `k = min (capacity / itemSize) (number of items)` items of the list stored in order,
and `k * itemSize` bytes reported. -/
def specListGet {F α : Type} (wrap : List α → PropertyValue F) (itemSize : Nat) (full : List α)
    (capacity : Nat) : GetResult F :=
  ⟨kAudioHardwareNoError, min (capacity / itemSize) full.length * itemSize,
    some (wrap (full.take (min (capacity / itemSize) full.length)))⟩

/-! ## The gain of the volume controls as a `Float32` value that may be NaN -/

/-! The embedding above takes floating-point values as numbers. The members that set the gain
are given here on floating-point values that may be NaN, on a driver state whose
floating-point members may be NaN; on numbers they agree with the members above. -/

section FloatingPointValues

open Selector Scope mts.core

namespace IEEE

/-- A `Float32` value of the sources: a number, or NaN. (Infinities are not modelled.) -/
inductive Value (F : Type)
  | num (x : F)
  | nan
  deriving DecidableEq, Repr

namespace Value

variable {F : Type} [LinearOrderedField F]

/-- The operator `<` on floating-point values: false when an operand is NaN. -/
def lt : Value F → Value F → Bool
  | num a, num b => decide (a < b)
  | _, _ => false

/-- The operator `==` on floating-point values: false when an operand is NaN. -/
def eq : Value F → Value F → Bool
  | num a, num b => decide (a = b)
  | _, _ => false

/-- An arithmetic operation on floating-point values: NaN when an operand is NaN. -/
def lift2 (f : F → F → F) : Value F → Value F → Value F
  | num a, num b => num (f a b)
  | _, _ => nan

end Value

variable {F : Type} [LinearOrderedField F]

/-- The template `clamp` of `util.h` on floating-point values: both comparisons are false for
a NaN `d`, which is returned. -/
def clamp (d min max : Value F) : Value F :=
  let t := if Value.lt d min then min else d
  if Value.lt max t then max else t

/-- The two-argument case of the template `max` of `util.h` on floating-point values:
`v2 > v1 ? v2 : v1`. -/
def max (v1 v2 : Value F) : Value F :=
  if Value.lt v1 v2 then v2 else v1

/-- The template `decibel_to_amplitude` on floating-point values; `pow` of the C library
returns NaN for a NaN exponent (the base is 10). -/
def decibel_to_amplitude (m : MathLib F) (db : Value F) : Value F :=
  Value.lift2 m.pow (Value.num 10) (Value.lift2 (fun a b => a / b) db (Value.num 20))

/-- The template `normalized_value_to_amplitude` on floating-point values. -/
def normalized_value_to_amplitude (m : MathLib F) (value minDB maxDB : Value F) : Value F :=
  let db := Value.lift2 (fun a b => a + b) minDB
    (Value.lift2 (fun a b => a * b) (clamp value (Value.num 0) (Value.num 1))
      (Value.lift2 (fun a b => a - b) maxDB minDB))
  decibel_to_amplitude m db

namespace MasterVolume

/-- The member `MasterVolume::set_volume_normalized` on floating-point values:
`getMasterVolume() == volume` is the operator `==`, false for a NaN. -/
def set_volume_normalized (cfg : Config F) (m : MathLib F) (s : DriverState (Value F))
    (value : Value F) : Bool × DriverState (Value F) :=
  let volume := normalized_value_to_amplitude m value (Value.num cfg.volume_min_db)
    (Value.num cfg.volume_max_db)
  if Value.eq s.m_volumeMasterValue volume then (false, s)
  else (true, { s with m_volumeMasterValue := volume })

/-- The member `MasterVolume::set_volume_decibel` on floating-point values. -/
def set_volume_decibel (cfg : Config F) (m : MathLib F) (s : DriverState (Value F))
    (db : Value F) : Bool × DriverState (Value F) :=
  let volume := IEEE.max (decibel_to_amplitude m db) (Value.num cfg.volume_min_amplitude)
  if Value.eq s.m_volumeMasterValue volume then (false, s)
  else (true, { s with m_volumeMasterValue := volume })

end MasterVolume

/-- The member `volume_control::set` on floating-point values. -/
def volume_control.set (cfg : Config F) (m : MathLib F) (_self : mts.core.volume_control)
    (s : DriverState (Value F)) (inAddress : Address) (_inQualifierDataSize : Nat)
    (_inQualifierData : Option CFStringRef) (inDataSize : Nat) (inData : Blob (Value F))
    (outNumberPropertiesChanged : Nat) : SetResult (Value F) :=
  match inAddress.mSelector with
  | kAudioLevelControlPropertyScalarValue =>
    if inDataSize < sizeof_Float32 then
      ⟨kAudioHardwareBadPropertySizeError, s, outNumberPropertiesChanged, [], []⟩
    else
      let r := MasterVolume.set_volume_normalized cfg m s inData.asFloat32
      if r.1 then
        ⟨kAudioHardwareNoError, r.2, 2,
          [changedAddress kAudioLevelControlPropertyScalarValue,
           changedAddress kAudioLevelControlPropertyDecibelValue], []⟩
      else ⟨kAudioHardwareNoError, r.2, outNumberPropertiesChanged, [], []⟩
  | kAudioLevelControlPropertyDecibelValue =>
    if inDataSize < sizeof_Float32 then
      ⟨kAudioHardwareBadPropertySizeError, s, outNumberPropertiesChanged, [], []⟩
    else
      let r := MasterVolume.set_volume_decibel cfg m s inData.asFloat32
      if r.1 then
        ⟨kAudioHardwareNoError, r.2, 2,
          [changedAddress kAudioLevelControlPropertyScalarValue,
           changedAddress kAudioLevelControlPropertyDecibelValue], []⟩
      else ⟨kAudioHardwareNoError, r.2, outNumberPropertiesChanged, [], []⟩
  | _ => ⟨kAudioHardwareUnknownPropertyError, s, outNumberPropertiesChanged, [], []⟩

/-- A stream description over numbers as one over floating-point values. -/
def ofDescription (d : AudioStreamBasicDescription F) : AudioStreamBasicDescription (Value F) :=
  { mSampleRate := Value.num d.mSampleRate
    mFormatID := d.mFormatID
    mFormatFlags := d.mFormatFlags
    mBytesPerPacket := d.mBytesPerPacket
    mFramesPerPacket := d.mFramesPerPacket
    mBytesPerFrame := d.mBytesPerFrame
    mChannelsPerFrame := d.mChannelsPerFrame
    mBitsPerChannel := d.mBitsPerChannel }

/-- A buffer of numbers as a buffer of floating-point values, none of them NaN. -/
def ofBlob (b : Blob F) : Blob (Value F) :=
  { asUInt32 := b.asUInt32
    asFloat32 := Value.num b.asFloat32
    asFloat64 := Value.num b.asFloat64
    asCFStringRef := b.asCFStringRef
    asAudioStreamBasicDescription := ofDescription b.asAudioStreamBasicDescription }

/-- A driver state over numbers as a driver state over floating-point values, none of them
NaN. -/
def ofState (s : DriverState F) : DriverState (Value F) :=
  { m_refCount := s.m_refCount
    m_boxName := s.m_boxName
    m_isBoxAcquired := s.m_isBoxAcquired
    m_sampleRate := Value.num s.m_sampleRate
    m_ioRunning := s.m_ioRunning
    m_hostTicksPerFrame := Value.num s.m_hostTicksPerFrame
    m_numberTimeStamps := s.m_numberTimeStamps
    m_anchorSampleTime := Value.num s.m_anchorSampleTime
    m_anchorHostTime := s.m_anchorHostTime
    m_streamInputActive := s.m_streamInputActive
    m_streamOutputActive := s.m_streamOutputActive
    m_volumeMasterValue := Value.num s.m_volumeMasterValue
    m_muteMasterValue := s.m_muteMasterValue
    m_ringBuffer := s.m_ringBuffer.map (List.map Value.num)
    m_lastOutputSampleTime := Value.num s.m_lastOutputSampleTime
    m_isBufferClear := s.m_isBufferClear }

/-- The outcome of a `set` over numbers as an outcome over floating-point values. -/
def ofResult (r : SetResult F) : SetResult (Value F) :=
  ⟨r.status, ofState r.state, r.outNumberPropertiesChanged, r.outChangedAddresses, r.hostCalls⟩

end IEEE

end FloatingPointValues

/-! ## The zero time stamp as the specification states it -/

/-- The arguments of one `mts::dsp::copy` call of `DoIOOperationImpl`: the offset added to the
ring-buffer pointer, the offset added to the caller's buffer pointer and the number of samples
copied. The call touches the positions `offset + j`, `j < size`, of either array. -/
structure TransferPart where
  ringOffset : Nat
  bufferOffset : Nat
  size : Nat
  deriving DecidableEq, Repr

namespace Driver

/-- The two `mts::dsp::copy` calls of `DoIOOperationImpl` for the sample time `mSampleTime`
and `inIOBufferFrameSize` frames; the read path and the write path pass the same offsets and
sizes, with source and destination exchanged. -/
def transferParts {F : Type} [LinearOrderedField F] [FloorRing F] (cfg : Config F) (mSampleTime : Nat)
    (inIOBufferFrameSize : Nat) : TransferPart × TransferPart :=
  let start := ringBufferFrameLocationStart cfg mSampleTime
  let first := firstPartFrameSize cfg start inIOBufferFrameSize
  let second := secondPartFrameSize cfg start inIOBufferFrameSize
  (⟨u32 (start * cfg.channel_count), 0, u32 (first * cfg.channel_count)⟩,
    ⟨0, u32 (first * cfg.channel_count), u32 (second * cfg.channel_count)⟩)

end Driver

/-! ## The filling loops of `device.h`, step by step -/

namespace mts.core

/-- What a filling loop has done so far: the indices at which it read `objectsDescription`
and the stores `objs[k] = id` it made, each in the order of execution. -/
structure FillTrace where
  reads : List Nat
  writes : List (Nat × AudioObjectID)
  deriving DecidableEq, Repr

/-- How a run of a filling loop ends: the loop condition became false (`done`), the loop
read `objectsDescription[i]` with `i` at or beyond the length of the array (`outOfBounds`),
or the fuel was used up with the loop condition still true (`outOfFuel`). -/
inductive FillOutcome
  | done (t : FillTrace)
  | outOfBounds (t : FillTrace) (i : Nat)
  | outOfFuel (t : FillTrace)
  deriving DecidableEq, Repr

/-- The loop `for (UInt32 i = 0, k = 0; k < itemCount; i++) if (p(d[i])) { objs[k] = d[i].id;
k++; }` from the loop variables `i` and `k`, for at most `fuel` iterations. -/
def fillLoop (p : mts.object_description → Bool) (descs : List mts.object_description)
    (itemCount : Nat) : Nat → Nat → Nat → FillTrace → FillOutcome
  | fuel, i, k, t =>
    if k < itemCount then
      match fuel with
      | 0 => .outOfFuel t
      | fuel + 1 =>
        match descs[i]? with
        | none => .outOfBounds t i
        | some o =>
          if p o then
            fillLoop p descs itemCount fuel (u32 (i + 1)) (u32 (k + 1))
              ⟨t.reads ++ [i], t.writes ++ [(k, o.id)]⟩
          else fillLoop p descs itemCount fuel (u32 (i + 1)) k ⟨t.reads ++ [i], t.writes⟩
    else .done t

/-- The filtered list members of `device` run step by step: the outcome of the loop and the
returned count. -/
def device.run_filtered_list (p : mts.object_description → Bool) (listSize itemCount : Nat)
    (fuel : Nat) : FillOutcome × Nat :=
  let itemCount := mts.min itemCount listSize
  (fillLoop p Device.objectsDescription itemCount fuel 0 0 ⟨[], []⟩, itemCount)

end mts.core

/-! ## A mathematics library for the decibel scale -/

/-- A mathematics library over the rationals that is exact at the powers of ten with an
integral exponent: `pow` rounds the exponent down to an integer and `log10` is the integer
part of the logarithm to the base 10. `sqrtf` is a stand-in. -/
def exampleDecibelLib : MathLib ℚ where
  log10 := fun x => ((Int.log 10 x : ℤ) : ℚ)
  pow := fun b y => b ^ ⌊y⌋
  sqrtf := fun x => x

/-! # Theorems -/

section Theorems

open OSStatus Selector Scope mts.core

variable {F : Type}

/-! ## Auxiliary facts -/

theorem u32_of_lt (n : Nat) (h : n < 2 ^ 32) : u32 n = n :=
  Nat.mod_eq_of_lt h

theorem sub32_of_le (a b : Nat) (ha : a < 2 ^ 32) (hb : b ≤ a) : sub32 a b = a - b := by
  unfold sub32 u32
  rw [Nat.mod_eq_of_lt ha, Nat.mod_eq_of_lt (by omega : b < 2 ^ 32)]
  omega

theorem is_power_of_two_exists (v : Nat) (h : mts.is_power_of_two v ≠ 0) : ∃ k, v = 2 ^ k := by
  have h' : v ≠ 0 ∧ v &&& (v - 1) = 0 := by
    unfold mts.is_power_of_two at h
    by_contra hc
    apply h
    rw [if_neg]
    intro ⟨h1, h2⟩
    exact hc ⟨h1, by simpa using h2⟩
  clear h
  induction v using Nat.strong_induction_on with
  | _ v ih =>
    obtain ⟨hv, hand⟩ := h'
    have hdiv : v / 2 &&& (v - 1) / 2 = 0 := by
      rw [← Nat.and_div_two, hand]
    rcases Nat.even_or_odd v with ⟨w, hw⟩ | ⟨w, hw⟩
    · have hwpos : w ≠ 0 := by omega
      have e1 : v / 2 = w := by omega
      have e2 : (v - 1) / 2 = w - 1 := by omega
      rw [e1, e2] at hdiv
      obtain ⟨k, hk⟩ := ih w (by omega) ⟨hwpos, hdiv⟩
      exact ⟨k + 1, by rw [pow_succ]; omega⟩
    · have e1 : v / 2 = w := by omega
      have e2 : (v - 1) / 2 = w := by omega
      rw [e1, e2, Nat.and_self] at hdiv
      exact ⟨0, by omega⟩

theorem and_mask_eq_mod (t C : Nat) (h : mts.is_power_of_two C ≠ 0) :
    t &&& (C - 1) = t % C := by
  obtain ⟨k, rfl⟩ := is_power_of_two_exists C h
  exact Nat.and_pow_two_sub_one_eq_mod t k

theorem toUInt64_natCast [LinearOrderedField F] [FloorRing F] (t : Nat) (ht : t < 2 ^ 64) :
    toUInt64 (t : F) = t := by
  have h : t % 2 ^ 64 = t := Nat.mod_eq_of_lt ht
  simpa [toUInt64, u64] using h

theorem fits_UInt32_iff [LinearOrderedField F] [FloorRing F] (cfg : Config F) :
    cfg.fits_UInt32 = true ↔
      cfg.ring_buffer_size < 2 ^ 32 ∧ cfg.ring_buffer_frame_size < 2 ^ 32 ∧
      cfg.channel_count < 2 ^ 32 ∧
      cfg.ring_buffer_frame_size * cfg.channel_count < 2 ^ 32 ∧
      cfg.supported_sample_rates_count * sizeof_AudioStreamRangedDescription < 2 ^ 32 := by
  simp [Config.fits_UInt32, and_assoc]

theorem static_assertions_frame_size [LinearOrderedField F] [FloorRing F] (cfg : Config F)
    (h : cfg.static_assertions = true) :
    mts.is_power_of_two cfg.ring_buffer_frame_size ≠ 0 := by
  simp [Config.static_assertions] at h
  exact h.1.1.2

theorem static_assertions_integers [LinearOrderedField F] [FloorRing F] (cfg : Config F)
    (h : cfg.static_assertions = true) (sr : F) (hsr : sr ∈ cfg.supported_sample_rates) :
    ofUInt64 (toUInt64 sr) = sr := by
  simp [Config.static_assertions, Config.is_all_sample_rate_integers] at h
  exact h.2 sr hsr

theorem exampleConfig_static_assertions : exampleConfig.static_assertions = true := by
  simp [Config.static_assertions, exampleConfig, Config.is_default_sample_rate_supported,
    Config.is_supported_sample_rate, Config.is_all_sample_rate_integers, toUInt64, ofUInt64,
    u64, mts.is_power_of_two]
  decide

theorem exampleConfig_fits_UInt32 : exampleConfig.fits_UInt32 = true := by
  simp [Config.fits_UInt32, exampleConfig, Config.supported_sample_rates_count,
    sizeof_AudioStreamRangedDescription]

/-! ### The sample operations, position by position -/

theorem dsp_clear_length [LinearOrderedField F] (buffer : List F) (size : Nat) :
    (mts.dsp.clear buffer size).length = buffer.length := by
  simp [mts.dsp.clear]

theorem dsp_clear_getElem? [LinearOrderedField F] (buffer : List F) (size j : Nat)
    (hj : j < buffer.length) :
    (mts.dsp.clear buffer size)[j]? = some (if j < size then 0 else buffer.getD j 0) := by
  simp [mts.dsp.clear, List.getElem?_map, List.getElem?_range hj]

theorem dsp_copy_length [LinearOrderedField F] (src : List F) (so : Nat) (dst : List F)
    (d size : Nat) : (mts.dsp.copy src so dst d size).length = dst.length := by
  simp [mts.dsp.copy]

theorem dsp_copy_getElem? [LinearOrderedField F] (src : List F) (so : Nat) (dst : List F)
    (d size j : Nat) (hj : j < dst.length) :
    (mts.dsp.copy src so dst d size)[j]? =
      some (if d ≤ j ∧ j < d + size then src.getD (so + (j - d)) 0 else dst.getD j 0) := by
  simp [mts.dsp.copy, List.getElem?_map, List.getElem?_range hj]

theorem dsp_copy_getD [LinearOrderedField F] (src : List F) (so : Nat) (dst : List F)
    (d size j : Nat) (hj : j < dst.length) :
    (mts.dsp.copy src so dst d size).getD j 0 =
      if d ≤ j ∧ j < d + size then src.getD (so + (j - d)) 0 else dst.getD j 0 := by
  rw [List.getD_eq_getElem?_getD, dsp_copy_getElem? _ _ _ _ _ _ hj]
  rfl

theorem dsp_mul_length [LinearOrderedField F] (buffer : List F) (value : F) (size : Nat) :
    (mts.dsp.mul buffer value size).length = buffer.length := by
  simp [mts.dsp.mul]

theorem dsp_mul_getElem? [LinearOrderedField F] (buffer : List F) (value : F) (size j : Nat)
    (hj : j < buffer.length) :
    (mts.dsp.mul buffer value size)[j]? =
      some (if j < size then buffer.getD j 0 * value else buffer.getD j 0) := by
  simp [mts.dsp.mul, List.getElem?_map, List.getElem?_range hj]

/-! ### `size` and `get` of each object class -/

theorem plugin_size_get (cfg : Config F) (self : plugin) (s : DriverState F) (a : Address)
    (qsz : Nat) (qd : Option CFStringRef) (n0 m0 n : Nat)
    (hqual : a.mSelector = kAudioPlugInPropertyTranslateUIDToBox ∨
      a.mSelector = kAudioPlugInPropertyTranslateUIDToDevice →
        qsz = sizeof_CFStringRef ∧ qd ≠ none)
    (hsize : self.size s a qsz qd n0 = ⟨kAudioHardwareNoError, n⟩) :
    (self.get cfg s a qsz qd n m0).status = kAudioHardwareNoError ∧
      (self.get cfg s a qsz qd n m0).outDataSize = n := by
  obtain ⟨sel, sc, el⟩ := a
  cases sel <;> simp [plugin.size] at hsize <;> subst hsize <;>
    simp [plugin.get, sizeof_AudioClassID, sizeof_AudioObjectID, sizeof_CFStringRef,
      Plugin.get_object_list_size, Plugin.get_object_list, Plugin.get_box_list_size,
      Plugin.get_box_list, Plugin.get_device_list_size, Plugin.get_device_list, u32] at *
  all_goals first
    | (cases s.m_isBoxAcquired <;> simp)
    | (obtain ⟨h1, h2⟩ := hqual; subst h1; cases qd <;> simp_all)

theorem box_size_get (cfg : Config F) (self : box) (s : DriverState F) (a : Address)
    (qsz : Nat) (qd : Option CFStringRef) (n0 m0 n : Nat)
    (hsize : self.size a qsz qd n0 = ⟨kAudioHardwareNoError, n⟩) :
    (self.get cfg s a qsz qd n m0).status = kAudioHardwareNoError ∧
      (self.get cfg s a qsz qd n m0).outDataSize = n := by
  obtain ⟨sel, sc, el⟩ := a
  cases sel <;> simp [box.size] at hsize <;> subst hsize <;>
    simp [box.get, checkedAssign, sizeof_AudioClassID, sizeof_AudioObjectID, sizeof_CFStringRef,
      sizeof_UInt32, Box.get_device_list_count, Box.get_device_list, u32]

theorem mute_control_size_get (self : mute_control) (s : DriverState F) (a : Address)
    (qsz : Nat) (qd : Option CFStringRef) (n0 m0 n : Nat)
    (hsize : self.size a qsz qd n0 = ⟨kAudioHardwareNoError, n⟩) :
    (self.get s a qsz qd n m0).status = kAudioHardwareNoError ∧
      (self.get s a qsz qd n m0).outDataSize = n := by
  obtain ⟨sel, sc, el⟩ := a
  cases sel <;> simp [mute_control.size] at hsize <;> subst hsize <;>
    simp [mute_control.get, checkedAssign, sizeof_AudioClassID, sizeof_AudioObjectID,
      sizeof_UInt32, sizeof_AudioObjectPropertyScope, sizeof_AudioObjectPropertyElement]

theorem volume_control_size_get [LinearOrderedField F] (cfg : Config F) (m : MathLib F)
    (self : volume_control) (s : DriverState F) (a : Address) (qsz : Nat)
    (qd : Option CFStringRef) (n0 m0 n : Nat) (d : Blob F)
    (hsize : self.size a qsz qd n0 = ⟨kAudioHardwareNoError, n⟩) :
    (self.get cfg m s a qsz qd n m0 d).status = kAudioHardwareNoError ∧
      (self.get cfg m s a qsz qd n m0 d).outDataSize = n := by
  obtain ⟨sel, sc, el⟩ := a
  cases sel <;> simp [volume_control.size] at hsize <;> subst hsize <;>
    simp [volume_control.get, checkedAssign, sizeof_AudioClassID, sizeof_AudioObjectID,
      sizeof_Float32, sizeof_AudioValueRange, sizeof_AudioObjectPropertyScope,
      sizeof_AudioObjectPropertyElement]

theorem stream_size_get [LinearOrderedField F] [FloorRing F] (cfg : Config F) (self : stream)
    (s : DriverState F) (a : Address) (qsz : Nat) (qd : Option CFStringRef) (n0 m0 n : Nat)
    (hfit : cfg.supported_sample_rates_count * sizeof_AudioStreamRangedDescription < 2 ^ 32)
    (hsize : self.size cfg a qsz qd n0 = ⟨kAudioHardwareNoError, n⟩) :
    (self.get cfg s a qsz qd n m0).status = kAudioHardwareNoError ∧
      (self.get cfg s a qsz qd n m0).outDataSize = n := by
  obtain ⟨sel, sc, el⟩ := a
  have hmod : u32 (cfg.supported_sample_rates_count * sizeof_AudioStreamRangedDescription)
      = cfg.supported_sample_rates_count * sizeof_AudioStreamRangedDescription :=
    Nat.mod_eq_of_lt hfit
  cases sel <;> simp [stream.size] at hsize <;> subst hsize <;>
    simp [stream.get, checkedAssign, sizeof_AudioClassID, sizeof_AudioObjectID,
      sizeof_UInt32, sizeof_AudioStreamBasicDescription]
  all_goals
    rw [hmod]
    simpa [sizeof_AudioStreamRangedDescription, mts.min] using hmod

theorem device_list_sizes :
    device.get_global_object_list_size = 6 ∧ device.get_input_object_list_size = 3 ∧
    device.get_output_object_list_size = 3 ∧ device.get_global_stream_list_size = 2 ∧
    device.get_input_stream_list_size = 1 ∧ device.get_output_stream_list_size = 1 ∧
    device.get_control_list_size = 4 := by
  decide

theorem device_size_get [LinearOrderedField F] [FloorRing F] (cfg : Config F)
    (env : Environment) (self : device) (s : DriverState F) (a : Address) (qsz : Nat)
    (qd : Option CFStringRef) (n0 m0 n : Nat)
    (hfit : cfg.supported_sample_rates_count * sizeof_AudioStreamRangedDescription < 2 ^ 32)
    (hicon : a.mSelector = kAudioDevicePropertyIcon →
      env.bundleFound = true ∧ env.iconURL ≠ none)
    (hscope : a.mSelector = kAudioObjectPropertyOwnedObjects ∨
      a.mSelector = kAudioDevicePropertyStreams →
        a.mScope = kAudioObjectPropertyScopeGlobal ∨ a.mScope = kAudioObjectPropertyScopeInput ∨
          a.mScope = kAudioObjectPropertyScopeOutput)
    (hsize : self.size cfg a qsz qd n0 = ⟨kAudioHardwareNoError, n⟩) :
    (self.get cfg env s a qsz qd n m0).status = kAudioHardwareNoError ∧
      (self.get cfg env s a qsz qd n m0).outDataSize = n := by
  obtain ⟨sel, sc, el⟩ := a
  obtain ⟨h1, h2, h3, h4, h5, h6, h7⟩ := device_list_sizes
  have hrates : cfg.supported_sample_rates_count * 16 % 4294967296
      = cfg.supported_sample_rates_count * 16 := by
    apply Nat.mod_eq_of_lt
    simp [sizeof_AudioStreamRangedDescription] at hfit
    omega
  cases sel <;> simp [device.size] at hsize
  case kAudioObjectPropertyOwnedObjects =>
    simp at hscope
    rcases hscope with h | h | h <;> subst h <;> simp at hsize <;> subst hsize <;>
      simp [device.get, device.get_global_object_list, device.get_input_object_list,
        device.get_output_object_list, device.get_filtered_list, mts.min, u32,
        sizeof_AudioObjectID, h1, h2, h3]
  case kAudioDevicePropertyStreams =>
    simp at hscope
    rcases hscope with h | h | h <;> subst h <;> simp at hsize <;> subst hsize <;>
      simp [device.get, device.get_global_stream_list, device.get_input_stream_list,
        device.get_output_stream_list, device.get_filtered_list, mts.min, u32,
        sizeof_AudioObjectID, h4, h5, h6]
  case kAudioDevicePropertyIcon =>
    subst hsize
    obtain ⟨hb, hu⟩ := hicon rfl
    cases hurl : env.iconURL with
    | none => exact absurd hurl hu
    | some u => simp [device.get, sizeof_CFURLRef, hb, hurl]
  all_goals
    subst hsize
    simp [device.get, checkedAssign, sizeof_AudioClassID, sizeof_AudioObjectID,
      sizeof_CFStringRef, sizeof_UInt32, sizeof_Float64, sizeof_AudioValueRange,
      device.get_control_list, device.get_filtered_list, mts.min, u32, h7,
      Device.get_sample_rate_count, Device.get_sample_rates, hrates]

/-! ## C1: `size` followed by `get` -/

/-- C1, as stated, fails. (1) The plug-in's translate-UID-to-box property exists and `size`
reports 4 bytes for any qualifier, but `get` with capacity 4 and an empty qualifier returns the
bad-property-size status. (2) The device's icon property exists and `size` reports 8 bytes, but
`get` with capacity 8 returns the unspecified-error status when the bundle is not found.
(3) For the device's owned-objects property in a scope other than global, input and output,
`size` returns success without storing a byte count (here the caller's 3 stays), and `get`
with capacity 3 reports 0 bytes. -/
theorem C1_size_then_get_counterexample :
    (Driver.HasPropertyImpl ObjectID.Plugin.toAudioObjectID
        (some ⟨kAudioPlugInPropertyTranslateUIDToBox, kAudioObjectPropertyScopeGlobal, 0⟩) = true ∧
      Driver.GetPropertyDataSizeImpl exampleConfig (DriverState.initial exampleConfig)
        ObjectID.Plugin.toAudioObjectID
        (some ⟨kAudioPlugInPropertyTranslateUIDToBox, kAudioObjectPropertyScopeGlobal, 0⟩)
        0 none (some 0) = ⟨kAudioHardwareNoError, 4⟩ ∧
      (Driver.GetPropertyDataImpl exampleConfig exampleMathLib exampleEnvironment
        (DriverState.initial exampleConfig) ObjectID.Plugin.toAudioObjectID
        (some ⟨kAudioPlugInPropertyTranslateUIDToBox, kAudioObjectPropertyScopeGlobal, 0⟩)
        0 none 4 (some 0) (some exampleBlob)).status = kAudioHardwareBadPropertySizeError) ∧
    (Driver.HasPropertyImpl ObjectID.Device.toAudioObjectID
        (some ⟨kAudioDevicePropertyIcon, kAudioObjectPropertyScopeGlobal, 0⟩) = true ∧
      Driver.GetPropertyDataSizeImpl exampleConfig (DriverState.initial exampleConfig)
        ObjectID.Device.toAudioObjectID
        (some ⟨kAudioDevicePropertyIcon, kAudioObjectPropertyScopeGlobal, 0⟩)
        0 none (some 0) = ⟨kAudioHardwareNoError, 8⟩ ∧
      (Driver.GetPropertyDataImpl exampleConfig exampleMathLib exampleEnvironmentNoBundle
        (DriverState.initial exampleConfig) ObjectID.Device.toAudioObjectID
        (some ⟨kAudioDevicePropertyIcon, kAudioObjectPropertyScopeGlobal, 0⟩)
        0 none 8 (some 0) (some exampleBlob)).status = kAudioHardwareUnspecifiedError) ∧
    (Driver.HasPropertyImpl ObjectID.Device.toAudioObjectID
        (some ⟨kAudioObjectPropertyOwnedObjects, Scope.other 0x70747275, 0⟩) = true ∧
      Driver.GetPropertyDataSizeImpl exampleConfig (DriverState.initial exampleConfig)
        ObjectID.Device.toAudioObjectID
        (some ⟨kAudioObjectPropertyOwnedObjects, Scope.other 0x70747275, 0⟩)
        0 none (some 3) = ⟨kAudioHardwareNoError, 3⟩ ∧
      (Driver.GetPropertyDataImpl exampleConfig exampleMathLib exampleEnvironment
        (DriverState.initial exampleConfig) ObjectID.Device.toAudioObjectID
        (some ⟨kAudioObjectPropertyOwnedObjects, Scope.other 0x70747275, 0⟩)
        0 none 3 (some 0) (some exampleBlob)).outDataSize = 0) := by
  refine ⟨⟨?_, ?_, ?_⟩, ⟨?_, ?_, ?_⟩, ⟨?_, ?_, ?_⟩⟩ <;> rfl

/-- C1, amended. For every identifier of the registry, every property address, every driver
state and every qualifier: if `size` returns success with byte count `n`, then `get` in the
same state with the same qualifier and capacity exactly `n` returns success and reports byte
count `n`, provided that (a) for the plug-in's two translate-UID properties the qualifier is a
non-null reference of the size of a `CFStringRef`, (b) for the device's icon the bundle and the
icon resource are found, (c) the device's owned-objects and streams properties are asked in
the global, input or output scope, and (d) the byte size of the list of supported formats fits
a `UInt32`. This holds for every address, whether or not `exists` is true for it. -/
theorem C1_size_then_get [LinearOrderedField F] [FloorRing F] (cfg : Config F) (m : MathLib F)
    (env : Environment) (s : DriverState F) (oid : ObjectID) (a : Address) (qsz : Nat)
    (qd : Option CFStringRef) (n0 m0 n : Nat) (d : Blob F)
    (hfit : cfg.supported_sample_rates_count * sizeof_AudioStreamRangedDescription < 2 ^ 32)
    (hqual : a.mSelector = kAudioPlugInPropertyTranslateUIDToBox ∨
      a.mSelector = kAudioPlugInPropertyTranslateUIDToDevice →
        qsz = sizeof_CFStringRef ∧ qd ≠ none)
    (hicon : a.mSelector = kAudioDevicePropertyIcon →
      env.bundleFound = true ∧ env.iconURL ≠ none)
    (hscope : oid = ObjectID.Device →
      a.mSelector = kAudioObjectPropertyOwnedObjects ∨
        a.mSelector = kAudioDevicePropertyStreams →
      a.mScope = kAudioObjectPropertyScopeGlobal ∨ a.mScope = kAudioObjectPropertyScopeInput ∨
        a.mScope = kAudioObjectPropertyScopeOutput)
    (hsize : Driver.GetPropertyDataSizeImpl cfg s oid.toAudioObjectID (some a) qsz qd (some n0)
      = ⟨kAudioHardwareNoError, n⟩) :
    (Driver.GetPropertyDataImpl cfg m env s oid.toAudioObjectID (some a) qsz qd n (some m0)
      (some d)).status = kAudioHardwareNoError ∧
    (Driver.GetPropertyDataImpl cfg m env s oid.toAudioObjectID (some a) qsz qd n (some m0)
      (some d)).outDataSize = n := by
  cases oid <;>
    simp only [Driver.GetPropertyDataSizeImpl, Driver.GetPropertyDataImpl, callObject,
      ObjectID.ofAudioObjectID, ObjectID.toAudioObjectID, kAudioObjectPlugInObject,
      Driver.objSize, Driver.objGet] at hsize ⊢ <;>
    simp at hsize ⊢
  · exact plugin_size_get cfg _ s a qsz qd n0 m0 n hqual hsize
  · exact box_size_get cfg _ s a qsz qd n0 m0 n hsize
  · exact device_size_get cfg env _ s a qsz qd n0 m0 n hfit hicon (hscope rfl) hsize
  · exact stream_size_get cfg _ s a qsz qd n0 m0 n hfit hsize
  · exact volume_control_size_get cfg m _ s a qsz qd n0 m0 n d hsize
  · exact mute_control_size_get _ s a qsz qd n0 m0 n hsize
  · exact stream_size_get cfg _ s a qsz qd n0 m0 n hfit hsize
  · exact volume_control_size_get cfg m _ s a qsz qd n0 m0 n d hsize
  · exact mute_control_size_get _ s a qsz qd n0 m0 n hsize

/-- C1, amended, at the nominal sample rate of the device in the example configuration. -/
theorem C1_size_then_get_witness :
    Driver.GetPropertyDataSizeImpl exampleConfig (DriverState.initial exampleConfig)
        ObjectID.Device.toAudioObjectID
        (some ⟨kAudioDevicePropertyNominalSampleRate, kAudioObjectPropertyScopeGlobal, 0⟩)
        0 none (some 0) = ⟨kAudioHardwareNoError, 8⟩ ∧
    (Driver.GetPropertyDataImpl exampleConfig exampleMathLib exampleEnvironment
        (DriverState.initial exampleConfig) ObjectID.Device.toAudioObjectID
        (some ⟨kAudioDevicePropertyNominalSampleRate, kAudioObjectPropertyScopeGlobal, 0⟩)
        0 none 8 (some 0) (some exampleBlob)).status = kAudioHardwareNoError ∧
    (Driver.GetPropertyDataImpl exampleConfig exampleMathLib exampleEnvironment
        (DriverState.initial exampleConfig) ObjectID.Device.toAudioObjectID
        (some ⟨kAudioDevicePropertyNominalSampleRate, kAudioObjectPropertyScopeGlobal, 0⟩)
        0 none 8 (some 0) (some exampleBlob)).outDataSize = 8 :=
  ⟨rfl,
    (C1_size_then_get exampleConfig exampleMathLib exampleEnvironment
      (DriverState.initial exampleConfig) ObjectID.Device
      ⟨kAudioDevicePropertyNominalSampleRate, kAudioObjectPropertyScopeGlobal, 0⟩ 0 none 0 0 8
      exampleBlob (by decide) (by simp) (by simp) (by simp) rfl)⟩

/-! ## The transfer routine -/

theorem frames_fit [LinearOrderedField F] [FloorRing F] (cfg : Config F) (n : Nat)
    (hfit : cfg.fits_UInt32 = true) (hn : n ≤ cfg.ring_buffer_frame_size) :
    u32 (n * cfg.channel_count) = n * cfg.channel_count := by
  obtain ⟨_, _, _, h, _⟩ := (fits_UInt32_iff cfg).mp hfit
  have : n * cfg.channel_count ≤ cfg.ring_buffer_frame_size * cfg.channel_count :=
    Nat.mul_le_mul_right _ hn
  exact Nat.mod_eq_of_lt (by omega)

theorem start_eq_mod [LinearOrderedField F] [FloorRing F] (cfg : Config F) (t : Nat)
    (hassert : cfg.static_assertions = true) (hfit : cfg.fits_UInt32 = true) :
    Driver.ringBufferFrameLocationStart cfg t = t % cfg.ring_buffer_frame_size := by
  obtain ⟨_, hC, _, _, _⟩ := (fits_UInt32_iff cfg).mp hfit
  have hp := static_assertions_frame_size cfg hassert
  obtain ⟨k, hk⟩ := is_power_of_two_exists _ hp
  have hpos : 0 < cfg.ring_buffer_frame_size := by rw [hk]; positivity
  unfold Driver.ringBufferFrameLocationStart Config.ring_buffer_frame_mask
  rw [and_mask_eq_mod _ _ hp]
  have := Nat.mod_lt t hpos
  exact Nat.mod_eq_of_lt (by omega)

/-- The two parts of a transfer of `n ≤ C` frames that starts at frame offset `p < C`: they
add up to `n`, the first ends within the ring and the second ends before the first begins. -/
theorem split_parts [LinearOrderedField F] [FloorRing F] (cfg : Config F) (p n : Nat)
    (hfit : cfg.fits_UInt32 = true) (hp : p < cfg.ring_buffer_frame_size)
    (hn : n ≤ cfg.ring_buffer_frame_size) :
    Driver.firstPartFrameSize cfg p n + Driver.secondPartFrameSize cfg p n = n ∧
    p + Driver.firstPartFrameSize cfg p n ≤ cfg.ring_buffer_frame_size ∧
    Driver.secondPartFrameSize cfg p n ≤ p := by
  obtain ⟨_, hC, _, _, _⟩ := (fits_UInt32_iff cfg).mp hfit
  have h1 : sub32 cfg.ring_buffer_frame_size p = cfg.ring_buffer_frame_size - p :=
    sub32_of_le _ _ hC (by omega)
  unfold Driver.firstPartFrameSize Driver.secondPartFrameSize
  simp only [h1]
  by_cases hge : cfg.ring_buffer_frame_size - p ≥ n
  · simp [hge]; omega
  · have h2 : sub32 n (cfg.ring_buffer_frame_size - p) = n - (cfg.ring_buffer_frame_size - p) :=
      sub32_of_le _ _ (by omega) (by omega)
    simp [hge, h2]; omega

/-- Writing `A + B = N` samples in two parts (at offset `P` and at offset zero) and reading
them back the same way returns the samples written, scaled by the gain. -/
theorem ring_round_trip [LinearOrderedField F] (ring wbuf rbuf : List F) (g : F)
    (P A B N j : Nat) (hAB : A + B = N) (hPA : P + A ≤ ring.length) (hBP : B ≤ P)
    (hj : j < N) (hr : j < rbuf.length) :
    (mts.dsp.mul
      (mts.dsp.copy (mts.dsp.copy wbuf A (mts.dsp.copy wbuf 0 ring P A) 0 B) 0
        (mts.dsp.copy (mts.dsp.copy wbuf A (mts.dsp.copy wbuf 0 ring P A) 0 B) P rbuf 0 A) A B)
      g N)[j]? = some (wbuf.getD j 0 * g) := by
  have hlen1 : (mts.dsp.copy wbuf 0 ring P A).length = ring.length := dsp_copy_length _ _ _ _ _
  rw [dsp_mul_getElem? _ _ _ _ (by simp [dsp_copy_length, hr]), if_pos hj]
  rw [dsp_copy_getD _ _ _ _ _ _ (by simp [dsp_copy_length, hr])]
  by_cases hjA : j < A
  · rw [if_neg (by omega), dsp_copy_getD _ _ _ _ _ _ hr, if_pos (by omega)]
    rw [dsp_copy_getD _ _ _ _ _ _ (by rw [hlen1]; omega), if_neg (by omega)]
    rw [dsp_copy_getD _ _ _ _ _ _ (by omega), if_pos (by omega)]
    rw [show 0 + (P + (j - 0) - P) = j by omega]
  · rw [if_pos (by omega)]
    rw [dsp_copy_getD _ _ _ _ _ _ (by rw [hlen1]; omega), if_pos (by omega)]
    rw [show A + (0 + (j - A) - 0) = j by omega]

/-- The silence branch of the read path: when master mute is on, or the last output sample
time minus the frame count is below the input sample time, a `ReadInput` returns success and
the caller's buffer is the result of clearing its first `n * channel_count` samples. -/
theorem read_silent [LinearOrderedField F] [FloorRing F] (cfg : Config F) (s : DriverState F)
    (inStreamObjectID : AudioObjectID) (inClientID n : Nat)
    (inIOCycleInfo : AudioServerPlugInIOCycleInfo F) (ioMainBuffer : List F)
    (hstream : inStreamObjectID = ObjectID.StreamInput.toAudioObjectID ∨
      inStreamObjectID = ObjectID.StreamOutput.toAudioObjectID)
    (hsilent : s.m_muteMasterValue = true ∨
      s.m_lastOutputSampleTime - (n : F) < inIOCycleInfo.mInputTime.mSampleTime) :
    (Driver.DoIOOperationImpl cfg s ObjectID.Device.toAudioObjectID inStreamObjectID inClientID
        IOOperationID.kAudioServerPlugInIOOperationReadInput n inIOCycleInfo
        ioMainBuffer).1 = kAudioHardwareNoError ∧
    (Driver.DoIOOperationImpl cfg s ObjectID.Device.toAudioObjectID inStreamObjectID inClientID
        IOOperationID.kAudioServerPlugInIOOperationReadInput n inIOCycleInfo
        ioMainBuffer).2.2 = mts.dsp.clear ioMainBuffer (u32 (n * cfg.channel_count)) := by
  rcases hstream with rfl | rfl <;> cases hclear : s.m_isBufferClear <;>
    simp [Driver.DoIOOperationImpl, mts.is_one_of, ObjectID.toAudioObjectID,
      kAudioObjectPlugInObject, hsilent, hclear]

/-! ## C2: write, then read -/

/-- C2, as stated, fails: in the example configuration with I/O running, master mute off and
master gain one half, a `WriteMix` of one frame of ones at output sample time 0 followed by a
`ReadInput` of one frame at input sample time 0 leaves zeros, not one half, in the read
buffer: the last output sample time minus the frame count is below the input sample time, so
the read takes its silence branch. -/
theorem C2_write_then_read_counterexample :
    exampleRunningState.m_ioRunning = 1 ∧ exampleRunningState.m_muteMasterValue = false ∧
    exampleRunningState.m_volumeMasterValue = 1 / 2 ∧
    (Driver.DoIOOperationImpl exampleConfig
        (Driver.DoIOOperationImpl exampleConfig exampleRunningState
          ObjectID.Device.toAudioObjectID ObjectID.StreamOutput.toAudioObjectID 0
          IOOperationID.kAudioServerPlugInIOOperationWriteMix 1 ⟨⟨0⟩, ⟨0⟩⟩ [1, 1]).2.1
        ObjectID.Device.toAudioObjectID ObjectID.StreamInput.toAudioObjectID 0
        IOOperationID.kAudioServerPlugInIOOperationReadInput 1 ⟨⟨0⟩, ⟨0⟩⟩ [7, 7]).2.2 = [0, 0] ∧
    ([0, 0] : List ℚ) ≠ List.replicate (1 * exampleConfig.channel_count) (1 / 2 * 1) := by
  refine ⟨rfl, rfl, rfl, ?_, ?_⟩
  · rw [(read_silent exampleConfig _ _ 0 1 ⟨⟨0⟩, ⟨0⟩⟩ [7, 7] (Or.inl rfl) (Or.inr ?_)).2]
    · simp [mts.dsp.clear, exampleConfig, u32, List.range, List.range.loop]
    · simp [Driver.DoIOOperationImpl, mts.is_one_of, ObjectID.toAudioObjectID,
        kAudioObjectPlugInObject]
  · simp [exampleConfig]

/-- C2, amended. With the ring buffer allocated (I/O running), master mute off and master gain
one half, for every frame count `n ≤ C` (the ring-buffer frame capacity), every constant sample
value `c`, every input sample time `tr` and every output sample time `tw < 2 ^ 64` that has the
same ring offset as `tr` and is at least `n` frames ahead of it (`tw % C = tr % C` and
`tr + n ≤ tw`, for instance `tw = tr + C`): a `WriteMix` of `n` frames all equal to `c` at
output sample time `tw` followed by a `ReadInput` of `n` frames at input sample time `tr`
returns success twice, changes no state field in the read, and fills the read buffer with
`n * channel_count` samples all equal to `1 / 2 * c`. -/
theorem C2_write_then_read_ahead [LinearOrderedField F] [FloorRing F] (cfg : Config F)
    (s : DriverState F) (ring rbuf : List F) (inClientID n tw tr : Nat) (c inW outR : F)
    (hassert : cfg.static_assertions = true) (hfit : cfg.fits_UInt32 = true)
    (hring : s.m_ringBuffer = some ring)
    (hlen : ring.length = cfg.ring_buffer_frame_size * cfg.channel_count)
    (hmute : s.m_muteMasterValue = false) (hgain : s.m_volumeMasterValue = 1 / 2)
    (hn : n ≤ cfg.ring_buffer_frame_size) (htw : tw < 2 ^ 64)
    (hoff : tw % cfg.ring_buffer_frame_size = tr % cfg.ring_buffer_frame_size)
    (hahead : tr + n ≤ tw) (hrbuf : rbuf.length = n * cfg.channel_count) :
    (Driver.DoIOOperationImpl cfg s ObjectID.Device.toAudioObjectID
        ObjectID.StreamOutput.toAudioObjectID inClientID
        IOOperationID.kAudioServerPlugInIOOperationWriteMix n ⟨⟨inW⟩, ⟨(tw : F)⟩⟩
        (List.replicate (n * cfg.channel_count) c)).1 = kAudioHardwareNoError ∧
    (Driver.DoIOOperationImpl cfg
        (Driver.DoIOOperationImpl cfg s ObjectID.Device.toAudioObjectID
          ObjectID.StreamOutput.toAudioObjectID inClientID
          IOOperationID.kAudioServerPlugInIOOperationWriteMix n ⟨⟨inW⟩, ⟨(tw : F)⟩⟩
          (List.replicate (n * cfg.channel_count) c)).2.1
        ObjectID.Device.toAudioObjectID ObjectID.StreamInput.toAudioObjectID inClientID
        IOOperationID.kAudioServerPlugInIOOperationReadInput n ⟨⟨(tr : F)⟩, ⟨outR⟩⟩ rbuf)
      = (kAudioHardwareNoError,
          (Driver.DoIOOperationImpl cfg s ObjectID.Device.toAudioObjectID
            ObjectID.StreamOutput.toAudioObjectID inClientID
            IOOperationID.kAudioServerPlugInIOOperationWriteMix n ⟨⟨inW⟩, ⟨(tw : F)⟩⟩
            (List.replicate (n * cfg.channel_count) c)).2.1,
          List.replicate (n * cfg.channel_count) (1 / 2 * c)) := by
  have htr : tr < 2 ^ 64 := by omega
  have hpw := start_eq_mod cfg tw hassert hfit
  have hpr := start_eq_mod cfg tr hassert hfit
  obtain ⟨k, hk⟩ := is_power_of_two_exists _ (static_assertions_frame_size cfg hassert)
  have hpos : 0 < cfg.ring_buffer_frame_size := by rw [hk]; positivity
  have hp : tr % cfg.ring_buffer_frame_size < cfg.ring_buffer_frame_size := Nat.mod_lt _ hpos
  obtain ⟨hAB, hPA, hBP⟩ := split_parts cfg _ n hfit hp hn
  set p := tr % cfg.ring_buffer_frame_size with hpdef
  set A := Driver.firstPartFrameSize cfg p n with hA
  set B := Driver.secondPartFrameSize cfg p n with hB
  have uA := frames_fit cfg A hfit (by omega)
  have uB := frames_fit cfg B hfit (by omega)
  have uP := frames_fit cfg p hfit (by omega)
  have uN := frames_fit cfg n hfit hn
  have hstale : ¬ ((tw : F) - (n : F) < (tr : F)) := by
    have : ((tr + n : ℕ) : F) ≤ (tw : F) := by exact_mod_cast hahead
    push_cast at this
    linarith
  constructor
  · simp [Driver.DoIOOperationImpl, mts.is_one_of, ObjectID.toAudioObjectID,
      kAudioObjectPlugInObject]
  · simp only [Driver.DoIOOperationImpl, mts.is_one_of, ObjectID.toAudioObjectID,
      kAudioObjectPlugInObject]
    simp [hring, hmute, hgain, toUInt64_natCast tw htw, toUInt64_natCast tr htr, hpw, hpr, hoff,
      ← hpdef, ← hA, ← hB, uA, uB, uP, uN, hstale]
    apply List.ext_getElem?
    intro j
    by_cases hj : j < n * cfg.channel_count
    · rw [ring_round_trip ring _ rbuf _ (p * cfg.channel_count) (A * cfg.channel_count)
        (B * cfg.channel_count) (n * cfg.channel_count) j (by rw [← Nat.add_mul, hAB])
        (by rw [hlen, ← Nat.add_mul]; exact Nat.mul_le_mul_right _ hPA)
        (Nat.mul_le_mul_right _ hBP) hj (by omega)]
      simp [List.getD_eq_getElem?_getD, hj, List.getElem?_replicate, mul_comm]
    · rw [List.getElem?_eq_none (by simp [dsp_mul_length, dsp_copy_length]; omega),
        List.getElem?_eq_none (by simp; omega)]

/-- C2, amended, in the example configuration: one frame of ones written at output sample
time 4 and read at input sample time 0 comes back as one half. -/
theorem C2_write_then_read_ahead_witness :
    exampleConfig.static_assertions = true ∧ exampleConfig.fits_UInt32 = true ∧
    exampleRunningState.m_ringBuffer = some (List.replicate 8 0) ∧
    exampleRunningState.m_muteMasterValue = false ∧
    exampleRunningState.m_volumeMasterValue = 1 / 2 ∧
    1 ≤ exampleConfig.ring_buffer_frame_size ∧
    4 % exampleConfig.ring_buffer_frame_size = 0 % exampleConfig.ring_buffer_frame_size ∧
    (Driver.DoIOOperationImpl exampleConfig
        (Driver.DoIOOperationImpl exampleConfig exampleRunningState
          ObjectID.Device.toAudioObjectID ObjectID.StreamOutput.toAudioObjectID 0
          IOOperationID.kAudioServerPlugInIOOperationWriteMix 1 ⟨⟨0⟩, ⟨((4 : ℕ) : ℚ)⟩⟩
          (List.replicate (1 * exampleConfig.channel_count) 1)).2.1
        ObjectID.Device.toAudioObjectID ObjectID.StreamInput.toAudioObjectID 0
        IOOperationID.kAudioServerPlugInIOOperationReadInput 1 ⟨⟨((0 : ℕ) : ℚ)⟩, ⟨0⟩⟩ [7, 7]).2.2
      = List.replicate (1 * exampleConfig.channel_count) (1 / 2 * 1) :=
  ⟨exampleConfig_static_assertions, exampleConfig_fits_UInt32, rfl, rfl, rfl, by decide,
    by decide,
    congrArg (fun r => r.2.2)
      (C2_write_then_read_ahead exampleConfig exampleRunningState (List.replicate 8 0) [7, 7]
        0 1 4 0 1 0 0 exampleConfig_static_assertions exampleConfig_fits_UInt32 rfl
        (by decide) rfl rfl (by decide) (by decide) (by decide) (by decide) (by decide)).2⟩

/-! ## C3: a muted read is silent -/

/-- C3. When master mute is true, for every ring-buffer content (allocated or not), every
last-output sample time, every input sample time and every frame count `n` up to the
ring-buffer frame capacity, `DoIOOperation` with `ReadInput` on the device and either stream
returns success and leaves every one of the first `n * channel_count` samples of the caller's
buffer equal to zero (the length of the buffer is unchanged). -/
theorem C3_muted_read_is_silent [LinearOrderedField F] [FloorRing F] (cfg : Config F)
    (s : DriverState F) (inStreamObjectID : AudioObjectID) (inClientID n : Nat)
    (inIOCycleInfo : AudioServerPlugInIOCycleInfo F) (ioMainBuffer : List F)
    (hfit : cfg.fits_UInt32 = true)
    (hstream : inStreamObjectID = ObjectID.StreamInput.toAudioObjectID ∨
      inStreamObjectID = ObjectID.StreamOutput.toAudioObjectID)
    (hmute : s.m_muteMasterValue = true)
    (hn : n ≤ cfg.ring_buffer_frame_size) :
    (Driver.DoIOOperationImpl cfg s ObjectID.Device.toAudioObjectID inStreamObjectID inClientID
        IOOperationID.kAudioServerPlugInIOOperationReadInput n inIOCycleInfo
        ioMainBuffer).1 = kAudioHardwareNoError ∧
    (Driver.DoIOOperationImpl cfg s ObjectID.Device.toAudioObjectID inStreamObjectID inClientID
        IOOperationID.kAudioServerPlugInIOOperationReadInput n inIOCycleInfo
        ioMainBuffer).2.2.length = ioMainBuffer.length ∧
    ∀ i, i < n * cfg.channel_count → i < ioMainBuffer.length →
      (Driver.DoIOOperationImpl cfg s ObjectID.Device.toAudioObjectID inStreamObjectID inClientID
        IOOperationID.kAudioServerPlugInIOOperationReadInput n inIOCycleInfo
        ioMainBuffer).2.2[i]? = some 0 := by
  obtain ⟨h1, h2⟩ := read_silent cfg s inStreamObjectID inClientID n inIOCycleInfo ioMainBuffer
    hstream (Or.inl hmute)
  refine ⟨h1, by rw [h2, dsp_clear_length], ?_⟩
  intro i hi hlen
  rw [h2, dsp_clear_getElem? _ _ _ hlen, frames_fit cfg n hfit hn, if_pos hi]

/-- C3 in the example configuration: a muted read of a full ring of four frames into a buffer
of eight samples. -/
theorem C3_muted_read_is_silent_witness :
    exampleConfig.fits_UInt32 = true ∧ 4 ≤ exampleConfig.ring_buffer_frame_size ∧
    ∀ i, i < 4 * exampleConfig.channel_count → i < [1, 2, 3, 4, 5, 6, 7, (8 : ℚ)].length →
      (Driver.DoIOOperationImpl exampleConfig
        { exampleRunningState with m_muteMasterValue := true }
        ObjectID.Device.toAudioObjectID ObjectID.StreamInput.toAudioObjectID 0
        IOOperationID.kAudioServerPlugInIOOperationReadInput 4 ⟨⟨0⟩, ⟨0⟩⟩
        [1, 2, 3, 4, 5, 6, 7, 8]).2.2[i]? = some 0 :=
  ⟨exampleConfig_fits_UInt32, by decide,
    (C3_muted_read_is_silent exampleConfig { exampleRunningState with m_muteMasterValue := true }
      ObjectID.StreamInput.toAudioObjectID 0 4 ⟨⟨0⟩, ⟨0⟩⟩ [1, 2, 3, 4, 5, 6, 7, 8]
      exampleConfig_fits_UInt32 (Or.inl rfl) rfl (by decide)).2.2⟩

/-! ## C4 and C5: the activation counter -/

theorem runActivation_append [LinearOrderedField F] [FloorRing F] (cfg : Config F)
    (s : DriverState F) (l1 l2 : List ActivationCall) :
    Driver.runActivation cfg s (l1 ++ l2) =
      ((Driver.runActivation cfg s l1).1 ++
          (Driver.runActivation cfg (Driver.runActivation cfg s l1).2 l2).1,
        (Driver.runActivation cfg (Driver.runActivation cfg s l1).2 l2).2) := by
  induction l1 generalizing s with
  | nil => simp [Driver.runActivation]
  | cons c rest ih => cases c <;> simp [Driver.runActivation, ih]

theorem UINT64_MAX_eq : UINT64_MAX = 18446744073709551615 := by
  decide

/-- The member `StartIOImpl` on the device identifier, case by case. -/
theorem StartIOImpl_device [LinearOrderedField F] [FloorRing F] (cfg : Config F)
    (s : DriverState F) (inClientID now : Nat) :
    Driver.StartIOImpl cfg s ObjectID.Device.toAudioObjectID inClientID now =
      if s.m_ioRunning = 18446744073709551615 then (kAudioHardwareIllegalOperationError, s)
      else if s.m_ioRunning = 0 then
        (kAudioHardwareNoError,
          { s with
            m_ioRunning := 1
            m_numberTimeStamps := 0
            m_anchorSampleTime := 0
            m_anchorHostTime := now
            m_ringBuffer := some (List.replicate (Driver.ringBufferSampleCount cfg) 0) })
      else (kAudioHardwareNoError, { s with m_ioRunning := (s.m_ioRunning + 1) % 2 ^ 64 }) := by
  simp [Driver.StartIOImpl, UINT64_MAX_eq, u64]

/-- The member `StopIOImpl` on the device identifier, case by case. -/
theorem StopIOImpl_device [LinearOrderedField F] (s : DriverState F) (inClientID : Nat) :
    Driver.StopIOImpl s ObjectID.Device.toAudioObjectID inClientID =
      if s.m_ioRunning = 0 then (kAudioHardwareIllegalOperationError, s)
      else if s.m_ioRunning = 1 then
        (kAudioHardwareNoError, { s with m_ioRunning := 0, m_ringBuffer := none })
      else (kAudioHardwareNoError, { s with m_ioRunning := s.m_ioRunning - 1 }) := by
  simp [Driver.StopIOImpl]

/-- A successful `StartIO` on the device adds one to the counter, without overflow. -/
theorem StartIOImpl_success [LinearOrderedField F] [FloorRing F] (cfg : Config F)
    (s : DriverState F) (inClientID now : Nat) (hR : s.m_ioRunning < 2 ^ 64)
    (h : (Driver.StartIOImpl cfg s ObjectID.Device.toAudioObjectID inClientID now).1
      = kAudioHardwareNoError) :
    s.m_ioRunning + 1 < 2 ^ 64 ∧
    (Driver.StartIOImpl cfg s ObjectID.Device.toAudioObjectID inClientID now).2.m_ioRunning
      = s.m_ioRunning + 1 := by
  rw [StartIOImpl_device] at h ⊢
  split_ifs at h ⊢ with h1 h2
  · exact ⟨by omega, by simp [h2]⟩
  · have hlt : s.m_ioRunning + 1 < 2 ^ 64 := by omega
    exact ⟨hlt, Nat.mod_eq_of_lt hlt⟩

/-- A successful `StopIO` on the device takes one from a positive counter. -/
theorem StopIOImpl_success [LinearOrderedField F] (s : DriverState F) (inClientID : Nat)
    (h : (Driver.StopIOImpl s ObjectID.Device.toAudioObjectID inClientID).1
      = kAudioHardwareNoError) :
    0 < s.m_ioRunning ∧
    (Driver.StopIOImpl s ObjectID.Device.toAudioObjectID inClientID).2.m_ioRunning
      = s.m_ioRunning - 1 := by
  rw [StopIOImpl_device] at h ⊢
  split_ifs at h ⊢ with h1 h2
  · exact ⟨by omega, by simp [h2]⟩
  · exact ⟨by omega, rfl⟩

theorem runActivation_count [LinearOrderedField F] [FloorRing F] (cfg : Config F)
    (calls : List ActivationCall) (s : DriverState F) (hR : s.m_ioRunning < 2 ^ 64)
    (hok : ∀ st ∈ (Driver.runActivation cfg s calls).1, st = kAudioHardwareNoError) :
    (Driver.runActivation cfg s calls).2.m_ioRunning + ActivationCall.stops calls
      = s.m_ioRunning + ActivationCall.starts calls := by
  induction calls generalizing s with
  | nil => simp [Driver.runActivation, ActivationCall.stops, ActivationCall.starts]
  | cons c rest ih =>
    cases c with
    | start inClientID now =>
      simp only [Driver.runActivation, List.mem_cons, forall_eq_or_imp] at hok ⊢
      obtain ⟨hlt, h1⟩ := StartIOImpl_success cfg s inClientID now hR hok.1
      have h2 := ih _ (by rw [h1]; exact hlt) hok.2
      simp only [ActivationCall.stops, ActivationCall.starts, List.countP_cons] at h2 ⊢
      simp at h2 ⊢
      omega
    | stop inClientID =>
      simp only [Driver.runActivation, List.mem_cons, forall_eq_or_imp] at hok ⊢
      obtain ⟨hpos, h1⟩ := StopIOImpl_success s inClientID hok.1
      have h2 := ih _ (by rw [h1]; omega) hok.2
      simp only [ActivationCall.stops, ActivationCall.starts, List.countP_cons] at h2 ⊢
      simp at h2 ⊢
      omega

theorem runActivation_starts [LinearOrderedField F] [FloorRing F] (cfg : Config F)
    (calls : List ActivationCall) (s : DriverState F)
    (hcalls : ActivationCall.stops calls = 0)
    (hR : s.m_ioRunning + calls.length < 2 ^ 64) :
    (∀ st ∈ (Driver.runActivation cfg s calls).1, st = kAudioHardwareNoError) ∧
    (Driver.runActivation cfg s calls).2.m_ioRunning = s.m_ioRunning + calls.length := by
  induction calls generalizing s with
  | nil => simp [Driver.runActivation]
  | cons c rest ih =>
    cases c with
    | stop inClientID => simp [ActivationCall.stops] at hcalls
    | start inClientID now =>
      simp only [List.length_cons] at hR
      have hrest : ActivationCall.stops rest = 0 := by
        simpa [ActivationCall.stops] using hcalls
      have hst : (Driver.StartIOImpl cfg s ObjectID.Device.toAudioObjectID inClientID now).1
          = kAudioHardwareNoError := by
        rw [StartIOImpl_device]
        split_ifs with h1 h2
        · omega
        · rfl
        · rfl
      obtain ⟨_, h1⟩ := StartIOImpl_success cfg s inClientID now (by omega) hst
      obtain ⟨ih1, ih2⟩ := ih _ hrest (by rw [h1]; omega)
      simp only [Driver.runActivation, List.mem_cons, forall_eq_or_imp, List.length_cons]
      exact ⟨⟨hst, ih1⟩, by rw [ih2, h1]; omega⟩

theorem runActivation_stops [LinearOrderedField F] [FloorRing F] (cfg : Config F)
    (calls : List ActivationCall) (s : DriverState F)
    (hcalls : ActivationCall.starts calls = 0)
    (hR : s.m_ioRunning = calls.length)
    (hring : calls.length = 0 → s.m_ringBuffer = none) :
    (∀ st ∈ (Driver.runActivation cfg s calls).1, st = kAudioHardwareNoError) ∧
    (Driver.runActivation cfg s calls).2.m_ioRunning = 0 ∧
    (Driver.runActivation cfg s calls).2.m_ringBuffer = none := by
  induction calls generalizing s with
  | nil => exact ⟨by simp [Driver.runActivation], hR, hring rfl⟩
  | cons c rest ih =>
    cases c with
    | start inClientID now => simp [ActivationCall.starts] at hcalls
    | stop inClientID =>
      simp only [List.length_cons] at hR
      have hrest : ActivationCall.starts rest = 0 := by
        simpa [ActivationCall.starts] using hcalls
      simp only [Driver.runActivation, List.mem_cons, forall_eq_or_imp]
      by_cases h1 : rest.length = 0
      · have hs : Driver.StopIOImpl s ObjectID.Device.toAudioObjectID inClientID
            = (kAudioHardwareNoError, { s with m_ioRunning := 0, m_ringBuffer := none }) := by
          rw [StopIOImpl_device, if_neg (by omega), if_pos (by omega)]
        rw [hs]
        obtain ⟨ih1, ih2, ih3⟩ := ih { s with m_ioRunning := 0, m_ringBuffer := none } hrest
          (by simp [h1]) (fun _ => rfl)
        exact ⟨⟨rfl, ih1⟩, ih2, ih3⟩
      · have hs : Driver.StopIOImpl s ObjectID.Device.toAudioObjectID inClientID
            = (kAudioHardwareNoError, { s with m_ioRunning := s.m_ioRunning - 1 }) := by
          rw [StopIOImpl_device, if_neg (by omega), if_neg (by omega)]
        rw [hs]
        obtain ⟨ih1, ih2, ih3⟩ := ih { s with m_ioRunning := s.m_ioRunning - 1 } hrest
          (by simp [hR]) (fun h => absurd h h1)
        exact ⟨⟨rfl, ih1⟩, ih2, ih3⟩

/-- C4. Starting from a state with I/O-running count 0 and no ring buffer: (1) after any
sequence of `StartIO` / `StopIO` calls on the device in which every call returns success, the
count equals the number of starts minus the number of stops; (2) for every `N < 2 ^ 64`, any
`N` starts followed by any `N` stops all return success and end with count 0 and the ring
buffer deallocated (null). -/
theorem C4_activation_counter [LinearOrderedField F] [FloorRing F] (cfg : Config F)
    (s : DriverState F) (hR : s.m_ioRunning = 0) (hring : s.m_ringBuffer = none) :
    (∀ calls : List ActivationCall,
      (∀ st ∈ (Driver.runActivation cfg s calls).1, st = kAudioHardwareNoError) →
      ((Driver.runActivation cfg s calls).2.m_ioRunning : Int)
        = (ActivationCall.starts calls : Int) - (ActivationCall.stops calls : Int)) ∧
    (∀ startCalls stopCalls : List ActivationCall,
      ActivationCall.stops startCalls = 0 → ActivationCall.starts stopCalls = 0 →
      startCalls.length = stopCalls.length → startCalls.length < 2 ^ 64 →
      (Driver.runActivation cfg s (startCalls ++ stopCalls)).1
          = List.replicate (startCalls.length + stopCalls.length) kAudioHardwareNoError ∧
        (Driver.runActivation cfg s (startCalls ++ stopCalls)).2.m_ioRunning = 0 ∧
        (Driver.runActivation cfg s (startCalls ++ stopCalls)).2.m_ringBuffer = none) := by
  constructor
  · intro calls hok
    have h := runActivation_count cfg calls s (by rw [hR]; positivity) hok
    rw [hR] at h
    omega
  · intro startCalls stopCalls h1 h2 hlen hN
    obtain ⟨a1, a2⟩ := runActivation_starts cfg startCalls s h1 (by rw [hR]; omega)
    obtain ⟨b1, b2, b3⟩ := runActivation_stops cfg stopCalls
      (Driver.runActivation cfg s startCalls).2 h2 (by rw [a2, hR]; omega)
      (fun h0 => by
        have hnil : startCalls = [] := List.length_eq_zero.mp (by omega)
        subst hnil
        simpa [Driver.runActivation] using hring)
    rw [runActivation_append]
    refine ⟨?_, b2, b3⟩
    have hl1 : ∀ (l : List ActivationCall) (t : DriverState F),
        (Driver.runActivation cfg t l).1.length = l.length := by
      intro l
      induction l with
      | nil => intro t; simp [Driver.runActivation]
      | cons c rest ih => intro t; cases c <;> simp [Driver.runActivation, ih]
    rw [List.eq_replicate_iff]
    refine ⟨by simp [hl1], ?_⟩
    intro st hst
    rcases List.mem_append.mp hst with h | h
    · exact a1 st h
    · exact b1 st h

/-- C4 in the example configuration: two starts followed by two stops. -/
theorem C4_activation_counter_witness :
    (DriverState.initial exampleConfig).m_ioRunning = 0 ∧
    (DriverState.initial exampleConfig).m_ringBuffer = none ∧
    (Driver.runActivation exampleConfig (DriverState.initial exampleConfig)
        ([ActivationCall.start 1 100, ActivationCall.start 2 200]
          ++ [ActivationCall.stop 1, ActivationCall.stop 2])).1
      = List.replicate (2 + 2) kAudioHardwareNoError ∧
    (Driver.runActivation exampleConfig (DriverState.initial exampleConfig)
        ([ActivationCall.start 1 100, ActivationCall.start 2 200]
          ++ [ActivationCall.stop 1, ActivationCall.stop 2])).2.m_ioRunning = 0 ∧
    (Driver.runActivation exampleConfig (DriverState.initial exampleConfig)
        ([ActivationCall.start 1 100, ActivationCall.start 2 200]
          ++ [ActivationCall.stop 1, ActivationCall.stop 2])).2.m_ringBuffer = none :=
  ⟨rfl, rfl,
    (C4_activation_counter exampleConfig (DriverState.initial exampleConfig) rfl rfl).2
      [ActivationCall.start 1 100, ActivationCall.start 2 200]
      [ActivationCall.stop 1, ActivationCall.stop 2] (by decide) (by decide) (by decide)
      (by decide)⟩

/-- C5. For the device identifier and every driver state: `StopIO` fails if and only if the
I/O-running count is 0, and then with the illegal-operation status; `StartIO` fails if and only
if the count is `2 ^ 64 - 1`, and then with the illegal-operation status; and every failing
call returns the driver state it was given, unchanged in every field. -/
theorem C5_activation_failures [LinearOrderedField F] [FloorRing F] (cfg : Config F)
    (s : DriverState F) (inClientID now : Nat) :
    ((Driver.StopIOImpl s ObjectID.Device.toAudioObjectID inClientID).1 ≠ kAudioHardwareNoError
        ↔ s.m_ioRunning = 0) ∧
    ((Driver.StopIOImpl s ObjectID.Device.toAudioObjectID inClientID).1
        = kAudioHardwareIllegalOperationError ↔ s.m_ioRunning = 0) ∧
    ((Driver.StartIOImpl cfg s ObjectID.Device.toAudioObjectID inClientID now).1
        ≠ kAudioHardwareNoError ↔ s.m_ioRunning = 2 ^ 64 - 1) ∧
    ((Driver.StartIOImpl cfg s ObjectID.Device.toAudioObjectID inClientID now).1
        = kAudioHardwareIllegalOperationError ↔ s.m_ioRunning = 2 ^ 64 - 1) ∧
    ((Driver.StopIOImpl s ObjectID.Device.toAudioObjectID inClientID).1 ≠ kAudioHardwareNoError
        → (Driver.StopIOImpl s ObjectID.Device.toAudioObjectID inClientID).2 = s) ∧
    ((Driver.StartIOImpl cfg s ObjectID.Device.toAudioObjectID inClientID now).1
        ≠ kAudioHardwareNoError
        → (Driver.StartIOImpl cfg s ObjectID.Device.toAudioObjectID inClientID now).2 = s) := by
  rw [StartIOImpl_device, StopIOImpl_device]
  refine ⟨?_, ?_, ?_, ?_, ?_, ?_⟩ <;> split_ifs with h1 h2 <;> simp_all

/-! ## C6 to C9: the configuration change -/

/-- The member `SetPropertyDataImpl` for the nominal sample rate of the device with an 8-byte
value: the outcome of `Device::set_sample_rate`, no state change and no changed address. -/
theorem SetPropertyDataImpl_sample_rate [LinearOrderedField F] [FloorRing F] (cfg : Config F)
    (m : MathLib F) (s : DriverState F) (sc : Scope) (el qsz : Nat) (qd : Option CFStringRef)
    (inData : Blob F) :
    Driver.SetPropertyDataImpl cfg m s ObjectID.Device.toAudioObjectID
        (some ⟨kAudioDevicePropertyNominalSampleRate, sc, el⟩) qsz qd sizeof_Float64 inData
      = ⟨(Device.set_sample_rate cfg s inData.asFloat64).1, s, 0, [],
          (Device.set_sample_rate cfg s inData.asFloat64).2⟩ := by
  simp [Driver.SetPropertyDataImpl, callObject, ObjectID.ofAudioObjectID,
    ObjectID.toAudioObjectID, kAudioObjectPlugInObject, Driver.objSet, device.set]

/-- C6. For every sample rate `sr` that is not in the supported-rate set, `set` of the device's
nominal-sample-rate property with an 8-byte value `sr` returns the illegal-operation status,
returns the driver state unchanged, reports zero changed addresses and issues no host call (in
particular no configuration-change request). -/
theorem C6_unsupported_rate_rejected [LinearOrderedField F] [FloorRing F] (cfg : Config F)
    (m : MathLib F) (s : DriverState F) (sc : Scope) (el qsz : Nat) (qd : Option CFStringRef)
    (inData : Blob F) (sr : F) (hdata : inData.asFloat64 = sr)
    (hsr : sr ∉ cfg.supported_sample_rates) :
    Driver.SetPropertyDataImpl cfg m s ObjectID.Device.toAudioObjectID
        (some ⟨kAudioDevicePropertyNominalSampleRate, sc, el⟩) qsz qd sizeof_Float64 inData
      = ⟨kAudioHardwareIllegalOperationError, s, 0, [], []⟩ := by
  rw [SetPropertyDataImpl_sample_rate]
  simp [Device.set_sample_rate, Config.is_supported_sample_rate, hdata, hsr]

/-- C6 in the example configuration: a request for 12345 Hz. -/
theorem C6_unsupported_rate_rejected_witness :
    (12345 : ℚ) ∉ exampleConfig.supported_sample_rates ∧
    Driver.SetPropertyDataImpl exampleConfig exampleMathLib (DriverState.initial exampleConfig)
        ObjectID.Device.toAudioObjectID
        (some ⟨kAudioDevicePropertyNominalSampleRate, kAudioObjectPropertyScopeGlobal, 0⟩)
        0 none sizeof_Float64 { exampleBlob with asFloat64 := 12345 }
      = ⟨kAudioHardwareIllegalOperationError, DriverState.initial exampleConfig, 0, [], []⟩ :=
  ⟨by simp [exampleConfig],
    C6_unsupported_rate_rejected exampleConfig exampleMathLib (DriverState.initial exampleConfig)
      kAudioObjectPropertyScopeGlobal 0 0 none { exampleBlob with asFloat64 := 12345 } 12345 rfl
      (by simp [exampleConfig])⟩

/-- C7. For every supported sample rate `sr`, `set` of the device's nominal-sample-rate
property to `sr` returns success and the driver state unchanged (so the sample rate and the
host ticks per frame keep their values, and `get` afterwards still returns the old rate), with
zero changed addresses; its only host calls are: exactly one dispatched configuration-change
request for the device with change action `(UInt64)sr` when `sr` differs from the current rate,
and none when `sr` equals the current rate. -/
theorem C7_supported_rate_deferred [LinearOrderedField F] [FloorRing F] (cfg : Config F)
    (m : MathLib F) (env : Environment) (s : DriverState F) (sc : Scope)
    (el qsz m0 : Nat) (qd : Option CFStringRef) (inData d : Blob F) (sr : F)
    (hdata : inData.asFloat64 = sr) (hsr : sr ∈ cfg.supported_sample_rates) :
    Driver.SetPropertyDataImpl cfg m s ObjectID.Device.toAudioObjectID
        (some ⟨kAudioDevicePropertyNominalSampleRate, sc, el⟩) qsz qd sizeof_Float64 inData
      = ⟨kAudioHardwareNoError, s, 0, [],
          if s.m_sampleRate ≠ sr then
            [⟨HostCall.RequestDeviceConfigurationChange ObjectID.Device.toAudioObjectID
              (toUInt64 sr), true, false⟩]
          else []⟩ ∧
    Driver.GetPropertyDataImpl cfg m env
        (Driver.SetPropertyDataImpl cfg m s ObjectID.Device.toAudioObjectID
          (some ⟨kAudioDevicePropertyNominalSampleRate, sc, el⟩) qsz qd sizeof_Float64
          inData).state
        ObjectID.Device.toAudioObjectID (some ⟨kAudioDevicePropertyNominalSampleRate, sc, el⟩)
        qsz qd sizeof_Float64 (some m0) (some d)
      = ⟨kAudioHardwareNoError, sizeof_Float64, some (.float64 s.m_sampleRate)⟩ := by
  rw [SetPropertyDataImpl_sample_rate]
  constructor
  · by_cases h : s.m_sampleRate = sr <;>
      simp [Device.set_sample_rate, Config.is_supported_sample_rate, hdata, hsr, h]
  · simp [Driver.GetPropertyDataImpl, callObject, ObjectID.ofAudioObjectID,
      ObjectID.toAudioObjectID, kAudioObjectPlugInObject, Driver.objGet, device.get,
      checkedAssign, Device.get_sample_rate]

/-- C7 in the example configuration: at 44100 Hz, a request for 48000 Hz. -/
theorem C7_supported_rate_deferred_witness :
    (48000 : ℚ) ∈ exampleConfig.supported_sample_rates ∧
    (Driver.SetPropertyDataImpl exampleConfig exampleMathLib (DriverState.initial exampleConfig)
        ObjectID.Device.toAudioObjectID
        (some ⟨kAudioDevicePropertyNominalSampleRate, kAudioObjectPropertyScopeGlobal, 0⟩)
        0 none sizeof_Float64 { exampleBlob with asFloat64 := 48000 }).state
      = DriverState.initial exampleConfig :=
  ⟨by simp [exampleConfig],
    congrArg SetResult.state
      (C7_supported_rate_deferred exampleConfig exampleMathLib exampleEnvironment
        (DriverState.initial exampleConfig) kAudioObjectPropertyScopeGlobal 0 0 0 none
        { exampleBlob with asFloat64 := 48000 } exampleBlob 48000 rfl
        (by simp [exampleConfig])).1⟩

/-- C8. `PerformDeviceConfigurationChange`: (1) for the device identifier and every token
whose conversion to floating point is a supported sample rate it returns success, sets the
sample rate to the token and the host ticks per frame to the host clock frequency divided by
the token, and changes no other state field; (2) under the static assertions of the
configuration, every supported rate `sr` is recovered exactly from its token `(UInt64)sr`, so
that after the `set` of the nominal sample rate to `sr` and the `perform` with that token,
`get` of the nominal sample rate returns `sr`; (3) for any other identifier, or a token that
is not a supported rate, the state is returned unchanged. -/
theorem C8_perform_applies_rate [LinearOrderedField F] [FloorRing F] (cfg : Config F)
    (m : MathLib F) (env : Environment) (s : DriverState F)
    (hassert : cfg.static_assertions = true) :
    (∀ token : Nat, ofUInt64 token ∈ cfg.supported_sample_rates →
      Driver.PerformDeviceConfigurationChangeImpl cfg env s ObjectID.Device.toAudioObjectID token
        = (kAudioHardwareNoError,
            { s with
              m_sampleRate := (token : F)
              m_hostTicksPerFrame := Driver.hostClockFrequency env / (token : F) })) ∧
    (∀ (sr : F) (sc : Scope) (el qsz m0 : Nat) (qd : Option CFStringRef) (inData d : Blob F),
      sr ∈ cfg.supported_sample_rates → inData.asFloat64 = sr →
      ofUInt64 (toUInt64 sr) = sr ∧
      (Driver.PerformDeviceConfigurationChangeImpl cfg env
          (Driver.SetPropertyDataImpl cfg m s ObjectID.Device.toAudioObjectID
            (some ⟨kAudioDevicePropertyNominalSampleRate, sc, el⟩) qsz qd sizeof_Float64
            inData).state
          ObjectID.Device.toAudioObjectID (toUInt64 sr)).1 = kAudioHardwareNoError ∧
      Driver.GetPropertyDataImpl cfg m env
          (Driver.PerformDeviceConfigurationChangeImpl cfg env
            (Driver.SetPropertyDataImpl cfg m s ObjectID.Device.toAudioObjectID
              (some ⟨kAudioDevicePropertyNominalSampleRate, sc, el⟩) qsz qd sizeof_Float64
              inData).state
            ObjectID.Device.toAudioObjectID (toUInt64 sr)).2
          ObjectID.Device.toAudioObjectID (some ⟨kAudioDevicePropertyNominalSampleRate, sc, el⟩)
          qsz qd sizeof_Float64 (some m0) (some d)
        = ⟨kAudioHardwareNoError, sizeof_Float64, some (.float64 sr)⟩) ∧
    (∀ (inDeviceObjectID token : Nat),
      inDeviceObjectID ≠ ObjectID.Device.toAudioObjectID ∨
        ofUInt64 token ∉ cfg.supported_sample_rates →
      (Driver.PerformDeviceConfigurationChangeImpl cfg env s inDeviceObjectID token).2 = s) := by
  refine ⟨?_, ?_, ?_⟩
  · intro token htok
    have htok' : (token : F) ∈ cfg.supported_sample_rates := htok
    simp [Driver.PerformDeviceConfigurationChangeImpl, Config.is_supported_sample_rate, htok',
      ofUInt64]
  · intro sr sc el qsz m0 qd inData d hsr hdata
    have hint := static_assertions_integers cfg hassert sr hsr
    have hsup : ofUInt64 (toUInt64 sr) ∈ cfg.supported_sample_rates := by rw [hint]; exact hsr
    rw [SetPropertyDataImpl_sample_rate]
    refine ⟨hint, ?_, ?_⟩
    · simp [Driver.PerformDeviceConfigurationChangeImpl, Config.is_supported_sample_rate, hint,
        hsr]
    · simp [Driver.PerformDeviceConfigurationChangeImpl, Config.is_supported_sample_rate, hsup,
        Driver.GetPropertyDataImpl, callObject, ObjectID.ofAudioObjectID,
        ObjectID.toAudioObjectID, kAudioObjectPlugInObject, Driver.objGet, device.get,
        checkedAssign, Device.get_sample_rate, hint, hsr]
  · intro dev token h
    unfold Driver.PerformDeviceConfigurationChangeImpl
    rcases h with h | h
    · simp [h]
    · by_cases hd : dev = ObjectID.Device.toAudioObjectID <;>
        simp [hd, Config.is_supported_sample_rate, h]

/-- C8 in the example configuration: the token 48000 is applied. -/
theorem C8_perform_applies_rate_witness :
    exampleConfig.static_assertions = true ∧
    (ofUInt64 48000 : ℚ) ∈ exampleConfig.supported_sample_rates ∧
    Driver.PerformDeviceConfigurationChangeImpl exampleConfig exampleEnvironment
        (DriverState.initial exampleConfig) ObjectID.Device.toAudioObjectID 48000
      = (kAudioHardwareNoError,
          { DriverState.initial exampleConfig with
            m_sampleRate := ((48000 : ℕ) : ℚ)
            m_hostTicksPerFrame :=
              Driver.hostClockFrequency exampleEnvironment / ((48000 : ℕ) : ℚ) }) :=
  ⟨exampleConfig_static_assertions, by simp [exampleConfig, ofUInt64],
    (C8_perform_applies_rate exampleConfig exampleMathLib exampleEnvironment
      (DriverState.initial exampleConfig) exampleConfig_static_assertions).1 48000
      (by simp [exampleConfig, ofUInt64])⟩

/-- C9. `AbortDeviceConfigurationChange` returns the driver state unchanged for every
identifier, token and state; it returns the bad-object status if and only if the identifier is
not the device, and success otherwise; so a `set` of the nominal sample rate (to a supported
new rate or any other value) followed by an abort leaves the whole state, and in particular
the sample rate, at its old value. -/
theorem C9_abort_discards [LinearOrderedField F] [FloorRing F] (cfg : Config F)
    (m : MathLib F) (s : DriverState F) (inDeviceObjectID token : Nat) (sc : Scope)
    (el qsz : Nat) (qd : Option CFStringRef) (inData : Blob F) :
    (Driver.AbortDeviceConfigurationChangeImpl s inDeviceObjectID token).2 = s ∧
    ((Driver.AbortDeviceConfigurationChangeImpl s inDeviceObjectID token).1
        = kAudioHardwareBadObjectError ↔ inDeviceObjectID ≠ ObjectID.Device.toAudioObjectID) ∧
    (inDeviceObjectID = ObjectID.Device.toAudioObjectID ↔
      (Driver.AbortDeviceConfigurationChangeImpl s inDeviceObjectID token).1
        = kAudioHardwareNoError) ∧
    (Driver.AbortDeviceConfigurationChangeImpl
        (Driver.SetPropertyDataImpl cfg m s ObjectID.Device.toAudioObjectID
          (some ⟨kAudioDevicePropertyNominalSampleRate, sc, el⟩) qsz qd sizeof_Float64
          inData).state
        inDeviceObjectID token).2 = s := by
  rw [SetPropertyDataImpl_sample_rate]
  unfold Driver.AbortDeviceConfigurationChangeImpl
  by_cases h : inDeviceObjectID = ObjectID.Device.toAudioObjectID <;> simp [h]

/-! ## C10: `set` is idempotent -/

theorem CFStringEqualCaseInsensitive_self (a : String) :
    CFStringEqualCaseInsensitive a a = true := by
  simp [CFStringEqualCaseInsensitive]

theorem set_box_name_again (cfg : Config F) (s : DriverState F) (name : CFStringRef) :
    Box.set_box_name cfg (Box.set_box_name cfg s name).state name
      = ⟨false, (Box.set_box_name cfg s name).state, []⟩ := by
  cases name with
  | none =>
    cases h : s.m_boxName <;> simp [Box.set_box_name, h]
  | some n =>
    cases h : s.m_boxName with
    | none => simp [Box.set_box_name, h, CFStringEqualCaseInsensitive_self]
    | some old =>
      by_cases hc : CFStringEqualCaseInsensitive n old = true
      · simp [Box.set_box_name, h, hc]
      · simp [Box.set_box_name, h, hc, CFStringEqualCaseInsensitive_self]

theorem set_acquired_again (cfg : Config F) (self : box) (s : DriverState F) (acquired : Bool) :
    Box.set_acquired cfg self (Box.set_acquired cfg self s acquired).state acquired
      = ⟨false, (Box.set_acquired cfg self s acquired).state, []⟩ := by
  by_cases h : s.m_isBoxAcquired = acquired <;> simp [Box.set_acquired, h]

theorem set_active_again (self : stream) (s : DriverState F) (active : Bool) :
    MasterStream.set_active self (MasterStream.set_active self s active).2 active
      = (false, (MasterStream.set_active self s active).2) := by
  unfold MasterStream.set_active
  by_cases hi : MasterStream.isInput self = true
  · by_cases h : s.m_streamInputActive = active <;> simp [hi, h]
  · by_cases h : s.m_streamOutputActive = active <;> simp [hi, h]

theorem set_volume_normalized_again [LinearOrderedField F] (cfg : Config F) (m : MathLib F)
    (s : DriverState F) (value : F) :
    MasterVolume.set_volume_normalized cfg m
        (MasterVolume.set_volume_normalized cfg m s value).2 value
      = (false, (MasterVolume.set_volume_normalized cfg m s value).2) := by
  unfold MasterVolume.set_volume_normalized
  by_cases h : s.m_volumeMasterValue
      = mts.normalized_value_to_amplitude m value cfg.volume_min_db cfg.volume_max_db <;>
    simp [h]

theorem set_volume_decibel_again [LinearOrderedField F] (cfg : Config F) (m : MathLib F)
    (s : DriverState F) (db : F) :
    MasterVolume.set_volume_decibel cfg m (MasterVolume.set_volume_decibel cfg m s db).2 db
      = (false, (MasterVolume.set_volume_decibel cfg m s db).2) := by
  unfold MasterVolume.set_volume_decibel
  by_cases h : s.m_volumeMasterValue
      = mts.max (mts.decibel_to_amplitude m db) cfg.volume_min_amplitude <;>
    simp [h]

theorem set_sample_rate_calls [LinearOrderedField F] [FloorRing F] (cfg : Config F)
    (s : DriverState F) (sr : F) :
    ∀ e ∈ (Device.set_sample_rate cfg s sr).2, e.call.isPropertiesChanged = false := by
  intro e he
  unfold Device.set_sample_rate at he
  by_cases h1 : cfg.is_supported_sample_rate sr = true <;>
    by_cases h2 : s.m_sampleRate = sr <;> simp [h1, h2] at he
  subst he
  rfl

set_option maxHeartbeats 2000000 in
theorem set_format_calls [LinearOrderedField F] [FloorRing F] (cfg : Config F) (self : stream)
    (s : DriverState F) (desc : AudioStreamBasicDescription F) :
    ∀ e ∈ (MasterStream.set_format cfg self s desc).2, e.call.isPropertiesChanged = false := by
  have h : (MasterStream.set_format cfg self s desc).2 = [] ∨
      (MasterStream.set_format cfg self s desc).2 =
        [⟨HostCall.RequestDeviceConfigurationChange self.m_device (toUInt64 desc.mSampleRate),
          true, false⟩] := by
    unfold MasterStream.set_format
    split_ifs <;> try simp
    by_cases h : desc.mSampleRate = s.m_sampleRate <;> simp [h]
  intro e he
  rcases h with h | h <;> rw [h] at he <;> simp at he
  subst he
  rfl

/-- What C10 says of a repeated `set`, for the object-level call with `*outNumberPropertiesChanged`
zero on entry: the second call succeeds, returns the state it was given, stores no changed
address and issues no properties-changed notification. -/
theorem objSet_idempotent [LinearOrderedField F] [FloorRing F] (cfg : Config F) (m : MathLib F)
    (s : DriverState F) (a : Address) (qsz : Nat) (qd : Option CFStringRef) (dsz : Nat)
    (inData : Blob F) (o : AnyObject)
    (h1 : (Driver.objSet cfg m s a qsz qd dsz inData 0 o).status = kAudioHardwareNoError) :
    (Driver.objSet cfg m (Driver.objSet cfg m s a qsz qd dsz inData 0 o).state a qsz qd dsz
        inData 0 o).status = kAudioHardwareNoError ∧
    (Driver.objSet cfg m (Driver.objSet cfg m s a qsz qd dsz inData 0 o).state a qsz qd dsz
        inData 0 o).state = (Driver.objSet cfg m s a qsz qd dsz inData 0 o).state ∧
    (Driver.objSet cfg m (Driver.objSet cfg m s a qsz qd dsz inData 0 o).state a qsz qd dsz
        inData 0 o).outNumberPropertiesChanged = 0 ∧
    (Driver.objSet cfg m (Driver.objSet cfg m s a qsz qd dsz inData 0 o).state a qsz qd dsz
        inData 0 o).outChangedAddresses = [] ∧
    ∀ e ∈ (Driver.objSet cfg m (Driver.objSet cfg m s a qsz qd dsz inData 0 o).state a qsz qd
        dsz inData 0 o).hostCalls, e.call.isPropertiesChanged = false := by
  obtain ⟨sel, sc, el⟩ := a
  cases o with
  | plugin o => simp [Driver.objSet, plugin.set] at h1
  | box o =>
    cases sel <;> simp only [Driver.objSet, box.set] at h1 ⊢ <;> try (simp at h1)
    · by_cases hsz : dsz < sizeof_CFStringRef
      · simp [hsz] at h1
      · by_cases hr : (Box.set_box_name cfg s inData.asCFStringRef).ret = true <;>
          simp [hsz, hr, set_box_name_again]
    · generalize decide (inData.asUInt32 ≠ 0) = b at h1 ⊢
      by_cases hsz : dsz ≠ sizeof_UInt32
      · simp [hsz] at h1
      · by_cases hr : (Box.set_acquired cfg o s b).ret = true <;>
          simp [hsz, hr, set_acquired_again]
  | device o =>
    cases sel <;> simp only [Driver.objSet, device.set] at h1 ⊢ <;> try (simp at h1)
    by_cases hsz : dsz = sizeof_Float64
    · simp [hsz] at h1 ⊢
      exact ⟨h1, set_sample_rate_calls cfg s _⟩
    · simp [hsz] at h1
  | stream o =>
    cases sel <;> simp only [Driver.objSet, stream.set] at h1 ⊢ <;> try (simp at h1)
    · generalize decide (inData.asUInt32 ≠ 0) = b at h1 ⊢
      by_cases hsz : dsz < sizeof_UInt32
      · simp [hsz] at h1
      · by_cases hr : (MasterStream.set_active o s b).1 = true <;>
          simp [hsz, hr, set_active_again]
    all_goals
      by_cases hsz : dsz = sizeof_AudioStreamBasicDescription
      · simp [hsz] at h1 ⊢
        exact ⟨h1, set_format_calls cfg o s _⟩
      · simp [hsz] at h1
  | volume_control o =>
    cases sel <;> simp only [Driver.objSet, volume_control.set] at h1 ⊢ <;>
      try (simp at h1)
    · by_cases hsz : dsz < sizeof_Float32
      · simp [hsz] at h1
      · by_cases hr : (MasterVolume.set_volume_normalized cfg m s inData.asFloat32).1 = true <;>
          simp [hsz, hr, set_volume_normalized_again]
    · by_cases hsz : dsz < sizeof_Float32
      · simp [hsz] at h1
      · by_cases hr : (MasterVolume.set_volume_decibel cfg m s inData.asFloat32).1 = true <;>
          simp [hsz, hr, set_volume_decibel_again]
  | mute_control o =>
    cases sel <;> simp only [Driver.objSet, mute_control.set] at h1 ⊢ <;>
      try (simp at h1)
    generalize decide (inData.asUInt32 ≠ 0) = b at h1 ⊢
    by_cases hsz : dsz ≠ sizeof_UInt32
    · simp [hsz] at h1
    · simp only [MasterMute.is_muted, MasterMute.set_muted] at h1 ⊢
      by_cases hr : s.m_muteMasterValue = b <;> simp [hsz, hr]

theorem SetPropertyDataImpl_eq [LinearOrderedField F] [FloorRing F] (cfg : Config F)
    (m : MathLib F) (s : DriverState F) (inObjectID : AudioObjectID) (a : Address) (qsz : Nat)
    (qd : Option CFStringRef) (dsz : Nat) (inData : Blob F) :
    Driver.SetPropertyDataImpl cfg m s inObjectID (some a) qsz qd dsz inData =
      if (callObject inObjectID (Driver.objSet cfg m s a qsz qd dsz inData 0)
          ⟨kAudioHardwareBadObjectError, s, 0, [], []⟩).outNumberPropertiesChanged > 0 then
        { callObject inObjectID (Driver.objSet cfg m s a qsz qd dsz inData 0)
            ⟨kAudioHardwareBadObjectError, s, 0, [], []⟩ with
          hostCalls :=
            (callObject inObjectID (Driver.objSet cfg m s a qsz qd dsz inData 0)
              ⟨kAudioHardwareBadObjectError, s, 0, [], []⟩).hostCalls ++
            [⟨HostCall.PropertiesChanged inObjectID
              (callObject inObjectID (Driver.objSet cfg m s a qsz qd dsz inData 0)
                ⟨kAudioHardwareBadObjectError, s, 0, [], []⟩).outChangedAddresses, false, false⟩] }
      else callObject inObjectID (Driver.objSet cfg m s a qsz qd dsz inData 0)
        ⟨kAudioHardwareBadObjectError, s, 0, [], []⟩ := by
  rfl

/-- The function template `callObject` either returns `ret` or applies `fct` to an object that
depends on the identifier only. -/
theorem callObject_cases {R : Type} (auid : AudioObjectID) :
    (∀ (fct : AnyObject → R) (ret : R), callObject auid fct ret = ret) ∨
    ∃ o : AnyObject, ∀ (fct : AnyObject → R) (ret : R), callObject auid fct ret = fct o := by
  unfold callObject
  cases h : ObjectID.ofAudioObjectID auid with
  | none => exact Or.inl (fun _ _ => rfl)
  | some oid => cases oid <;> exact Or.inr ⟨_, fun _ _ => rfl⟩

theorem IEEE_clamp_num [LinearOrderedField F] (d lo hi : F) :
    IEEE.clamp (IEEE.Value.num d) (IEEE.Value.num lo) (IEEE.Value.num hi)
      = IEEE.Value.num (mts.clamp d lo hi) := by
  unfold IEEE.clamp mts.clamp
  by_cases h1 : d < lo
  · by_cases h2 : hi < lo <;> simp [IEEE.Value.lt, h1, h2]
  · by_cases h2 : hi < d <;> simp [IEEE.Value.lt, h1, h2]

theorem IEEE_max_num [LinearOrderedField F] (a b : F) :
    IEEE.max (IEEE.Value.num a) (IEEE.Value.num b) = IEEE.Value.num (mts.max a b) := by
  unfold IEEE.max mts.max
  by_cases h : a < b <;> simp [IEEE.Value.lt, h]

theorem IEEE_normalized_value_to_amplitude_num [LinearOrderedField F] (m : MathLib F)
    (v lo hi : F) :
    IEEE.normalized_value_to_amplitude m (IEEE.Value.num v) (IEEE.Value.num lo)
        (IEEE.Value.num hi)
      = IEEE.Value.num (mts.normalized_value_to_amplitude m v lo hi) := by
  simp only [IEEE.normalized_value_to_amplitude, IEEE_clamp_num, IEEE.Value.lift2,
    IEEE.decibel_to_amplitude, mts.normalized_value_to_amplitude, mts.decibel_to_amplitude]

theorem IEEE_decibel_to_amplitude_num [LinearOrderedField F] (m : MathLib F) (db : F) :
    IEEE.decibel_to_amplitude m (IEEE.Value.num db)
      = IEEE.Value.num (mts.decibel_to_amplitude m db) := rfl

/-- On numbers, the members on floating-point values are the members of the embedding over
numbers. -/
theorem IEEE_set_volume_num [LinearOrderedField F] (cfg : Config F) (m : MathLib F)
    (s : DriverState F) (v : F) :
    IEEE.MasterVolume.set_volume_normalized cfg m (IEEE.ofState s) (IEEE.Value.num v)
      = ((MasterVolume.set_volume_normalized cfg m s v).1,
          IEEE.ofState (MasterVolume.set_volume_normalized cfg m s v).2) ∧
    IEEE.MasterVolume.set_volume_decibel cfg m (IEEE.ofState s) (IEEE.Value.num v)
      = ((MasterVolume.set_volume_decibel cfg m s v).1,
          IEEE.ofState (MasterVolume.set_volume_decibel cfg m s v).2) := by
  constructor
  · unfold IEEE.MasterVolume.set_volume_normalized MasterVolume.set_volume_normalized
    simp only [IEEE_normalized_value_to_amplitude_num]
    by_cases h : s.m_volumeMasterValue
        = mts.normalized_value_to_amplitude m v cfg.volume_min_db cfg.volume_max_db
    · simp [IEEE.ofState, IEEE.Value.eq, h]
    · simp [IEEE.ofState, IEEE.Value.eq, h]
  · unfold IEEE.MasterVolume.set_volume_decibel MasterVolume.set_volume_decibel
    simp only [IEEE_decibel_to_amplitude_num, IEEE_max_num]
    by_cases h : s.m_volumeMasterValue
        = mts.max (mts.decibel_to_amplitude m v) cfg.volume_min_amplitude
    · simp [IEEE.ofState, IEEE.Value.eq, h]
    · simp [IEEE.ofState, IEEE.Value.eq, h]

/-- On numbers, `volume_control::set` on floating-point values is `volume_control::set` of the
embedding over numbers. -/
theorem IEEE_volume_control_set_num [LinearOrderedField F] (cfg : Config F) (m : MathLib F)
    (self : volume_control) (s : DriverState F) (a : Address) (qsz : Nat)
    (qd : Option CFStringRef) (dsz : Nat) (d : Blob F) (n0 : Nat) :
    IEEE.volume_control.set cfg m self (IEEE.ofState s) a qsz qd dsz (IEEE.ofBlob d) n0
      = IEEE.ofResult (volume_control.set cfg m self s a qsz qd dsz d n0) := by
  obtain ⟨sel, sc, el⟩ := a
  obtain ⟨h1, h2⟩ := IEEE_set_volume_num cfg m s d.asFloat32
  have hb : (IEEE.ofBlob d).asFloat32 = IEEE.Value.num d.asFloat32 := rfl
  cases sel <;> simp only [IEEE.volume_control.set, volume_control.set] <;> try rfl
  · by_cases hsz : dsz < sizeof_Float32
    · rw [if_pos hsz, if_pos hsz]
      rfl
    · rw [if_neg hsz, if_neg hsz]
      simp only [hb, h1]
      by_cases hr : (MasterVolume.set_volume_normalized cfg m s d.asFloat32).1 = true
      · rw [if_pos hr, if_pos hr]
        rfl
      · rw [if_neg hr, if_neg hr]
        rfl
  · by_cases hsz : dsz < sizeof_Float32
    · rw [if_pos hsz, if_pos hsz]
      rfl
    · rw [if_neg hsz, if_neg hsz]
      simp only [hb, h2]
      by_cases hr : (MasterVolume.set_volume_decibel cfg m s d.asFloat32).1 = true
      · rw [if_pos hr, if_pos hr]
        rfl
      · rw [if_neg hr, if_neg hr]
        rfl

/-- The operator `==` holds between a number and itself. -/
theorem IEEE_eq_num_self [LinearOrderedField F] (x : F) :
    IEEE.Value.eq (IEEE.Value.num x) (IEEE.Value.num x) = true := by
  simp [IEEE.Value.eq]

/-- Storing a number as the gain unless it is stored already, twice: the second time it is
stored already. -/
theorem IEEE_store_again [LinearOrderedField F] (s : DriverState (IEEE.Value F)) (x : F) :
    (if IEEE.Value.eq
          (if IEEE.Value.eq s.m_volumeMasterValue (IEEE.Value.num x) = true then (false, s)
            else (true, { s with m_volumeMasterValue := IEEE.Value.num x })).2.m_volumeMasterValue
          (IEEE.Value.num x) = true
      then (false,
        (if IEEE.Value.eq s.m_volumeMasterValue (IEEE.Value.num x) = true then (false, s)
          else (true, { s with m_volumeMasterValue := IEEE.Value.num x })).2)
      else (true,
        { (if IEEE.Value.eq s.m_volumeMasterValue (IEEE.Value.num x) = true then (false, s)
            else (true, { s with m_volumeMasterValue := IEEE.Value.num x })).2 with
          m_volumeMasterValue := IEEE.Value.num x }))
      = (false,
        (if IEEE.Value.eq s.m_volumeMasterValue (IEEE.Value.num x) = true then (false, s)
          else (true, { s with m_volumeMasterValue := IEEE.Value.num x })).2) := by
  by_cases h : IEEE.Value.eq s.m_volumeMasterValue (IEEE.Value.num x) = true
  · simp only [if_pos h]
  · simp only [if_neg h, IEEE_eq_num_self, if_true]

/-- A gain set to a number: the gain stored is a number, and the same set made again finds it
stored. -/
theorem IEEE_set_volume_again [LinearOrderedField F] (cfg : Config F) (m : MathLib F)
    (s : DriverState (IEEE.Value F)) (v : F) :
    IEEE.MasterVolume.set_volume_normalized cfg m
        (IEEE.MasterVolume.set_volume_normalized cfg m s (IEEE.Value.num v)).2
        (IEEE.Value.num v)
      = (false, (IEEE.MasterVolume.set_volume_normalized cfg m s (IEEE.Value.num v)).2) ∧
    IEEE.MasterVolume.set_volume_decibel cfg m
        (IEEE.MasterVolume.set_volume_decibel cfg m s (IEEE.Value.num v)).2 (IEEE.Value.num v)
      = (false, (IEEE.MasterVolume.set_volume_decibel cfg m s (IEEE.Value.num v)).2) := by
  constructor
  · unfold IEEE.MasterVolume.set_volume_normalized
    simp only [IEEE_normalized_value_to_amplitude_num]
    exact IEEE_store_again s _
  · unfold IEEE.MasterVolume.set_volume_decibel
    simp only [IEEE_decibel_to_amplitude_num, IEEE_max_num]
    exact IEEE_store_again s _

/-- On floating-point values, a successful `set` on a volume control with data that is not NaN
is idempotent: the same `set` made again on the resulting state returns success, reports no
changed address and leaves the state as it is. -/
theorem IEEE_volume_control_set_idempotent [LinearOrderedField F] (cfg : Config F)
    (m : MathLib F) (self : volume_control) (s : DriverState (IEEE.Value F)) (a : Address)
    (qsz : Nat) (qd : Option CFStringRef) (dsz : Nat) (d : Blob (IEEE.Value F)) (n0 : Nat)
    (hnum : d.asFloat32 ≠ IEEE.Value.nan)
    (h1 : (IEEE.volume_control.set cfg m self s a qsz qd dsz d n0).status
      = kAudioHardwareNoError) :
    IEEE.volume_control.set cfg m self
        (IEEE.volume_control.set cfg m self s a qsz qd dsz d n0).state a qsz qd dsz d n0
      = ⟨kAudioHardwareNoError, (IEEE.volume_control.set cfg m self s a qsz qd dsz d n0).state,
          n0, [], []⟩ := by
  obtain ⟨sel, sc, el⟩ := a
  cases hv : d.asFloat32 with
  | nan => exact absurd hv hnum
  | num v =>
    obtain ⟨g1, g2⟩ := IEEE_set_volume_again cfg m s v
    cases sel <;> simp only [IEEE.volume_control.set] at h1 ⊢ <;> try (simp at h1)
    · by_cases hsz : dsz < sizeof_Float32
      · simp [hsz] at h1
      · simp only [hsz, if_false, hv]
        by_cases hr : (IEEE.MasterVolume.set_volume_normalized cfg m s
            (IEEE.Value.num v)).1 = true <;> simp [hr, g1]
    · by_cases hsz : dsz < sizeof_Float32
      · simp [hsz] at h1
      · simp only [hsz, if_false, hv]
        by_cases hr : (IEEE.MasterVolume.set_volume_decibel cfg m s
            (IEEE.Value.num v)).1 = true <;> simp [hr, g2]

/-- C10 fails for a NaN gain: a `set` of the scalar value of the output volume control to NaN
in the initial state of the example driver returns success, stores NaN as the master gain and
reports two changed addresses, and the same `set` made again on the resulting state reports the
two changed addresses again, as `getMasterVolume() == volume` is false for NaN. A `set` of the
decibel value to NaN does the same. -/
theorem C10_set_idempotent_counterexample :
    IEEE.volume_control.set exampleConfig exampleMathLib
        ⟨ObjectID.VolumeOutputMaster.toAudioObjectID, ObjectID.Device.toAudioObjectID,
          mts.direction.output⟩
        (IEEE.ofState (DriverState.initial exampleConfig))
        ⟨kAudioLevelControlPropertyScalarValue, kAudioObjectPropertyScopeGlobal, 0⟩ 0 none
        sizeof_Float32 { IEEE.ofBlob exampleBlob with asFloat32 := IEEE.Value.nan } 0
      = ⟨kAudioHardwareNoError,
          { IEEE.ofState (DriverState.initial exampleConfig) with
            m_volumeMasterValue := IEEE.Value.nan }, 2,
          [changedAddress kAudioLevelControlPropertyScalarValue,
           changedAddress kAudioLevelControlPropertyDecibelValue], []⟩ ∧
    IEEE.volume_control.set exampleConfig exampleMathLib
        ⟨ObjectID.VolumeOutputMaster.toAudioObjectID, ObjectID.Device.toAudioObjectID,
          mts.direction.output⟩
        { IEEE.ofState (DriverState.initial exampleConfig) with
          m_volumeMasterValue := IEEE.Value.nan }
        ⟨kAudioLevelControlPropertyScalarValue, kAudioObjectPropertyScopeGlobal, 0⟩ 0 none
        sizeof_Float32 { IEEE.ofBlob exampleBlob with asFloat32 := IEEE.Value.nan } 0
      = ⟨kAudioHardwareNoError,
          { IEEE.ofState (DriverState.initial exampleConfig) with
            m_volumeMasterValue := IEEE.Value.nan }, 2,
          [changedAddress kAudioLevelControlPropertyScalarValue,
           changedAddress kAudioLevelControlPropertyDecibelValue], []⟩ ∧
    IEEE.volume_control.set exampleConfig exampleMathLib
        ⟨ObjectID.VolumeOutputMaster.toAudioObjectID, ObjectID.Device.toAudioObjectID,
          mts.direction.output⟩
        { IEEE.ofState (DriverState.initial exampleConfig) with
          m_volumeMasterValue := IEEE.Value.nan }
        ⟨kAudioLevelControlPropertyDecibelValue, kAudioObjectPropertyScopeGlobal, 0⟩ 0 none
        sizeof_Float32 { IEEE.ofBlob exampleBlob with asFloat32 := IEEE.Value.nan } 0
      = ⟨kAudioHardwareNoError,
          { IEEE.ofState (DriverState.initial exampleConfig) with
            m_volumeMasterValue := IEEE.Value.nan }, 2,
          [changedAddress kAudioLevelControlPropertyScalarValue,
           changedAddress kAudioLevelControlPropertyDecibelValue], []⟩ := by
  refine ⟨rfl, rfl, rfl⟩

/-- C10, amended. `set` is idempotent for every input value other than a NaN gain. Over
numbers (no floating-point value is NaN): for every object identifier, every property address
and every input value, if a `set` returns success then the same `set` repeated at once on the
resulting state also returns success, reports zero changed addresses, issues no
properties-changed notification and leaves the driver state unchanged. And setting the mute
value, the box-acquired flag or the stream-active flag to the value currently read by `get`
returns success with zero changed addresses, the state unchanged and no host call. On
floating-point values, where the gain stored may be NaN: a successful `set` on a volume control
with data that is not NaN, repeated at once, returns success, reports no changed address and
leaves the state unchanged. -/
theorem C10_set_idempotent [LinearOrderedField F] [FloorRing F] (cfg : Config F)
    (m : MathLib F) (env : Environment) (s : DriverState F) (inObjectID : AudioObjectID)
    (a : Address) (qsz : Nat) (qd : Option CFStringRef) (dsz : Nat) (inData : Blob F)
    (h1 : (Driver.SetPropertyDataImpl cfg m s inObjectID (some a) qsz qd dsz inData).status
      = kAudioHardwareNoError) :
    ((Driver.SetPropertyDataImpl cfg m
        (Driver.SetPropertyDataImpl cfg m s inObjectID (some a) qsz qd dsz inData).state
        inObjectID (some a) qsz qd dsz inData).status = kAudioHardwareNoError ∧
      (Driver.SetPropertyDataImpl cfg m
        (Driver.SetPropertyDataImpl cfg m s inObjectID (some a) qsz qd dsz inData).state
        inObjectID (some a) qsz qd dsz inData).state
        = (Driver.SetPropertyDataImpl cfg m s inObjectID (some a) qsz qd dsz inData).state ∧
      (Driver.SetPropertyDataImpl cfg m
        (Driver.SetPropertyDataImpl cfg m s inObjectID (some a) qsz qd dsz inData).state
        inObjectID (some a) qsz qd dsz inData).outNumberPropertiesChanged = 0 ∧
      (Driver.SetPropertyDataImpl cfg m
        (Driver.SetPropertyDataImpl cfg m s inObjectID (some a) qsz qd dsz inData).state
        inObjectID (some a) qsz qd dsz inData).outChangedAddresses = [] ∧
      ∀ e ∈ (Driver.SetPropertyDataImpl cfg m
        (Driver.SetPropertyDataImpl cfg m s inObjectID (some a) qsz qd dsz inData).state
        inObjectID (some a) qsz qd dsz inData).hostCalls, e.call.isPropertiesChanged = false) ∧
    (∀ (oid : ObjectID) (m0 v : Nat) (d : Blob F),
      (oid, a.mSelector) ∈
        [(ObjectID.MuteInputMaster, kAudioBooleanControlPropertyValue),
         (ObjectID.MuteOutputMaster, kAudioBooleanControlPropertyValue),
         (ObjectID.Box, kAudioBoxPropertyAcquired),
         (ObjectID.StreamInput, kAudioStreamPropertyIsActive),
         (ObjectID.StreamOutput, kAudioStreamPropertyIsActive)] →
      (Driver.GetPropertyDataImpl cfg m env s oid.toAudioObjectID (some a) qsz qd sizeof_UInt32
        (some m0) (some d)).outData = some (.uint32 v) →
      inData.asUInt32 = v →
      Driver.SetPropertyDataImpl cfg m s oid.toAudioObjectID (some a) qsz qd sizeof_UInt32 inData
        = ⟨kAudioHardwareNoError, s, 0, [], []⟩) ∧
    (∀ (self : volume_control) (s1 : DriverState (IEEE.Value F)) (d : Blob (IEEE.Value F))
        (n0 : Nat),
      d.asFloat32 ≠ IEEE.Value.nan →
      (IEEE.volume_control.set cfg m self s1 a qsz qd dsz d n0).status
        = kAudioHardwareNoError →
      IEEE.volume_control.set cfg m self
          (IEEE.volume_control.set cfg m self s1 a qsz qd dsz d n0).state a qsz qd dsz d n0
        = ⟨kAudioHardwareNoError,
            (IEEE.volume_control.set cfg m self s1 a qsz qd dsz d n0).state, n0, [], []⟩) := by
  refine ⟨?_, ?_, fun self s1 d n0 hnum hs =>
    IEEE_volume_control_set_idempotent cfg m self s1 a qsz qd dsz d n0 hnum hs⟩
  · rw [SetPropertyDataImpl_eq] at h1
    rcases callObject_cases (R := SetResult F) inObjectID with hret | ⟨o, ho⟩
    · simp [hret] at h1
    · have hst : (Driver.SetPropertyDataImpl cfg m s inObjectID (some a) qsz qd dsz inData).state
          = (Driver.objSet cfg m s a qsz qd dsz inData 0 o).state := by
        rw [SetPropertyDataImpl_eq, ho]
        split_ifs <;> rfl
      have h1' : (Driver.objSet cfg m s a qsz qd dsz inData 0 o).status
          = kAudioHardwareNoError := by
        rw [ho] at h1
        split_ifs at h1 <;> exact h1
      obtain ⟨i1, i2, i3, i4, i5⟩ := objSet_idempotent cfg m s a qsz qd dsz inData o h1'
      rw [hst, SetPropertyDataImpl_eq, ho, if_neg (by rw [i3]; decide)]
      exact ⟨i1, i2, i3, i4, i5⟩
  · intro oid m0 v d hmem hget hv
    obtain ⟨sel, sc, el⟩ := a
    simp only [List.mem_cons, Prod.mk.injEq, List.mem_singleton, List.not_mem_nil,
      or_false] at hmem
    rcases hmem with ⟨rfl, rfl⟩ | ⟨rfl, rfl⟩ | ⟨rfl, rfl⟩ | ⟨rfl, rfl⟩ | ⟨rfl, rfl⟩ <;>
      simp [Driver.GetPropertyDataImpl, callObject, ObjectID.ofAudioObjectID,
        ObjectID.toAudioObjectID, kAudioObjectPlugInObject, Driver.objGet, mute_control.get,
        box.get, stream.get, checkedAssign, MasterMute.is_muted, Box.is_acquired,
        MasterStream.is_active, MasterStream.isInput] at hget <;>
      subst hv
    · by_cases hb : s.m_muteMasterValue = true <;> simp [hb] at hget <;>
        simp [← hget, hb, Driver.SetPropertyDataImpl, callObject, ObjectID.ofAudioObjectID,
          ObjectID.toAudioObjectID, kAudioObjectPlugInObject, Driver.objSet, mute_control.set,
          MasterMute.is_muted]
    · by_cases hb : s.m_muteMasterValue = true <;> simp [hb] at hget <;>
        simp [← hget, hb, Driver.SetPropertyDataImpl, callObject, ObjectID.ofAudioObjectID,
          ObjectID.toAudioObjectID, kAudioObjectPlugInObject, Driver.objSet, mute_control.set,
          MasterMute.is_muted]
    · by_cases hb : s.m_isBoxAcquired = true <;> simp [hb] at hget <;>
        simp [← hget, hb, Driver.SetPropertyDataImpl, callObject, ObjectID.ofAudioObjectID,
          ObjectID.toAudioObjectID, kAudioObjectPlugInObject, Driver.objSet, box.set,
          Box.set_acquired]
    · by_cases hb : s.m_streamInputActive = true <;> simp [hb] at hget <;>
        simp [← hget, hb, Driver.SetPropertyDataImpl, callObject, ObjectID.ofAudioObjectID,
          ObjectID.toAudioObjectID, kAudioObjectPlugInObject, Driver.objSet, stream.set,
          MasterStream.set_active, MasterStream.isInput, sizeof_UInt32]
    · by_cases hb : s.m_streamOutputActive = true <;> simp [hb] at hget <;>
        simp [← hget, hb, Driver.SetPropertyDataImpl, callObject, ObjectID.ofAudioObjectID,
          ObjectID.toAudioObjectID, kAudioObjectPlugInObject, Driver.objSet, stream.set,
          MasterStream.set_active, MasterStream.isInput, sizeof_UInt32]

/-- C10 in the example configuration: muting twice through the output mute control. -/
theorem C10_set_idempotent_witness :
    (Driver.SetPropertyDataImpl exampleConfig exampleMathLib (DriverState.initial exampleConfig)
        ObjectID.MuteOutputMaster.toAudioObjectID
        (some ⟨kAudioBooleanControlPropertyValue, kAudioObjectPropertyScopeGlobal, 0⟩) 0 none 4
        { exampleBlob with asUInt32 := 1 }).status = kAudioHardwareNoError ∧
    (Driver.SetPropertyDataImpl exampleConfig exampleMathLib (DriverState.initial exampleConfig)
        ObjectID.MuteOutputMaster.toAudioObjectID
        (some ⟨kAudioBooleanControlPropertyValue, kAudioObjectPropertyScopeGlobal, 0⟩) 0 none 4
        { exampleBlob with asUInt32 := 1 }).outNumberPropertiesChanged = 1 ∧
    (Driver.SetPropertyDataImpl exampleConfig exampleMathLib
        (Driver.SetPropertyDataImpl exampleConfig exampleMathLib
          (DriverState.initial exampleConfig) ObjectID.MuteOutputMaster.toAudioObjectID
          (some ⟨kAudioBooleanControlPropertyValue, kAudioObjectPropertyScopeGlobal, 0⟩) 0 none 4
          { exampleBlob with asUInt32 := 1 }).state
        ObjectID.MuteOutputMaster.toAudioObjectID
        (some ⟨kAudioBooleanControlPropertyValue, kAudioObjectPropertyScopeGlobal, 0⟩) 0 none 4
        { exampleBlob with asUInt32 := 1 }).outNumberPropertiesChanged = 0 :=
  ⟨rfl, rfl,
    (C10_set_idempotent exampleConfig exampleMathLib exampleEnvironment
      (DriverState.initial exampleConfig) ObjectID.MuteOutputMaster.toAudioObjectID
      ⟨kAudioBooleanControlPropertyValue, kAudioObjectPropertyScopeGlobal, 0⟩ 0 none 4
      { exampleBlob with asUInt32 := 1 } rfl).1.2.2.1⟩

/-! ## C11: a capacity below the reported size -/

/-- C11 fails for the plug-in's resource-bundle property: `size` reports the 8 bytes of a
`CFStringRef`, but `get` compares the capacity with the 4 bytes of an `AudioObjectID`, so with
a capacity of 4 bytes (below the reported 8) it returns success, stores the 8-byte reference
and reports 8 bytes; only below 4 bytes does it return the bad-property-size status. The
manufacturer property of the same class, also a `CFStringRef`, is refused with 4 bytes. -/
theorem C11_resource_bundle_short_capacity :
    Driver.GetPropertyDataSizeImpl exampleConfig (DriverState.initial exampleConfig)
        ObjectID.Plugin.toAudioObjectID
        (some ⟨kAudioPlugInPropertyResourceBundle, kAudioObjectPropertyScopeGlobal, 0⟩)
        0 none (some 0) = ⟨kAudioHardwareNoError, 8⟩ ∧
    Driver.GetPropertyDataImpl exampleConfig exampleMathLib exampleEnvironment
        (DriverState.initial exampleConfig) ObjectID.Plugin.toAudioObjectID
        (some ⟨kAudioPlugInPropertyResourceBundle, kAudioObjectPropertyScopeGlobal, 0⟩)
        0 none 4 (some 0) (some exampleBlob)
      = ⟨kAudioHardwareNoError, 8, some (.cfString (some ""))⟩ ∧
    (Driver.GetPropertyDataImpl exampleConfig exampleMathLib exampleEnvironment
        (DriverState.initial exampleConfig) ObjectID.Plugin.toAudioObjectID
        (some ⟨kAudioPlugInPropertyResourceBundle, kAudioObjectPropertyScopeGlobal, 0⟩)
        0 none 3 (some 0) (some exampleBlob)).status = kAudioHardwareBadPropertySizeError ∧
    Driver.GetPropertyDataSizeImpl exampleConfig (DriverState.initial exampleConfig)
        ObjectID.Plugin.toAudioObjectID
        (some ⟨kAudioObjectPropertyManufacturer, kAudioObjectPropertyScopeGlobal, 0⟩)
        0 none (some 0) = ⟨kAudioHardwareNoError, 8⟩ ∧
    Driver.GetPropertyDataImpl exampleConfig exampleMathLib exampleEnvironment
        (DriverState.initial exampleConfig) ObjectID.Plugin.toAudioObjectID
        (some ⟨kAudioObjectPropertyManufacturer, kAudioObjectPropertyScopeGlobal, 0⟩)
        0 none 4 (some 0) (some exampleBlob)
      = ⟨kAudioHardwareBadPropertySizeError, 0, none⟩ := by
  refine ⟨?_, ?_, ?_, ?_, ?_⟩ <;> rfl

/-! ## C12: list properties -/

theorem mts_min_eq (a b : Nat) : mts.min a b = min a b := by
  unfold mts.min
  split_ifs with h
  · exact (min_eq_right (le_of_lt h)).symm
  · exact (min_eq_left (not_lt.mp h)).symm

theorem u32_items (cap itemSize k : Nat) (hcap : cap < 2 ^ 32) (hk : k ≤ cap / itemSize) :
    u32 (k * itemSize) = k * itemSize := by
  apply u32_of_lt
  have : k * itemSize ≤ cap / itemSize * itemSize := Nat.mul_le_mul_right _ hk
  have := Nat.div_mul_le_self cap itemSize
  omega

theorem device_lists (ic : Nat) :
    device.get_global_object_list ic =
      (([ObjectID.StreamInput, ObjectID.VolumeInputMaster, ObjectID.MuteInputMaster,
          ObjectID.StreamOutput, ObjectID.VolumeOutputMaster, ObjectID.MuteOutputMaster].map
          ObjectID.toAudioObjectID).take (min ic 6), min ic 6) ∧
    device.get_input_object_list ic =
      (([ObjectID.StreamInput, ObjectID.VolumeInputMaster, ObjectID.MuteInputMaster].map
          ObjectID.toAudioObjectID).take (min ic 3), min ic 3) ∧
    device.get_output_object_list ic =
      (([ObjectID.StreamOutput, ObjectID.VolumeOutputMaster, ObjectID.MuteOutputMaster].map
          ObjectID.toAudioObjectID).take (min ic 3), min ic 3) ∧
    device.get_global_stream_list ic =
      (([ObjectID.StreamInput, ObjectID.StreamOutput].map
          ObjectID.toAudioObjectID).take (min ic 2), min ic 2) ∧
    device.get_input_stream_list ic =
      (([ObjectID.StreamInput].map ObjectID.toAudioObjectID).take (min ic 1), min ic 1) ∧
    device.get_output_stream_list ic =
      (([ObjectID.StreamOutput].map ObjectID.toAudioObjectID).take (min ic 1), min ic 1) ∧
    device.get_control_list ic =
      (([ObjectID.VolumeInputMaster, ObjectID.MuteInputMaster, ObjectID.VolumeOutputMaster,
          ObjectID.MuteOutputMaster].map ObjectID.toAudioObjectID).take (min ic 4), min ic 4) := by
  refine ⟨?_, ?_, ?_, ?_, ?_, ?_, ?_⟩
  · unfold device.get_global_object_list
    simp only [mts_min_eq]
    have h : device.get_global_object_list_size = 6 := rfl
    rw [h]
    have hk : min ic 6 ≤ 6 := min_le_right _ _
    generalize min ic 6 = k at hk
    interval_cases k <;> rfl
  · have h : device.get_input_object_list_size = 3 := rfl
    simp only [device.get_input_object_list, device.get_filtered_list, mts_min_eq, h]
    have hk : min ic 3 ≤ 3 := min_le_right _ _
    generalize min ic 3 = k at hk
    interval_cases k <;> rfl
  · have h : device.get_output_object_list_size = 3 := rfl
    simp only [device.get_output_object_list, device.get_filtered_list, mts_min_eq, h]
    have hk : min ic 3 ≤ 3 := min_le_right _ _
    generalize min ic 3 = k at hk
    interval_cases k <;> rfl
  · have h : device.get_global_stream_list_size = 2 := rfl
    simp only [device.get_global_stream_list, device.get_filtered_list, mts_min_eq, h]
    have hk : min ic 2 ≤ 2 := min_le_right _ _
    generalize min ic 2 = k at hk
    interval_cases k <;> rfl
  · have h : device.get_input_stream_list_size = 1 := rfl
    simp only [device.get_input_stream_list, device.get_filtered_list, mts_min_eq, h]
    have hk : min ic 1 ≤ 1 := min_le_right _ _
    generalize min ic 1 = k at hk
    interval_cases k <;> rfl
  · have h : device.get_output_stream_list_size = 1 := rfl
    simp only [device.get_output_stream_list, device.get_filtered_list, mts_min_eq, h]
    have hk : min ic 1 ≤ 1 := min_le_right _ _
    generalize min ic 1 = k at hk
    interval_cases k <;> rfl
  · have h : device.get_control_list_size = 4 := rfl
    simp only [device.get_control_list, device.get_filtered_list, mts_min_eq, h]
    have hk : min ic 4 ≤ 4 := min_le_right _ _
    generalize min ic 4 = k at hk
    interval_cases k <;> rfl


theorem plugin_lists [LinearOrderedField F] (s : DriverState F) (ic : Nat) :
    Plugin.get_object_list s ic =
      ((if s.m_isBoxAcquired then [ObjectID.Box, ObjectID.Device].map ObjectID.toAudioObjectID
          else [ObjectID.Box].map ObjectID.toAudioObjectID).take
        (min ic (if s.m_isBoxAcquired then [ObjectID.Box, ObjectID.Device].map
          ObjectID.toAudioObjectID else [ObjectID.Box].map ObjectID.toAudioObjectID).length),
        min ic (if s.m_isBoxAcquired then [ObjectID.Box, ObjectID.Device].map
          ObjectID.toAudioObjectID else [ObjectID.Box].map ObjectID.toAudioObjectID).length) ∧
    Plugin.get_box_list ic = (([ObjectID.Box].map ObjectID.toAudioObjectID).take (min ic 1),
      min ic 1) ∧
    Plugin.get_device_list s ic =
      ((if s.m_isBoxAcquired then [ObjectID.Device].map ObjectID.toAudioObjectID else []).take
        (min ic (if s.m_isBoxAcquired then [ObjectID.Device].map ObjectID.toAudioObjectID
          else []).length),
        min ic (if s.m_isBoxAcquired then [ObjectID.Device].map ObjectID.toAudioObjectID
          else []).length) ∧
    Box.get_device_list ic = (([ObjectID.Device].map ObjectID.toAudioObjectID).take (min ic 1),
      min ic 1) := by
  have h0 : ic = 0 ∨ ic = 1 ∨ 2 ≤ ic := by omega
  cases hacq : s.m_isBoxAcquired <;> rcases h0 with rfl | rfl | h2 <;>
    simp [Plugin.get_object_list, Plugin.get_box_list, Plugin.get_device_list,
      Box.get_device_list, hacq]
  all_goals
    have e2 : min ic 2 = 2 := min_eq_right h2
    have e1 : min ic 1 = 1 := min_eq_right (by omega)
    have h1 : 1 ≤ ic := by omega
    have h3 : ic ≠ 0 := by omega
    simp [e1, e2, h1, h2, h3]

theorem list_get_eq [LinearOrderedField F] {α : Type} (wrap : List α → PropertyValue F)
    (itemSize cap : Nat) (full : List α) (r : List α × Nat) (hcap : cap < 2 ^ 32)
    (hr : r = (full.take (min (cap / itemSize) full.length), min (cap / itemSize) full.length)) :
    (⟨kAudioHardwareNoError, u32 (r.2 * itemSize), some (wrap r.1)⟩ : GetResult F)
      = specListGet wrap itemSize full cap := by
  subst hr
  simp only [specListGet]
  rw [u32_items cap itemSize _ hcap (min_le_left _ _)]

/-- C12. For every list property and every capacity below `2 ^ 32`, `get` returns success,
stores the first `k = min (capacity / item size) (number of items)` items of the full list in
order and reports `k * item size` bytes. The full lists are: for the plug-in, its owned objects
(the box, then the device when the box is acquired), its box list and its device list (the
device when the box is acquired); for the box, its device list; for the device, the owned
objects and the streams of the global, input and output scope, the control list, the related
devices and the supported sample rates as ranges; for either stream, the supported formats. For
the related devices nothing at all is stored when `k = 0`. -/
theorem C12_list_get [LinearOrderedField F] [FloorRing F] (cfg : Config F) (m : MathLib F)
    (env : Environment) (s : DriverState F) (sc : Scope) (el qsz : Nat)
    (qd : Option CFStringRef) (cap n0 : Nat) (d : Blob F) (hcap : cap < 2 ^ 32) :
    Driver.GetPropertyDataImpl cfg m env s ObjectID.Plugin.toAudioObjectID
        (some ⟨kAudioObjectPropertyOwnedObjects, sc, el⟩) qsz qd cap (some n0) (some d)
      = specListGet PropertyValue.objectList sizeof_AudioObjectID
          (if s.m_isBoxAcquired then ([ObjectID.Box, ObjectID.Device].map ObjectID.toAudioObjectID)
            else ([ObjectID.Box].map ObjectID.toAudioObjectID)) cap ∧
    Driver.GetPropertyDataImpl cfg m env s ObjectID.Plugin.toAudioObjectID
        (some ⟨kAudioPlugInPropertyBoxList, sc, el⟩) qsz qd cap (some n0) (some d)
      = specListGet PropertyValue.objectList sizeof_AudioObjectID
          ([ObjectID.Box].map ObjectID.toAudioObjectID) cap ∧
    Driver.GetPropertyDataImpl cfg m env s ObjectID.Plugin.toAudioObjectID
        (some ⟨kAudioPlugInPropertyDeviceList, sc, el⟩) qsz qd cap (some n0) (some d)
      = specListGet PropertyValue.objectList sizeof_AudioObjectID
          (if s.m_isBoxAcquired then ([ObjectID.Device].map ObjectID.toAudioObjectID) else []) cap ∧
    Driver.GetPropertyDataImpl cfg m env s ObjectID.Box.toAudioObjectID
        (some ⟨kAudioBoxPropertyDeviceList, sc, el⟩) qsz qd cap (some n0) (some d)
      = specListGet PropertyValue.objectList sizeof_AudioObjectID
          ([ObjectID.Device].map ObjectID.toAudioObjectID) cap ∧
    Driver.GetPropertyDataImpl cfg m env s ObjectID.Device.toAudioObjectID
        (some ⟨kAudioObjectPropertyOwnedObjects, kAudioObjectPropertyScopeGlobal, el⟩) qsz qd cap (some n0) (some d)
      = specListGet PropertyValue.objectList sizeof_AudioObjectID
          ([ObjectID.StreamInput, ObjectID.VolumeInputMaster, ObjectID.MuteInputMaster, ObjectID.StreamOutput, ObjectID.VolumeOutputMaster, ObjectID.MuteOutputMaster].map ObjectID.toAudioObjectID) cap ∧
    Driver.GetPropertyDataImpl cfg m env s ObjectID.Device.toAudioObjectID
        (some ⟨kAudioObjectPropertyOwnedObjects, kAudioObjectPropertyScopeInput, el⟩) qsz qd cap (some n0) (some d)
      = specListGet PropertyValue.objectList sizeof_AudioObjectID
          ([ObjectID.StreamInput, ObjectID.VolumeInputMaster, ObjectID.MuteInputMaster].map ObjectID.toAudioObjectID) cap ∧
    Driver.GetPropertyDataImpl cfg m env s ObjectID.Device.toAudioObjectID
        (some ⟨kAudioObjectPropertyOwnedObjects, kAudioObjectPropertyScopeOutput, el⟩) qsz qd cap (some n0) (some d)
      = specListGet PropertyValue.objectList sizeof_AudioObjectID
          ([ObjectID.StreamOutput, ObjectID.VolumeOutputMaster, ObjectID.MuteOutputMaster].map ObjectID.toAudioObjectID) cap ∧
    Driver.GetPropertyDataImpl cfg m env s ObjectID.Device.toAudioObjectID
        (some ⟨kAudioDevicePropertyStreams, kAudioObjectPropertyScopeGlobal, el⟩) qsz qd cap (some n0) (some d)
      = specListGet PropertyValue.objectList sizeof_AudioObjectID
          ([ObjectID.StreamInput, ObjectID.StreamOutput].map ObjectID.toAudioObjectID) cap ∧
    Driver.GetPropertyDataImpl cfg m env s ObjectID.Device.toAudioObjectID
        (some ⟨kAudioDevicePropertyStreams, kAudioObjectPropertyScopeInput, el⟩) qsz qd cap (some n0) (some d)
      = specListGet PropertyValue.objectList sizeof_AudioObjectID
          ([ObjectID.StreamInput].map ObjectID.toAudioObjectID) cap ∧
    Driver.GetPropertyDataImpl cfg m env s ObjectID.Device.toAudioObjectID
        (some ⟨kAudioDevicePropertyStreams, kAudioObjectPropertyScopeOutput, el⟩) qsz qd cap (some n0) (some d)
      = specListGet PropertyValue.objectList sizeof_AudioObjectID
          ([ObjectID.StreamOutput].map ObjectID.toAudioObjectID) cap ∧
    Driver.GetPropertyDataImpl cfg m env s ObjectID.Device.toAudioObjectID
        (some ⟨kAudioObjectPropertyControlList, sc, el⟩) qsz qd cap (some n0) (some d)
      = specListGet PropertyValue.objectList sizeof_AudioObjectID
          ([ObjectID.VolumeInputMaster, ObjectID.MuteInputMaster, ObjectID.VolumeOutputMaster, ObjectID.MuteOutputMaster].map ObjectID.toAudioObjectID) cap ∧
    Driver.GetPropertyDataImpl cfg m env s ObjectID.Device.toAudioObjectID
        (some ⟨kAudioDevicePropertyRelatedDevices, sc, el⟩) qsz qd cap (some n0) (some d)
      = ⟨kAudioHardwareNoError, min (cap / sizeof_AudioObjectID) 1 * sizeof_AudioObjectID,
          if min (cap / sizeof_AudioObjectID) 1 = 0 then none
          else some (.objectList (([ObjectID.Device].map ObjectID.toAudioObjectID).take (min (cap / sizeof_AudioObjectID) 1)))⟩ ∧
    Driver.GetPropertyDataImpl cfg m env s ObjectID.Device.toAudioObjectID
        (some ⟨kAudioDevicePropertyAvailableNominalSampleRates, sc, el⟩) qsz qd cap (some n0) (some d)
      = specListGet PropertyValue.valueRanges sizeof_AudioValueRange
          (cfg.supported_sample_rates.map (fun sr => (⟨sr, sr⟩ : AudioValueRange F))) cap ∧
    (∀ stream, stream = ObjectID.StreamInput ∨ stream = ObjectID.StreamOutput →
      ∀ sel, sel = kAudioStreamPropertyAvailableVirtualFormats ∨
          sel = kAudioStreamPropertyAvailablePhysicalFormats →
        Driver.GetPropertyDataImpl cfg m env s stream.toAudioObjectID
            (some ⟨sel, sc, el⟩) qsz qd cap (some n0) (some d)
          = specListGet PropertyValue.rangedDescriptions sizeof_AudioStreamRangedDescription
              (cfg.supported_sample_rates.map (fun sr =>
            (⟨⟨sr, cfg.format_id, cfg.format_flags, cfg.bytes_per_packet, cfg.frames_per_packet,
              cfg.bytes_per_frame, cfg.channel_count, cfg.bits_per_channel⟩, ⟨sr, sr⟩⟩ :
              AudioStreamRangedDescription F))) cap) := by
  have hP := plugin_lists s (cap / sizeof_AudioObjectID)
  have hD := device_lists (cap / sizeof_AudioObjectID)
  refine ⟨?_, ?_, ?_, ?_, ?_, ?_, ?_, ?_, ?_, ?_, ?_, ?_, ?_, ?_⟩
  · exact list_get_eq _ _ _ _ _ hcap hP.1
  · exact list_get_eq _ _ _ _ _ hcap hP.2.1
  · exact list_get_eq _ _ _ _ _ hcap hP.2.2.1
  · exact list_get_eq _ _ _ _ _ hcap hP.2.2.2
  · exact list_get_eq _ _ _ _ _ hcap hD.1
  · exact list_get_eq _ _ _ _ _ hcap hD.2.1
  · exact list_get_eq _ _ _ _ _ hcap hD.2.2.1
  · exact list_get_eq _ _ _ _ _ hcap hD.2.2.2.1
  · exact list_get_eq _ _ _ _ _ hcap hD.2.2.2.2.1
  · exact list_get_eq _ _ _ _ _ hcap hD.2.2.2.2.2.1
  · exact list_get_eq _ _ _ _ _ hcap hD.2.2.2.2.2.2
  · clear hP hD
    have h : cap / sizeof_AudioObjectID = 0 ∨ 1 ≤ cap / sizeof_AudioObjectID :=
      Nat.eq_zero_or_pos _
    have hu := u32_items cap sizeof_AudioObjectID _ hcap
      (min_le_left (cap / sizeof_AudioObjectID) 1)
    simp only [Driver.GetPropertyDataImpl, callObject, ObjectID.ofAudioObjectID,
      ObjectID.toAudioObjectID, kAudioObjectPlugInObject, Driver.objGet, device.get, mts_min_eq,
      hu]
    rcases h with h | h
    · simp [h]
    · simp [min_eq_right h]
      rfl
  · refine list_get_eq _ _ _ _ _ hcap ?_
    simp [Device.get_sample_rates, mts_min_eq, List.map_take, Config.supported_sample_rates_count]
  · rintro stream (rfl | rfl) sel (rfl | rfl) <;>
      simp only [Driver.GetPropertyDataImpl, callObject, ObjectID.ofAudioObjectID,
        ObjectID.toAudioObjectID, kAudioObjectPlugInObject, Driver.objGet, stream.get,
        mts_min_eq, specListGet, MasterStream.get_ranged_descriptions,
        Config.supported_sample_rates_count] <;>
      simp [List.map_take, u32_items cap sizeof_AudioStreamRangedDescription _ hcap
        (min_le_left _ _)]

/-- C12 in the example configuration: with a capacity of 5 bytes the plug-in's owned objects
are cut to the first item, the box, and 4 bytes are reported; with 100 bytes the device's
supported sample rates come back whole, as two ranges in 32 bytes. -/
theorem C12_list_get_witness :
    (5 : Nat) < 2 ^ 32 ∧ (100 : Nat) < 2 ^ 32 ∧
    Driver.GetPropertyDataImpl exampleConfig exampleMathLib exampleEnvironment
        (DriverState.initial exampleConfig) ObjectID.Plugin.toAudioObjectID
        (some ⟨kAudioObjectPropertyOwnedObjects, kAudioObjectPropertyScopeGlobal, 0⟩)
        0 none 5 (some 0) (some exampleBlob)
      = ⟨kAudioHardwareNoError, 4, some (.objectList [ObjectID.Box.toAudioObjectID])⟩ ∧
    Driver.GetPropertyDataImpl exampleConfig exampleMathLib exampleEnvironment
        (DriverState.initial exampleConfig) ObjectID.Device.toAudioObjectID
        (some ⟨kAudioDevicePropertyAvailableNominalSampleRates, kAudioObjectPropertyScopeGlobal,
          0⟩)
        0 none 100 (some 0) (some exampleBlob)
      = ⟨kAudioHardwareNoError, 32, some (.valueRanges [⟨44100, 44100⟩, ⟨48000, 48000⟩])⟩ :=
  ⟨by decide, by decide,
    (C12_list_get exampleConfig exampleMathLib exampleEnvironment
      (DriverState.initial exampleConfig) kAudioObjectPropertyScopeGlobal 0 0 none 5 0
      exampleBlob (by decide)).1.trans rfl,
    (C12_list_get exampleConfig exampleMathLib exampleEnvironment
      (DriverState.initial exampleConfig) kAudioObjectPropertyScopeGlobal 0 0 none 100 0
      exampleBlob (by decide)).2.2.2.2.2.2.2.2.2.2.2.2.1.trans rfl⟩

/-! ### The other properties with a capacity below the reported size -/

/-- A list cut to at most `cap / itemSize` items occupies at most `cap` bytes. -/
theorem list_bytes_le (cap itemSize k : Nat) (hk : k ≤ cap / itemSize) :
    u32 (k * itemSize) ≤ cap := by
  have h1 : u32 (k * itemSize) ≤ k * itemSize := Nat.mod_le _ _
  have h2 : k * itemSize ≤ cap / itemSize * itemSize := Nat.mul_le_mul_right _ hk
  have h3 := Nat.div_mul_le_self cap itemSize
  omega

/-- Plug-in: apart from the resource bundle, a capacity below the size reported is either
refused with the bad-property-size status, or (list properties) answered within the capacity. -/
theorem plugin_short_capacity [LinearOrderedField F] (cfg : Config F) (self : plugin)
    (s : DriverState F) (a : Address) (qsz : Nat) (qd : Option CFStringRef) (n0 m0 n cap : Nat)
    (hsize : self.size s a qsz qd n0 = ⟨kAudioHardwareNoError, n⟩) (hcap : cap < n)
    (hnot : a.mSelector ≠ kAudioPlugInPropertyResourceBundle) :
    self.get cfg s a qsz qd cap m0 = ⟨kAudioHardwareBadPropertySizeError, m0, none⟩ ∨
    ((self.get cfg s a qsz qd cap m0).status = kAudioHardwareNoError ∧
      (self.get cfg s a qsz qd cap m0).outDataSize ≤ cap) := by
  obtain ⟨sel, sc, el⟩ := a
  have hP := plugin_lists s (cap / sizeof_AudioObjectID)
  cases sel <;> simp [plugin.size] at hsize <;> subst hsize
  case kAudioPlugInPropertyResourceBundle => exact absurd rfl hnot
  case kAudioObjectPropertyOwnedObjects =>
    right
    refine ⟨rfl, ?_⟩
    show u32 ((Plugin.get_object_list s (cap / sizeof_AudioObjectID)).2 * sizeof_AudioClassID)
      ≤ cap
    rw [hP.1]
    exact list_bytes_le cap 4 _ (min_le_left _ _)
  case kAudioPlugInPropertyBoxList =>
    right
    refine ⟨rfl, ?_⟩
    show u32 ((Plugin.get_box_list (cap / sizeof_AudioObjectID)).2 * sizeof_AudioClassID) ≤ cap
    rw [hP.2.1]
    exact list_bytes_le cap 4 _ (min_le_left _ _)
  case kAudioPlugInPropertyDeviceList =>
    right
    refine ⟨rfl, ?_⟩
    show u32 ((Plugin.get_device_list s (cap / sizeof_AudioObjectID)).2 * sizeof_AudioClassID)
      ≤ cap
    rw [hP.2.2.1]
    exact list_bytes_le cap 4 _ (min_le_left _ _)
  all_goals
    left
    simp [plugin.get, sizeof_AudioClassID, sizeof_AudioObjectID, sizeof_CFStringRef] at hcap ⊢
    simp [hcap]

/-- Box: a capacity below the size reported is either refused with the bad-property-size
status, or (the device list) answered within the capacity. -/
theorem box_short_capacity [LinearOrderedField F] (cfg : Config F) (self : box)
    (s : DriverState F) (a : Address) (qsz : Nat) (qd : Option CFStringRef) (n0 m0 n cap : Nat)
    (hsize : self.size a qsz qd n0 = ⟨kAudioHardwareNoError, n⟩) (hcap : cap < n) :
    self.get cfg s a qsz qd cap m0 = ⟨kAudioHardwareBadPropertySizeError, m0, none⟩ ∨
    ((self.get cfg s a qsz qd cap m0).status = kAudioHardwareNoError ∧
      (self.get cfg s a qsz qd cap m0).outDataSize ≤ cap) := by
  obtain ⟨sel, sc, el⟩ := a
  have hP := plugin_lists s (cap / sizeof_AudioObjectID)
  cases sel <;> simp [box.size] at hsize <;> subst hsize
  case kAudioBoxPropertyDeviceList =>
    right
    refine ⟨rfl, ?_⟩
    show u32 ((Box.get_device_list (cap / sizeof_AudioObjectID)).2 * sizeof_AudioObjectID) ≤ cap
    rw [hP.2.2.2]
    exact list_bytes_le cap 4 _ (min_le_left _ _)
  all_goals
    left
    simp [box.get, checkedAssign, sizeof_AudioClassID, sizeof_AudioObjectID, sizeof_CFStringRef,
      sizeof_UInt32] at hcap ⊢
    try simp [hcap]

/-- Mute control: a capacity below the size reported is refused with the bad-property-size
status and nothing is stored. -/
theorem mute_control_short_capacity (self : mute_control) (s : DriverState F) (a : Address)
    (qsz : Nat) (qd : Option CFStringRef) (n0 m0 n cap : Nat)
    (hsize : self.size a qsz qd n0 = ⟨kAudioHardwareNoError, n⟩) (hcap : cap < n) :
    self.get s a qsz qd cap m0 = ⟨kAudioHardwareBadPropertySizeError, m0, none⟩ := by
  obtain ⟨sel, sc, el⟩ := a
  cases sel <;> simp [mute_control.size] at hsize <;> subst hsize <;>
    simp [mute_control.get, checkedAssign, sizeof_AudioClassID, sizeof_AudioObjectID,
      sizeof_UInt32, sizeof_AudioObjectPropertyScope, sizeof_AudioObjectPropertyElement]
      at hcap ⊢ <;>
    simp [hcap]

/-- Volume control: a capacity below the size reported is refused with the bad-property-size
status and nothing is stored. -/
theorem volume_control_short_capacity [LinearOrderedField F] (cfg : Config F) (m : MathLib F)
    (self : volume_control) (s : DriverState F) (a : Address) (qsz : Nat)
    (qd : Option CFStringRef) (n0 m0 n cap : Nat) (d : Blob F)
    (hsize : self.size a qsz qd n0 = ⟨kAudioHardwareNoError, n⟩) (hcap : cap < n) :
    self.get cfg m s a qsz qd cap m0 d = ⟨kAudioHardwareBadPropertySizeError, m0, none⟩ := by
  obtain ⟨sel, sc, el⟩ := a
  cases sel <;> simp [volume_control.size] at hsize <;> subst hsize <;>
    simp [volume_control.get, checkedAssign, sizeof_AudioClassID, sizeof_AudioObjectID,
      sizeof_Float32, sizeof_AudioValueRange, sizeof_AudioObjectPropertyScope,
      sizeof_AudioObjectPropertyElement] at hcap ⊢ <;>
    simp [hcap]

/-- Stream: a capacity below the size reported is either refused with the bad-property-size
status, or (the available formats) answered within the capacity. -/
theorem stream_short_capacity [LinearOrderedField F] [FloorRing F] (cfg : Config F)
    (self : stream) (s : DriverState F) (a : Address) (qsz : Nat) (qd : Option CFStringRef)
    (n0 m0 n cap : Nat)
    (hsize : self.size cfg a qsz qd n0 = ⟨kAudioHardwareNoError, n⟩) (hcap : cap < n) :
    self.get cfg s a qsz qd cap m0 = ⟨kAudioHardwareBadPropertySizeError, m0, none⟩ ∨
    ((self.get cfg s a qsz qd cap m0).status = kAudioHardwareNoError ∧
      (self.get cfg s a qsz qd cap m0).outDataSize ≤ cap) := by
  obtain ⟨sel, sc, el⟩ := a
  cases sel <;> simp [stream.size] at hsize <;> subst hsize
  case kAudioStreamPropertyAvailableVirtualFormats =>
    right
    refine ⟨rfl, ?_⟩
    show u32 (mts.min (cap / sizeof_AudioStreamRangedDescription)
      cfg.supported_sample_rates_count * sizeof_AudioStreamRangedDescription) ≤ cap
    rw [mts_min_eq]
    exact list_bytes_le cap _ _ (min_le_left _ _)
  case kAudioStreamPropertyAvailablePhysicalFormats =>
    right
    refine ⟨rfl, ?_⟩
    show u32 (mts.min (cap / sizeof_AudioStreamRangedDescription)
      cfg.supported_sample_rates_count * sizeof_AudioStreamRangedDescription) ≤ cap
    rw [mts_min_eq]
    exact list_bytes_le cap _ _ (min_le_left _ _)
  all_goals
    left
    simp [stream.get, checkedAssign, sizeof_AudioClassID, sizeof_AudioObjectID,
      sizeof_UInt32, sizeof_AudioStreamBasicDescription] at hcap ⊢
    try simp [hcap]

/-- Device: a capacity below the size reported is either refused with the bad-property-size
status, or (list properties) answered within the capacity. -/
theorem device_short_capacity [LinearOrderedField F] [FloorRing F] (cfg : Config F)
    (env : Environment) (self : device) (s : DriverState F) (a : Address) (qsz : Nat)
    (qd : Option CFStringRef) (n0 m0 n cap : Nat)
    (hsize : self.size cfg a qsz qd n0 = ⟨kAudioHardwareNoError, n⟩) (hcap : cap < n) :
    self.get cfg env s a qsz qd cap m0 = ⟨kAudioHardwareBadPropertySizeError, m0, none⟩ ∨
    ((self.get cfg env s a qsz qd cap m0).status = kAudioHardwareNoError ∧
      (self.get cfg env s a qsz qd cap m0).outDataSize ≤ cap) := by
  obtain ⟨sel, sc, el⟩ := a
  have hD := device_lists (cap / sizeof_AudioObjectID)
  cases sel
  case kAudioObjectPropertyOwnedObjects =>
    right
    cases sc
    · refine ⟨rfl, ?_⟩
      show u32 ((device.get_global_object_list (cap / sizeof_AudioObjectID)).2
        * sizeof_AudioObjectID) ≤ cap
      rw [hD.1]
      exact list_bytes_le cap 4 _ (min_le_left _ _)
    · refine ⟨rfl, ?_⟩
      show u32 ((device.get_input_object_list (cap / sizeof_AudioObjectID)).2
        * sizeof_AudioObjectID) ≤ cap
      rw [hD.2.1]
      exact list_bytes_le cap 4 _ (min_le_left _ _)
    · refine ⟨rfl, ?_⟩
      show u32 ((device.get_output_object_list (cap / sizeof_AudioObjectID)).2
        * sizeof_AudioObjectID) ≤ cap
      rw [hD.2.2.1]
      exact list_bytes_le cap 4 _ (min_le_left _ _)
    · exact ⟨rfl, list_bytes_le cap 4 _ (le_refl _)⟩
  case kAudioDevicePropertyStreams =>
    right
    cases sc
    · refine ⟨rfl, ?_⟩
      show u32 ((device.get_global_stream_list (cap / sizeof_AudioObjectID)).2
        * sizeof_AudioObjectID) ≤ cap
      rw [hD.2.2.2.1]
      exact list_bytes_le cap 4 _ (min_le_left _ _)
    · refine ⟨rfl, ?_⟩
      show u32 ((device.get_input_stream_list (cap / sizeof_AudioObjectID)).2
        * sizeof_AudioObjectID) ≤ cap
      rw [hD.2.2.2.2.1]
      exact list_bytes_le cap 4 _ (min_le_left _ _)
    · refine ⟨rfl, ?_⟩
      show u32 ((device.get_output_stream_list (cap / sizeof_AudioObjectID)).2
        * sizeof_AudioObjectID) ≤ cap
      rw [hD.2.2.2.2.2.1]
      exact list_bytes_le cap 4 _ (min_le_left _ _)
    · exact ⟨rfl, list_bytes_le cap 4 _ (le_refl _)⟩
  case kAudioObjectPropertyControlList =>
    right
    refine ⟨rfl, ?_⟩
    show u32 ((device.get_control_list (cap / sizeof_AudioObjectID)).2
      * sizeof_AudioObjectID) ≤ cap
    rw [hD.2.2.2.2.2.2]
    exact list_bytes_le cap 4 _ (min_le_left _ _)
  case kAudioDevicePropertyRelatedDevices =>
    right
    refine ⟨rfl, ?_⟩
    show u32 (mts.min (cap / sizeof_AudioObjectID) 1 * sizeof_AudioObjectID) ≤ cap
    rw [mts_min_eq]
    exact list_bytes_le cap 4 _ (min_le_left _ _)
  case kAudioDevicePropertyAvailableNominalSampleRates =>
    right
    refine ⟨rfl, ?_⟩
    show u32 (mts.min (cap / sizeof_AudioValueRange) cfg.supported_sample_rates_count
      * sizeof_AudioValueRange) ≤ cap
    rw [mts_min_eq]
    exact list_bytes_le cap _ _ (min_le_left _ _)
  all_goals simp [device.size] at hsize
  all_goals
    subst hsize
    left
    simp [device.get, checkedAssign, sizeof_AudioClassID, sizeof_AudioObjectID,
      sizeof_CFStringRef, sizeof_UInt32, sizeof_Float64, sizeof_CFURLRef] at hcap ⊢
    try simp [hcap]

/-! ## C13: the selectors each class recognises -/

theorem plugin_recognized [LinearOrderedField F] [FloorRing F] :
    ∃ S : Set Selector, ∀ (cfg : Config F) (self : plugin) (s : DriverState F) (a : Address)
      (b : Bool) (qsz : Nat) (qd : Option CFStringRef) (cap n0 : Nat),
      ((self.is_settable a b).1 = kAudioHardwareUnknownPropertyError ↔ a.mSelector ∉ S) ∧
      ((self.size s a qsz qd n0).status = kAudioHardwareUnknownPropertyError ↔ a.mSelector ∉ S) ∧
      ((self.get cfg s a qsz qd cap n0).status = kAudioHardwareUnknownPropertyError ↔
        a.mSelector ∉ S) ∧
      (a.mSelector ∉ S → self.exists a = false) := by
  refine ⟨{sel | (plugin.is_settable ⟨0⟩ ⟨sel, kAudioObjectPropertyScopeGlobal, 0⟩ false).1
    ≠ kAudioHardwareUnknownPropertyError}, ?_⟩
  intro cfg self s a b qsz qd cap n0
  obtain ⟨sel, sc, el⟩ := a
  cases sel <;> simp [plugin.is_settable, plugin.size, plugin.get, plugin.exists] <;>
    split_ifs <;> try simp
  all_goals (cases qd <;> simp)

theorem box_recognized [LinearOrderedField F] [FloorRing F] :
    ∃ S : Set Selector, ∀ (cfg : Config F) (self : box) (s : DriverState F) (a : Address)
      (b : Bool) (qsz : Nat) (qd : Option CFStringRef) (cap n0 : Nat),
      ((self.is_settable a b).1 = kAudioHardwareUnknownPropertyError ↔ a.mSelector ∉ S) ∧
      ((self.size a qsz qd n0).status = kAudioHardwareUnknownPropertyError ↔ a.mSelector ∉ S) ∧
      ((self.get cfg s a qsz qd cap n0).status = kAudioHardwareUnknownPropertyError ↔
        a.mSelector ∉ S) ∧
      (a.mSelector ∉ S → self.exists a = false) := by
  refine ⟨{sel | (box.is_settable ⟨0, 0⟩ ⟨sel, kAudioObjectPropertyScopeGlobal, 0⟩ false).1
    ≠ kAudioHardwareUnknownPropertyError}, ?_⟩
  intro cfg self s a b qsz qd cap n0
  obtain ⟨sel, sc, el⟩ := a
  cases sel <;> simp [box.is_settable, box.size, box.get, box.exists, checkedAssign] <;>
    split_ifs <;> simp

theorem device_recognized [LinearOrderedField F] [FloorRing F] :
    ∃ S : Set Selector, ∀ (cfg : Config F) (env : Environment) (self : device)
      (s : DriverState F) (a : Address) (b : Bool) (qsz : Nat) (qd : Option CFStringRef)
      (cap n0 : Nat),
      ((self.is_settable a b).1 = kAudioHardwareUnknownPropertyError ↔ a.mSelector ∉ S) ∧
      ((self.size cfg a qsz qd n0).status = kAudioHardwareUnknownPropertyError ↔
        a.mSelector ∉ S) ∧
      ((self.get cfg env s a qsz qd cap n0).status = kAudioHardwareUnknownPropertyError ↔
        a.mSelector ∉ S) ∧
      (a.mSelector ∉ S → self.exists a = false) := by
  refine ⟨{sel | (device.is_settable ⟨0, 0⟩ ⟨sel, kAudioObjectPropertyScopeGlobal, 0⟩ false).1
    ≠ kAudioHardwareUnknownPropertyError}, ?_⟩
  intro cfg env self s a b qsz qd cap n0
  obtain ⟨sel, sc, el⟩ := a
  cases sel <;>
    simp [device.is_settable, device.size, device.get, device.exists, checkedAssign] <;>
    first
      | (cases sc <;> simp)
      | (split_ifs <;> simp)
      | (cases env.iconURL <;> split_ifs <;> simp)

theorem stream_recognized [LinearOrderedField F] [FloorRing F] :
    ∃ S : Set Selector, ∀ (cfg : Config F) (self : stream) (s : DriverState F) (a : Address)
      (b : Bool) (qsz : Nat) (qd : Option CFStringRef) (cap n0 : Nat),
      ((self.is_settable a b).1 = kAudioHardwareUnknownPropertyError ↔ a.mSelector ∉ S) ∧
      ((self.size cfg a qsz qd n0).status = kAudioHardwareUnknownPropertyError ↔
        a.mSelector ∉ S) ∧
      ((self.get cfg s a qsz qd cap n0).status = kAudioHardwareUnknownPropertyError ↔
        a.mSelector ∉ S) ∧
      (a.mSelector ∉ S → self.exists a = false) := by
  refine ⟨{sel | (stream.is_settable ⟨0, 0, .input⟩
    ⟨sel, kAudioObjectPropertyScopeGlobal, 0⟩ false).1 ≠ kAudioHardwareUnknownPropertyError}, ?_⟩
  intro cfg self s a b qsz qd cap n0
  obtain ⟨sel, sc, el⟩ := a
  cases sel <;> simp [stream.is_settable, stream.size, stream.get, stream.exists, checkedAssign] <;>
    split_ifs <;> simp

theorem mute_control_recognized [LinearOrderedField F] [FloorRing F] :
    ∃ S : Set Selector, ∀ (self : mute_control) (s : DriverState F) (a : Address)
      (b : Bool) (qsz : Nat) (qd : Option CFStringRef) (cap n0 : Nat),
      ((self.is_settable a b).1 = kAudioHardwareUnknownPropertyError ↔ a.mSelector ∉ S) ∧
      ((self.size a qsz qd n0).status = kAudioHardwareUnknownPropertyError ↔ a.mSelector ∉ S) ∧
      ((self.get s a qsz qd cap n0).status = kAudioHardwareUnknownPropertyError ↔
        a.mSelector ∉ S) ∧
      (a.mSelector ∉ S → self.exists a = false) := by
  refine ⟨{sel | (mute_control.is_settable ⟨0, 0, .input⟩
    ⟨sel, kAudioObjectPropertyScopeGlobal, 0⟩ false).1 ≠ kAudioHardwareUnknownPropertyError}, ?_⟩
  intro self s a b qsz qd cap n0
  obtain ⟨sel, sc, el⟩ := a
  cases sel <;>
    simp [mute_control.is_settable, mute_control.size, mute_control.get, mute_control.exists,
      checkedAssign] <;>
    split_ifs <;> simp

theorem volume_control_recognized [LinearOrderedField F] [FloorRing F] :
    ∃ S : Set Selector, ∀ (cfg : Config F) (m : MathLib F) (self : volume_control)
      (s : DriverState F) (a : Address) (b : Bool) (qsz : Nat) (qd : Option CFStringRef)
      (cap n0 : Nat) (d : Blob F),
      ((self.is_settable a b).1 = kAudioHardwareUnknownPropertyError ↔ a.mSelector ∉ S) ∧
      ((self.size a qsz qd n0).status = kAudioHardwareUnknownPropertyError ↔ a.mSelector ∉ S) ∧
      ((self.get cfg m s a qsz qd cap n0 d).status = kAudioHardwareUnknownPropertyError ↔
        a.mSelector ∉ S) ∧
      (a.mSelector ∉ S → self.exists a = false) := by
  refine ⟨{sel | (volume_control.is_settable ⟨0, 0, .input⟩
    ⟨sel, kAudioObjectPropertyScopeGlobal, 0⟩ false).1 ≠ kAudioHardwareUnknownPropertyError}, ?_⟩
  intro cfg m self s a b qsz qd cap n0 d
  obtain ⟨sel, sc, el⟩ := a
  cases sel <;>
    simp [volume_control.is_settable, volume_control.size, volume_control.get,
      volume_control.exists, checkedAssign] <;>
    split_ifs <;> simp

/-- C13. For each of the six object classes (plug-in, box, device, stream, mute control, volume
control) there is one set `S` of selectors such that, for every object of the class, every
address and all other arguments: `is_settable`, `size` and `get` each return the
unknown-property status if and only if the selector of the address is not in `S`, and `exists`
returns false for every selector that is not in `S`. -/
theorem C13_recognized_selectors [LinearOrderedField F] [FloorRing F] :
    (∃ S : Set Selector, ∀ (cfg : Config F) (self : plugin) (s : DriverState F) (a : Address)
      (b : Bool) (qsz : Nat) (qd : Option CFStringRef) (cap n0 : Nat),
      ((self.is_settable a b).1 = kAudioHardwareUnknownPropertyError ↔ a.mSelector ∉ S) ∧
      ((self.size s a qsz qd n0).status = kAudioHardwareUnknownPropertyError ↔ a.mSelector ∉ S) ∧
      ((self.get cfg s a qsz qd cap n0).status = kAudioHardwareUnknownPropertyError ↔
        a.mSelector ∉ S) ∧
      (a.mSelector ∉ S → self.exists a = false)) ∧
    (∃ S : Set Selector, ∀ (cfg : Config F) (self : box) (s : DriverState F) (a : Address)
      (b : Bool) (qsz : Nat) (qd : Option CFStringRef) (cap n0 : Nat),
      ((self.is_settable a b).1 = kAudioHardwareUnknownPropertyError ↔ a.mSelector ∉ S) ∧
      ((self.size a qsz qd n0).status = kAudioHardwareUnknownPropertyError ↔ a.mSelector ∉ S) ∧
      ((self.get cfg s a qsz qd cap n0).status = kAudioHardwareUnknownPropertyError ↔
        a.mSelector ∉ S) ∧
      (a.mSelector ∉ S → self.exists a = false)) ∧
    (∃ S : Set Selector, ∀ (cfg : Config F) (env : Environment) (self : device)
      (s : DriverState F) (a : Address) (b : Bool) (qsz : Nat) (qd : Option CFStringRef)
      (cap n0 : Nat),
      ((self.is_settable a b).1 = kAudioHardwareUnknownPropertyError ↔ a.mSelector ∉ S) ∧
      ((self.size cfg a qsz qd n0).status = kAudioHardwareUnknownPropertyError ↔
        a.mSelector ∉ S) ∧
      ((self.get cfg env s a qsz qd cap n0).status = kAudioHardwareUnknownPropertyError ↔
        a.mSelector ∉ S) ∧
      (a.mSelector ∉ S → self.exists a = false)) ∧
    (∃ S : Set Selector, ∀ (cfg : Config F) (self : stream) (s : DriverState F) (a : Address)
      (b : Bool) (qsz : Nat) (qd : Option CFStringRef) (cap n0 : Nat),
      ((self.is_settable a b).1 = kAudioHardwareUnknownPropertyError ↔ a.mSelector ∉ S) ∧
      ((self.size cfg a qsz qd n0).status = kAudioHardwareUnknownPropertyError ↔
        a.mSelector ∉ S) ∧
      ((self.get cfg s a qsz qd cap n0).status = kAudioHardwareUnknownPropertyError ↔
        a.mSelector ∉ S) ∧
      (a.mSelector ∉ S → self.exists a = false)) ∧
    (∃ S : Set Selector, ∀ (self : mute_control) (s : DriverState F) (a : Address)
      (b : Bool) (qsz : Nat) (qd : Option CFStringRef) (cap n0 : Nat),
      ((self.is_settable a b).1 = kAudioHardwareUnknownPropertyError ↔ a.mSelector ∉ S) ∧
      ((self.size a qsz qd n0).status = kAudioHardwareUnknownPropertyError ↔ a.mSelector ∉ S) ∧
      ((self.get s a qsz qd cap n0).status = kAudioHardwareUnknownPropertyError ↔
        a.mSelector ∉ S) ∧
      (a.mSelector ∉ S → self.exists a = false)) ∧
    (∃ S : Set Selector, ∀ (cfg : Config F) (m : MathLib F) (self : volume_control)
      (s : DriverState F) (a : Address) (b : Bool) (qsz : Nat) (qd : Option CFStringRef)
      (cap n0 : Nat) (d : Blob F),
      ((self.is_settable a b).1 = kAudioHardwareUnknownPropertyError ↔ a.mSelector ∉ S) ∧
      ((self.size a qsz qd n0).status = kAudioHardwareUnknownPropertyError ↔ a.mSelector ∉ S) ∧
      ((self.get cfg m s a qsz qd cap n0 d).status = kAudioHardwareUnknownPropertyError ↔
        a.mSelector ∉ S) ∧
      (a.mSelector ∉ S → self.exists a = false)) := by
  refine ⟨?_, ?_, ?_, ?_, ?_, ?_⟩
  · exact plugin_recognized
  · exact box_recognized
  · exact device_recognized
  · exact stream_recognized
  · exact mute_control_recognized
  · exact volume_control_recognized

/-! ## C14: identifiers outside the registry -/

theorem ofAudioObjectID_none (auid : AudioObjectID)
    (h : ∀ o : ObjectID, auid ≠ o.toAudioObjectID) : ObjectID.ofAudioObjectID auid = none := by
  unfold ObjectID.ofAudioObjectID
  simp [h ObjectID.Plugin, h ObjectID.Box, h ObjectID.Device, h ObjectID.StreamInput,
    h ObjectID.VolumeInputMaster, h ObjectID.MuteInputMaster, h ObjectID.StreamOutput,
    h ObjectID.VolumeOutputMaster, h ObjectID.MuteOutputMaster]

/-- C14, as stated, fails: 99 is none of the nine identifiers and the address is not null, but
with a null result pointer `IsPropertySettable`, `GetPropertyDataSize` and `GetPropertyData`
return the illegal-operation status, not the bad-object status: the null checks on the result
pointers come before the identifier is looked at. -/
theorem C14_bad_identifier_counterexample :
    (∀ o : ObjectID, (99 : AudioObjectID) ≠ o.toAudioObjectID) ∧
    (Driver.IsPropertySettableImpl 99
        (some ⟨kAudioObjectPropertyName, kAudioObjectPropertyScopeGlobal, 0⟩) none).1
      = kAudioHardwareIllegalOperationError ∧
    (Driver.GetPropertyDataSizeImpl exampleConfig (DriverState.initial exampleConfig) 99
        (some ⟨kAudioObjectPropertyName, kAudioObjectPropertyScopeGlobal, 0⟩) 0 none none).status
      = kAudioHardwareIllegalOperationError ∧
    (Driver.GetPropertyDataImpl exampleConfig exampleMathLib exampleEnvironment
        (DriverState.initial exampleConfig) 99
        (some ⟨kAudioObjectPropertyName, kAudioObjectPropertyScopeGlobal, 0⟩) 0 none 8 (some 0)
        none).status = kAudioHardwareIllegalOperationError ∧
    kAudioHardwareIllegalOperationError ≠ kAudioHardwareBadObjectError := by
  refine ⟨?_, rfl, rfl, rfl, by decide⟩
  intro o
  cases o <;> decide

/-- C14, amended. For every identifier that is none of the nine identifiers of the registry,
every non-null address and non-null result pointers: `HasProperty` returns false, and
`IsPropertySettable`, `GetPropertyDataSize`, `GetPropertyData` and `SetPropertyData` return the
bad-object status, store nothing through their result pointers, leave the driver state
unchanged and issue no host call (so no notification). For every identifier other than the
device, `StartIO`, `StopIO`, `GetZeroTimeStamp`, `DoIOOperation`,
`PerformDeviceConfigurationChange` and `AbortDeviceConfigurationChange` return the bad-object
status and leave the driver state, the result values and the caller's buffer unchanged. -/
theorem C14_bad_identifier [LinearOrderedField F] [FloorRing F] (cfg : Config F)
    (m : MathLib F) (env : Environment) (s : DriverState F) (inObjectID : AudioObjectID)
    (a : Address) (b : Bool) (qsz : Nat) (qd : Option CFStringRef) (n0 cap : Nat)
    (d inData : Blob F) (inDeviceObjectID inStreamObjectID inClientID now : Nat)
    (out : ZeroTimeStamp F) (inOperationID : IOOperationID) (n : Nat)
    (inIOCycleInfo : AudioServerPlugInIOCycleInfo F) (ioMainBuffer : List F)
    (inChangeAction : Nat)
    (hobj : ∀ o : ObjectID, inObjectID ≠ o.toAudioObjectID)
    (hdev : inDeviceObjectID ≠ ObjectID.Device.toAudioObjectID) :
    Driver.HasPropertyImpl inObjectID (some a) = false ∧
    Driver.IsPropertySettableImpl inObjectID (some a) (some b)
      = (kAudioHardwareBadObjectError, b) ∧
    Driver.GetPropertyDataSizeImpl cfg s inObjectID (some a) qsz qd (some n0)
      = ⟨kAudioHardwareBadObjectError, n0⟩ ∧
    Driver.GetPropertyDataImpl cfg m env s inObjectID (some a) qsz qd cap (some n0) (some d)
      = ⟨kAudioHardwareBadObjectError, n0, none⟩ ∧
    Driver.SetPropertyDataImpl cfg m s inObjectID (some a) qsz qd cap inData
      = ⟨kAudioHardwareBadObjectError, s, 0, [], []⟩ ∧
    Driver.StartIOImpl cfg s inDeviceObjectID inClientID now
      = (kAudioHardwareBadObjectError, s) ∧
    Driver.StopIOImpl s inDeviceObjectID inClientID = (kAudioHardwareBadObjectError, s) ∧
    (∀ fl : F → F, Driver.GetZeroTimeStampImpl fl cfg s inDeviceObjectID inClientID now out
      = (kAudioHardwareBadObjectError, s, out)) ∧
    Driver.DoIOOperationImpl cfg s inDeviceObjectID inStreamObjectID inClientID inOperationID n
        inIOCycleInfo ioMainBuffer = (kAudioHardwareBadObjectError, s, ioMainBuffer) ∧
    Driver.PerformDeviceConfigurationChangeImpl cfg env s inDeviceObjectID inChangeAction
      = (kAudioHardwareBadObjectError, s) ∧
    Driver.AbortDeviceConfigurationChangeImpl s inDeviceObjectID inChangeAction
      = (kAudioHardwareBadObjectError, s) := by
  have hnone := ofAudioObjectID_none inObjectID hobj
  refine ⟨?_, ?_, ?_, ?_, ?_, ?_, ?_, ?_, ?_, ?_, ?_⟩
  · simp [Driver.HasPropertyImpl, callObject, hnone]
  · simp [Driver.IsPropertySettableImpl, callObject, hnone]
  · simp [Driver.GetPropertyDataSizeImpl, callObject, hnone]
  · simp [Driver.GetPropertyDataImpl, callObject, hnone]
  · simp [Driver.SetPropertyDataImpl, callObject, hnone]
  · simp [Driver.StartIOImpl, hdev]
  · simp [Driver.StopIOImpl, hdev]
  · intro fl
    simp [Driver.GetZeroTimeStampImpl, hdev]
  · simp [Driver.DoIOOperationImpl, hdev]
  · simp [Driver.PerformDeviceConfigurationChangeImpl, hdev]
  · simp [Driver.AbortDeviceConfigurationChangeImpl, hdev]

/-- C14, amended, for the identifier 99 in the example configuration. -/
theorem C14_bad_identifier_witness :
    (∀ o : ObjectID, (99 : AudioObjectID) ≠ o.toAudioObjectID) ∧
    (99 : AudioObjectID) ≠ ObjectID.Device.toAudioObjectID ∧
    Driver.GetPropertyDataImpl exampleConfig exampleMathLib exampleEnvironment
        (DriverState.initial exampleConfig) 99
        (some ⟨kAudioObjectPropertyName, kAudioObjectPropertyScopeGlobal, 0⟩) 0 none 8 (some 0)
        (some exampleBlob) = ⟨kAudioHardwareBadObjectError, 0, none⟩ ∧
    Driver.StopIOImpl exampleRunningState 99 0
      = (kAudioHardwareBadObjectError, exampleRunningState) :=
  ⟨fun o => by cases o <;> decide, by decide,
    (C14_bad_identifier exampleConfig exampleMathLib exampleEnvironment
      (DriverState.initial exampleConfig) 99
      ⟨kAudioObjectPropertyName, kAudioObjectPropertyScopeGlobal, 0⟩ false 0 none 0 8
      exampleBlob exampleBlob 99 0 0 0 ⟨0, 0, 0⟩
      IOOperationID.kAudioServerPlugInIOOperationReadInput 0 ⟨⟨0⟩, ⟨0⟩⟩ [] 0
      (fun o => by cases o <;> decide) (by decide)).2.2.2.1,
    (C14_bad_identifier exampleConfig exampleMathLib exampleEnvironment exampleRunningState 99
      ⟨kAudioObjectPropertyName, kAudioObjectPropertyScopeGlobal, 0⟩ false 0 none 0 8
      exampleBlob exampleBlob 99 0 0 0 ⟨0, 0, 0⟩
      IOOperationID.kAudioServerPlugInIOOperationReadInput 0 ⟨⟨0⟩, ⟨0⟩⟩ [] 0
      (fun o => by cases o <;> decide) (by decide)).2.2.2.2.2.2.1⟩

/-! ## C15: the zero time stamp does not go back -/

theorem toUInt64_mono [LinearOrderedField F] [FloorRing F] (x y : F) (hxy : x ≤ y)
    (hy : y < 2 ^ 64) : toUInt64 x ≤ toUInt64 y := by
  have h1 : Int.toNat ⌊x⌋ ≤ Int.toNat ⌊y⌋ := Int.toNat_le_toNat (Int.floor_le_floor hxy)
  have h2 : Int.toNat ⌊y⌋ < 2 ^ 64 := by
    have h3 : ⌊y⌋ < (2 : ℤ) ^ 64 := by
      rw [Int.floor_lt]
      exact_mod_cast hy
    omega
  unfold toUInt64 u64
  rw [Nat.mod_eq_of_lt h2, Nat.mod_eq_of_lt (lt_of_le_of_lt h1 h2)]
  exact h1

/-- One call of `GetZeroTimeStamp` on the device: the period counter stays or goes up by one
(when it is below `2 ^ 64 - 1`), nothing else in the state changes, and the two time values
are computed from the counter after the call. -/
theorem GetZeroTimeStampImpl_device [LinearOrderedField F] [FloorRing F] (cfg : Config F)
    (s : DriverState F) (inClientID now : Nat) (out : ZeroTimeStamp F)
    (hN : s.m_numberTimeStamps + 1 < 2 ^ 64) :
    ∃ N, (N = s.m_numberTimeStamps ∨ N = s.m_numberTimeStamps + 1) ∧
      Driver.GetZeroTimeStampImpl id cfg s ObjectID.Device.toAudioObjectID inClientID now out =
        (kAudioHardwareNoError, { s with m_numberTimeStamps := N },
          ⟨ofUInt64 (u64 (N * cfg.ring_buffer_size)),
            toUInt64 (ofUInt64 s.m_anchorHostTime
              + ofUInt64 N * (s.m_hostTicksPerFrame * ofUInt64 cfg.ring_buffer_size)), 1⟩) := by
  have hu : u64 (s.m_numberTimeStamps + 1) = s.m_numberTimeStamps + 1 := Nat.mod_eq_of_lt hN
  unfold Driver.GetZeroTimeStampImpl
  simp only [ne_eq, not_true_eq_false, if_false, hu, id]
  split_ifs with h
  · exact ⟨_, Or.inr rfl, rfl⟩
  · exact ⟨_, Or.inl rfl, rfl⟩

/-- C15. Two calls of `GetZeroTimeStamp` on the device, the second one made in a state that
has the period counter the first call left and the same anchor host time and host ticks per
frame (no `StartIO` and no `PerformDeviceConfigurationChange` in between), with non-negative
host ticks per frame: both return success, and the second call's sample time and host time are
not below those of the first call, whatever the two host-clock readings are. The arithmetic is
exact: the rounding of the `Float64` operations is the identity, and the counter, its product
with the period and the host time stay below `2 ^ 64`. -/
theorem C15_zero_time_stamp_monotone [LinearOrderedField F] [FloorRing F] (cfg : Config F)
    (s s2 : DriverState F) (inClientID1 inClientID2 now1 now2 : Nat)
    (out : ZeroTimeStamp F)
    (hticks : 0 ≤ s.m_hostTicksPerFrame)
    (hcounter : s.m_numberTimeStamps + 2 < 2 ^ 64)
    (hsample : (s.m_numberTimeStamps + 2) * cfg.ring_buffer_size < 2 ^ 64)
    (hhost : ofUInt64 s.m_anchorHostTime + ofUInt64 (s.m_numberTimeStamps + 2)
      * (s.m_hostTicksPerFrame * ofUInt64 cfg.ring_buffer_size) < 2 ^ 64)
    (hbetween1 : s2.m_numberTimeStamps =
      (Driver.GetZeroTimeStampImpl id cfg s ObjectID.Device.toAudioObjectID inClientID1 now1
        out).2.1.m_numberTimeStamps)
    (hbetween2 : s2.m_anchorHostTime = s.m_anchorHostTime)
    (hbetween3 : s2.m_hostTicksPerFrame = s.m_hostTicksPerFrame) :
    (Driver.GetZeroTimeStampImpl id cfg s ObjectID.Device.toAudioObjectID inClientID1 now1
      out).1 = kAudioHardwareNoError ∧
    (Driver.GetZeroTimeStampImpl id cfg s2 ObjectID.Device.toAudioObjectID inClientID2 now2
      (Driver.GetZeroTimeStampImpl id cfg s ObjectID.Device.toAudioObjectID inClientID1 now1
        out).2.2).1 = kAudioHardwareNoError ∧
    (Driver.GetZeroTimeStampImpl id cfg s ObjectID.Device.toAudioObjectID inClientID1 now1
      out).2.2.outSampleTime ≤
    (Driver.GetZeroTimeStampImpl id cfg s2 ObjectID.Device.toAudioObjectID inClientID2 now2
      (Driver.GetZeroTimeStampImpl id cfg s ObjectID.Device.toAudioObjectID inClientID1 now1
        out).2.2).2.2.outSampleTime ∧
    (Driver.GetZeroTimeStampImpl id cfg s ObjectID.Device.toAudioObjectID inClientID1 now1
      out).2.2.outHostTime ≤
    (Driver.GetZeroTimeStampImpl id cfg s2 ObjectID.Device.toAudioObjectID inClientID2 now2
      (Driver.GetZeroTimeStampImpl id cfg s ObjectID.Device.toAudioObjectID inClientID1 now1
        out).2.2).2.2.outHostTime := by
  obtain ⟨N1, hN1, h1⟩ := GetZeroTimeStampImpl_device cfg s inClientID1 now1 out (by omega)
  rw [h1] at hbetween1 ⊢
  simp only at hbetween1
  obtain ⟨N2, hN2, h2⟩ := GetZeroTimeStampImpl_device cfg s2 inClientID2 now2
    ⟨ofUInt64 (u64 (N1 * cfg.ring_buffer_size)),
      toUInt64 (ofUInt64 s.m_anchorHostTime
        + ofUInt64 N1 * (s.m_hostTicksPerFrame * ofUInt64 cfg.ring_buffer_size)), 1⟩
    (by rw [hbetween1]; omega)
  rw [h2, hbetween2, hbetween3]
  rw [hbetween1] at hN2
  have h12 : N1 ≤ N2 := by omega
  have hN2le : N2 ≤ s.m_numberTimeStamps + 2 := by omega
  have hT : 0 ≤ s.m_hostTicksPerFrame * ofUInt64 cfg.ring_buffer_size :=
    mul_nonneg hticks (by simp [ofUInt64])
  have hs1 : N1 * cfg.ring_buffer_size ≤ N2 * cfg.ring_buffer_size :=
    Nat.mul_le_mul_right _ h12
  have hs2 : N2 * cfg.ring_buffer_size ≤ (s.m_numberTimeStamps + 2) * cfg.ring_buffer_size :=
    Nat.mul_le_mul_right _ hN2le
  refine ⟨rfl, rfl, ?_, ?_⟩
  · simp only [ofUInt64, u64]
    rw [Nat.mod_eq_of_lt (by omega), Nat.mod_eq_of_lt (by omega)]
    exact_mod_cast hs1
  · apply toUInt64_mono
    · have : (ofUInt64 N1 : F) ≤ ofUInt64 N2 := by
        simp only [ofUInt64]; exact_mod_cast h12
      have := mul_le_mul_of_nonneg_right this hT
      linarith
    · have : (ofUInt64 N2 : F) ≤ ofUInt64 (s.m_numberTimeStamps + 2) := by
        simp only [ofUInt64]; exact_mod_cast hN2le
      have := mul_le_mul_of_nonneg_right this hT
      linarith

/-- C15 in the example configuration, with ten host ticks per frame and the anchor at host
time 1000: a call at host time 1100 and a call at host time 1200. -/
theorem C15_zero_time_stamp_monotone_witness :
    (0 : ℚ) ≤ exampleClockState.m_hostTicksPerFrame ∧
    exampleClockState.m_numberTimeStamps + 2 < 2 ^ 64 ∧
    (Driver.GetZeroTimeStampImpl id exampleConfig exampleClockState
      ObjectID.Device.toAudioObjectID 0 1100 ⟨0, 0, 0⟩).2.2.outSampleTime ≤
    (Driver.GetZeroTimeStampImpl id exampleConfig
      (Driver.GetZeroTimeStampImpl id exampleConfig exampleClockState
        ObjectID.Device.toAudioObjectID 0 1100 ⟨0, 0, 0⟩).2.1
      ObjectID.Device.toAudioObjectID 0 1200
      (Driver.GetZeroTimeStampImpl id exampleConfig exampleClockState
        ObjectID.Device.toAudioObjectID 0 1100 ⟨0, 0, 0⟩).2.2).2.2.outSampleTime ∧
    (Driver.GetZeroTimeStampImpl id exampleConfig exampleClockState
      ObjectID.Device.toAudioObjectID 0 1100 ⟨0, 0, 0⟩).2.2.outHostTime ≤
    (Driver.GetZeroTimeStampImpl id exampleConfig
      (Driver.GetZeroTimeStampImpl id exampleConfig exampleClockState
        ObjectID.Device.toAudioObjectID 0 1100 ⟨0, 0, 0⟩).2.1
      ObjectID.Device.toAudioObjectID 0 1200
      (Driver.GetZeroTimeStampImpl id exampleConfig exampleClockState
        ObjectID.Device.toAudioObjectID 0 1100 ⟨0, 0, 0⟩).2.2).2.2.outHostTime :=
  have hticks : (0 : ℚ) ≤ exampleClockState.m_hostTicksPerFrame := by
    show (0 : ℚ) ≤ 10
    simp
  have hhost : (ofUInt64 exampleClockState.m_anchorHostTime : ℚ)
      + ofUInt64 (exampleClockState.m_numberTimeStamps + 2)
        * (exampleClockState.m_hostTicksPerFrame * ofUInt64 exampleConfig.ring_buffer_size)
      < 2 ^ 64 := by
    show ((1000 : ℕ) : ℚ) + ((0 + 2 : ℕ) : ℚ) * (10 * ((8 : ℕ) : ℚ)) < 2 ^ 64
    norm_num
  ⟨hticks, by decide,
    (C15_zero_time_stamp_monotone exampleConfig exampleClockState
      (Driver.GetZeroTimeStampImpl id exampleConfig exampleClockState
        ObjectID.Device.toAudioObjectID 0 1100 ⟨0, 0, 0⟩).2.1 0 0 1100 1200 ⟨0, 0, 0⟩
      hticks (by decide) (by decide) hhost rfl rfl rfl).2.2⟩

/-! ## C16: the ring-buffer offset -/

theorem is_power_of_two_pow (k : Nat) : mts.is_power_of_two (2 ^ k) ≠ 0 := by
  have h1 : 2 ^ k ≠ 0 := by positivity
  have h2 : 2 ^ k &&& (2 ^ k - 1) = 0 := by
    rw [Nat.and_pow_two_sub_one_eq_mod, Nat.mod_self]
  simp [mts.is_power_of_two, h2]

/-- C16. For every sample time `t` and every capacity `C` for which `mts::is_power_of_two(C)`
is non-zero, `t & (C - 1)` equals `t % C`; `mts::is_power_of_two(v)` is non-zero exactly when
`v = 2 ^ k` for some `k`; and under the static assertions of `driver.cpp` the frame offset
`ringBufferFrameLocationStart` that `DoIOOperation` computes from `t` is below the frame
capacity of the ring buffer. -/
theorem C16_ring_offset [LinearOrderedField F] [FloorRing F] (cfg : Config F) (t C : Nat)
    (hC : mts.is_power_of_two C ≠ 0) (hassert : cfg.static_assertions = true) :
    t &&& (C - 1) = t % C ∧
    (∀ v : Nat, mts.is_power_of_two v ≠ 0 ↔ ∃ k, v = 2 ^ k) ∧
    Driver.ringBufferFrameLocationStart cfg t = u32 (t % cfg.ring_buffer_frame_size) ∧
    Driver.ringBufferFrameLocationStart cfg t < cfg.ring_buffer_frame_size := by
  have hp := static_assertions_frame_size cfg hassert
  obtain ⟨k, hk⟩ := is_power_of_two_exists _ hp
  have hpos : 0 < cfg.ring_buffer_frame_size := by rw [hk]; positivity
  have hstart : Driver.ringBufferFrameLocationStart cfg t = u32 (t % cfg.ring_buffer_frame_size) := by
    unfold Driver.ringBufferFrameLocationStart Config.ring_buffer_frame_mask
    rw [and_mask_eq_mod _ _ hp]
  refine ⟨and_mask_eq_mod t C hC, ?_, hstart, ?_⟩
  · intro v
    constructor
    · exact is_power_of_two_exists v
    · rintro ⟨k, rfl⟩
      exact is_power_of_two_pow k
  · rw [hstart]
    exact lt_of_le_of_lt (Nat.mod_le _ _) (Nat.mod_lt t hpos)

/-- C16 in the example configuration: sample time 13 and capacity 8. -/
theorem C16_ring_offset_witness :
    mts.is_power_of_two 8 ≠ 0 ∧ exampleConfig.static_assertions = true ∧
    13 &&& (8 - 1) = 13 % 8 ∧
    Driver.ringBufferFrameLocationStart exampleConfig 13 < exampleConfig.ring_buffer_frame_size :=
  ⟨by decide, exampleConfig_static_assertions,
    (C16_ring_offset exampleConfig 13 8 (by decide) exampleConfig_static_assertions).1,
    (C16_ring_offset exampleConfig 13 8 (by decide) exampleConfig_static_assertions).2.2.2⟩

/-! ## C17 and C18: the two paths of the transfer routine -/

theorem sample_index_lt (i A c ch : Nat) (hc : c < ch) (hi : i < A) : i * ch + c < A * ch := by
  have h : (i + 1) * ch ≤ A * ch := Nat.mul_le_mul_right _ hi
  rw [Nat.add_mul] at h
  omega

theorem sample_index_ge (i A c ch : Nat) (hi : A ≤ i) :
    A * ch ≤ i * ch + c ∧ i * ch + c - A * ch = (i - A) * ch + c := by
  have h : A * ch ≤ i * ch := Nat.mul_le_mul_right _ hi
  refine ⟨by omega, ?_⟩
  rw [Nat.sub_mul]
  omega

/-- The sizes of the two parts of a transfer of `n ≤ C` frames that starts at sample time
`t`. -/
theorem part_sizes [LinearOrderedField F] [FloorRing F] (cfg : Config F) (t n : Nat)
    (hfit : cfg.fits_UInt32 = true) (hpos : 0 < cfg.ring_buffer_frame_size)
    (hn : n ≤ cfg.ring_buffer_frame_size) :
    Driver.firstPartFrameSize cfg (t % cfg.ring_buffer_frame_size) n
      = min n (cfg.ring_buffer_frame_size - t % cfg.ring_buffer_frame_size) ∧
    Driver.secondPartFrameSize cfg (t % cfg.ring_buffer_frame_size) n
      = n - min n (cfg.ring_buffer_frame_size - t % cfg.ring_buffer_frame_size) := by
  obtain ⟨_, hC, _, _, _⟩ := (fits_UInt32_iff cfg).mp hfit
  have hp : t % cfg.ring_buffer_frame_size < cfg.ring_buffer_frame_size := Nat.mod_lt _ hpos
  have h1 : sub32 cfg.ring_buffer_frame_size (t % cfg.ring_buffer_frame_size)
      = cfg.ring_buffer_frame_size - t % cfg.ring_buffer_frame_size :=
    sub32_of_le _ _ hC (by omega)
  constructor
  · unfold Driver.firstPartFrameSize
    simp only [h1]
    split_ifs with h
    · exact (min_eq_left h).symm
    · exact (min_eq_right (by omega)).symm
  · unfold Driver.secondPartFrameSize
    simp only [h1]
    split_ifs with h
    · rw [min_eq_left h]; omega
    · rw [min_eq_right (by omega), sub32_of_le _ _ (by omega) (by omega)]

/-- The frame offset of the frame `i` of a transfer that starts at sample time `t`: within the
first part it is `t % C + i`, within the second part it is `i` minus the size of the first
part. -/
theorem frame_offset [LinearOrderedField F] [FloorRing F] (cfg : Config F) (t n i : Nat)
    (hfit : cfg.fits_UInt32 = true) (hpos : 0 < cfg.ring_buffer_frame_size)
    (hn : n ≤ cfg.ring_buffer_frame_size) (hi : i < n) :
    (i < Driver.firstPartFrameSize cfg (t % cfg.ring_buffer_frame_size) n →
      (t + i) % cfg.ring_buffer_frame_size = t % cfg.ring_buffer_frame_size + i) ∧
    (Driver.firstPartFrameSize cfg (t % cfg.ring_buffer_frame_size) n ≤ i →
      (t + i) % cfg.ring_buffer_frame_size
        = i - Driver.firstPartFrameSize cfg (t % cfg.ring_buffer_frame_size) n) := by
  have hp : t % cfg.ring_buffer_frame_size < cfg.ring_buffer_frame_size := Nat.mod_lt _ hpos
  have hmod : (t + i) % cfg.ring_buffer_frame_size
      = (t % cfg.ring_buffer_frame_size + i) % cfg.ring_buffer_frame_size := by
    rw [Nat.add_mod, Nat.mod_eq_of_lt (show i < cfg.ring_buffer_frame_size by omega)]
  have hA := (part_sizes cfg t n hfit hpos hn).1
  constructor
  · intro hlt
    rw [hA] at hlt
    rw [hmod]
    exact Nat.mod_eq_of_lt (by omega)
  · intro hge
    rw [hA] at hge ⊢
    rw [hmod]
    have : min n (cfg.ring_buffer_frame_size - t % cfg.ring_buffer_frame_size)
        = cfg.ring_buffer_frame_size - t % cfg.ring_buffer_frame_size := by omega
    rw [this] at hge ⊢
    rw [Nat.mod_eq_sub_mod (by omega), Nat.mod_eq_of_lt (by omega)]
    omega

/-- The ring after a write of `A + B` samples in two parts, at offset `P` and at offset zero:
the sample `j` of the input lies at `P + j` or, past the first part, at `j - A`. -/
theorem ring_write_at [LinearOrderedField F] (ring wbuf : List F) (P A B j : Nat)
    (hPA : P + A ≤ ring.length) (hBP : B ≤ P) (hj : j < A + B) :
    (mts.dsp.copy wbuf A (mts.dsp.copy wbuf 0 ring P A) 0 B)[if j < A then P + j else j - A]?
      = some (wbuf.getD j 0) := by
  have hlen1 : (mts.dsp.copy wbuf 0 ring P A).length = ring.length := dsp_copy_length _ _ _ _ _
  by_cases hjA : j < A
  · rw [if_pos hjA, dsp_copy_getElem? _ _ _ _ _ _ (by rw [hlen1]; omega), if_neg (by omega),
      dsp_copy_getD _ _ _ _ _ _ (by omega), if_pos (by omega)]
    rw [show 0 + (P + j - P) = j by omega]
  · rw [if_neg hjA, dsp_copy_getElem? _ _ _ _ _ _ (by rw [hlen1]; omega), if_pos (by omega)]
    rw [show A + (j - A - 0) = j by omega]

/-- The ring after a write in two parts keeps every sample outside the two parts. -/
theorem ring_write_other [LinearOrderedField F] (ring wbuf : List F) (P A B q : Nat)
    (hq : q < ring.length) (h1 : ¬ (P ≤ q ∧ q < P + A)) (h2 : ¬ q < B) :
    (mts.dsp.copy wbuf A (mts.dsp.copy wbuf 0 ring P A) 0 B)[q]? = ring[q]? := by
  have hlen1 : (mts.dsp.copy wbuf 0 ring P A).length = ring.length := dsp_copy_length _ _ _ _ _
  rw [dsp_copy_getElem? _ _ _ _ _ _ (by rw [hlen1]; exact hq), if_neg (by omega),
    dsp_copy_getD _ _ _ _ _ _ hq, if_neg h1, List.getD_eq_getElem?_getD,
    List.getElem?_eq_getElem hq]
  rfl

/-- The state and the ring a `WriteMix` leaves, in terms of the frame offset `p = t % C` and
the sizes `A` and `B` of the two parts. -/
theorem write_mix_eq [LinearOrderedField F] [FloorRing F] (cfg : Config F) (s : DriverState F)
    (ring wbuf : List F) (inStreamObjectID : AudioObjectID) (inClientID n t : Nat) (inT : F)
    (hassert : cfg.static_assertions = true) (hfit : cfg.fits_UInt32 = true)
    (hring : s.m_ringBuffer = some ring)
    (hstream : inStreamObjectID = ObjectID.StreamInput.toAudioObjectID ∨
      inStreamObjectID = ObjectID.StreamOutput.toAudioObjectID)
    (hn : n ≤ cfg.ring_buffer_frame_size) (ht : t < 2 ^ 64) :
    Driver.DoIOOperationImpl cfg s ObjectID.Device.toAudioObjectID inStreamObjectID inClientID
        IOOperationID.kAudioServerPlugInIOOperationWriteMix n ⟨⟨inT⟩, ⟨(t : F)⟩⟩ wbuf
      = (kAudioHardwareNoError,
          { s with
            m_lastOutputSampleTime := (t : F)
            m_isBufferClear := false
            m_ringBuffer := some (mts.dsp.copy wbuf
              (Driver.firstPartFrameSize cfg (t % cfg.ring_buffer_frame_size) n
                * cfg.channel_count)
              (mts.dsp.copy wbuf 0 ring (t % cfg.ring_buffer_frame_size * cfg.channel_count)
                (Driver.firstPartFrameSize cfg (t % cfg.ring_buffer_frame_size) n
                  * cfg.channel_count))
              0
              (Driver.secondPartFrameSize cfg (t % cfg.ring_buffer_frame_size) n
                * cfg.channel_count)) },
          wbuf) := by
  have hpw := start_eq_mod cfg t hassert hfit
  obtain ⟨k, hk⟩ := is_power_of_two_exists _ (static_assertions_frame_size cfg hassert)
  have hpos : 0 < cfg.ring_buffer_frame_size := by rw [hk]; positivity
  have hp : t % cfg.ring_buffer_frame_size < cfg.ring_buffer_frame_size := Nat.mod_lt _ hpos
  obtain ⟨hAB, hPA, hBP⟩ := split_parts cfg _ n hfit hp hn
  have uA := frames_fit cfg (Driver.firstPartFrameSize cfg (t % cfg.ring_buffer_frame_size) n)
    hfit (by omega)
  have uB := frames_fit cfg (Driver.secondPartFrameSize cfg (t % cfg.ring_buffer_frame_size) n)
    hfit (by omega)
  have uP := frames_fit cfg (t % cfg.ring_buffer_frame_size) hfit (by omega)
  rcases hstream with rfl | rfl <;>
    simp [Driver.DoIOOperationImpl, mts.is_one_of, ObjectID.toAudioObjectID,
      kAudioObjectPlugInObject, hring, toUInt64_natCast t ht, hpw, uA, uB, uP]

/-- C17. With the ring buffer allocated (I/O running) with `C * ch` samples, `C` the frame
capacity (a power of two, by the static assertions) and `ch` the channel count, for every
whole output sample time `t < 2 ^ 64`, every frame count `n ≤ C` and an input buffer of at
least `n * ch` samples: a `WriteMix` returns success and leaves the caller's buffer as it was;
it sets the last output sample time to `t` and clears the buffer-is-clear flag, and changes no
other field but the ring; the ring keeps its length and holds input sample `(i, c)` at
position `((t + i) % C) * ch + c` for every `i < n` and `c < ch`, and every other position is
unchanged; the first part has `min n (C - t % C)` frames and goes to frame offset `t % C`, the
second part has the remaining frames and goes to offset zero. -/
theorem C17_write_path [LinearOrderedField F] [FloorRing F] (cfg : Config F) (s : DriverState F)
    (ring wbuf : List F) (inStreamObjectID : AudioObjectID) (inClientID n t : Nat) (inT : F)
    (hassert : cfg.static_assertions = true) (hfit : cfg.fits_UInt32 = true)
    (hring : s.m_ringBuffer = some ring)
    (hlen : ring.length = cfg.ring_buffer_frame_size * cfg.channel_count)
    (hstream : inStreamObjectID = ObjectID.StreamInput.toAudioObjectID ∨
      inStreamObjectID = ObjectID.StreamOutput.toAudioObjectID)
    (hn : n ≤ cfg.ring_buffer_frame_size) (ht : t < 2 ^ 64)
    (hw : n * cfg.channel_count ≤ wbuf.length) :
    ∃ ring' : List F,
      Driver.DoIOOperationImpl cfg s ObjectID.Device.toAudioObjectID inStreamObjectID inClientID
          IOOperationID.kAudioServerPlugInIOOperationWriteMix n ⟨⟨inT⟩, ⟨(t : F)⟩⟩ wbuf
        = (kAudioHardwareNoError,
            { s with
              m_lastOutputSampleTime := (t : F)
              m_isBufferClear := false
              m_ringBuffer := some ring' },
            wbuf) ∧
      ring'.length = ring.length ∧
      (∀ i c, i < n → c < cfg.channel_count →
        ring'[(t + i) % cfg.ring_buffer_frame_size * cfg.channel_count + c]?
          = wbuf[i * cfg.channel_count + c]?) ∧
      (∀ q, q < ring.length →
        (∀ i c, i < n → c < cfg.channel_count →
          q ≠ (t + i) % cfg.ring_buffer_frame_size * cfg.channel_count + c) →
        ring'[q]? = ring[q]?) ∧
      ring' = mts.dsp.copy wbuf
        (min n (cfg.ring_buffer_frame_size - t % cfg.ring_buffer_frame_size) * cfg.channel_count)
        (mts.dsp.copy wbuf 0 ring (t % cfg.ring_buffer_frame_size * cfg.channel_count)
          (min n (cfg.ring_buffer_frame_size - t % cfg.ring_buffer_frame_size)
            * cfg.channel_count))
        0
        ((n - min n (cfg.ring_buffer_frame_size - t % cfg.ring_buffer_frame_size))
          * cfg.channel_count) ∧
      Driver.firstPartFrameSize cfg (Driver.ringBufferFrameLocationStart cfg t) n
        = min n (cfg.ring_buffer_frame_size - t % cfg.ring_buffer_frame_size) ∧
      Driver.secondPartFrameSize cfg (Driver.ringBufferFrameLocationStart cfg t) n
        = n - min n (cfg.ring_buffer_frame_size - t % cfg.ring_buffer_frame_size) ∧
      Driver.firstPartFrameSize cfg (Driver.ringBufferFrameLocationStart cfg t) n
        + Driver.secondPartFrameSize cfg (Driver.ringBufferFrameLocationStart cfg t) n = n := by
  have hpw := start_eq_mod cfg t hassert hfit
  obtain ⟨k, hk⟩ := is_power_of_two_exists _ (static_assertions_frame_size cfg hassert)
  have hpos : 0 < cfg.ring_buffer_frame_size := by rw [hk]; positivity
  have hp : t % cfg.ring_buffer_frame_size < cfg.ring_buffer_frame_size := Nat.mod_lt _ hpos
  obtain ⟨hAB, hPA, hBP⟩ := split_parts cfg _ n hfit hp hn
  have hAeq := part_sizes cfg t n hfit hpos hn
  have hoff := fun i hi => frame_offset cfg t n i hfit hpos hn hi
  set p := t % cfg.ring_buffer_frame_size with hpdef
  set A := Driver.firstPartFrameSize cfg p n with hA
  set B := Driver.secondPartFrameSize cfg p n with hB
  set ch := cfg.channel_count with hch
  have hPA' : p * ch + A * ch ≤ ring.length := by
    rw [hlen, ← Nat.add_mul]; exact Nat.mul_le_mul_right _ hPA
  have hBP' : B * ch ≤ p * ch := Nat.mul_le_mul_right _ hBP
  refine ⟨_, write_mix_eq cfg s ring wbuf inStreamObjectID inClientID n t inT hassert hfit hring
    hstream hn ht, ?_, ?_, ?_, ?_, ?_, ?_, ?_⟩
  · simp [dsp_copy_length]
  · intro i c hi hc
    have hj : i * ch + c < A * ch + B * ch := by
      rw [← Nat.add_mul, hAB]; exact sample_index_lt i n c ch hc hi
    have hwr := ring_write_at ring wbuf (p * ch) (A * ch) (B * ch) (i * ch + c) hPA' hBP' hj
    have hsome : wbuf[i * ch + c]? = some (wbuf.getD (i * ch + c) 0) := by
      have hlt : i * ch + c < wbuf.length :=
        lt_of_lt_of_le (sample_index_lt i n c ch hc hi) hw
      rw [List.getD_eq_getElem?_getD, List.getElem?_eq_getElem hlt]
      rfl
    rw [hsome, ← hwr]
    by_cases hiA : i < A
    · rw [(hoff i hi).1 hiA, if_pos (sample_index_lt i A c ch hc hiA), Nat.add_mul, Nat.add_assoc]
    · have hge := sample_index_ge i A c ch (not_lt.mp hiA)
      rw [(hoff i hi).2 (not_lt.mp hiA), if_neg (by omega), hge.2]
  · intro q hq hne
    have hchpos : 0 < ch := by
      rcases Nat.eq_zero_or_pos ch with h0 | h0
      · rw [hlen, h0] at hq; simp at hq
      · exact h0
    have hqdm : q / ch * ch + q % ch = q := Nat.div_add_mod' q ch
    have hqm : q % ch < ch := Nat.mod_lt _ hchpos
    have hdiv1 : p * ch ≤ q → p ≤ q / ch := fun h => (Nat.le_div_iff_mul_le hchpos).mpr h
    have hdiv2 : ∀ x, q < x * ch → q / ch < x := fun x h => (Nat.div_lt_iff_lt_mul hchpos).mpr h
    generalize q / ch = d at hqdm hdiv1 hdiv2
    generalize q % ch = r at hqdm hqm
    apply ring_write_other ring wbuf (p * ch) (A * ch) (B * ch) q hq
    · rintro ⟨h1, h2⟩
      have hlo : p ≤ d := hdiv1 h1
      have hhi : d < p + A := hdiv2 _ (by rw [Nat.add_mul]; exact h2)
      have hi : d - p < n := by omega
      apply hne (d - p) r hi hqm
      rw [(hoff _ hi).1 (by omega), show p + (d - p) = d by omega, hqdm]
    · intro h2
      have hhi : d < B := hdiv2 _ h2
      have hi : A + d < n := by omega
      apply hne (A + d) r hi hqm
      rw [(hoff _ hi).2 (by omega), show A + d - A = d by omega, hqdm]
  · rw [← hAeq.1, show n - A = B by omega]
  · rw [hpw]; exact hAeq.1
  · rw [hpw]; exact hAeq.2
  · rw [hpw]; exact hAB

/-- C17 in the example configuration: two frames written at sample time 3 into the ring of
four frames; the first frame goes to the last frame of the ring and the second one wraps to the
first. -/
theorem C17_write_path_witness :
    exampleConfig.static_assertions = true ∧ exampleConfig.fits_UInt32 = true ∧
    exampleRunningState.m_ringBuffer = some (List.replicate 8 0) ∧
    2 ≤ exampleConfig.ring_buffer_frame_size ∧
    (Driver.DoIOOperationImpl exampleConfig exampleRunningState ObjectID.Device.toAudioObjectID
        ObjectID.StreamOutput.toAudioObjectID 0
        IOOperationID.kAudioServerPlugInIOOperationWriteMix 2 ⟨⟨0⟩, ⟨((3 : ℕ) : ℚ)⟩⟩
        [1, 2, 3, 4]).2.1.m_ringBuffer = some [3, 4, 0, 0, 0, 0, 1, 2] := by
  obtain ⟨ring', h1, -, -, -, h5, -⟩ := C17_write_path exampleConfig exampleRunningState
    (List.replicate 8 0) [1, 2, 3, 4] ObjectID.StreamOutput.toAudioObjectID 0 2 3 0
    exampleConfig_static_assertions exampleConfig_fits_UInt32 rfl (by decide) (Or.inr rfl)
    (by decide) (by decide) (by decide)
  refine ⟨exampleConfig_static_assertions, exampleConfig_fits_UInt32, rfl, by decide, ?_⟩
  rw [h1, h5]
  rfl

/-! ## C18: the read path -/

/-- Reading `A + B` samples in two parts (from offset `P` and from offset zero) and scaling
them: the sample `j` of the output is the ring sample at `P + j` or, past the first part, at
`j - A`, times the gain. -/
theorem ring_read_at [LinearOrderedField F] (ring rbuf : List F) (g : F) (P A B j : Nat)
    (hj : j < A + B) (hr : j < rbuf.length) :
    (mts.dsp.mul (mts.dsp.copy ring 0 (mts.dsp.copy ring P rbuf 0 A) A B) g (A + B))[j]?
      = some (ring.getD (if j < A then P + j else j - A) 0 * g) := by
  rw [dsp_mul_getElem? _ _ _ _ (by simp [dsp_copy_length, hr]), if_pos hj]
  rw [dsp_copy_getD _ _ _ _ _ _ (by simp [dsp_copy_length, hr])]
  by_cases hjA : j < A
  · rw [if_neg (by omega), dsp_copy_getD _ _ _ _ _ _ hr, if_pos (by omega), if_pos hjA]
    rw [show j - 0 = j by omega]
  · rw [if_pos (by omega), if_neg hjA]
    rw [show 0 + (j - A) = j - A by omega]

/-- Past the samples transferred, the output buffer of a read keeps its contents. -/
theorem ring_read_rest [LinearOrderedField F] (ring rbuf : List F) (g : F) (P A B j : Nat)
    (hj : A + B ≤ j) :
    (mts.dsp.mul (mts.dsp.copy ring 0 (mts.dsp.copy ring P rbuf 0 A) A B) g (A + B))[j]?
      = rbuf[j]? := by
  by_cases hr : j < rbuf.length
  · rw [dsp_mul_getElem? _ _ _ _ (by simp [dsp_copy_length, hr]), if_neg (by omega),
      dsp_copy_getD _ _ _ _ _ _ (by simp [dsp_copy_length, hr]), if_neg (by omega),
      dsp_copy_getD _ _ _ _ _ _ hr, if_neg (by omega), List.getD_eq_getElem?_getD,
      List.getElem?_eq_getElem hr]
    rfl
  · rw [List.getElem?_eq_none (by simp [dsp_mul_length, dsp_copy_length]; omega),
      List.getElem?_eq_none (by omega)]

/-- C18. With the ring buffer allocated with `C * ch` samples, master mute off and the
staleness test of the code false (the last output sample time minus the frame count is not
below the input sample time), for every whole input sample time `t < 2 ^ 64`, every frame count
`n ≤ C` and an output buffer of at least `n * ch` samples: a `ReadInput` returns success and
changes no field of the driver state (the ring buffer included); output sample `(i, c)` is the
master gain times the ring sample at position `((t + i) % C) * ch + c` for every `i < n` and
`c < ch`, and the output buffer keeps its length and its contents past the `n * ch` samples. -/
theorem C18_read_path [LinearOrderedField F] [FloorRing F] (cfg : Config F) (s : DriverState F)
    (ring rbuf : List F) (inStreamObjectID : AudioObjectID) (inClientID n t : Nat) (outT : F)
    (hassert : cfg.static_assertions = true) (hfit : cfg.fits_UInt32 = true)
    (hring : s.m_ringBuffer = some ring)
    (hlen : ring.length = cfg.ring_buffer_frame_size * cfg.channel_count)
    (hstream : inStreamObjectID = ObjectID.StreamInput.toAudioObjectID ∨
      inStreamObjectID = ObjectID.StreamOutput.toAudioObjectID)
    (hn : n ≤ cfg.ring_buffer_frame_size) (ht : t < 2 ^ 64)
    (hmute : s.m_muteMasterValue = false)
    (hfresh : ¬ s.m_lastOutputSampleTime - (n : F) < (t : F))
    (hr : n * cfg.channel_count ≤ rbuf.length) :
    ∃ out : List F,
      Driver.DoIOOperationImpl cfg s ObjectID.Device.toAudioObjectID inStreamObjectID inClientID
          IOOperationID.kAudioServerPlugInIOOperationReadInput n ⟨⟨(t : F)⟩, ⟨outT⟩⟩ rbuf
        = (kAudioHardwareNoError, s, out) ∧
      out.length = rbuf.length ∧
      (∀ i c, i < n → c < cfg.channel_count →
        ∃ x, ring[(t + i) % cfg.ring_buffer_frame_size * cfg.channel_count + c]? = some x ∧
          out[i * cfg.channel_count + c]? = some (s.m_volumeMasterValue * x)) ∧
      (∀ j, n * cfg.channel_count ≤ j → out[j]? = rbuf[j]?) := by
  have hpw := start_eq_mod cfg t hassert hfit
  obtain ⟨k, hk⟩ := is_power_of_two_exists _ (static_assertions_frame_size cfg hassert)
  have hpos : 0 < cfg.ring_buffer_frame_size := by rw [hk]; positivity
  have hp : t % cfg.ring_buffer_frame_size < cfg.ring_buffer_frame_size := Nat.mod_lt _ hpos
  obtain ⟨hAB, hPA, hBP⟩ := split_parts cfg _ n hfit hp hn
  have hoff := fun i hi => frame_offset cfg t n i hfit hpos hn hi
  have uA := frames_fit cfg (Driver.firstPartFrameSize cfg (t % cfg.ring_buffer_frame_size) n)
    hfit (by omega)
  have uB := frames_fit cfg (Driver.secondPartFrameSize cfg (t % cfg.ring_buffer_frame_size) n)
    hfit (by omega)
  have uP := frames_fit cfg (t % cfg.ring_buffer_frame_size) hfit (by omega)
  have uN := frames_fit cfg n hfit hn
  set p := t % cfg.ring_buffer_frame_size with hpdef
  set A := Driver.firstPartFrameSize cfg p n with hA
  set B := Driver.secondPartFrameSize cfg p n with hB
  set ch := cfg.channel_count with hch
  have hN : n * ch = A * ch + B * ch := by rw [← Nat.add_mul, hAB]
  have uN' : u32 (A * ch + B * ch) = A * ch + B * ch := by rw [← hN]; exact uN
  refine ⟨mts.dsp.mul (mts.dsp.copy ring 0 (mts.dsp.copy ring (p * ch) rbuf 0 (A * ch))
    (A * ch) (B * ch)) s.m_volumeMasterValue (A * ch + B * ch), ?_, ?_, ?_, ?_⟩
  · rcases hstream with rfl | rfl <;>
      simp [Driver.DoIOOperationImpl, mts.is_one_of, ObjectID.toAudioObjectID,
        kAudioObjectPlugInObject, hring, hmute, hfresh, toUInt64_natCast t ht, hpw, uA, uB, uP,
        uN', ← hpdef, ← hA, ← hB, ← hch, hN]
  · simp [dsp_mul_length, dsp_copy_length]
  · intro i c hi hc
    have hj : i * ch + c < A * ch + B * ch := by
      rw [← hN]; exact sample_index_lt i n c ch hc hi
    have hrd := ring_read_at ring rbuf s.m_volumeMasterValue (p * ch) (A * ch) (B * ch)
      (i * ch + c) hj (by omega)
    have hposlt : (t + i) % cfg.ring_buffer_frame_size * ch + c < ring.length := by
      rw [hlen]
      exact sample_index_lt _ _ c ch hc (Nat.mod_lt _ hpos)
    refine ⟨ring[(t + i) % cfg.ring_buffer_frame_size * ch + c], List.getElem?_eq_getElem hposlt,
      ?_⟩
    rw [hrd, mul_comm]
    congr 2
    rw [List.getD_eq_getElem?_getD]
    by_cases hiA : i < A
    · rw [if_pos (sample_index_lt i A c ch hc hiA), ← Nat.add_assoc, ← Nat.add_mul,
        ← (hoff i hi).1 hiA, List.getElem?_eq_getElem hposlt]
      rfl
    · have hge := sample_index_ge i A c ch (not_lt.mp hiA)
      rw [if_neg (by omega), hge.2, ← (hoff i hi).2 (not_lt.mp hiA),
        List.getElem?_eq_getElem hposlt]
      rfl
  · intro j hj
    exact ring_read_rest ring rbuf _ _ _ _ j (by omega)

/-- C18 in the example configuration: with the samples 1 to 8 in the ring and the gain at one
half, a read of two frames at sample time 3 starts with the seventh sample of the ring, times
one half. -/
theorem C18_read_path_witness :
    exampleConfig.static_assertions = true ∧ exampleConfig.fits_UInt32 = true ∧
    exampleFilledState.m_ringBuffer = some [1, 2, 3, 4, 5, 6, 7, 8] ∧
    exampleFilledState.m_muteMasterValue = false ∧
    ¬ exampleFilledState.m_lastOutputSampleTime - ((2 : ℕ) : ℚ) < ((3 : ℕ) : ℚ) ∧
    (Driver.DoIOOperationImpl exampleConfig exampleFilledState ObjectID.Device.toAudioObjectID
        ObjectID.StreamInput.toAudioObjectID 0
        IOOperationID.kAudioServerPlugInIOOperationReadInput 2 ⟨⟨((3 : ℕ) : ℚ)⟩, ⟨0⟩⟩
        [9, 9, 9, 9, 9]).2.2[0]? = some (1 / 2 * 7) := by
  have hfresh : ¬ exampleFilledState.m_lastOutputSampleTime - ((2 : ℕ) : ℚ) < ((3 : ℕ) : ℚ) := by
    show ¬ (100 : ℚ) - ((2 : ℕ) : ℚ) < ((3 : ℕ) : ℚ)
    norm_num
  obtain ⟨out, h1, -, h3, -⟩ := C18_read_path exampleConfig exampleFilledState
    [1, 2, 3, 4, 5, 6, 7, 8] [9, 9, 9, 9, 9] ObjectID.StreamInput.toAudioObjectID 0 2 3 0
    exampleConfig_static_assertions exampleConfig_fits_UInt32 rfl (by decide) (Or.inl rfl)
    (by decide) (by decide) rfl hfresh (by decide)
  obtain ⟨x, hx, hout⟩ := h3 0 0 (by decide) (by decide)
  refine ⟨exampleConfig_static_assertions, exampleConfig_fits_UInt32, rfl, rfl, hfresh, ?_⟩
  have hx7 : x = 7 := by
    have h6 : ([1, 2, 3, 4, 5, 6, 7, 8] : List ℚ)[6]? = some x := hx
    simpa using h6.symm
  rw [h1]
  rw [← hx7]
  exact hout

/-! ## C19: the staleness test -/

/-- C19, as stated, fails: with master mute off, the samples 1 to 8 in the ring and the last
output at sample time 3, a `ReadInput` of 2 frames at input sample time 3 emits silence (zeros
in the output, the ring cleared and flagged clear) although the last output sample time, 3, is
not below the input sample time minus the frame count, 1. The code compares the last output
sample time minus the frame count, 1, with the input sample time, 3. -/
theorem C19_silence_test_counterexample :
    ({ exampleFilledState with m_lastOutputSampleTime := 3 } : DriverState ℚ).m_muteMasterValue
      = false ∧
    ¬ ((3 : ℚ) < 3 - 2) ∧
    Driver.DoIOOperationImpl exampleConfig { exampleFilledState with m_lastOutputSampleTime := 3 }
        ObjectID.Device.toAudioObjectID ObjectID.StreamInput.toAudioObjectID 0
        IOOperationID.kAudioServerPlugInIOOperationReadInput 2 ⟨⟨3⟩, ⟨0⟩⟩ [9, 9, 9, 9, 9]
      = (kAudioHardwareNoError,
          { exampleFilledState with
            m_lastOutputSampleTime := 3
            m_ringBuffer := some [0, 0, 0, 0, 0, 0, 0, 0]
            m_isBufferClear := true },
          [0, 0, 0, 0, 9]) := by
  refine ⟨rfl, by norm_num, ?_⟩
  norm_num [Driver.DoIOOperationImpl, mts.is_one_of, ObjectID.toAudioObjectID,
    kAudioObjectPlugInObject, exampleFilledState, exampleRunningState, Driver.StartIOImpl,
    DriverState.initial, exampleConfig, UINT64_MAX, Driver.ringBufferSampleCount, u32,
    mts.dsp.clear, List.range, List.range.loop]

/-- C19, amended. A `ReadInput` of `n` frames at input sample time `t` emits silence if and
only if master mute is active or the last output sample time minus `n` is below `t`. When that
holds, the call returns success, the first `n * channel_count` samples of the caller's buffer
are cleared, the buffer-is-clear flag is set afterwards, and the ring is cleared if the flag
was not set. When it does not hold, the driver state is unchanged and the caller's buffer
receives the two parts copied from the ring, times the master gain. Starting with the flag not
set, the flag is set afterwards exactly when the test holds. -/
theorem C19_silence_test [LinearOrderedField F] [FloorRing F] (cfg : Config F)
    (s : DriverState F) (inStreamObjectID : AudioObjectID) (inClientID n : Nat) (t outT : F)
    (ioMainBuffer : List F)
    (hstream : inStreamObjectID = ObjectID.StreamInput.toAudioObjectID ∨
      inStreamObjectID = ObjectID.StreamOutput.toAudioObjectID) :
    ((s.m_muteMasterValue = true ∨ s.m_lastOutputSampleTime - (n : F) < t) →
      Driver.DoIOOperationImpl cfg s ObjectID.Device.toAudioObjectID inStreamObjectID inClientID
          IOOperationID.kAudioServerPlugInIOOperationReadInput n ⟨⟨t⟩, ⟨outT⟩⟩ ioMainBuffer
        = (kAudioHardwareNoError,
            (if s.m_isBufferClear = true then s
              else { s with
                m_ringBuffer := s.m_ringBuffer.map (fun rb =>
                  mts.dsp.clear rb (Driver.ringBufferSampleCount cfg))
                m_isBufferClear := true }),
            mts.dsp.clear ioMainBuffer (u32 (n * cfg.channel_count))) ∧
      (Driver.DoIOOperationImpl cfg s ObjectID.Device.toAudioObjectID inStreamObjectID
          inClientID IOOperationID.kAudioServerPlugInIOOperationReadInput n ⟨⟨t⟩, ⟨outT⟩⟩
          ioMainBuffer).2.1.m_isBufferClear = true ∧
      ∀ j, j < u32 (n * cfg.channel_count) → j < ioMainBuffer.length →
        (Driver.DoIOOperationImpl cfg s ObjectID.Device.toAudioObjectID inStreamObjectID
          inClientID IOOperationID.kAudioServerPlugInIOOperationReadInput n ⟨⟨t⟩, ⟨outT⟩⟩
          ioMainBuffer).2.2[j]? = some 0) ∧
    (¬ (s.m_muteMasterValue = true ∨ s.m_lastOutputSampleTime - (n : F) < t) →
      Driver.DoIOOperationImpl cfg s ObjectID.Device.toAudioObjectID inStreamObjectID inClientID
          IOOperationID.kAudioServerPlugInIOOperationReadInput n ⟨⟨t⟩, ⟨outT⟩⟩ ioMainBuffer
        = (kAudioHardwareNoError, s,
            mts.dsp.mul
              (mts.dsp.copy (s.m_ringBuffer.getD []) 0
                (mts.dsp.copy (s.m_ringBuffer.getD [])
                  (u32 (Driver.ringBufferFrameLocationStart cfg (toUInt64 t) * cfg.channel_count))
                  ioMainBuffer 0
                  (u32 (Driver.firstPartFrameSize cfg
                    (Driver.ringBufferFrameLocationStart cfg (toUInt64 t)) n * cfg.channel_count)))
                (u32 (Driver.firstPartFrameSize cfg
                  (Driver.ringBufferFrameLocationStart cfg (toUInt64 t)) n * cfg.channel_count))
                (u32 (Driver.secondPartFrameSize cfg
                  (Driver.ringBufferFrameLocationStart cfg (toUInt64 t)) n * cfg.channel_count)))
              s.m_volumeMasterValue (u32 (n * cfg.channel_count)))) ∧
    (s.m_isBufferClear = false →
      ((Driver.DoIOOperationImpl cfg s ObjectID.Device.toAudioObjectID inStreamObjectID
          inClientID IOOperationID.kAudioServerPlugInIOOperationReadInput n ⟨⟨t⟩, ⟨outT⟩⟩
          ioMainBuffer).2.1.m_isBufferClear = true ↔
        (s.m_muteMasterValue = true ∨ s.m_lastOutputSampleTime - (n : F) < t))) := by
  have hsil : (s.m_muteMasterValue = true ∨ s.m_lastOutputSampleTime - (n : F) < t) →
      Driver.DoIOOperationImpl cfg s ObjectID.Device.toAudioObjectID inStreamObjectID inClientID
          IOOperationID.kAudioServerPlugInIOOperationReadInput n ⟨⟨t⟩, ⟨outT⟩⟩ ioMainBuffer
        = (kAudioHardwareNoError,
            (if s.m_isBufferClear = true then s
              else { s with
                m_ringBuffer := s.m_ringBuffer.map (fun rb =>
                  mts.dsp.clear rb (Driver.ringBufferSampleCount cfg))
                m_isBufferClear := true }),
            mts.dsp.clear ioMainBuffer (u32 (n * cfg.channel_count))) := by
    intro hc
    rcases hstream with rfl | rfl <;> cases hclear : s.m_isBufferClear <;>
      simp [Driver.DoIOOperationImpl, mts.is_one_of, ObjectID.toAudioObjectID,
        kAudioObjectPlugInObject, hc, hclear]
  have hnot : ¬ (s.m_muteMasterValue = true ∨ s.m_lastOutputSampleTime - (n : F) < t) →
      Driver.DoIOOperationImpl cfg s ObjectID.Device.toAudioObjectID inStreamObjectID inClientID
          IOOperationID.kAudioServerPlugInIOOperationReadInput n ⟨⟨t⟩, ⟨outT⟩⟩ ioMainBuffer
        = (kAudioHardwareNoError, s,
            mts.dsp.mul
              (mts.dsp.copy (s.m_ringBuffer.getD []) 0
                (mts.dsp.copy (s.m_ringBuffer.getD [])
                  (u32 (Driver.ringBufferFrameLocationStart cfg (toUInt64 t) * cfg.channel_count))
                  ioMainBuffer 0
                  (u32 (Driver.firstPartFrameSize cfg
                    (Driver.ringBufferFrameLocationStart cfg (toUInt64 t)) n * cfg.channel_count)))
                (u32 (Driver.firstPartFrameSize cfg
                  (Driver.ringBufferFrameLocationStart cfg (toUInt64 t)) n * cfg.channel_count))
                (u32 (Driver.secondPartFrameSize cfg
                  (Driver.ringBufferFrameLocationStart cfg (toUInt64 t)) n * cfg.channel_count)))
              s.m_volumeMasterValue (u32 (n * cfg.channel_count))) := by
    intro hc
    rcases hstream with rfl | rfl <;>
      simp [Driver.DoIOOperationImpl, mts.is_one_of, ObjectID.toAudioObjectID,
        kAudioObjectPlugInObject, hc]
  refine ⟨fun hc => ⟨hsil hc, ?_, ?_⟩, hnot, ?_⟩
  · rw [hsil hc]
    cases hclear : s.m_isBufferClear <;> simp [hclear]
  · intro j hj hlen
    rw [hsil hc]
    simp only
    rw [dsp_clear_getElem? _ _ _ hlen, if_pos hj]
  · intro hflag
    constructor
    · intro h
      by_contra hc
      rw [hnot hc] at h
      simp [hflag] at h
    · intro hc
      rw [hsil hc]
      simp [hflag]

/-- C19, amended, in the example configuration with the last output at sample time 100 and
the flag not set: a read of two frames at input sample time 101. -/
theorem C19_silence_test_witness :
    (ObjectID.StreamInput.toAudioObjectID = ObjectID.StreamInput.toAudioObjectID ∨
      ObjectID.StreamInput.toAudioObjectID = ObjectID.StreamOutput.toAudioObjectID) ∧
    (exampleFilledState.m_isBufferClear = false →
      ((Driver.DoIOOperationImpl exampleConfig exampleFilledState
          ObjectID.Device.toAudioObjectID ObjectID.StreamInput.toAudioObjectID 0
          IOOperationID.kAudioServerPlugInIOOperationReadInput 2 ⟨⟨101⟩, ⟨0⟩⟩
          [9, 9, 9, 9, 9]).2.1.m_isBufferClear = true ↔
        (exampleFilledState.m_muteMasterValue = true ∨
          exampleFilledState.m_lastOutputSampleTime - ((2 : ℕ) : ℚ) < 101))) :=
  ⟨Or.inl rfl,
    (C19_silence_test exampleConfig exampleFilledState ObjectID.StreamInput.toAudioObjectID 0 2
      101 0 [9, 9, 9, 9, 9] (Or.inl rfl)).2.2⟩

/-! ## C20: the buffer-is-clear flag -/

theorem getD_zero_or_mem [LinearOrderedField F] (l : List F) (k : Nat) :
    l.getD k 0 = 0 ∨ l.getD k 0 ∈ l := by
  by_cases hk : k < l.length
  · right
    rw [List.getD_eq_getElem?_getD, List.getElem?_eq_getElem hk]
    exact List.getElem_mem hk
  · left
    rw [List.getD_eq_getElem?_getD, List.getElem?_eq_none (by omega)]
    rfl

theorem dsp_copy_mem [LinearOrderedField F] (src : List F) (so : Nat) (dst : List F)
    (d size : Nat) (x : F) (hx : x ∈ mts.dsp.copy src so dst d size) :
    x = 0 ∨ x ∈ src ∨ x ∈ dst := by
  simp only [mts.dsp.copy, List.mem_map, List.mem_range] at hx
  obtain ⟨j, hj, rfl⟩ := hx
  split_ifs
  · rcases getD_zero_or_mem src (so + (j - d)) with h | h
    · exact Or.inl h
    · exact Or.inr (Or.inl h)
  · rcases getD_zero_or_mem dst j with h | h
    · exact Or.inl h
    · exact Or.inr (Or.inr h)

theorem dsp_clear_all [LinearOrderedField F] (buffer : List F) (size : Nat)
    (h : buffer.length ≤ size) (x : F) (hx : x ∈ mts.dsp.clear buffer size) : x = 0 := by
  simp only [mts.dsp.clear, List.mem_map, List.mem_range] at hx
  obtain ⟨j, hj, rfl⟩ := hx
  rw [if_pos (by omega)]

theorem dsp_clear_mem [LinearOrderedField F] (buffer : List F) (size : Nat) (x : F)
    (hx : x ∈ mts.dsp.clear buffer size) : x = 0 ∨ x ∈ buffer := by
  simp only [mts.dsp.clear, List.mem_map, List.mem_range] at hx
  obtain ⟨j, hj, rfl⟩ := hx
  split_ifs
  · exact Or.inl rfl
  · exact getD_zero_or_mem buffer j

/-- What one call on the device does to the ring buffer and to the buffer-is-clear flag: it
leaves both as they were, or allocates a zeroed ring, or frees the ring, or clears the whole
ring and sets the flag, or copies two parts of the written buffer into the ring and resets the
flag. -/
theorem callDevice_ring [LinearOrderedField F] [FloorRing F] (cfg : Config F)
    (s : DriverState F) (call : DeviceCall F) :
    ((Driver.callDevice cfg s call).m_ringBuffer = s.m_ringBuffer ∧
      (Driver.callDevice cfg s call).m_isBufferClear = s.m_isBufferClear) ∨
    ((Driver.callDevice cfg s call).m_ringBuffer
        = some (List.replicate (Driver.ringBufferSampleCount cfg) 0) ∧
      (Driver.callDevice cfg s call).m_isBufferClear = s.m_isBufferClear) ∨
    (Driver.callDevice cfg s call).m_ringBuffer = none ∨
    ((Driver.callDevice cfg s call).m_ringBuffer
        = s.m_ringBuffer.map (fun rb => mts.dsp.clear rb (Driver.ringBufferSampleCount cfg)) ∧
      (Driver.callDevice cfg s call).m_isBufferClear = true) ∨
    (∃ o1 d1 n1 o2 n2,
      (Driver.callDevice cfg s call).m_ringBuffer
        = s.m_ringBuffer.map (fun rb =>
            mts.dsp.copy call.written o2 (mts.dsp.copy call.written o1 rb d1 n1) 0 n2) ∧
      (Driver.callDevice cfg s call).m_isBufferClear = false) := by
  cases call with
  | start inClientID now =>
    simp only [Driver.callDevice, Driver.StartIOImpl]
    split_ifs <;> simp
  | stop inClientID =>
    simp only [Driver.callDevice, Driver.StopIOImpl]
    split_ifs <;> simp
  | transfer inStreamObjectID inClientID inOperationID n inIOCycleInfo ioMainBuffer =>
    by_cases hs : inStreamObjectID = ObjectID.StreamInput.toAudioObjectID ∨
        inStreamObjectID = ObjectID.StreamOutput.toAudioObjectID
    · cases inOperationID with
      | kAudioServerPlugInIOOperationReadInput =>
        by_cases hc : s.m_muteMasterValue = true ∨
            s.m_lastOutputSampleTime - (n : F) < inIOCycleInfo.mInputTime.mSampleTime
        · cases hclear : s.m_isBufferClear
          · right; right; right; left
            rcases hs with rfl | rfl <;>
              simp [Driver.callDevice, Driver.DoIOOperationImpl, mts.is_one_of,
                ObjectID.toAudioObjectID, kAudioObjectPlugInObject, hc, hclear]
          · left
            rcases hs with rfl | rfl <;>
              simp [Driver.callDevice, Driver.DoIOOperationImpl, mts.is_one_of,
                ObjectID.toAudioObjectID, kAudioObjectPlugInObject, hc, hclear]
        · left
          rcases hs with rfl | rfl <;>
            simp [Driver.callDevice, Driver.DoIOOperationImpl, mts.is_one_of,
              ObjectID.toAudioObjectID, kAudioObjectPlugInObject, hc]
      | kAudioServerPlugInIOOperationWriteMix =>
        right; right; right; right
        refine ⟨0,
          u32 (Driver.ringBufferFrameLocationStart cfg
            (toUInt64 inIOCycleInfo.mOutputTime.mSampleTime) * cfg.channel_count),
          u32 (Driver.firstPartFrameSize cfg (Driver.ringBufferFrameLocationStart cfg
            (toUInt64 inIOCycleInfo.mOutputTime.mSampleTime)) n * cfg.channel_count),
          u32 (Driver.firstPartFrameSize cfg (Driver.ringBufferFrameLocationStart cfg
            (toUInt64 inIOCycleInfo.mOutputTime.mSampleTime)) n * cfg.channel_count),
          u32 (Driver.secondPartFrameSize cfg (Driver.ringBufferFrameLocationStart cfg
            (toUInt64 inIOCycleInfo.mOutputTime.mSampleTime)) n * cfg.channel_count), ?_, ?_⟩ <;>
        rcases hs with rfl | rfl <;>
          simp [Driver.callDevice, Driver.DoIOOperationImpl, mts.is_one_of,
            ObjectID.toAudioObjectID, kAudioObjectPlugInObject, DeviceCall.written,
            Option.map_map, Function.comp_def]
      | other code =>
        left
        rcases hs with rfl | rfl <;>
          simp [Driver.callDevice, Driver.DoIOOperationImpl, mts.is_one_of,
            ObjectID.toAudioObjectID, kAudioObjectPlugInObject]
    · left
      push_neg at hs
      simp [Driver.callDevice, Driver.DoIOOperationImpl, mts.is_one_of, hs.1, hs.2]

/-- One call on the device keeps three facts about an allocated ring: it has as many samples
as `StartIO` allocates; each sample is zero or one of the samples allowed so far or handed over
by this call for writing; and while the buffer-is-clear flag is set every sample is zero. -/
theorem callDevice_invariant [LinearOrderedField F] [FloorRing F] (cfg : Config F)
    (s : DriverState F) (call : DeviceCall F) (P : F → Prop)
    (hlen : ∀ rb, s.m_ringBuffer = some rb → rb.length = Driver.ringBufferSampleCount cfg)
    (hmem : ∀ rb, s.m_ringBuffer = some rb → ∀ x ∈ rb, x = 0 ∨ P x)
    (hzero : s.m_isBufferClear = true → ∀ rb, s.m_ringBuffer = some rb → ∀ x ∈ rb, x = 0) :
    (∀ rb, (Driver.callDevice cfg s call).m_ringBuffer = some rb →
      rb.length = Driver.ringBufferSampleCount cfg) ∧
    (∀ rb, (Driver.callDevice cfg s call).m_ringBuffer = some rb →
      ∀ x ∈ rb, x = 0 ∨ (P x ∨ x ∈ call.written)) ∧
    ((Driver.callDevice cfg s call).m_isBufferClear = true →
      ∀ rb, (Driver.callDevice cfg s call).m_ringBuffer = some rb → ∀ x ∈ rb, x = 0) := by
  rcases callDevice_ring cfg s call with ⟨h1, h2⟩ | ⟨h1, h2⟩ | h1 | ⟨h1, h2⟩ |
    ⟨o1, d1, n1, o2, n2, h1, h2⟩
  · rw [h1, h2]
    exact ⟨hlen, fun rb hrb x hx => (hmem rb hrb x hx).imp id Or.inl, hzero⟩
  · rw [h1]
    refine ⟨?_, ?_, ?_⟩
    · intro rb hrb
      cases hrb
      simp
    · intro rb hrb x hx
      cases hrb
      exact Or.inl (List.eq_of_mem_replicate hx)
    · intro _ rb hrb x hx
      cases hrb
      exact List.eq_of_mem_replicate hx
  · rw [h1]
    simp
  · rw [h1, h2]
    cases hring : s.m_ringBuffer with
    | none => simp
    | some ring =>
      have hl := hlen ring hring
      refine ⟨?_, ?_, ?_⟩
      · intro rb hrb
        cases hrb
        rw [dsp_clear_length, hl]
      · intro rb hrb x hx
        cases hrb
        exact Or.inl (dsp_clear_all ring _ (le_of_eq hl) x hx)
      · intro _ rb hrb x hx
        cases hrb
        exact dsp_clear_all ring _ (le_of_eq hl) x hx
  · rw [h1, h2]
    cases hring : s.m_ringBuffer with
    | none => simp
    | some ring =>
      refine ⟨?_, ?_, by simp⟩
      · intro rb hrb
        cases hrb
        rw [dsp_copy_length, dsp_copy_length, hlen ring hring]
      · intro rb hrb x hx
        cases hrb
        rcases dsp_copy_mem _ _ _ _ _ x hx with h | h | h
        · exact Or.inl h
        · exact Or.inr (Or.inr h)
        · rcases dsp_copy_mem _ _ _ _ _ x h with h' | h' | h'
          · exact Or.inl h'
          · exact Or.inr (Or.inr h')
          · exact (hmem ring hring x h').imp id Or.inl

/-- The three facts of `callDevice_invariant` along a sequence of calls. -/
theorem runDeviceCalls_invariant [LinearOrderedField F] [FloorRing F] (cfg : Config F)
    (calls : List (DeviceCall F)) :
    ∀ (s s' : DriverState F) (P : F → Prop),
      Driver.runDeviceCalls cfg s calls = some s' →
      (∀ rb, s.m_ringBuffer = some rb → rb.length = Driver.ringBufferSampleCount cfg) →
      (∀ rb, s.m_ringBuffer = some rb → ∀ x ∈ rb, x = 0 ∨ P x) →
      (s.m_isBufferClear = true → ∀ rb, s.m_ringBuffer = some rb → ∀ x ∈ rb, x = 0) →
      (∀ rb, s'.m_ringBuffer = some rb → rb.length = Driver.ringBufferSampleCount cfg) ∧
      (∀ rb, s'.m_ringBuffer = some rb →
        ∀ x ∈ rb, x = 0 ∨ (P x ∨ x ∈ DeviceCall.writtenSamples calls)) ∧
      (s'.m_isBufferClear = true → ∀ rb, s'.m_ringBuffer = some rb → ∀ x ∈ rb, x = 0) := by
  induction calls with
  | nil =>
    intro s s' P hrun hlen hmem hzero
    simp only [Driver.runDeviceCalls, Option.some.injEq] at hrun
    subst hrun
    exact ⟨hlen, fun rb hrb x hx => (hmem rb hrb x hx).imp id Or.inl, hzero⟩
  | cons call rest ih =>
    intro s s' P hrun hlen hmem hzero
    simp only [Driver.runDeviceCalls] at hrun
    split_ifs at hrun with hadm
    obtain ⟨h1, h2, h3⟩ := callDevice_invariant cfg s call P hlen hmem hzero
    obtain ⟨k1, k2, k3⟩ := ih _ s' (fun x => P x ∨ x ∈ call.written) hrun h1 h2 h3
    refine ⟨k1, ?_, k3⟩
    intro rb hrb x hx
    rcases k2 rb hrb x hx with h | (h | h) | h
    · exact Or.inl h
    · exact Or.inr (Or.inl h)
    · exact Or.inr (Or.inr (by simp [DeviceCall.writtenSamples, h]))
    · exact Or.inr (Or.inr (by
        simp only [DeviceCall.writtenSamples, List.foldr_cons, List.mem_append]
        exact Or.inr h))

/-- The driver state after a `ReadInput` that takes the silence branch. -/
theorem read_silent_state [LinearOrderedField F] [FloorRing F] (cfg : Config F)
    (s : DriverState F) (inStreamObjectID : AudioObjectID) (inClientID n : Nat)
    (inIOCycleInfo : AudioServerPlugInIOCycleInfo F) (ioMainBuffer : List F)
    (hstream : inStreamObjectID = ObjectID.StreamInput.toAudioObjectID ∨
      inStreamObjectID = ObjectID.StreamOutput.toAudioObjectID)
    (hsilent : s.m_muteMasterValue = true ∨
      s.m_lastOutputSampleTime - (n : F) < inIOCycleInfo.mInputTime.mSampleTime) :
    (Driver.DoIOOperationImpl cfg s ObjectID.Device.toAudioObjectID inStreamObjectID inClientID
        IOOperationID.kAudioServerPlugInIOOperationReadInput n inIOCycleInfo ioMainBuffer).2.1
      = (if s.m_isBufferClear = true then s
          else { s with
            m_ringBuffer := s.m_ringBuffer.map (fun rb =>
              mts.dsp.clear rb (Driver.ringBufferSampleCount cfg))
            m_isBufferClear := true }) := by
  rcases hstream with rfl | rfl <;> cases hclear : s.m_isBufferClear <;>
    simp [Driver.DoIOOperationImpl, mts.is_one_of, ObjectID.toAudioObjectID,
      kAudioObjectPlugInObject, hsilent, hclear]

/-- C20. In every state reached from the initial driver state by `StartIO`, `StopIO` and
`DoIOOperation` calls on the device (`DoIOOperation` only while I/O is running and for at most
as many frames as the ring holds): if the buffer-is-clear flag is set and the ring buffer is
allocated, every sample of the ring is zero. Consequently, after a `ReadInput` that emits
silence in such a state (master mute on, or the staleness test of the code true) every sample
of the ring is zero, and after any further such calls every sample of the ring is zero or one
of the samples handed over for writing by those further calls: nothing written before the
silent read is left to be read. -/
theorem C20_clear_flag_invariant [LinearOrderedField F] [FloorRing F] (cfg : Config F)
    (calls : List (DeviceCall F)) (s : DriverState F)
    (hrun : Driver.runDeviceCalls cfg (DriverState.initial cfg) calls = some s) :
    (s.m_isBufferClear = true → ∀ rb, s.m_ringBuffer = some rb → ∀ x ∈ rb, x = 0) ∧
    (∀ (inStreamObjectID : AudioObjectID) (inClientID n : Nat)
        (inIOCycleInfo : AudioServerPlugInIOCycleInfo F) (ioMainBuffer : List F),
      (inStreamObjectID = ObjectID.StreamInput.toAudioObjectID ∨
        inStreamObjectID = ObjectID.StreamOutput.toAudioObjectID) →
      (s.m_muteMasterValue = true ∨
        s.m_lastOutputSampleTime - (n : F) < inIOCycleInfo.mInputTime.mSampleTime) →
      (∀ rb, (Driver.DoIOOperationImpl cfg s ObjectID.Device.toAudioObjectID inStreamObjectID
          inClientID IOOperationID.kAudioServerPlugInIOOperationReadInput n inIOCycleInfo
          ioMainBuffer).2.1.m_ringBuffer = some rb → ∀ x ∈ rb, x = 0) ∧
      (∀ (later : List (DeviceCall F)) (s2 : DriverState F),
        Driver.runDeviceCalls cfg
          (Driver.DoIOOperationImpl cfg s ObjectID.Device.toAudioObjectID inStreamObjectID
            inClientID IOOperationID.kAudioServerPlugInIOOperationReadInput n inIOCycleInfo
            ioMainBuffer).2.1 later = some s2 →
        ∀ rb, s2.m_ringBuffer = some rb →
          ∀ x ∈ rb, x = 0 ∨ x ∈ DeviceCall.writtenSamples later)) := by
  obtain ⟨hlen, -, hzero⟩ := runDeviceCalls_invariant cfg calls (DriverState.initial cfg) s
    (fun _ => False) hrun (by simp [DriverState.initial]) (by simp [DriverState.initial])
    (by simp [DriverState.initial])
  refine ⟨hzero, ?_⟩
  intro inStreamObjectID inClientID n inIOCycleInfo ioMainBuffer hstream hsilent
  have hstate := read_silent_state cfg s inStreamObjectID inClientID n inIOCycleInfo
    ioMainBuffer hstream hsilent
  have hpost : ∀ rb, (Driver.DoIOOperationImpl cfg s ObjectID.Device.toAudioObjectID
      inStreamObjectID inClientID IOOperationID.kAudioServerPlugInIOOperationReadInput n
      inIOCycleInfo ioMainBuffer).2.1.m_ringBuffer = some rb → ∀ x ∈ rb, x = 0 := by
    rw [hstate]
    split_ifs with hflag
    · exact hzero hflag
    · intro rb hrb x hx
      cases hring : s.m_ringBuffer with
      | none => simp [hring] at hrb
      | some ring =>
        simp only [hring, Option.map_some', Option.some.injEq] at hrb
        subst hrb
        exact dsp_clear_all ring _ (le_of_eq (hlen ring hring)) x hx
  have hpostlen : ∀ rb, (Driver.DoIOOperationImpl cfg s ObjectID.Device.toAudioObjectID
      inStreamObjectID inClientID IOOperationID.kAudioServerPlugInIOOperationReadInput n
      inIOCycleInfo ioMainBuffer).2.1.m_ringBuffer = some rb →
      rb.length = Driver.ringBufferSampleCount cfg := by
    rw [hstate]
    split_ifs with hflag
    · exact hlen
    · intro rb hrb
      cases hring : s.m_ringBuffer with
      | none => simp [hring] at hrb
      | some ring =>
        simp only [hring, Option.map_some', Option.some.injEq] at hrb
        subst hrb
        rw [dsp_clear_length, hlen ring hring]
  refine ⟨hpost, ?_⟩
  intro later s2 hrun2 rb hrb x hx
  obtain ⟨-, hmem2, -⟩ := runDeviceCalls_invariant cfg later _ s2 (fun _ => False) hrun2
    hpostlen (fun rb hrb x hx => Or.inl (hpost rb hrb x hx)) (fun _ => hpost)
  rcases hmem2 rb hrb x hx with h | h | h
  · exact Or.inl h
  · exact h.elim
  · exact Or.inr h

/-- C20 in the example configuration: after a `StartIO` and a `WriteMix` of one frame of ones
the ring holds the two ones; a `ReadInput` of one frame at sample time 0, which emits silence
(the last output sample time 0 minus 1 is below 0), leaves only zeros in the ring. -/
theorem C20_clear_flag_invariant_witness :
    Driver.runDeviceCalls exampleConfig (DriverState.initial exampleConfig) exampleWriteCalls
      = some exampleWrittenState ∧
    ∀ rb, (Driver.DoIOOperationImpl exampleConfig exampleWrittenState
        ObjectID.Device.toAudioObjectID ObjectID.StreamInput.toAudioObjectID 0
        IOOperationID.kAudioServerPlugInIOOperationReadInput 1 ⟨⟨0⟩, ⟨0⟩⟩
        [7, 7]).2.1.m_ringBuffer = some rb → ∀ x ∈ rb, x = 0 :=
  have hrun : Driver.runDeviceCalls exampleConfig (DriverState.initial exampleConfig)
      exampleWriteCalls = some exampleWrittenState := by
    rfl
  ⟨hrun,
    ((C20_clear_flag_invariant exampleConfig exampleWriteCalls exampleWrittenState hrun).2
      ObjectID.StreamInput.toAudioObjectID 0 1 ⟨⟨0⟩, ⟨0⟩⟩ [7, 7] (Or.inl rfl)
      (Or.inr (by
        show (0 : ℚ) - ((1 : ℕ) : ℚ) < 0
        norm_num))).1⟩

/-! ## C21 and C22: operations and streams the transfer routine does not serve -/

/-- C21: on the device, for either stream and an operation that is neither `ReadInput` nor
`WriteMix`, `DoIOOperation` returns success and leaves the driver state (the ring buffer
included) and the caller's buffer as they were. -/
theorem C21_other_operation_is_no_op [LinearOrderedField F] [FloorRing F] (cfg : Config F)
    (s : DriverState F) (inStreamObjectID : AudioObjectID) (inClientID : Nat)
    (inOperationID : IOOperationID) (inIOBufferFrameSize : Nat)
    (inIOCycleInfo : AudioServerPlugInIOCycleInfo F) (ioMainBuffer : List F)
    (hstream : inStreamObjectID = ObjectID.StreamInput.toAudioObjectID ∨
      inStreamObjectID = ObjectID.StreamOutput.toAudioObjectID)
    (hread : inOperationID ≠ IOOperationID.kAudioServerPlugInIOOperationReadInput)
    (hwrite : inOperationID ≠ IOOperationID.kAudioServerPlugInIOOperationWriteMix) :
    Driver.DoIOOperationImpl cfg s ObjectID.Device.toAudioObjectID inStreamObjectID inClientID
        inOperationID inIOBufferFrameSize inIOCycleInfo ioMainBuffer
      = (kAudioHardwareNoError, s, ioMainBuffer) := by
  have h1 : mts.is_one_of inStreamObjectID ObjectID.StreamInput.toAudioObjectID
      ObjectID.StreamOutput.toAudioObjectID = true := by
    rcases hstream with rfl | rfl <;> rfl
  have h2 : mts.is_one_of inOperationID IOOperationID.kAudioServerPlugInIOOperationReadInput
      IOOperationID.kAudioServerPlugInIOOperationWriteMix = false := by
    simp [mts.is_one_of, hread, hwrite]
  unfold Driver.DoIOOperationImpl
  rw [if_neg (by simp), h1, h2]
  rfl

/-- C21 in the example: the operation with code 7 on the output stream of the running example
driver changes nothing. -/
theorem C21_other_operation_is_no_op_witness :
    Driver.DoIOOperationImpl exampleConfig exampleFilledState ObjectID.Device.toAudioObjectID
        ObjectID.StreamOutput.toAudioObjectID 0 (IOOperationID.other 7) 2 ⟨⟨0⟩, ⟨0⟩⟩
        [9, 9, 9, 9]
      = (kAudioHardwareNoError, exampleFilledState, [9, 9, 9, 9]) :=
  C21_other_operation_is_no_op exampleConfig exampleFilledState _ 0 (IOOperationID.other 7) 2
    ⟨⟨0⟩, ⟨0⟩⟩ [9, 9, 9, 9] (Or.inr rfl) (by decide) (by decide)

/-- C22 fails for a stream that is neither the input nor the output stream: with the device
itself (identifier 3) or the unknown identifier 42 in the place of the stream, `DoIOOperation`
returns the bad-object status, not success. -/
theorem C22_unsupported_stream_counterexample :
    (42 : AudioObjectID) ≠ ObjectID.StreamInput.toAudioObjectID ∧
    (42 : AudioObjectID) ≠ ObjectID.StreamOutput.toAudioObjectID ∧
    (Driver.DoIOOperationImpl exampleConfig exampleFilledState ObjectID.Device.toAudioObjectID
        42 0 IOOperationID.kAudioServerPlugInIOOperationReadInput 1 ⟨⟨0⟩, ⟨0⟩⟩ [9, 9]).1
      = kAudioHardwareBadObjectError ∧
    (Driver.DoIOOperationImpl exampleConfig exampleFilledState ObjectID.Device.toAudioObjectID
        ObjectID.Device.toAudioObjectID 0 (IOOperationID.other 7) 1 ⟨⟨0⟩, ⟨0⟩⟩ [9, 9]).1
      = kAudioHardwareBadObjectError ∧
    kAudioHardwareBadObjectError ≠ kAudioHardwareNoError := by
  refine ⟨by decide, by decide, rfl, rfl, by decide⟩

/-- C22, amended: on the device, `DoIOOperation` returns success for the input and the output
stream whatever the operation, and for every other stream identifier it returns the bad-object
status and leaves the driver state and the caller's buffer as they were. -/
theorem C22_transfer_status [LinearOrderedField F] [FloorRing F] (cfg : Config F)
    (s : DriverState F) (inStreamObjectID : AudioObjectID) (inClientID : Nat)
    (inOperationID : IOOperationID) (inIOBufferFrameSize : Nat)
    (inIOCycleInfo : AudioServerPlugInIOCycleInfo F) (ioMainBuffer : List F) :
    ((inStreamObjectID = ObjectID.StreamInput.toAudioObjectID ∨
        inStreamObjectID = ObjectID.StreamOutput.toAudioObjectID) →
      (Driver.DoIOOperationImpl cfg s ObjectID.Device.toAudioObjectID inStreamObjectID
        inClientID inOperationID inIOBufferFrameSize inIOCycleInfo ioMainBuffer).1
        = kAudioHardwareNoError) ∧
    (¬ (inStreamObjectID = ObjectID.StreamInput.toAudioObjectID ∨
        inStreamObjectID = ObjectID.StreamOutput.toAudioObjectID) →
      Driver.DoIOOperationImpl cfg s ObjectID.Device.toAudioObjectID inStreamObjectID
        inClientID inOperationID inIOBufferFrameSize inIOCycleInfo ioMainBuffer
        = (kAudioHardwareBadObjectError, s, ioMainBuffer)) := by
  constructor
  · intro hstream
    have h1 : mts.is_one_of inStreamObjectID ObjectID.StreamInput.toAudioObjectID
        ObjectID.StreamOutput.toAudioObjectID = true := by
      rcases hstream with rfl | rfl <;> rfl
    unfold Driver.DoIOOperationImpl
    rw [if_neg (by simp), h1]
    simp only [Bool.not_true, Bool.false_eq_true, if_false]
    split_ifs <;> rfl
  · intro hstream
    have h1 : mts.is_one_of inStreamObjectID ObjectID.StreamInput.toAudioObjectID
        ObjectID.StreamOutput.toAudioObjectID = false := by
      simp only [not_or] at hstream
      simp [mts.is_one_of, hstream.1, hstream.2]
    unfold Driver.DoIOOperationImpl
    rw [if_neg (by simp), h1]
    rfl

/-- C22, amended, in the example: the unknown stream identifier 42 is refused and nothing
changes; a read from the input stream succeeds. -/
theorem C22_transfer_status_witness :
    Driver.DoIOOperationImpl exampleConfig exampleFilledState ObjectID.Device.toAudioObjectID 42
        0 IOOperationID.kAudioServerPlugInIOOperationWriteMix 1 ⟨⟨0⟩, ⟨0⟩⟩ [9, 9]
      = (kAudioHardwareBadObjectError, exampleFilledState, [9, 9]) ∧
    (Driver.DoIOOperationImpl exampleConfig exampleFilledState ObjectID.Device.toAudioObjectID
        ObjectID.StreamInput.toAudioObjectID 0
        IOOperationID.kAudioServerPlugInIOOperationReadInput 1 ⟨⟨0⟩, ⟨0⟩⟩ [9, 9]).1
      = kAudioHardwareNoError :=
  ⟨(C22_transfer_status exampleConfig exampleFilledState 42 0
      IOOperationID.kAudioServerPlugInIOOperationWriteMix 1 ⟨⟨0⟩, ⟨0⟩⟩ [9, 9]).2 (by decide),
    (C22_transfer_status exampleConfig exampleFilledState ObjectID.StreamInput.toAudioObjectID 0
      IOOperationID.kAudioServerPlugInIOOperationReadInput 1 ⟨⟨0⟩, ⟨0⟩⟩ [9, 9]).1
      (Or.inl rfl)⟩

/-! ## C23: setting the box's acquired property -/

/-- C23: `SetPropertyData` on the box's acquired property with a 4-byte value `v`. When
`v != 0` equals the flag, the state is unchanged, no address is reported and no host call is
made; otherwise the flag becomes `v != 0` (nothing else changes) and exactly the two addresses
box-acquired and box device-list, global scope and main element, are reported. So the flag
flips if and only if `v != 0` differs from it. -/
theorem C23_box_acquired_set [LinearOrderedField F] [FloorRing F] (cfg : Config F)
    (m : MathLib F) (s : DriverState F) (sc : Scope) (el qsz : Nat) (qd : Option CFStringRef)
    (inData : Blob F) :
    ((Driver.SetPropertyDataImpl cfg m s ObjectID.Box.toAudioObjectID
        (some ⟨kAudioBoxPropertyAcquired, sc, el⟩) qsz qd sizeof_UInt32 inData).state.m_isBoxAcquired
        ≠ s.m_isBoxAcquired ↔ decide (inData.asUInt32 ≠ 0) ≠ s.m_isBoxAcquired) ∧
    (decide (inData.asUInt32 ≠ 0) ≠ s.m_isBoxAcquired →
      (Driver.SetPropertyDataImpl cfg m s ObjectID.Box.toAudioObjectID
        (some ⟨kAudioBoxPropertyAcquired, sc, el⟩) qsz qd sizeof_UInt32 inData).status
        = kAudioHardwareNoError ∧
      (Driver.SetPropertyDataImpl cfg m s ObjectID.Box.toAudioObjectID
        (some ⟨kAudioBoxPropertyAcquired, sc, el⟩) qsz qd sizeof_UInt32 inData).state
        = { s with m_isBoxAcquired := decide (inData.asUInt32 ≠ 0) } ∧
      (Driver.SetPropertyDataImpl cfg m s ObjectID.Box.toAudioObjectID
        (some ⟨kAudioBoxPropertyAcquired, sc, el⟩) qsz qd sizeof_UInt32
        inData).outNumberPropertiesChanged = 2 ∧
      (Driver.SetPropertyDataImpl cfg m s ObjectID.Box.toAudioObjectID
        (some ⟨kAudioBoxPropertyAcquired, sc, el⟩) qsz qd sizeof_UInt32
        inData).outChangedAddresses
        = [⟨kAudioBoxPropertyAcquired, kAudioObjectPropertyScopeGlobal,
              kAudioObjectPropertyElementMain⟩,
            ⟨kAudioBoxPropertyDeviceList, kAudioObjectPropertyScopeGlobal,
              kAudioObjectPropertyElementMain⟩]) ∧
    (decide (inData.asUInt32 ≠ 0) = s.m_isBoxAcquired →
      Driver.SetPropertyDataImpl cfg m s ObjectID.Box.toAudioObjectID
        (some ⟨kAudioBoxPropertyAcquired, sc, el⟩) qsz qd sizeof_UInt32 inData
        = ⟨kAudioHardwareNoError, s, 0, [], []⟩) := by
  by_cases h : s.m_isBoxAcquired = decide (inData.asUInt32 ≠ 0)
  · have hrun : Driver.SetPropertyDataImpl cfg m s ObjectID.Box.toAudioObjectID
        (some ⟨kAudioBoxPropertyAcquired, sc, el⟩) qsz qd sizeof_UInt32 inData
        = ⟨kAudioHardwareNoError, s, 0, [], []⟩ := by
      have h' : s.m_isBoxAcquired = !decide (inData.asUInt32 = 0) := by simpa using h
      simp [Driver.SetPropertyDataImpl, callObject, ObjectID.ofAudioObjectID,
        ObjectID.toAudioObjectID, Driver.objSet, box.set, Box.set_acquired, h']
    rw [hrun]
    refine ⟨?_, ?_, fun _ => rfl⟩
    · simp [h]
    · intro hne
      exact absurd h.symm hne
  · have hrun : Driver.SetPropertyDataImpl cfg m s ObjectID.Box.toAudioObjectID
        (some ⟨kAudioBoxPropertyAcquired, sc, el⟩) qsz qd sizeof_UInt32 inData
        = ⟨kAudioHardwareNoError, { s with m_isBoxAcquired := decide (inData.asUInt32 ≠ 0) }, 2,
            [changedAddress kAudioBoxPropertyAcquired, changedAddress kAudioBoxPropertyDeviceList],
            [Box.save_box_acquired_property cfg
                { s with m_isBoxAcquired := decide (inData.asUInt32 ≠ 0) },
              ⟨HostCall.PropertiesChanged ObjectID.Plugin.toAudioObjectID
                [⟨kAudioPlugInPropertyDeviceList, kAudioObjectPropertyScopeGlobal,
                  kAudioObjectPropertyElementMain⟩], true, false⟩,
              ⟨HostCall.PropertiesChanged ObjectID.Box.toAudioObjectID
                [changedAddress kAudioBoxPropertyAcquired,
                  changedAddress kAudioBoxPropertyDeviceList], false, false⟩]⟩ := by
      have h' : ¬ s.m_isBoxAcquired = !decide (inData.asUInt32 = 0) := by simpa using h
      simp [Driver.SetPropertyDataImpl, callObject, ObjectID.ofAudioObjectID,
        ObjectID.toAudioObjectID, Driver.objSet, box.set, Box.set_acquired, h', changedAddress]
    rw [hrun]
    refine ⟨?_, fun _ => ⟨rfl, rfl, rfl, rfl⟩, ?_⟩
    · constructor
      · intro _ hd
        exact h hd.symm
      · intro _ hd
        exact h (by simpa using hd.symm)
    · intro hd
      exact absurd hd.symm h

/-- C23 in the example: the box of the initial driver is acquired, so the value 0 releases it
and the two addresses are reported; the value 5 changes nothing. -/
theorem C23_box_acquired_set_witness :
    decide (({ exampleBlob with asUInt32 := 0 } : Blob ℚ).asUInt32 ≠ 0)
      ≠ (DriverState.initial exampleConfig).m_isBoxAcquired ∧
    (Driver.SetPropertyDataImpl exampleConfig exampleMathLib (DriverState.initial exampleConfig)
        ObjectID.Box.toAudioObjectID
        (some ⟨kAudioBoxPropertyAcquired, kAudioObjectPropertyScopeGlobal, 0⟩) 0 none
        sizeof_UInt32 { exampleBlob with asUInt32 := 0 }).state
      = { DriverState.initial exampleConfig with m_isBoxAcquired := false } ∧
    Driver.SetPropertyDataImpl exampleConfig exampleMathLib (DriverState.initial exampleConfig)
        ObjectID.Box.toAudioObjectID
        (some ⟨kAudioBoxPropertyAcquired, kAudioObjectPropertyScopeGlobal, 0⟩) 0 none
        sizeof_UInt32 { exampleBlob with asUInt32 := 5 }
      = ⟨kAudioHardwareNoError, DriverState.initial exampleConfig, 0, [], []⟩ :=
  ⟨by decide,
    ((C23_box_acquired_set exampleConfig exampleMathLib (DriverState.initial exampleConfig)
      kAudioObjectPropertyScopeGlobal 0 0 none { exampleBlob with asUInt32 := 0 }).2.1
      (by decide)).2.1.trans rfl,
    (C23_box_acquired_set exampleConfig exampleMathLib (DriverState.initial exampleConfig)
      kAudioObjectPropertyScopeGlobal 0 0 none { exampleBlob with asUInt32 := 5 }).2.2
      (by decide)⟩

/-! ## C24: the size of the plug-in's device list -/

/-- C24 fails: the plug-in's device list has no item while the box is not acquired (`size`
reports 0 bytes and `get`, given room for two identifiers, stores nothing), and one item while
it is acquired (4 bytes, the device); the counts are 0 and 1, not 1 and 2. -/
theorem C24_device_list_size_counterexample :
    Driver.GetPropertyDataSizeImpl exampleConfig
        { DriverState.initial exampleConfig with m_isBoxAcquired := false }
        ObjectID.Plugin.toAudioObjectID
        (some ⟨kAudioPlugInPropertyDeviceList, kAudioObjectPropertyScopeGlobal, 0⟩) 0 none
        (some 77)
      = ⟨kAudioHardwareNoError, 0 * sizeof_AudioObjectID⟩ ∧
    Driver.GetPropertyDataImpl exampleConfig exampleMathLib exampleEnvironment
        { DriverState.initial exampleConfig with m_isBoxAcquired := false }
        ObjectID.Plugin.toAudioObjectID
        (some ⟨kAudioPlugInPropertyDeviceList, kAudioObjectPropertyScopeGlobal, 0⟩) 0 none
        (2 * sizeof_AudioObjectID) (some 77) (some exampleBlob)
      = ⟨kAudioHardwareNoError, 0 * sizeof_AudioObjectID, some (.objectList [])⟩ ∧
    Driver.GetPropertyDataSizeImpl exampleConfig
        { DriverState.initial exampleConfig with m_isBoxAcquired := true }
        ObjectID.Plugin.toAudioObjectID
        (some ⟨kAudioPlugInPropertyDeviceList, kAudioObjectPropertyScopeGlobal, 0⟩) 0 none
        (some 77)
      = ⟨kAudioHardwareNoError, 1 * sizeof_AudioObjectID⟩ ∧
    Driver.GetPropertyDataImpl exampleConfig exampleMathLib exampleEnvironment
        { DriverState.initial exampleConfig with m_isBoxAcquired := true }
        ObjectID.Plugin.toAudioObjectID
        (some ⟨kAudioPlugInPropertyDeviceList, kAudioObjectPropertyScopeGlobal, 0⟩) 0 none
        (2 * sizeof_AudioObjectID) (some 77) (some exampleBlob)
      = ⟨kAudioHardwareNoError, 1 * sizeof_AudioObjectID,
          some (.objectList [ObjectID.Device.toAudioObjectID])⟩ ∧
    0 * sizeof_AudioObjectID ≠ 1 * sizeof_AudioObjectID ∧
    1 * sizeof_AudioObjectID ≠ 2 * sizeof_AudioObjectID := by
  refine ⟨rfl, rfl, rfl, rfl, by decide, by decide⟩

/-- C24, amended: the number of items of the plug-in's device-list property is 0 when the box
is not acquired and 1 when it is: `size` reports that many identifiers' bytes, and `get` with
room for at least one identifier stores that many items and reports the same byte count. -/
theorem C24_device_list_size [LinearOrderedField F] [FloorRing F] (cfg : Config F)
    (m : MathLib F) (env : Environment) (s : DriverState F) (sc : Scope) (el qsz : Nat)
    (qd : Option CFStringRef) (n0 cap : Nat) (d : Blob F)
    (hcap : sizeof_AudioObjectID ≤ cap) :
    Driver.GetPropertyDataSizeImpl cfg s ObjectID.Plugin.toAudioObjectID
        (some ⟨kAudioPlugInPropertyDeviceList, sc, el⟩) qsz qd (some n0)
      = ⟨kAudioHardwareNoError, (if s.m_isBoxAcquired then 1 else 0) * sizeof_AudioObjectID⟩ ∧
    (Driver.GetPropertyDataImpl cfg m env s ObjectID.Plugin.toAudioObjectID
        (some ⟨kAudioPlugInPropertyDeviceList, sc, el⟩) qsz qd cap (some n0) (some d)).status
      = kAudioHardwareNoError ∧
    (Driver.GetPropertyDataImpl cfg m env s ObjectID.Plugin.toAudioObjectID
        (some ⟨kAudioPlugInPropertyDeviceList, sc, el⟩) qsz qd cap (some n0)
        (some d)).outDataSize
      = (if s.m_isBoxAcquired then 1 else 0) * sizeof_AudioObjectID ∧
    ∃ items : List AudioObjectID,
      (Driver.GetPropertyDataImpl cfg m env s ObjectID.Plugin.toAudioObjectID
        (some ⟨kAudioPlugInPropertyDeviceList, sc, el⟩) qsz qd cap (some n0) (some d)).outData
        = some (.objectList items) ∧
      items.length = if s.m_isBoxAcquired then 1 else 0 := by
  have h1 : 1 ≤ cap / sizeof_AudioObjectID :=
    (Nat.le_div_iff_mul_le (by decide)).2 (by simpa using hcap)
  have h1' : 1 ≤ cap / 4 := h1
  have hget : Driver.GetPropertyDataImpl cfg m env s ObjectID.Plugin.toAudioObjectID
      (some ⟨kAudioPlugInPropertyDeviceList, sc, el⟩) qsz qd cap (some n0) (some d)
      = ⟨kAudioHardwareNoError, (if s.m_isBoxAcquired then 1 else 0) * sizeof_AudioObjectID,
          some (.objectList (if s.m_isBoxAcquired then [ObjectID.Device.toAudioObjectID]
            else []))⟩ := by
    cases hb : s.m_isBoxAcquired <;>
      simp [Driver.GetPropertyDataImpl, callObject, ObjectID.ofAudioObjectID,
        ObjectID.toAudioObjectID, Driver.objGet, plugin.get, Plugin.get_device_list, hb, h1',
        u32, sizeof_AudioObjectID, sizeof_AudioClassID, kAudioObjectPlugInObject]
  rw [hget]
  refine ⟨?_, rfl, rfl, _, rfl, ?_⟩
  · cases hb : s.m_isBoxAcquired <;>
      simp [Driver.GetPropertyDataSizeImpl, callObject, ObjectID.ofAudioObjectID,
        ObjectID.toAudioObjectID, Driver.objSize, plugin.size, Plugin.get_device_list_size, hb,
        u32, sizeof_AudioObjectID, sizeof_AudioClassID]
  · cases s.m_isBoxAcquired <;> rfl

/-- C24, amended, for the example driver, whose box is acquired at the start: one item. -/
theorem C24_device_list_size_witness :
    sizeof_AudioObjectID ≤ 8 ∧
    Driver.GetPropertyDataSizeImpl exampleConfig (DriverState.initial exampleConfig)
        ObjectID.Plugin.toAudioObjectID
        (some ⟨kAudioPlugInPropertyDeviceList, kAudioObjectPropertyScopeGlobal, 0⟩) 0 none
        (some 0)
      = ⟨kAudioHardwareNoError, 4⟩ :=
  ⟨by decide,
    (C24_device_list_size exampleConfig exampleMathLib exampleEnvironment
      (DriverState.initial exampleConfig) kAudioObjectPropertyScopeGlobal 0 0 none 0 8
      exampleBlob (by decide)).1.trans rfl⟩

/-! ## C25: the range of the master gain -/

/-- The template `clamp` keeps its result between the bounds. -/
theorem clamp_mem [LinearOrderedField F] (d lo hi : F) (h : lo ≤ hi) :
    lo ≤ mts.clamp d lo hi ∧ mts.clamp d lo hi ≤ hi := by
  unfold mts.clamp
  by_cases h1 : d < lo
  · simp only [h1, if_true]
    by_cases h2 : lo > hi
    · exact absurd h2 (not_lt.2 h)
    · simp only [h2, if_false]
      exact ⟨le_refl _, h⟩
  · simp only [h1, if_false]
    by_cases h2 : d > hi
    · simp only [h2, if_true]
      exact ⟨h, le_refl _⟩
    · simp only [h2, if_false]
      exact ⟨not_lt.1 h1, not_lt.1 h2⟩

/-- The scalar path: `set_volume_normalized` stores the amplitude of a decibel value that lies
within the configured range, whatever the input. -/
theorem set_volume_normalized_range [LinearOrderedField F] (cfg : Config F) (m : MathLib F)
    (s : DriverState F) (value : F) (hrange : cfg.volume_min_db ≤ cfg.volume_max_db) :
    ∃ db : F, cfg.volume_min_db ≤ db ∧ db ≤ cfg.volume_max_db ∧
      (MasterVolume.set_volume_normalized cfg m s value).2.m_volumeMasterValue
        = mts.decibel_to_amplitude m db := by
  have hc := clamp_mem value 0 1 (zero_le_one)
  have hd : 0 ≤ cfg.volume_max_db - cfg.volume_min_db := sub_nonneg.2 hrange
  refine ⟨cfg.volume_min_db + mts.clamp value 0 1 * (cfg.volume_max_db - cfg.volume_min_db),
    ?_, ?_, ?_⟩
  · have := mul_nonneg hc.1 hd
    linarith
  · have := mul_le_mul_of_nonneg_right hc.2 hd
    linarith
  · unfold MasterVolume.set_volume_normalized
    simp only [mts.normalized_value_to_amplitude]
    split_ifs with h
    · exact h
    · rfl

/-- The decibel path: `set_volume_decibel` stores the larger of the amplitude of its input and
the minimum amplitude, whatever the input. -/
theorem set_volume_decibel_value [LinearOrderedField F] (cfg : Config F) (m : MathLib F)
    (s : DriverState F) (db : F) :
    (MasterVolume.set_volume_decibel cfg m s db).2.m_volumeMasterValue
      = mts.max (mts.decibel_to_amplitude m db) cfg.volume_min_amplitude := by
  unfold MasterVolume.set_volume_decibel
  simp only
  split_ifs with h
  · exact h
  · rfl

/-- C25 fails on the decibel path: `set` of a volume control's decibel value stores
`max (10 ^ (db / 20)) volume_min_amplitude` without an upper bound, so an input whose
amplitude exceeds one (any `db` above 0 with the real power function) leaves the master gain
above 1.0. -/
theorem C25_decibel_set_exceeds_unity [LinearOrderedField F] [FloorRing F] (cfg : Config F)
    (m : MathLib F) (s : DriverState F) (sc : Scope) (el qsz : Nat) (qd : Option CFStringRef)
    (inData : Blob F) (db : F) (hdata : inData.asFloat32 = db)
    (hpow : 1 < m.pow 10 (db / 20)) :
    ∀ control ∈ [ObjectID.VolumeInputMaster, ObjectID.VolumeOutputMaster],
      (Driver.SetPropertyDataImpl cfg m s control.toAudioObjectID
        (some ⟨kAudioLevelControlPropertyDecibelValue, sc, el⟩) qsz qd sizeof_Float32
        inData).status = kAudioHardwareNoError ∧
      (Driver.SetPropertyDataImpl cfg m s control.toAudioObjectID
        (some ⟨kAudioLevelControlPropertyDecibelValue, sc, el⟩) qsz qd sizeof_Float32
        inData).state.m_volumeMasterValue
        = mts.max (m.pow 10 (db / 20)) cfg.volume_min_amplitude ∧
      1 < (Driver.SetPropertyDataImpl cfg m s control.toAudioObjectID
        (some ⟨kAudioLevelControlPropertyDecibelValue, sc, el⟩) qsz qd sizeof_Float32
        inData).state.m_volumeMasterValue := by
  have hval := set_volume_decibel_value cfg m s db
  have hmax : 1 < mts.max (mts.decibel_to_amplitude m db) cfg.volume_min_amplitude := by
    unfold mts.max mts.decibel_to_amplitude
    split_ifs with h
    · exact lt_trans hpow h
    · exact hpow
  have hrun : ∀ control ∈ [ObjectID.VolumeInputMaster, ObjectID.VolumeOutputMaster],
      (Driver.SetPropertyDataImpl cfg m s control.toAudioObjectID
        (some ⟨kAudioLevelControlPropertyDecibelValue, sc, el⟩) qsz qd sizeof_Float32
        inData).status = kAudioHardwareNoError ∧
      (Driver.SetPropertyDataImpl cfg m s control.toAudioObjectID
        (some ⟨kAudioLevelControlPropertyDecibelValue, sc, el⟩) qsz qd sizeof_Float32
        inData).state = (MasterVolume.set_volume_decibel cfg m s db).2 := by
    intro control hcontrol
    simp only [List.mem_cons, List.mem_singleton, List.not_mem_nil, or_false] at hcontrol
    by_cases hr : (MasterVolume.set_volume_decibel cfg m s db).1 = true <;>
      rcases hcontrol with rfl | rfl <;>
      simp [Driver.SetPropertyDataImpl, callObject, ObjectID.ofAudioObjectID,
        ObjectID.toAudioObjectID, kAudioObjectPlugInObject, Driver.objSet, volume_control.set,
        hdata, hr, sizeof_Float32]
  intro control hcontrol
  obtain ⟨h1, h2⟩ := hrun control hcontrol
  rw [h2, hval]
  exact ⟨h1, rfl, hmax⟩

/-- C25 at the failing input: the example driver, whose configuration meets the conditions of
the claim (0 dB at the top, minimum amplitude `10 ^ (-100 / 20)`) and whose gain is 1 at the
start, after a `set` of the output volume's decibel value to 20 has a master gain of 10. -/
theorem C25_decibel_set_exceeds_unity_witness :
    exampleGainConfig.volume_max_db = 0 ∧
    exampleGainConfig.volume_min_amplitude
      = examplePowerLib.pow 10 (exampleGainConfig.volume_min_db / 20) ∧
    (DriverState.initial exampleGainConfig).m_volumeMasterValue = 1 ∧
    (1 : ℚ) < examplePowerLib.pow 10 (20 / 20) ∧
    (Driver.SetPropertyDataImpl exampleGainConfig examplePowerLib
        (DriverState.initial exampleGainConfig) ObjectID.VolumeOutputMaster.toAudioObjectID
        (some ⟨kAudioLevelControlPropertyDecibelValue, kAudioObjectPropertyScopeGlobal, 0⟩) 0
        none sizeof_Float32 { exampleBlob with asFloat32 := 20 }).state.m_volumeMasterValue
      = 10 :=
  have hpow : examplePowerLib.pow 10 ((20 : ℚ) / 20) = 10 := by
    show (10 : ℚ) ^ ⌊(20 : ℚ) / 20⌋ = 10
    norm_num
  have hmin : examplePowerLib.pow 10 (exampleGainConfig.volume_min_db / 20) = 1 / 100000 := by
    show (10 : ℚ) ^ ⌊(-100 : ℚ) / 20⌋ = 1 / 100000
    have h5 : ⌊(-100 : ℚ) / 20⌋ = -5 := by
      rw [show (-100 : ℚ) / 20 = ((-5 : ℤ) : ℚ) by norm_num, Int.floor_intCast]
    rw [h5]
    norm_num
  have hlt : (1 : ℚ) < examplePowerLib.pow 10 (20 / 20) := by
    rw [hpow]
    norm_num
  ⟨rfl, (show exampleGainConfig.volume_min_amplitude = 1 / 100000 from rfl).trans hmin.symm,
    rfl, hlt,
    ((C25_decibel_set_exceeds_unity exampleGainConfig examplePowerLib
      (DriverState.initial exampleGainConfig) kAudioObjectPropertyScopeGlobal 0 0 none
      { exampleBlob with asFloat32 := 20 } 20 rfl hlt) ObjectID.VolumeOutputMaster
      (by decide)).2.1.trans (by
        rw [hpow]
        show mts.max (10 : ℚ) (1 / 100000) = 10
        unfold mts.max
        rw [if_neg (by norm_num)])⟩

/-! ## C26: the ring buffer is allocated while I/O runs -/

/-- One `StartIO`, on whatever device identifier, keeps the counter a `UInt64` and keeps the
ring buffer allocated exactly while the counter is positive. -/
theorem StartIOImpl_allocation [LinearOrderedField F] [FloorRing F] (cfg : Config F)
    (s : DriverState F) (inDeviceObjectID : AudioObjectID) (inClientID now : Nat)
    (hR : s.m_ioRunning < 2 ^ 64)
    (hinv : s.m_ringBuffer.isSome = true ↔ 0 < s.m_ioRunning) :
    (Driver.StartIOImpl cfg s inDeviceObjectID inClientID now).2.m_ioRunning < 2 ^ 64 ∧
    ((Driver.StartIOImpl cfg s inDeviceObjectID inClientID now).2.m_ringBuffer.isSome = true ↔
      0 < (Driver.StartIOImpl cfg s inDeviceObjectID inClientID now).2.m_ioRunning) := by
  unfold Driver.StartIOImpl
  by_cases hd : inDeviceObjectID ≠ ObjectID.Device.toAudioObjectID
  · rw [if_pos hd]
    exact ⟨hR, hinv⟩
  rw [if_neg hd]
  by_cases hmax : s.m_ioRunning = UINT64_MAX
  · rw [if_pos hmax]
    exact ⟨hR, hinv⟩
  rw [if_neg hmax]
  by_cases h0 : s.m_ioRunning = 0
  · rw [if_pos h0]
    exact ⟨by norm_num, by simp⟩
  rw [if_neg h0]
  have hlt : s.m_ioRunning + 1 < 2 ^ 64 := by
    rw [UINT64_MAX_eq] at hmax
    omega
  have hu : u64 (s.m_ioRunning + 1) = s.m_ioRunning + 1 := Nat.mod_eq_of_lt hlt
  constructor
  · show u64 (s.m_ioRunning + 1) < 2 ^ 64
    rw [hu]
    exact hlt
  · show s.m_ringBuffer.isSome = true ↔ 0 < u64 (s.m_ioRunning + 1)
    rw [hu, hinv]
    omega

/-- One `StopIO`, on whatever device identifier, keeps the counter a `UInt64` and keeps the
ring buffer allocated exactly while the counter is positive. -/
theorem StopIOImpl_allocation [LinearOrderedField F] (s : DriverState F)
    (inDeviceObjectID : AudioObjectID) (inClientID : Nat) (hR : s.m_ioRunning < 2 ^ 64)
    (hinv : s.m_ringBuffer.isSome = true ↔ 0 < s.m_ioRunning) :
    (Driver.StopIOImpl s inDeviceObjectID inClientID).2.m_ioRunning < 2 ^ 64 ∧
    ((Driver.StopIOImpl s inDeviceObjectID inClientID).2.m_ringBuffer.isSome = true ↔
      0 < (Driver.StopIOImpl s inDeviceObjectID inClientID).2.m_ioRunning) := by
  unfold Driver.StopIOImpl
  by_cases hd : inDeviceObjectID ≠ ObjectID.Device.toAudioObjectID
  · rw [if_pos hd]
    exact ⟨hR, hinv⟩
  rw [if_neg hd]
  by_cases h0 : s.m_ioRunning = 0
  · rw [if_pos h0]
    exact ⟨hR, hinv⟩
  rw [if_neg h0]
  by_cases h1 : s.m_ioRunning = 1
  · rw [if_pos h1]
    exact ⟨by norm_num, by simp⟩
  rw [if_neg h1]
  constructor
  · show s.m_ioRunning - 1 < 2 ^ 64
    omega
  · show s.m_ringBuffer.isSome = true ↔ 0 < s.m_ioRunning - 1
    rw [hinv]
    omega

/-- The allocation invariant along a sequence of activation calls. -/
theorem runActivation_allocation [LinearOrderedField F] [FloorRing F] (cfg : Config F)
    (calls : List ActivationCall) (s : DriverState F) (hR : s.m_ioRunning < 2 ^ 64)
    (hinv : s.m_ringBuffer.isSome = true ↔ 0 < s.m_ioRunning) :
    (Driver.runActivation cfg s calls).2.m_ioRunning < 2 ^ 64 ∧
    ((Driver.runActivation cfg s calls).2.m_ringBuffer.isSome = true ↔
      0 < (Driver.runActivation cfg s calls).2.m_ioRunning) := by
  induction calls generalizing s with
  | nil => exact ⟨hR, hinv⟩
  | cons call rest ih =>
    cases call with
    | start inClientID now =>
      have h := StartIOImpl_allocation cfg s ObjectID.Device.toAudioObjectID inClientID now hR
        hinv
      exact ih _ h.1 h.2
    | stop inClientID =>
      have h := StopIOImpl_allocation s ObjectID.Device.toAudioObjectID inClientID hR hinv
      exact ih _ h.1 h.2

/-- C26: in every state reached from the initial state by `StartIO` and `StopIO` calls on the
device, the ring buffer is allocated if and only if the I/O-running count is positive; and a
`StartIO` that finds the count at zero, the first one among them, succeeds and leaves a buffer
of `ring_buffer_frame_size * channel_count` samples, all zero, that count being a `UInt32`
value. -/
theorem C26_ring_buffer_allocation [LinearOrderedField F] [FloorRing F] (cfg : Config F) :
    (∀ calls : List ActivationCall,
      ((Driver.runActivation cfg (DriverState.initial cfg) calls).2.m_ringBuffer.isSome = true ↔
        0 < (Driver.runActivation cfg (DriverState.initial cfg) calls).2.m_ioRunning)) ∧
    (cfg.ring_buffer_frame_size * cfg.channel_count < 2 ^ 32 →
      ∀ (s : DriverState F) (inClientID now : Nat), s.m_ioRunning = 0 →
      (Driver.StartIOImpl cfg s ObjectID.Device.toAudioObjectID inClientID now).1
        = kAudioHardwareNoError ∧
      (Driver.StartIOImpl cfg s ObjectID.Device.toAudioObjectID inClientID now).2.m_ioRunning
        = 1 ∧
      (Driver.StartIOImpl cfg s ObjectID.Device.toAudioObjectID inClientID now).2.m_ringBuffer
        = some (List.replicate (cfg.ring_buffer_frame_size * cfg.channel_count) 0)) := by
  constructor
  · intro calls
    exact (runActivation_allocation cfg calls (DriverState.initial cfg)
      (by show (0 : Nat) < 2 ^ 64; norm_num) (by simp [DriverState.initial])).2
  · intro fits s inClientID now h0
    rw [StartIOImpl_device, if_neg (by rw [h0]; decide), if_pos h0]
    refine ⟨rfl, rfl, ?_⟩
    show some (List.replicate (Driver.ringBufferSampleCount cfg) 0) = _
    rw [Driver.ringBufferSampleCount, u32, Nat.mod_eq_of_lt fits]

/-- C26 in the example configuration: after two starts and one stop the count is 1 and the
buffer is there; the first start allocates eight zeros. -/
theorem C26_ring_buffer_allocation_witness :
    exampleConfig.ring_buffer_frame_size * exampleConfig.channel_count < 2 ^ 32 ∧
    (Driver.runActivation exampleConfig (DriverState.initial exampleConfig)
        [.start 0 10, .start 1 20, .stop 0]).2.m_ioRunning = 1 ∧
    (Driver.runActivation exampleConfig (DriverState.initial exampleConfig)
        [.start 0 10, .start 1 20, .stop 0]).2.m_ringBuffer.isSome = true ∧
    (Driver.StartIOImpl exampleConfig (DriverState.initial exampleConfig)
        ObjectID.Device.toAudioObjectID 0 10).2.m_ringBuffer
      = some [0, 0, 0, 0, 0, 0, 0, 0] :=
  ⟨by decide, rfl,
    ((C26_ring_buffer_allocation exampleConfig).1
      [.start 0 10, .start 1 20, .stop 0]).2 (by decide),
    ((C26_ring_buffer_allocation exampleConfig).2 (by decide)
      (DriverState.initial exampleConfig) 0 10 rfl).2.2.trans rfl⟩

/-! ## C27: a start while I/O runs -/

/-- C27: `StartIO` on the device with `0 < R < 2^64 - 1` succeeds and only adds one to the
I/O-running count: every other field, the anchor, the period counter, the ring buffer, the
last-output sample time and the buffer-is-clear flag among them, is as before. With `R = 0` it
sets the count to one and resets the anchor: period counter 0, sample time 0, host time
`now`. -/
theorem C27_start_while_running [LinearOrderedField F] [FloorRing F] (cfg : Config F)
    (s : DriverState F) (inClientID now : Nat) :
    (0 < s.m_ioRunning → s.m_ioRunning < 2 ^ 64 - 1 →
      Driver.StartIOImpl cfg s ObjectID.Device.toAudioObjectID inClientID now
        = (kAudioHardwareNoError, { s with m_ioRunning := s.m_ioRunning + 1 })) ∧
    (s.m_ioRunning = 0 →
      (Driver.StartIOImpl cfg s ObjectID.Device.toAudioObjectID inClientID now).1
        = kAudioHardwareNoError ∧
      (Driver.StartIOImpl cfg s ObjectID.Device.toAudioObjectID inClientID now).2.m_ioRunning
        = 1 ∧
      (Driver.StartIOImpl cfg s ObjectID.Device.toAudioObjectID
        inClientID now).2.m_numberTimeStamps = 0 ∧
      (Driver.StartIOImpl cfg s ObjectID.Device.toAudioObjectID
        inClientID now).2.m_anchorSampleTime = 0 ∧
      (Driver.StartIOImpl cfg s ObjectID.Device.toAudioObjectID
        inClientID now).2.m_anchorHostTime = now) := by
  constructor
  · intro hpos hlt
    rw [StartIOImpl_device, if_neg (by omega), if_neg (by omega)]
    have hu : (s.m_ioRunning + 1) % 2 ^ 64 = s.m_ioRunning + 1 :=
      Nat.mod_eq_of_lt (by omega)
    rw [hu]
  · intro h0
    rw [StartIOImpl_device, if_neg (by rw [h0]; decide), if_pos h0]
    exact ⟨rfl, rfl, rfl, rfl, rfl⟩

/-- C27 in the example: a second start on the running example driver, whose anchor host time
is 1000, at host time 5000. -/
theorem C27_start_while_running_witness :
    0 < exampleFilledState.m_ioRunning ∧ exampleFilledState.m_ioRunning < 2 ^ 64 - 1 ∧
    Driver.StartIOImpl exampleConfig exampleFilledState ObjectID.Device.toAudioObjectID 7 5000
      = (kAudioHardwareNoError, { exampleFilledState with m_ioRunning := 2 }) ∧
    (Driver.StartIOImpl exampleConfig exampleFilledState ObjectID.Device.toAudioObjectID 7
      5000).2.m_anchorHostTime = 1000 :=
  ⟨by decide, by decide,
    ((C27_start_while_running exampleConfig exampleFilledState 7 5000).1 (by decide)
      (by decide)).trans rfl,
    rfl⟩

/-! ## C28: host calls and the state lock -/

/-- `Box::save_box_name_property` makes a storage call, directly and with the lock held. -/
theorem save_box_name_property_event [LinearOrderedField F] (cfg : Config F)
    (s : DriverState F) :
    (Box.save_box_name_property cfg s).call.isStorage = true ∧
    (Box.save_box_name_property cfg s).dispatched = false ∧
    (Box.save_box_name_property cfg s).stateLocked = true := by
  unfold Box.save_box_name_property
  cases s.m_boxName <;> exact ⟨rfl, rfl, rfl⟩

/-- The host calls of `Box::set_box_name` are storage calls made with the lock held. -/
theorem set_box_name_events [LinearOrderedField F] (cfg : Config F) (s : DriverState F)
    (name : CFStringRef) :
    ∀ e ∈ (Box.set_box_name cfg s name).hostCalls,
      e.call.isStorage = true ∧ e.dispatched = false ∧ e.stateLocked = true := by
  intro e he
  unfold Box.set_box_name at he
  cases name <;> cases hb : s.m_boxName <;> simp only [hb] at he
  · simp at he
  · simp only [List.mem_singleton] at he
    rw [he]
    exact save_box_name_property_event cfg _
  · simp only [List.mem_singleton] at he
    rw [he]
    exact save_box_name_property_event cfg _
  · split_ifs at he
    · simp at he
    · simp only [List.mem_singleton] at he
      rw [he]
      exact save_box_name_property_event cfg _

/-- The host calls of `Box::set_acquired`: a storage call made with the lock held, and a
notification posted to run later. -/
theorem set_acquired_events [LinearOrderedField F] (cfg : Config F) (self : box)
    (s : DriverState F) (acquired : Bool) :
    ∀ e ∈ (Box.set_acquired cfg self s acquired).hostCalls,
      (e.call.isStorage = true ∧ e.dispatched = false ∧ e.stateLocked = true) ∨
      (e.call.isStorage = false ∧ e.dispatched = true ∧ e.stateLocked = false) := by
  intro e he
  unfold Box.set_acquired at he
  split_ifs at he
  · simp at he
  · simp only [List.mem_cons, List.mem_singleton, List.not_mem_nil, or_false] at he
    rcases he with rfl | rfl
    · exact Or.inl ⟨rfl, rfl, rfl⟩
    · exact Or.inr ⟨rfl, rfl, rfl⟩

/-- The host call of `Device::set_sample_rate` is no storage call and is made without the
lock. -/
theorem set_sample_rate_events [LinearOrderedField F] [FloorRing F] (cfg : Config F)
    (s : DriverState F) (sr : F) :
    ∀ e ∈ (Device.set_sample_rate cfg s sr).2,
      e.call.isStorage = false ∧ e.dispatched = true ∧ e.stateLocked = false := by
  intro e he
  unfold Device.set_sample_rate at he
  by_cases h1 : cfg.is_supported_sample_rate sr = true <;>
    by_cases h2 : s.m_sampleRate = sr <;> simp [h1, h2] at he
  subst he
  exact ⟨rfl, rfl, rfl⟩

set_option maxHeartbeats 2000000 in
/-- The host call of `MasterStream::set_format` is no storage call and is made without the
lock. -/
theorem set_format_events [LinearOrderedField F] [FloorRing F] (cfg : Config F)
    (self : stream) (s : DriverState F) (desc : AudioStreamBasicDescription F) :
    ∀ e ∈ (MasterStream.set_format cfg self s desc).2,
      e.call.isStorage = false ∧ e.dispatched = true ∧ e.stateLocked = false := by
  have h : (MasterStream.set_format cfg self s desc).2 = [] ∨
      (MasterStream.set_format cfg self s desc).2 =
        [⟨HostCall.RequestDeviceConfigurationChange self.m_device (toUInt64 desc.mSampleRate),
          true, false⟩] := by
    unfold MasterStream.set_format
    split_ifs <;> try simp
    by_cases h : desc.mSampleRate = s.m_sampleRate <;> simp [h]
  intro e he
  rcases h with h | h <;> rw [h] at he <;> simp at he
  subst he
  exact ⟨rfl, rfl, rfl⟩

/-- The host calls of `box::set`: storage calls made directly with the lock held, for the name
and the acquired property, and calls posted to run later. -/
theorem box_set_events [LinearOrderedField F] [FloorRing F] (cfg : Config F) (self : box)
    (s : DriverState F) (a : Address) (qsz : Nat) (qd : Option CFStringRef) (dsz : Nat)
    (inData : Blob F) (n0 : Nat) :
    ∀ e ∈ (self.set cfg s a qsz qd dsz inData n0).hostCalls,
      (e.call.isStorage = true ∧ e.dispatched = false ∧ e.stateLocked = true ∧
          (a.mSelector = kAudioObjectPropertyName ∨ a.mSelector = kAudioBoxPropertyAcquired)) ∨
        (e.call.isStorage = false ∧ e.dispatched = true ∧ e.stateLocked = false) := by
  intro e he
  obtain ⟨sel, sc, el⟩ := a
  cases sel <;> simp only [box.set] at he <;> try (simp at he; done)
  · by_cases hsz : dsz < sizeof_CFStringRef
    · simp [hsz] at he
    · have hmem : e ∈ (Box.set_box_name cfg s inData.asCFStringRef).hostCalls := by
        by_cases hr : (Box.set_box_name cfg s inData.asCFStringRef).ret = true <;>
          simpa [hsz, hr] using he
      have h := set_box_name_events cfg s inData.asCFStringRef e hmem
      exact Or.inl ⟨h.1, h.2.1, h.2.2, Or.inl rfl⟩
  · generalize decide (inData.asUInt32 ≠ 0) = b at he
    by_cases hsz : dsz ≠ sizeof_UInt32
    · simp [hsz] at he
    · have hmem : e ∈ (Box.set_acquired cfg self s b).hostCalls := by
        by_cases hr : (Box.set_acquired cfg self s b).ret = true <;>
          simpa [hsz, hr] using he
      rcases set_acquired_events cfg self s b e hmem with h | h
      · exact Or.inl ⟨h.1, h.2.1, h.2.2, Or.inr rfl⟩
      · exact Or.inr h

/-- The host calls of `device::set` are no storage calls and are made without the lock. -/
theorem device_set_events [LinearOrderedField F] [FloorRing F] (cfg : Config F)
    (self : device) (s : DriverState F) (a : Address) (qsz : Nat) (qd : Option CFStringRef)
    (dsz : Nat) (inData : Blob F) (n0 : Nat) :
    ∀ e ∈ (self.set cfg s a qsz qd dsz inData n0).hostCalls,
      e.call.isStorage = false ∧ e.dispatched = true ∧ e.stateLocked = false := by
  intro e he
  obtain ⟨sel, sc, el⟩ := a
  cases sel <;> simp only [device.set] at he <;> try (simp at he; done)
  by_cases hsz : dsz = sizeof_Float64
  · simp only [hsz, ne_eq, not_true_eq_false, if_false] at he
    exact set_sample_rate_events cfg s _ e he
  · simp [hsz] at he

/-- The host calls of `stream::set` are no storage calls and are made without the lock. -/
theorem stream_set_events [LinearOrderedField F] [FloorRing F] (cfg : Config F)
    (self : stream) (s : DriverState F) (a : Address) (qsz : Nat) (qd : Option CFStringRef)
    (dsz : Nat) (inData : Blob F) (n0 : Nat) :
    ∀ e ∈ (self.set cfg s a qsz qd dsz inData n0).hostCalls,
      e.call.isStorage = false ∧ e.dispatched = true ∧ e.stateLocked = false := by
  intro e he
  obtain ⟨sel, sc, el⟩ := a
  cases sel <;> simp only [stream.set] at he <;> try (simp at he; done)
  · generalize decide (inData.asUInt32 ≠ 0) = b at he
    by_cases hsz : dsz < sizeof_UInt32
    · simp [hsz] at he
    · by_cases hr : (MasterStream.set_active self s b).1 = true <;> simp [hsz, hr] at he
  · by_cases hsz : dsz = sizeof_AudioStreamBasicDescription
    · simp only [hsz, ne_eq, not_true_eq_false, if_false] at he
      exact set_format_events cfg self s _ e he
    · simp [hsz] at he
  · by_cases hsz : dsz = sizeof_AudioStreamBasicDescription
    · simp only [hsz, ne_eq, not_true_eq_false, if_false] at he
      exact set_format_events cfg self s _ e he
    · simp [hsz] at he

/-- The `set` operations of the controls make no host call. -/
theorem control_set_events [LinearOrderedField F] [FloorRing F] (cfg : Config F)
    (m : MathLib F) (s : DriverState F) (a : Address) (qsz : Nat) (qd : Option CFStringRef)
    (dsz : Nat) (inData : Blob F) (n0 : Nat) :
    (∀ self : volume_control, (self.set cfg m s a qsz qd dsz inData n0).hostCalls = []) ∧
    (∀ self : mute_control, (self.set s a qsz qd dsz inData n0).hostCalls = []) := by
  obtain ⟨sel, sc, el⟩ := a
  constructor
  · intro self
    cases sel <;> simp only [volume_control.set] <;> try rfl
    · by_cases hsz : dsz < sizeof_Float32
      · simp [hsz]
      · by_cases hr : (MasterVolume.set_volume_normalized cfg m s inData.asFloat32).1 = true <;>
          simp [hsz, hr]
    · by_cases hsz : dsz < sizeof_Float32
      · simp [hsz]
      · by_cases hr : (MasterVolume.set_volume_decibel cfg m s inData.asFloat32).1 = true <;>
          simp [hsz, hr]
  · intro self
    cases sel <;> simp only [mute_control.set]
    generalize decide (inData.asUInt32 ≠ 0) = b
    by_cases hsz : dsz ≠ sizeof_UInt32
    · simp [hsz]
    · simp only [hsz, if_false]
      by_cases hr : MasterMute.is_muted s ≠ b
      · rw [if_pos hr]
      · rw [if_neg hr]

/-- Every host call of a `set` on an object either is a storage call made directly with the
lock held, by the box for its name or its acquired property, or is no storage call and is
posted to run later, without the lock. -/
theorem objSet_events [LinearOrderedField F] [FloorRing F] (cfg : Config F) (m : MathLib F)
    (s : DriverState F) (a : Address) (qsz : Nat) (qd : Option CFStringRef) (dsz : Nat)
    (inData : Blob F) (n0 : Nat) (o : AnyObject) :
    ∀ e ∈ (Driver.objSet cfg m s a qsz qd dsz inData n0 o).hostCalls,
      ((e.call.isStorage = true ∧ e.dispatched = false ∧ e.stateLocked = true ∧
          (∃ b : box, o = .box b) ∧
          (a.mSelector = kAudioObjectPropertyName ∨ a.mSelector = kAudioBoxPropertyAcquired)) ∨
        (e.call.isStorage = false ∧ e.dispatched = true ∧ e.stateLocked = false)) := by
  intro e he
  cases o with
  | plugin o => simp [Driver.objSet, plugin.set] at he
  | box o =>
    rcases box_set_events cfg o s a qsz qd dsz inData n0 e he with h | h
    · exact Or.inl ⟨h.1, h.2.1, h.2.2.1, ⟨o, rfl⟩, h.2.2.2⟩
    · exact Or.inr h
  | device o => exact Or.inr (device_set_events cfg o s a qsz qd dsz inData n0 e he)
  | stream o => exact Or.inr (stream_set_events cfg o s a qsz qd dsz inData n0 e he)
  | volume_control o =>
    have h := (control_set_events cfg m s a qsz qd dsz inData n0).1 o
    simp only [Driver.objSet] at he
    rw [h] at he
    simp at he
  | mute_control o =>
    have h := (control_set_events cfg m s a qsz qd dsz inData n0).2 o
    simp only [Driver.objSet] at he
    rw [h] at he
    simp at he

/-- An identifier that the cast maps to an enumerator is the value of that enumerator. -/
theorem ofAudioObjectID_some (auid : AudioObjectID) (oid : ObjectID)
    (h : ObjectID.ofAudioObjectID auid = some oid) : auid = oid.toAudioObjectID := by
  unfold ObjectID.ofAudioObjectID at h
  split_ifs at h with h1 h2 h3 h4 h5 h6 h7 h8 h9 <;> cases h <;> assumption

/-- What `callObject` does with an identifier: the default for an identifier outside the
registry, and otherwise the function applied to an object, which is a box only for the box
identifier. -/
theorem callObject_object {R : Type} (auid : AudioObjectID) :
    (∀ (fct : AnyObject → R) (ret : R), callObject auid fct ret = ret) ∨
    ∃ o : AnyObject, (∀ (fct : AnyObject → R) (ret : R), callObject auid fct ret = fct o) ∧
      ((∃ b : box, o = .box b) → auid = ObjectID.Box.toAudioObjectID) := by
  unfold callObject
  cases h : ObjectID.ofAudioObjectID auid with
  | none => exact Or.inl (fun _ _ => rfl)
  | some oid =>
    have hid := ofAudioObjectID_some auid oid h
    cases oid
    case Box => exact Or.inr ⟨_, fun _ _ => rfl, fun _ => hid⟩
    all_goals
      refine Or.inr ⟨_, fun _ _ => rfl, ?_⟩
      rintro ⟨b, hb⟩
      cases hb

/-- C28 fails: releasing the box of the initial example driver (acquired at the start) by a
`set` of the acquired property to 0 invokes `WriteToStorage`, directly and with the state lock
held. -/
theorem C28_lock_discipline_counterexample :
    (⟨HostCall.WriteToStorage "box acquired" (StorageValue.boolean false), false, true⟩ :
        HostEvent) ∈
      (Driver.SetPropertyDataImpl exampleConfig exampleMathLib
        (DriverState.initial exampleConfig) ObjectID.Box.toAudioObjectID
        (some ⟨kAudioBoxPropertyAcquired, kAudioObjectPropertyScopeGlobal, 0⟩) 0 none
        sizeof_UInt32 { exampleBlob with asUInt32 := 0 }).hostCalls ∧
    ¬ ∀ e ∈ (Driver.SetPropertyDataImpl exampleConfig exampleMathLib
        (DriverState.initial exampleConfig) ObjectID.Box.toAudioObjectID
        (some ⟨kAudioBoxPropertyAcquired, kAudioObjectPropertyScopeGlobal, 0⟩) 0 none
        sizeof_UInt32 { exampleBlob with asUInt32 := 0 }).hostCalls,
      e.stateLocked = false := by
  have hmem : (⟨HostCall.WriteToStorage "box acquired" (StorageValue.boolean false), false,
      true⟩ : HostEvent) ∈
      (Driver.SetPropertyDataImpl exampleConfig exampleMathLib
        (DriverState.initial exampleConfig) ObjectID.Box.toAudioObjectID
        (some ⟨kAudioBoxPropertyAcquired, kAudioObjectPropertyScopeGlobal, 0⟩) 0 none
        sizeof_UInt32 { exampleBlob with asUInt32 := 0 }).hostCalls := by
    decide
  refine ⟨hmem, fun hall => ?_⟩
  have h := hall _ hmem
  cases h

/-- C28, amended: of the host calls of a `set` operation, on any object, address and value,
`PropertiesChanged` and `RequestDeviceConfigurationChange` are never invoked while the state
lock is held; `WriteToStorage` and `DeleteFromStorage` are invoked directly with the state lock
held, and only by a `set` of the box's name or acquired property. -/
theorem C28_lock_discipline [LinearOrderedField F] [FloorRing F] (cfg : Config F)
    (m : MathLib F) (s : DriverState F) (inObjectID : AudioObjectID)
    (inAddress : Option Address) (qsz : Nat) (qd : Option CFStringRef) (dsz : Nat)
    (inData : Blob F) :
    ∀ e ∈ (Driver.SetPropertyDataImpl cfg m s inObjectID inAddress qsz qd dsz inData).hostCalls,
      (e.call.isStorage = false → e.stateLocked = false) ∧
      (e.call.isStorage = true →
        e.dispatched = false ∧ e.stateLocked = true ∧
        inObjectID = ObjectID.Box.toAudioObjectID ∧
        ∃ a : Address, inAddress = some a ∧
          (a.mSelector = kAudioObjectPropertyName ∨
            a.mSelector = kAudioBoxPropertyAcquired)) := by
  intro e he
  cases inAddress with
  | none => simp [Driver.SetPropertyDataImpl] at he
  | some a =>
    rw [SetPropertyDataImpl_eq] at he
    rcases @callObject_object (SetResult F) inObjectID with hret | ⟨o, ho, hbox⟩
    · rw [hret] at he
      simp at he
    · rw [ho] at he
      have hobj := objSet_events cfg m s a qsz qd dsz inData 0 o
      have hcases : e ∈ (Driver.objSet cfg m s a qsz qd dsz inData 0 o).hostCalls ∨
          e = ⟨HostCall.PropertiesChanged inObjectID
            (Driver.objSet cfg m s a qsz qd dsz inData 0 o).outChangedAddresses, false,
            false⟩ := by
        split_ifs at he
        · simpa using he
        · exact Or.inl he
      rcases hcases with hin | rfl
      · rcases hobj e hin with h | h
        · refine ⟨fun hf => ?_, fun _ => ⟨h.2.1, h.2.2.1, hbox h.2.2.2.1, a, rfl, h.2.2.2.2⟩⟩
          rw [h.1] at hf
          cases hf
        · refine ⟨fun _ => h.2.2, fun ht => ?_⟩
          rw [h.1] at ht
          cases ht
      · refine ⟨fun _ => rfl, fun ht => ?_⟩
        cases ht

/-- C28, amended, on the example: the release of the box issues three host calls, of which
only the storage call is made with the lock held. -/
theorem C28_lock_discipline_witness :
    (Driver.SetPropertyDataImpl exampleConfig exampleMathLib
        (DriverState.initial exampleConfig) ObjectID.Box.toAudioObjectID
        (some ⟨kAudioBoxPropertyAcquired, kAudioObjectPropertyScopeGlobal, 0⟩) 0 none
        sizeof_UInt32 { exampleBlob with asUInt32 := 0 }).hostCalls.map
        (fun e => (e.call.isStorage, e.stateLocked))
      = [(true, true), (false, false), (false, false)] ∧
    ∀ e ∈ (Driver.SetPropertyDataImpl exampleConfig exampleMathLib
        (DriverState.initial exampleConfig) ObjectID.Box.toAudioObjectID
        (some ⟨kAudioBoxPropertyAcquired, kAudioObjectPropertyScopeGlobal, 0⟩) 0 none
        sizeof_UInt32 { exampleBlob with asUInt32 := 0 }).hostCalls,
      e.call.isStorage = false → e.stateLocked = false :=
  ⟨rfl, fun e he =>
    (C28_lock_discipline exampleConfig exampleMathLib (DriverState.initial exampleConfig)
      ObjectID.Box.toAudioObjectID
      (some ⟨kAudioBoxPropertyAcquired, kAudioObjectPropertyScopeGlobal, 0⟩) 0 none
      sizeof_UInt32 { exampleBlob with asUInt32 := 0 } e he).1⟩

/-! ## C29: the status for an unsupported sample rate -/

/-- C29 fails at `PerformDeviceConfigurationChange`: for a sample rate `sr` and a token that
are not supported rates, `set` of the device's nominal sample rate and `set` of a stream's
virtual or physical format (all other format fields as the stream reports them) return the
illegal-operation status, but `PerformDeviceConfigurationChange` on the device returns the
bad-object status (and leaves the state as it was). -/
theorem C29_unsupported_rate_statuses [LinearOrderedField F] [FloorRing F] (cfg : Config F)
    (m : MathLib F) (env : Environment) (s : DriverState F) (sc : Scope) (el qsz : Nat)
    (qd : Option CFStringRef) (inData : Blob F) (sr : F) (inChangeAction : Nat)
    (hsr : sr ∉ cfg.supported_sample_rates)
    (hrate : inData.asFloat64 = sr)
    (hformat : inData.asAudioStreamBasicDescription
      = { MasterStream.get_basic_description cfg s with mSampleRate := sr })
    (htoken : (ofUInt64 inChangeAction : F) ∉ cfg.supported_sample_rates) :
    (Driver.SetPropertyDataImpl cfg m s ObjectID.Device.toAudioObjectID
        (some ⟨kAudioDevicePropertyNominalSampleRate, sc, el⟩) qsz qd sizeof_Float64
        inData).status = kAudioHardwareIllegalOperationError ∧
    (∀ streamID ∈ [ObjectID.StreamInput, ObjectID.StreamOutput],
      ∀ sel ∈ [kAudioStreamPropertyVirtualFormat, kAudioStreamPropertyPhysicalFormat],
      (Driver.SetPropertyDataImpl cfg m s streamID.toAudioObjectID (some ⟨sel, sc, el⟩) qsz qd
        sizeof_AudioStreamBasicDescription inData).status
        = kAudioHardwareIllegalOperationError) ∧
    Driver.PerformDeviceConfigurationChangeImpl cfg env s ObjectID.Device.toAudioObjectID
        inChangeAction = (kAudioHardwareBadObjectError, s) ∧
    kAudioHardwareBadObjectError ≠ kAudioHardwareIllegalOperationError := by
  have hsup : cfg.is_supported_sample_rate sr = false := by
    simp [Config.is_supported_sample_rate, hsr]
  have hfmt : ∀ self : stream,
      MasterStream.set_format cfg self s inData.asAudioStreamBasicDescription
        = (kAudioHardwareIllegalOperationError, []) := by
    intro self
    rw [hformat]
    simp [MasterStream.set_format, MasterStream.get_basic_description, hsup]
  refine ⟨?_, ?_, ?_, by decide⟩
  · rw [SetPropertyDataImpl_sample_rate]
    simp [Device.set_sample_rate, hrate, hsup]
  · intro streamID hstream sel hsel
    simp only [List.mem_cons, List.mem_singleton, List.not_mem_nil, or_false] at hstream hsel
    rcases hstream with rfl | rfl <;> rcases hsel with rfl | rfl <;>
      simp [Driver.SetPropertyDataImpl, callObject, ObjectID.ofAudioObjectID,
        ObjectID.toAudioObjectID, kAudioObjectPlugInObject, Driver.objSet, stream.set, hfmt]
  · simp [Driver.PerformDeviceConfigurationChangeImpl, Config.is_supported_sample_rate, htoken]

/-- C29 at the failing input: the token 12345 in the example configuration, whose supported
rates are 44100 and 48000. -/
theorem C29_unsupported_rate_statuses_witness :
    (12345 : ℚ) ∉ exampleConfig.supported_sample_rates ∧
    (ofUInt64 12345 : ℚ) ∉ exampleConfig.supported_sample_rates ∧
    Driver.PerformDeviceConfigurationChangeImpl exampleConfig exampleEnvironment
        (DriverState.initial exampleConfig) ObjectID.Device.toAudioObjectID 12345
      = (kAudioHardwareBadObjectError, DriverState.initial exampleConfig) ∧
    (Driver.SetPropertyDataImpl exampleConfig exampleMathLib (DriverState.initial exampleConfig)
        ObjectID.Device.toAudioObjectID
        (some ⟨kAudioDevicePropertyNominalSampleRate, kAudioObjectPropertyScopeGlobal, 0⟩) 0
        none sizeof_Float64
        { exampleBlob with
          asFloat64 := 12345
          asAudioStreamBasicDescription :=
            { MasterStream.get_basic_description exampleConfig
                (DriverState.initial exampleConfig) with mSampleRate := 12345 } }).status
      = kAudioHardwareIllegalOperationError :=
  have h1 : (12345 : ℚ) ∉ exampleConfig.supported_sample_rates := by
    simp [exampleConfig]
  have h2 : (ofUInt64 12345 : ℚ) ∉ exampleConfig.supported_sample_rates := by
    simp [exampleConfig, ofUInt64]
  ⟨h1, h2,
    (C29_unsupported_rate_statuses exampleConfig exampleMathLib exampleEnvironment
      (DriverState.initial exampleConfig) kAudioObjectPropertyScopeGlobal 0 0 none
      { exampleBlob with
        asFloat64 := 12345
        asAudioStreamBasicDescription :=
          { MasterStream.get_basic_description exampleConfig
              (DriverState.initial exampleConfig) with mSampleRate := 12345 } }
      12345 12345 h1 rfl rfl h2).2.2.1,
    (C29_unsupported_rate_statuses exampleConfig exampleMathLib exampleEnvironment
      (DriverState.initial exampleConfig) kAudioObjectPropertyScopeGlobal 0 0 none
      { exampleBlob with
        asFloat64 := 12345
        asAudioStreamBasicDescription :=
          { MasterStream.get_basic_description exampleConfig
              (DriverState.initial exampleConfig) with mSampleRate := 12345 } }
      12345 12345 h1 rfl rfl h2).1⟩

/-! ## C30: what the acquisition of the box changes -/

/-- The device's `size` does not read the box-acquired flag. -/
theorem device_size_ignores_acquired [LinearOrderedField F] [FloorRing F] (cfg : Config F)
    (s : DriverState F) (b : Bool) (a : Address) (qsz : Nat) (qd : Option CFStringRef)
    (n0 : Option Nat) :
    Driver.GetPropertyDataSizeImpl cfg { s with m_isBoxAcquired := b }
        ObjectID.Device.toAudioObjectID (some a) qsz qd n0
      = Driver.GetPropertyDataSizeImpl cfg s ObjectID.Device.toAudioObjectID (some a) qsz qd
          n0 := by
  cases n0 <;> rfl

/-- The device's `get` does not read the box-acquired flag. -/
theorem device_get_ignores_acquired [LinearOrderedField F] [FloorRing F] (cfg : Config F)
    (m : MathLib F) (env : Environment) (s : DriverState F) (b : Bool) (a : Address)
    (qsz : Nat) (qd : Option CFStringRef) (cap : Nat) (n0 : Option Nat)
    (d : Option (Blob F)) :
    Driver.GetPropertyDataImpl cfg m env { s with m_isBoxAcquired := b }
        ObjectID.Device.toAudioObjectID (some a) qsz qd cap n0 d
      = Driver.GetPropertyDataImpl cfg m env s ObjectID.Device.toAudioObjectID (some a) qsz qd
          cap n0 d := by
  cases n0 <;> cases d <;> rfl

/-- C30: in every state, with room for two identifiers, the plug-in's device list is `[Device]`
when the box is acquired and empty otherwise, its owned-object list is `[Box, Device]` when
acquired and `[Box]` otherwise, and its box list is `[Box]`; and the device identifier resolves
to the device object whatever the flag: `HasProperty` and `IsPropertySettable` do not take the
state at all, and `GetPropertyDataSize` and `GetPropertyData` on the device answer the same
with the flag set either way. -/
theorem C30_acquisition_toggles_visibility [LinearOrderedField F] [FloorRing F]
    (cfg : Config F) (m : MathLib F) (env : Environment) (s : DriverState F) (sc : Scope)
    (el qsz : Nat) (qd : Option CFStringRef) (n0 cap : Nat) (d : Blob F)
    (hcap : 2 * sizeof_AudioObjectID ≤ cap) :
    (Driver.GetPropertyDataImpl cfg m env s ObjectID.Plugin.toAudioObjectID
        (some ⟨kAudioPlugInPropertyDeviceList, sc, el⟩) qsz qd cap (some n0) (some d)).outData
      = some (.objectList
          (if s.m_isBoxAcquired then [ObjectID.Device.toAudioObjectID] else [])) ∧
    (Driver.GetPropertyDataImpl cfg m env s ObjectID.Plugin.toAudioObjectID
        (some ⟨kAudioObjectPropertyOwnedObjects, sc, el⟩) qsz qd cap (some n0) (some d)).outData
      = some (.objectList
          (if s.m_isBoxAcquired then
            [ObjectID.Box.toAudioObjectID, ObjectID.Device.toAudioObjectID]
          else [ObjectID.Box.toAudioObjectID])) ∧
    (Driver.GetPropertyDataImpl cfg m env s ObjectID.Plugin.toAudioObjectID
        (some ⟨kAudioPlugInPropertyBoxList, sc, el⟩) qsz qd cap (some n0) (some d)).outData
      = some (.objectList [ObjectID.Box.toAudioObjectID]) ∧
    (∀ (a : Address) (b : Bool),
      Driver.HasPropertyImpl ObjectID.Device.toAudioObjectID (some a)
        = device.exists ⟨ObjectID.Device.toAudioObjectID, ObjectID.Plugin.toAudioObjectID⟩ a ∧
      Driver.IsPropertySettableImpl ObjectID.Device.toAudioObjectID (some a) (some b)
        = device.is_settable ⟨ObjectID.Device.toAudioObjectID, ObjectID.Plugin.toAudioObjectID⟩
            a b) ∧
    (∀ (a : Address) (b : Bool) (qsz1 : Nat) (qd1 : Option CFStringRef) (cap1 n1 : Nat)
        (d1 : Blob F),
      Driver.GetPropertyDataSizeImpl cfg { s with m_isBoxAcquired := b }
          ObjectID.Device.toAudioObjectID (some a) qsz1 qd1 (some n1)
        = device.size cfg ⟨ObjectID.Device.toAudioObjectID, ObjectID.Plugin.toAudioObjectID⟩ a
            qsz1 qd1 n1 ∧
      Driver.GetPropertyDataImpl cfg m env { s with m_isBoxAcquired := b }
          ObjectID.Device.toAudioObjectID (some a) qsz1 qd1 cap1 (some n1) (some d1)
        = device.get cfg env ⟨ObjectID.Device.toAudioObjectID, ObjectID.Plugin.toAudioObjectID⟩
            s a qsz1 qd1 cap1 n1) := by
  have h2 : 2 ≤ cap / sizeof_AudioObjectID :=
    (Nat.le_div_iff_mul_le (by decide)).2 (by simpa [Nat.mul_comm] using hcap)
  have hP := plugin_lists s (cap / sizeof_AudioObjectID)
  refine ⟨?_, ?_, ?_, fun a b => ⟨rfl, rfl⟩, fun a b qsz1 qd1 cap1 n1 d1 => ⟨rfl, rfl⟩⟩
  · show some (PropertyValue.objectList
      (Plugin.get_device_list s (cap / sizeof_AudioObjectID)).1) = _
    rw [hP.2.2.1]
    cases s.m_isBoxAcquired <;> simp
    omega
  · show some (PropertyValue.objectList
      (Plugin.get_object_list s (cap / sizeof_AudioObjectID)).1) = _
    rw [hP.1]
    cases s.m_isBoxAcquired <;> simp <;> omega
  · show some (PropertyValue.objectList
      (Plugin.get_box_list (cap / sizeof_AudioObjectID)).1) = _
    rw [hP.2.1]
    simp
    omega

/-- C30 for the example driver with the box released: the device list is empty, and the
device still answers, here with its nominal sample rate. -/
theorem C30_acquisition_toggles_visibility_witness :
    2 * sizeof_AudioObjectID ≤ 8 ∧
    (Driver.GetPropertyDataImpl exampleConfig exampleMathLib exampleEnvironment
        { DriverState.initial exampleConfig with m_isBoxAcquired := false }
        ObjectID.Plugin.toAudioObjectID
        (some ⟨kAudioPlugInPropertyDeviceList, kAudioObjectPropertyScopeGlobal, 0⟩) 0 none 8
        (some 0) (some exampleBlob)).outData = some (.objectList []) ∧
    Driver.GetPropertyDataImpl exampleConfig exampleMathLib exampleEnvironment
        { DriverState.initial exampleConfig with m_isBoxAcquired := false }
        ObjectID.Device.toAudioObjectID
        (some ⟨kAudioDevicePropertyNominalSampleRate, kAudioObjectPropertyScopeGlobal, 0⟩) 0
        none 8 (some 0) (some exampleBlob)
      = ⟨kAudioHardwareNoError, 8, some (.float64 44100)⟩ :=
  ⟨by decide,
    (C30_acquisition_toggles_visibility exampleConfig exampleMathLib exampleEnvironment
      { DriverState.initial exampleConfig with m_isBoxAcquired := false }
      kAudioObjectPropertyScopeGlobal 0 0 none 0 8 exampleBlob (by decide)).1.trans rfl,
    ((C30_acquisition_toggles_visibility exampleConfig exampleMathLib exampleEnvironment
      (DriverState.initial exampleConfig)
      kAudioObjectPropertyScopeGlobal 0 0 none 0 8 exampleBlob (by decide)).2.2.2.2
      ⟨kAudioDevicePropertyNominalSampleRate, kAudioObjectPropertyScopeGlobal, 0⟩ false 0 none
      8 0 exampleBlob).2.trans rfl⟩

/-! ## C31: the zero time stamp -/

/-- C32 fails: a `WriteMix` addressed to the input stream stores the caller's frame in the ring
buffer, records the output sample time and resets the buffer-is-clear flag; and a `ReadInput`
addressed to the output stream, here with master mute on, clears the caller's buffer and the
ring buffer and sets the buffer-is-clear flag. -/
theorem C32_mismatched_pair_counterexample :
    Driver.DoIOOperationImpl exampleConfig
        { exampleRunningState with m_lastOutputSampleTime := 0, m_isBufferClear := true }
        ObjectID.Device.toAudioObjectID ObjectID.StreamInput.toAudioObjectID 0
        IOOperationID.kAudioServerPlugInIOOperationWriteMix 1 ⟨⟨0⟩, ⟨5⟩⟩ [1, 1]
      = (kAudioHardwareNoError,
          { exampleRunningState with
            m_ringBuffer := some [0, 0, 1, 1, 0, 0, 0, 0]
            m_lastOutputSampleTime := 5
            m_isBufferClear := false },
          [1, 1]) ∧
    Driver.DoIOOperationImpl exampleConfig { exampleFilledState with m_muteMasterValue := true }
        ObjectID.Device.toAudioObjectID ObjectID.StreamOutput.toAudioObjectID 0
        IOOperationID.kAudioServerPlugInIOOperationReadInput 1 ⟨⟨0⟩, ⟨0⟩⟩ [9, 9]
      = (kAudioHardwareNoError,
          { exampleFilledState with
            m_muteMasterValue := true
            m_ringBuffer := some [0, 0, 0, 0, 0, 0, 0, 0]
            m_isBufferClear := true },
          [0, 0]) := by
  constructor
  · rfl
  · rfl

/-- C32, amended: `DoIOOperation` on the device does not pair the stream with the operation. For
every operation identifier and all other arguments, the call addressed to the output stream
does exactly what the call addressed to the input stream does: the same status, the same driver
state and the same contents of the caller's buffer afterwards. -/
theorem C32_stream_is_only_range_checked [LinearOrderedField F] [FloorRing F]
    (cfg : Config F) (s : DriverState F) (inClientID : Nat) (inOperationID : IOOperationID)
    (inIOBufferFrameSize : Nat) (inIOCycleInfo : AudioServerPlugInIOCycleInfo F)
    (ioMainBuffer : List F) :
    Driver.DoIOOperationImpl cfg s ObjectID.Device.toAudioObjectID
        ObjectID.StreamOutput.toAudioObjectID inClientID inOperationID inIOBufferFrameSize
        inIOCycleInfo ioMainBuffer
      = Driver.DoIOOperationImpl cfg s ObjectID.Device.toAudioObjectID
        ObjectID.StreamInput.toAudioObjectID inClientID inOperationID inIOBufferFrameSize
        inIOCycleInfo ioMainBuffer := by
  have h1 : mts.is_one_of ObjectID.StreamOutput.toAudioObjectID
      ObjectID.StreamInput.toAudioObjectID ObjectID.StreamOutput.toAudioObjectID = true := rfl
  have h2 : mts.is_one_of ObjectID.StreamInput.toAudioObjectID
      ObjectID.StreamInput.toAudioObjectID ObjectID.StreamOutput.toAudioObjectID = true := rfl
  unfold Driver.DoIOOperationImpl
  rw [h1, h2]

/-- C32, amended, in the example: the `WriteMix` of one frame at output sample time 5 leaves
the same state whichever stream it names. -/
theorem C32_stream_is_only_range_checked_witness :
    (Driver.DoIOOperationImpl exampleConfig exampleRunningState ObjectID.Device.toAudioObjectID
        ObjectID.StreamOutput.toAudioObjectID 0
        IOOperationID.kAudioServerPlugInIOOperationWriteMix 1 ⟨⟨0⟩, ⟨5⟩⟩ [1, 1]).2.1.m_ringBuffer
      = some [0, 0, 1, 1, 0, 0, 0, 0] :=
  (congrArg (fun r => r.2.1.m_ringBuffer)
    (C32_stream_is_only_range_checked exampleConfig exampleRunningState 0
      IOOperationID.kAudioServerPlugInIOOperationWriteMix 1 ⟨⟨0⟩, ⟨5⟩⟩ [1, 1])).trans (by rfl)

/-! ## C33: the indices of the transfer routine -/

/-- The write path of `DoIOOperationImpl` makes the two copies of `transferParts` into the
ring buffer, and the read path that copies makes them out of it. -/
theorem DoIOOperationImpl_parts [LinearOrderedField F] [FloorRing F] (cfg : Config F)
    (s : DriverState F) (inStreamObjectID : AudioObjectID) (inClientID n : Nat)
    (info : AudioServerPlugInIOCycleInfo F) (ioMainBuffer : List F)
    (hstream : inStreamObjectID = ObjectID.StreamInput.toAudioObjectID ∨
      inStreamObjectID = ObjectID.StreamOutput.toAudioObjectID) :
    (Driver.DoIOOperationImpl cfg s ObjectID.Device.toAudioObjectID inStreamObjectID inClientID
        IOOperationID.kAudioServerPlugInIOOperationWriteMix n info ioMainBuffer).2.1.m_ringBuffer
      = s.m_ringBuffer.map (fun rb =>
          mts.dsp.copy ioMainBuffer
            (Driver.transferParts cfg (toUInt64 info.mOutputTime.mSampleTime) n).2.bufferOffset
            (mts.dsp.copy ioMainBuffer
              (Driver.transferParts cfg (toUInt64 info.mOutputTime.mSampleTime) n).1.bufferOffset
              rb
              (Driver.transferParts cfg (toUInt64 info.mOutputTime.mSampleTime) n).1.ringOffset
              (Driver.transferParts cfg (toUInt64 info.mOutputTime.mSampleTime) n).1.size)
            (Driver.transferParts cfg (toUInt64 info.mOutputTime.mSampleTime) n).2.ringOffset
            (Driver.transferParts cfg (toUInt64 info.mOutputTime.mSampleTime) n).2.size) ∧
    (¬ (s.m_muteMasterValue = true ∨
        s.m_lastOutputSampleTime - (n : F) < info.mInputTime.mSampleTime) →
      (Driver.DoIOOperationImpl cfg s ObjectID.Device.toAudioObjectID inStreamObjectID
        inClientID IOOperationID.kAudioServerPlugInIOOperationReadInput n info ioMainBuffer).2.2
      = mts.dsp.mul
          (mts.dsp.copy (s.m_ringBuffer.getD [])
            (Driver.transferParts cfg (toUInt64 info.mInputTime.mSampleTime) n).2.ringOffset
            (mts.dsp.copy (s.m_ringBuffer.getD [])
              (Driver.transferParts cfg (toUInt64 info.mInputTime.mSampleTime) n).1.ringOffset
              ioMainBuffer
              (Driver.transferParts cfg (toUInt64 info.mInputTime.mSampleTime) n).1.bufferOffset
              (Driver.transferParts cfg (toUInt64 info.mInputTime.mSampleTime) n).1.size)
            (Driver.transferParts cfg (toUInt64 info.mInputTime.mSampleTime) n).2.bufferOffset
            (Driver.transferParts cfg (toUInt64 info.mInputTime.mSampleTime) n).2.size)
          s.m_volumeMasterValue (u32 (n * cfg.channel_count))) := by
  have h1 : mts.is_one_of inStreamObjectID ObjectID.StreamInput.toAudioObjectID
      ObjectID.StreamOutput.toAudioObjectID = true := by
    rcases hstream with rfl | rfl <;> rfl
  constructor
  · unfold Driver.DoIOOperationImpl
    rw [if_neg (by simp), h1]
    cases hr : s.m_ringBuffer <;> rfl
  · intro hfresh
    unfold Driver.DoIOOperationImpl
    rw [if_neg (by simp), h1]
    simp only [Bool.not_true, Bool.false_eq_true, if_false, mts.is_one_of, decide_True,
      Bool.true_or, if_true, hfresh, Driver.transferParts]

/-- C33: with a ring of `C = ring_buffer_frame_size` frames (a power of two) of `ch` channels,
for every sample time `t` and every frame count `n ≤ C`, each of the two copies of the read and
the write path stays below `C * ch` in the ring buffer and below `n * ch` in the caller's
buffer, the two copies touch disjoint ring positions, together they cover `n * ch` samples, and
the sizes passed to `clear` and `mul` are `n * ch` (caller's buffer) and `C * ch` (ring). The
routine has no test on `n`: on the device and a stream of its own it returns success for every
frame count. -/
theorem C33_index_safety [LinearOrderedField F] [FloorRing F] (cfg : Config F) (t n : Nat)
    (hassert : cfg.static_assertions = true) (hfit : cfg.fits_UInt32 = true)
    (hn : n ≤ cfg.ring_buffer_frame_size) :
    (∀ j, j < (Driver.transferParts cfg t n).1.size →
      (Driver.transferParts cfg t n).1.ringOffset + j
        < cfg.ring_buffer_frame_size * cfg.channel_count ∧
      (Driver.transferParts cfg t n).1.bufferOffset + j < n * cfg.channel_count) ∧
    (∀ j, j < (Driver.transferParts cfg t n).2.size →
      (Driver.transferParts cfg t n).2.ringOffset + j
        < cfg.ring_buffer_frame_size * cfg.channel_count ∧
      (Driver.transferParts cfg t n).2.bufferOffset + j < n * cfg.channel_count) ∧
    (∀ j1 j2, j1 < (Driver.transferParts cfg t n).1.size →
      j2 < (Driver.transferParts cfg t n).2.size →
      (Driver.transferParts cfg t n).1.ringOffset + j1
        ≠ (Driver.transferParts cfg t n).2.ringOffset + j2) ∧
    (Driver.transferParts cfg t n).1.size + (Driver.transferParts cfg t n).2.size
      = n * cfg.channel_count ∧
    u32 (n * cfg.channel_count) = n * cfg.channel_count ∧
    Driver.ringBufferSampleCount cfg = cfg.ring_buffer_frame_size * cfg.channel_count ∧
    (∀ (s : DriverState F) (inStreamObjectID : AudioObjectID) (inClientID : Nat)
        (inOperationID : IOOperationID) (frames : Nat) (info : AudioServerPlugInIOCycleInfo F)
        (ioMainBuffer : List F),
      inStreamObjectID = ObjectID.StreamInput.toAudioObjectID ∨
        inStreamObjectID = ObjectID.StreamOutput.toAudioObjectID →
      (Driver.DoIOOperationImpl cfg s ObjectID.Device.toAudioObjectID inStreamObjectID
        inClientID inOperationID frames info ioMainBuffer).1 = kAudioHardwareNoError) := by
  have hp := static_assertions_frame_size cfg hassert
  obtain ⟨k, hk⟩ := is_power_of_two_exists _ hp
  have hpos : 0 < cfg.ring_buffer_frame_size := by rw [hk]; positivity
  have hstart := start_eq_mod cfg t hassert hfit
  have hlt : t % cfg.ring_buffer_frame_size < cfg.ring_buffer_frame_size := Nat.mod_lt t hpos
  obtain ⟨hsum, hfirst, hsecond⟩ := split_parts cfg (t % cfg.ring_buffer_frame_size) n hfit hlt hn
  -- the frame counts, named
  generalize hA : Driver.firstPartFrameSize cfg (t % cfg.ring_buffer_frame_size) n = A
    at hsum hfirst
  generalize hB : Driver.secondPartFrameSize cfg (t % cfg.ring_buffer_frame_size) n = B
    at hsum hsecond
  generalize hP : t % cfg.ring_buffer_frame_size = P at hA hB hfirst hsecond hlt hstart
  have uP : u32 (P * cfg.channel_count) = P * cfg.channel_count :=
    frames_fit cfg P hfit (le_of_lt hlt)
  have uA : u32 (A * cfg.channel_count) = A * cfg.channel_count :=
    frames_fit cfg A hfit (by omega)
  have uB : u32 (B * cfg.channel_count) = B * cfg.channel_count :=
    frames_fit cfg B hfit (by omega)
  have hparts : Driver.transferParts cfg t n
      = (⟨P * cfg.channel_count, 0, A * cfg.channel_count⟩,
          ⟨0, A * cfg.channel_count, B * cfg.channel_count⟩) := by
    unfold Driver.transferParts
    simp only [hstart, hA, hB, uP, uA, uB]
  rw [hparts]
  simp only
  have e1 : P * cfg.channel_count + A * cfg.channel_count
      ≤ cfg.ring_buffer_frame_size * cfg.channel_count := by
    rw [← Nat.add_mul]
    exact Nat.mul_le_mul_right _ hfirst
  have e2 : B * cfg.channel_count ≤ P * cfg.channel_count := Nat.mul_le_mul_right _ hsecond
  have e3 : A * cfg.channel_count + B * cfg.channel_count = n * cfg.channel_count := by
    rw [← Nat.add_mul, hsum]
  refine ⟨?_, ?_, ?_, e3, frames_fit cfg n hfit hn, ?_, ?_⟩
  · intro j hj
    constructor <;> omega
  · intro j hj
    constructor <;> omega
  · intro j1 j2 hj1 hj2
    omega
  · exact frames_fit cfg cfg.ring_buffer_frame_size hfit (le_refl _)
  · intro s inStreamObjectID inClientID inOperationID frames info ioMainBuffer hstream
    have h1 : mts.is_one_of inStreamObjectID ObjectID.StreamInput.toAudioObjectID
        ObjectID.StreamOutput.toAudioObjectID = true := by
      rcases hstream with rfl | rfl <;> rfl
    unfold Driver.DoIOOperationImpl
    rw [if_neg (by simp), h1]
    simp only [Bool.not_true, Bool.false_eq_true, if_false]
    split_ifs <;> rfl

/-- C33 in the example configuration (`C = 4`, `ch = 2`): three frames at sample time 6 are
copied as two frames at ring offset 4 and one frame at ring offset 0. Nine frames at sample
time 0 are accepted as well, and the second copy then runs over ten samples of a ring of
eight. -/
theorem C33_index_safety_witness :
    exampleConfig.static_assertions = true ∧ exampleConfig.fits_UInt32 = true ∧
    3 ≤ exampleConfig.ring_buffer_frame_size ∧
    Driver.transferParts exampleConfig 6 3 = (⟨4, 0, 4⟩, ⟨0, 4, 2⟩) ∧
    (∀ j, j < (Driver.transferParts exampleConfig 6 3).2.size →
      (Driver.transferParts exampleConfig 6 3).2.ringOffset + j
        < exampleConfig.ring_buffer_frame_size * exampleConfig.channel_count ∧
      (Driver.transferParts exampleConfig 6 3).2.bufferOffset + j
        < 3 * exampleConfig.channel_count) ∧
    Driver.transferParts exampleConfig 0 9 = (⟨0, 0, 8⟩, ⟨0, 8, 10⟩) :=
  ⟨exampleConfig_static_assertions, exampleConfig_fits_UInt32, by decide, by rfl,
    (C33_index_safety exampleConfig 6 3 exampleConfig_static_assertions
      exampleConfig_fits_UInt32 (by decide)).2.1,
    by rfl⟩

/-! ## C34: a failed `set` changes nothing -/

set_option maxHeartbeats 2000000 in
/-- `MasterStream::set_format` issues no host call when it fails. -/
theorem set_format_failure [LinearOrderedField F] [FloorRing F] (cfg : Config F)
    (self : stream) (s : DriverState F) (desc : AudioStreamBasicDescription F)
    (h : (MasterStream.set_format cfg self s desc).1 ≠ kAudioHardwareNoError) :
    (MasterStream.set_format cfg self s desc).2 = [] := by
  have hcases : (MasterStream.set_format cfg self s desc).1 = kAudioHardwareNoError ∨
      (MasterStream.set_format cfg self s desc).2 = [] := by
    unfold MasterStream.set_format
    split_ifs <;> try simp
    by_cases h : desc.mSampleRate = s.m_sampleRate <;> simp [h]
  rcases hcases with h1 | h1
  · exact absurd h1 h
  · exact h1

/-- `Device::set_sample_rate` issues no host call when it fails. -/
theorem set_sample_rate_failure [LinearOrderedField F] [FloorRing F] (cfg : Config F)
    (s : DriverState F) (sr : F)
    (h : (Device.set_sample_rate cfg s sr).1 ≠ kAudioHardwareNoError) :
    (Device.set_sample_rate cfg s sr).2 = [] := by
  have hcases : (Device.set_sample_rate cfg s sr).1 = kAudioHardwareNoError ∨
      (Device.set_sample_rate cfg s sr).2 = [] := by
    unfold Device.set_sample_rate
    by_cases h1 : cfg.is_supported_sample_rate sr = true <;>
      by_cases h2 : s.m_sampleRate = sr <;> simp [h1, h2]
  rcases hcases with h1 | h1
  · exact absurd h1 h
  · exact h1

/-- A `set` on an object that fails returns the state it was given, leaves the count of changed
addresses as it was, stores no address and issues no host call. -/
theorem objSet_failure [LinearOrderedField F] [FloorRing F] (cfg : Config F) (m : MathLib F)
    (s : DriverState F) (a : Address) (qsz : Nat) (qd : Option CFStringRef) (dsz : Nat)
    (inData : Blob F) (n0 : Nat) (o : AnyObject)
    (h : (Driver.objSet cfg m s a qsz qd dsz inData n0 o).status ≠ kAudioHardwareNoError) :
    (Driver.objSet cfg m s a qsz qd dsz inData n0 o).state = s ∧
    (Driver.objSet cfg m s a qsz qd dsz inData n0 o).outNumberPropertiesChanged = n0 ∧
    (Driver.objSet cfg m s a qsz qd dsz inData n0 o).outChangedAddresses = [] ∧
    (Driver.objSet cfg m s a qsz qd dsz inData n0 o).hostCalls = [] := by
  obtain ⟨sel, sc, el⟩ := a
  cases o with
  | plugin o => exact ⟨rfl, rfl, rfl, rfl⟩
  | box o =>
    cases sel <;> simp only [Driver.objSet, box.set] at h ⊢ <;>
      try trivial
    · by_cases hsz : dsz < sizeof_CFStringRef
      · simp [hsz]
      · by_cases hr : (Box.set_box_name cfg s inData.asCFStringRef).ret = true <;>
          simp [hsz, hr] at h
    · generalize decide (inData.asUInt32 ≠ 0) = b at h ⊢
      by_cases hsz : dsz ≠ sizeof_UInt32
      · simp [hsz]
      · by_cases hr : (Box.set_acquired cfg o s b).ret = true <;> simp [hsz, hr] at h
  | device o =>
    cases sel <;> simp only [Driver.objSet, device.set] at h ⊢ <;>
      try trivial
    by_cases hsz : dsz = sizeof_Float64
    · simp only [hsz, ne_eq, not_true_eq_false, if_false] at h ⊢
      exact ⟨trivial, trivial, trivial, set_sample_rate_failure cfg s _ h⟩
    · simp [hsz]
  | stream o =>
    cases sel <;> simp only [Driver.objSet, stream.set] at h ⊢ <;>
      try trivial
    · generalize decide (inData.asUInt32 ≠ 0) = b at h ⊢
      by_cases hsz : dsz < sizeof_UInt32
      · simp [hsz]
      · by_cases hr : (MasterStream.set_active o s b).1 = true <;> simp [hsz, hr] at h
    · by_cases hsz : dsz = sizeof_AudioStreamBasicDescription
      · simp only [hsz, ne_eq, not_true_eq_false, if_false] at h ⊢
        exact ⟨trivial, trivial, trivial, set_format_failure cfg o s _ h⟩
      · simp [hsz]
    · by_cases hsz : dsz = sizeof_AudioStreamBasicDescription
      · simp only [hsz, ne_eq, not_true_eq_false, if_false] at h ⊢
        exact ⟨trivial, trivial, trivial, set_format_failure cfg o s _ h⟩
      · simp [hsz]
  | volume_control o =>
    cases sel <;> simp only [Driver.objSet, volume_control.set] at h ⊢ <;>
      try trivial
    · by_cases hsz : dsz < sizeof_Float32
      · simp [hsz]
      · by_cases hr : (MasterVolume.set_volume_normalized cfg m s inData.asFloat32).1 = true <;>
          simp [hsz, hr] at h
    · by_cases hsz : dsz < sizeof_Float32
      · simp [hsz]
      · by_cases hr : (MasterVolume.set_volume_decibel cfg m s inData.asFloat32).1 = true <;>
          simp [hsz, hr] at h
  | mute_control o =>
    cases sel <;> simp only [Driver.objSet, mute_control.set] at h ⊢ <;>
      try trivial
    generalize decide (inData.asUInt32 ≠ 0) = b at h ⊢
    by_cases hsz : dsz ≠ sizeof_UInt32
    · simp [hsz]
    · by_cases hr : MasterMute.is_muted s ≠ b
      · rw [if_neg hsz, if_pos hr] at h
        exact absurd rfl h
      · rw [if_neg hsz, if_neg hr] at h
        exact absurd rfl h

/-- C34: whenever `SetPropertyData` returns a status other than success, for whatever object
identifier, address (null included), data size and data, the driver state is unchanged, zero
changed addresses are reported, and no host call is issued: no properties-changed notification
and no configuration-change request. -/
theorem C34_set_error_atomicity [LinearOrderedField F] [FloorRing F] (cfg : Config F)
    (m : MathLib F) (s : DriverState F) (inObjectID : AudioObjectID)
    (inAddress : Option Address) (qsz : Nat) (qd : Option CFStringRef) (dsz : Nat)
    (inData : Blob F)
    (hfail : (Driver.SetPropertyDataImpl cfg m s inObjectID inAddress qsz qd dsz inData).status
      ≠ kAudioHardwareNoError) :
    Driver.SetPropertyDataImpl cfg m s inObjectID inAddress qsz qd dsz inData
      = ⟨(Driver.SetPropertyDataImpl cfg m s inObjectID inAddress qsz qd dsz inData).status,
          s, 0, [], []⟩ := by
  cases inAddress with
  | none => rfl
  | some a =>
    rw [SetPropertyDataImpl_eq] at hfail ⊢
    rcases @callObject_cases (SetResult F) inObjectID with hret | ⟨o, ho⟩
    · rw [hret] at hfail ⊢
      simp
    · rw [ho] at hfail ⊢
      have hst : (Driver.objSet cfg m s a qsz qd dsz inData 0 o).status
          ≠ kAudioHardwareNoError := by
        split_ifs at hfail <;> exact hfail
      obtain ⟨h1, h2, h3, h4⟩ := objSet_failure cfg m s a qsz qd dsz inData 0 o hst
      rw [if_neg (by rw [h2]; decide)]
      cases hr : Driver.objSet cfg m s a qsz qd dsz inData 0 o with
      | mk st state num addrs calls =>
        rw [hr] at h1 h2 h3 h4
        simp only at h1 h2 h3 h4
        rw [h1, h2, h3, h4]

/-- C34 in the example: a format with an unsupported sample rate (all other fields as the
stream reports them) is refused with the illegal-operation status and nothing happens. -/
theorem C34_set_error_atomicity_witness :
    Driver.SetPropertyDataImpl exampleConfig exampleMathLib (DriverState.initial exampleConfig)
        ObjectID.StreamOutput.toAudioObjectID
        (some ⟨kAudioStreamPropertyVirtualFormat, kAudioObjectPropertyScopeGlobal, 0⟩) 0 none
        sizeof_AudioStreamBasicDescription
        { exampleBlob with
          asAudioStreamBasicDescription :=
            { MasterStream.get_basic_description exampleConfig
                (DriverState.initial exampleConfig) with mSampleRate := 12345 } }
      = ⟨kAudioHardwareIllegalOperationError, DriverState.initial exampleConfig, 0, [], []⟩ :=
  have hst : (Driver.SetPropertyDataImpl exampleConfig exampleMathLib
      (DriverState.initial exampleConfig) ObjectID.StreamOutput.toAudioObjectID
      (some ⟨kAudioStreamPropertyVirtualFormat, kAudioObjectPropertyScopeGlobal, 0⟩) 0 none
      sizeof_AudioStreamBasicDescription
      { exampleBlob with
        asAudioStreamBasicDescription :=
          { MasterStream.get_basic_description exampleConfig
              (DriverState.initial exampleConfig) with mSampleRate := 12345 } }).status
      = kAudioHardwareIllegalOperationError := by
    simp [Driver.SetPropertyDataImpl, callObject, ObjectID.ofAudioObjectID,
      ObjectID.toAudioObjectID, kAudioObjectPlugInObject, Driver.objSet, stream.set,
      MasterStream.set_format, MasterStream.get_basic_description,
      Config.is_supported_sample_rate, exampleConfig, sizeof_AudioStreamBasicDescription]
  (C34_set_error_atomicity exampleConfig exampleMathLib (DriverState.initial exampleConfig)
    ObjectID.StreamOutput.toAudioObjectID
    (some ⟨kAudioStreamPropertyVirtualFormat, kAudioObjectPropertyScopeGlobal, 0⟩) 0 none
    sizeof_AudioStreamBasicDescription
    { exampleBlob with
      asAudioStreamBasicDescription :=
        { MasterStream.get_basic_description exampleConfig
            (DriverState.initial exampleConfig) with mSampleRate := 12345 } }
    (by rw [hst]; decide)).trans (by rw [hst])

/-! ## C35: `exists` and `size` -/

/-- For the plug-in, the box, the stream and the two controls, `exists` is true exactly when
`size` returns success. -/
theorem exists_iff_size [LinearOrderedField F] [FloorRing F] (cfg : Config F)
    (s : DriverState F) (a : Address) (qsz : Nat) (qd : Option CFStringRef) (n0 : Nat) :
    (∀ self : plugin, self.exists a = true ↔
      (self.size s a qsz qd n0).status = kAudioHardwareNoError) ∧
    (∀ self : box, self.exists a = true ↔
      (self.size a qsz qd n0).status = kAudioHardwareNoError) ∧
    (∀ self : stream, self.exists a = true ↔
      (self.size cfg a qsz qd n0).status = kAudioHardwareNoError) ∧
    (∀ self : volume_control, self.exists a = true ↔
      (self.size a qsz qd n0).status = kAudioHardwareNoError) ∧
    (∀ self : mute_control, self.exists a = true ↔
      (self.size a qsz qd n0).status = kAudioHardwareNoError) := by
  obtain ⟨sel, sc, el⟩ := a
  refine ⟨?_, ?_, ?_, ?_, ?_⟩
  · intro self
    cases sel <;> simp [plugin.exists, plugin.size]
  · intro self
    cases sel <;> simp [box.exists, box.size]
  · intro self
    cases sel <;> simp [stream.exists, stream.size]
  · intro self
    cases sel <;> simp [volume_control.exists, volume_control.size]
  · intro self
    cases sel <;> simp [mute_control.exists, mute_control.size]

/-- For the device, `exists` is true exactly when `size` returns success and, for the six
selectors that `exists` tests the scope of, the scope is input or output. -/
theorem device_exists_iff_size [LinearOrderedField F] [FloorRing F] (cfg : Config F)
    (self : device) (a : Address) (qsz : Nat) (qd : Option CFStringRef) (n0 : Nat) :
    self.exists a = true ↔
      ((self.size cfg a qsz qd n0).status = kAudioHardwareNoError ∧
        (a.mSelector ∈ [kAudioDevicePropertyDeviceCanBeDefaultDevice,
            kAudioDevicePropertyDeviceCanBeDefaultSystemDevice, kAudioDevicePropertyLatency,
            kAudioDevicePropertySafetyOffset, kAudioDevicePropertyPreferredChannelsForStereo,
            kAudioDevicePropertyPreferredChannelLayout] →
          a.mScope = kAudioObjectPropertyScopeInput ∨
            a.mScope = kAudioObjectPropertyScopeOutput)) := by
  obtain ⟨sel, sc, el⟩ := a
  cases sel <;> cases sc <;> simp [device.exists, device.size, mts.is_one_of]

/-- C35 fails for the device: at the address of the latency property in the global scope,
`HasProperty` answers false and `GetPropertyDataSize` returns success (4 bytes). -/
theorem C35_exists_agrees_with_size_counterexample :
    Driver.HasPropertyImpl ObjectID.Device.toAudioObjectID
        (some ⟨kAudioDevicePropertyLatency, kAudioObjectPropertyScopeGlobal, 0⟩) = false ∧
    Driver.GetPropertyDataSizeImpl exampleConfig (DriverState.initial exampleConfig)
        ObjectID.Device.toAudioObjectID
        (some ⟨kAudioDevicePropertyLatency, kAudioObjectPropertyScopeGlobal, 0⟩) 0 none (some 0)
      = ⟨kAudioHardwareNoError, 4⟩ := by
  constructor <;> rfl

/-- C35, amended: for every object kind and every property address, if `exists` is true then
`size` returns success; and if `size` returns success then `exists` is true, unless the object
is the device, the selector is one of the six that `device::exists` tests the scope of
(can-be-default-device, can-be-default-system-device, latency, safety offset, preferred
channels for stereo, preferred channel layout) and the scope is neither input nor output. -/
theorem C35_exists_agrees_with_size [LinearOrderedField F] [FloorRing F] (cfg : Config F)
    (s : DriverState F) (a : Address) (qsz : Nat) (qd : Option CFStringRef) (n0 : Nat)
    (o : AnyObject) :
    Driver.objExists a o = true ↔
      ((Driver.objSize cfg s a qsz qd n0 o).status = kAudioHardwareNoError ∧
        ¬ ((∃ d : device, o = .device d) ∧
          a.mSelector ∈ [kAudioDevicePropertyDeviceCanBeDefaultDevice,
            kAudioDevicePropertyDeviceCanBeDefaultSystemDevice, kAudioDevicePropertyLatency,
            kAudioDevicePropertySafetyOffset, kAudioDevicePropertyPreferredChannelsForStereo,
            kAudioDevicePropertyPreferredChannelLayout] ∧
          a.mScope ≠ kAudioObjectPropertyScopeInput ∧
          a.mScope ≠ kAudioObjectPropertyScopeOutput)) := by
  obtain ⟨hp, hb, hs, hv, hm⟩ := exists_iff_size cfg s a qsz qd n0
  cases o with
  | plugin o =>
    show o.exists a = true ↔ _
    rw [hp o]
    simp [Driver.objSize]
  | box o =>
    show o.exists a = true ↔ _
    rw [hb o]
    simp [Driver.objSize]
  | device o =>
    show o.exists a = true ↔ _
    rw [device_exists_iff_size cfg o a qsz qd n0]
    simp only [Driver.objSize]
    constructor
    · rintro ⟨h1, h2⟩
      refine ⟨h1, ?_⟩
      rintro ⟨-, hsel, hin, hout⟩
      rcases h2 hsel with h | h
      · exact hin h
      · exact hout h
    · rintro ⟨h1, h2⟩
      refine ⟨h1, fun hsel => ?_⟩
      by_contra hne
      exact h2 ⟨⟨o, rfl⟩, hsel, fun h => hne (Or.inl h), fun h => hne (Or.inr h)⟩
  | stream o =>
    show o.exists a = true ↔ _
    rw [hs o]
    simp [Driver.objSize]
  | volume_control o =>
    show o.exists a = true ↔ _
    rw [hv o]
    simp [Driver.objSize]
  | mute_control o =>
    show o.exists a = true ↔ _
    rw [hm o]
    simp [Driver.objSize]

/-- C35, amended, on the example: the device's latency in the input scope exists and has a
size. -/
theorem C35_exists_agrees_with_size_witness :
    Driver.objExists ⟨kAudioDevicePropertyLatency, kAudioObjectPropertyScopeInput, 0⟩
        (.device ⟨ObjectID.Device.toAudioObjectID, ObjectID.Plugin.toAudioObjectID⟩) = true ∧
    (Driver.objSize exampleConfig (DriverState.initial exampleConfig)
        ⟨kAudioDevicePropertyLatency, kAudioObjectPropertyScopeInput, 0⟩ 0 none 0
        (.device ⟨ObjectID.Device.toAudioObjectID, ObjectID.Plugin.toAudioObjectID⟩)).status
      = kAudioHardwareNoError :=
  ⟨rfl,
    ((C35_exists_agrees_with_size exampleConfig (DriverState.initial exampleConfig)
      ⟨kAudioDevicePropertyLatency, kAudioObjectPropertyScopeInput, 0⟩ 0 none 0
      (.device ⟨ObjectID.Device.toAudioObjectID, ObjectID.Plugin.toAudioObjectID⟩)).1 rfl).1⟩

/-! ## C36: `is_settable` and `set` -/

set_option maxHeartbeats 2000000 in
/-- The three statuses `MasterStream::set_format` returns. -/
theorem set_format_status [LinearOrderedField F] [FloorRing F] (cfg : Config F)
    (self : stream) (s : DriverState F) (desc : AudioStreamBasicDescription F) :
    (MasterStream.set_format cfg self s desc).1 = kAudioDeviceUnsupportedFormatError ∨
    (MasterStream.set_format cfg self s desc).1 = kAudioHardwareIllegalOperationError ∨
    (MasterStream.set_format cfg self s desc).1 = kAudioHardwareNoError := by
  unfold MasterStream.set_format
  split_ifs <;> try simp
  by_cases h : desc.mSampleRate = s.m_sampleRate <;> simp [h]

/-- In each class, `set` returns the unknown-property status exactly for the selectors that
`is_settable` does not report as settable. -/
theorem set_unknown_iff_not_settable [LinearOrderedField F] [FloorRing F] (cfg : Config F)
    (m : MathLib F) (s : DriverState F) (a : Address) (b : Bool) (qsz : Nat)
    (qd : Option CFStringRef) (dsz : Nat) (inData : Blob F) (n0 : Nat) :
    (∀ self : plugin, (self.set s a qsz qd dsz inData n0).status
      = kAudioHardwareUnknownPropertyError ↔
        ¬ self.is_settable a b = (kAudioHardwareNoError, true)) ∧
    (∀ self : box, (self.set cfg s a qsz qd dsz inData n0).status
      = kAudioHardwareUnknownPropertyError ↔
        ¬ self.is_settable a b = (kAudioHardwareNoError, true)) ∧
    (∀ self : device, (self.set cfg s a qsz qd dsz inData n0).status
      = kAudioHardwareUnknownPropertyError ↔
        ¬ self.is_settable a b = (kAudioHardwareNoError, true)) ∧
    (∀ self : stream, (self.set cfg s a qsz qd dsz inData n0).status
      = kAudioHardwareUnknownPropertyError ↔
        ¬ self.is_settable a b = (kAudioHardwareNoError, true)) ∧
    (∀ self : volume_control, (self.set cfg m s a qsz qd dsz inData n0).status
      = kAudioHardwareUnknownPropertyError ↔
        ¬ self.is_settable a b = (kAudioHardwareNoError, true)) ∧
    (∀ self : mute_control, (self.set s a qsz qd dsz inData n0).status
      = kAudioHardwareUnknownPropertyError ↔
        ¬ self.is_settable a b = (kAudioHardwareNoError, true)) := by
  obtain ⟨sel, sc, el⟩ := a
  refine ⟨?_, ?_, ?_, ?_, ?_, ?_⟩
  · intro self
    cases sel <;> simp [plugin.set, plugin.is_settable]
  · intro self
    cases sel <;> simp only [box.set, box.is_settable] <;> try (simp; done)
    · by_cases hsz : dsz < sizeof_CFStringRef
      · simp [hsz]
      · by_cases hr : (Box.set_box_name cfg s inData.asCFStringRef).ret = true <;>
          simp [hsz, hr]
    · generalize decide (inData.asUInt32 ≠ 0) = v
      by_cases hsz : dsz ≠ sizeof_UInt32
      · simp [hsz]
      · by_cases hr : (Box.set_acquired cfg self s v).ret = true <;> simp [hsz, hr]
  · intro self
    cases sel <;> simp only [device.set, device.is_settable] <;> try (simp; done)
    by_cases hsz : dsz = sizeof_Float64
    · simp only [hsz, ne_eq, not_true_eq_false, if_false]
      unfold Device.set_sample_rate
      by_cases h1 : cfg.is_supported_sample_rate inData.asFloat64 = true <;>
        by_cases h2 : s.m_sampleRate = inData.asFloat64 <;> simp [h1, h2]
    · simp [hsz]
  · intro self
    have hfmt : (MasterStream.set_format cfg self s inData.asAudioStreamBasicDescription).1
        ≠ kAudioHardwareUnknownPropertyError := by
      rcases set_format_status cfg self s inData.asAudioStreamBasicDescription with h | h | h <;>
        rw [h] <;> decide
    cases sel <;> simp only [stream.set, stream.is_settable] <;> try (simp; done)
    · generalize decide (inData.asUInt32 ≠ 0) = v
      by_cases hsz : dsz < sizeof_UInt32
      · simp [hsz]
      · by_cases hr : (MasterStream.set_active self s v).1 = true <;> simp [hsz, hr]
    · by_cases hsz : dsz = sizeof_AudioStreamBasicDescription
      · simpa [hsz] using hfmt
      · simp [hsz]
    · by_cases hsz : dsz = sizeof_AudioStreamBasicDescription
      · simpa [hsz] using hfmt
      · simp [hsz]
  · intro self
    cases sel <;> simp only [volume_control.set, volume_control.is_settable] <;> try (simp; done)
    · by_cases hsz : dsz < sizeof_Float32
      · simp [hsz]
      · by_cases hr : (MasterVolume.set_volume_normalized cfg m s inData.asFloat32).1 = true <;>
          simp [hsz, hr]
    · by_cases hsz : dsz < sizeof_Float32
      · simp [hsz]
      · by_cases hr : (MasterVolume.set_volume_decibel cfg m s inData.asFloat32).1 = true <;>
          simp [hsz, hr]
  · intro self
    cases sel <;> simp only [mute_control.set, mute_control.is_settable] <;> try (simp; done)
    generalize decide (inData.asUInt32 ≠ 0) = v
    by_cases hsz : dsz ≠ sizeof_UInt32
    · simp [hsz]
    · rw [if_neg hsz]
      by_cases hr : MasterMute.is_muted s ≠ v
      · rw [if_pos hr]
        simp
      · rw [if_neg hr]
        simp

/-- C36: for every object kind and every address, `set` returns the unknown-property status if
and only if `is_settable` does not report the property as settable (it fails or reports
false), whatever the size of the data; and then `set` changes nothing: the state is as before,
no address is stored and no host call is issued. -/
theorem C36_settable_agrees_with_set [LinearOrderedField F] [FloorRing F] (cfg : Config F)
    (m : MathLib F) (s : DriverState F) (a : Address) (b : Bool) (qsz : Nat)
    (qd : Option CFStringRef) (dsz : Nat) (inData : Blob F) (n0 : Nat) (o : AnyObject) :
    ((Driver.objSet cfg m s a qsz qd dsz inData n0 o).status
        = kAudioHardwareUnknownPropertyError ↔
      ¬ Driver.objIsSettable a b o = (kAudioHardwareNoError, true)) ∧
    (¬ Driver.objIsSettable a b o = (kAudioHardwareNoError, true) →
      Driver.objSet cfg m s a qsz qd dsz inData n0 o
        = ⟨kAudioHardwareUnknownPropertyError, s, n0, [], []⟩) := by
  obtain ⟨hp, hb, hd, hs, hv, hm⟩ :=
    set_unknown_iff_not_settable cfg m s a b qsz qd dsz inData n0
  have hiff : (Driver.objSet cfg m s a qsz qd dsz inData n0 o).status
      = kAudioHardwareUnknownPropertyError ↔
      ¬ Driver.objIsSettable a b o = (kAudioHardwareNoError, true) := by
    cases o with
    | plugin o => exact hp o
    | box o => exact hb o
    | device o => exact hd o
    | stream o => exact hs o
    | volume_control o => exact hv o
    | mute_control o => exact hm o
  refine ⟨hiff, fun hnot => ?_⟩
  have hst := hiff.2 hnot
  obtain ⟨h1, h2, h3, h4⟩ := objSet_failure cfg m s a qsz qd dsz inData n0 o
    (by rw [hst]; decide)
  cases hr : Driver.objSet cfg m s a qsz qd dsz inData n0 o with
  | mk st state num addrs calls =>
    rw [hr] at h1 h2 h3 h4 hst
    simp only at h1 h2 h3 h4 hst
    rw [h1, h2, h3, h4, hst]

/-- C36 on the example: the stream's direction is not settable and `set` refuses it; its
active flag is settable and `set` accepts it. -/
theorem C36_settable_agrees_with_set_witness :
    Driver.objIsSettable ⟨kAudioStreamPropertyDirection, kAudioObjectPropertyScopeGlobal, 0⟩
        false (.stream ⟨ObjectID.StreamInput.toAudioObjectID, ObjectID.Device.toAudioObjectID,
          mts.direction.input⟩) = (kAudioHardwareNoError, false) ∧
    Driver.objSet exampleConfig exampleMathLib (DriverState.initial exampleConfig)
        ⟨kAudioStreamPropertyDirection, kAudioObjectPropertyScopeGlobal, 0⟩ 0 none
        sizeof_UInt32 exampleBlob 0
        (.stream ⟨ObjectID.StreamInput.toAudioObjectID, ObjectID.Device.toAudioObjectID,
          mts.direction.input⟩)
      = ⟨kAudioHardwareUnknownPropertyError, DriverState.initial exampleConfig, 0, [], []⟩ ∧
    (Driver.objSet exampleConfig exampleMathLib (DriverState.initial exampleConfig)
        ⟨kAudioStreamPropertyIsActive, kAudioObjectPropertyScopeGlobal, 0⟩ 0 none
        sizeof_UInt32 exampleBlob 0
        (.stream ⟨ObjectID.StreamInput.toAudioObjectID, ObjectID.Device.toAudioObjectID,
          mts.direction.input⟩)).status ≠ kAudioHardwareUnknownPropertyError :=
  ⟨rfl,
    (C36_settable_agrees_with_set exampleConfig exampleMathLib
      (DriverState.initial exampleConfig)
      ⟨kAudioStreamPropertyDirection, kAudioObjectPropertyScopeGlobal, 0⟩ false 0 none
      sizeof_UInt32 exampleBlob 0
      (.stream ⟨ObjectID.StreamInput.toAudioObjectID, ObjectID.Device.toAudioObjectID,
        mts.direction.input⟩)).2 (by decide),
    fun h =>
      (C36_settable_agrees_with_set exampleConfig exampleMathLib
        (DriverState.initial exampleConfig)
        ⟨kAudioStreamPropertyIsActive, kAudioObjectPropertyScopeGlobal, 0⟩ false 0 none
        sizeof_UInt32 exampleBlob 0
        (.stream ⟨ObjectID.StreamInput.toAudioObjectID, ObjectID.Device.toAudioObjectID,
          mts.direction.input⟩)).1.1 h rfl⟩

/-! ## C37: the master controls of the two directions -/

/-- The scalar path: `set_volume_normalized` stores the amplitude of its input, whatever the
state before. -/
theorem set_volume_normalized_value [LinearOrderedField F] (cfg : Config F) (m : MathLib F)
    (s : DriverState F) (value : F) :
    (MasterVolume.set_volume_normalized cfg m s value).2.m_volumeMasterValue
      = mts.normalized_value_to_amplitude m value cfg.volume_min_db cfg.volume_max_db := by
  unfold MasterVolume.set_volume_normalized
  simp only
  split_ifs with h
  · exact h
  · rfl

/-- `MasterStream::set_active` stores the flag of its own direction only. -/
theorem set_active_other_stream [LinearOrderedField F] (self : stream) (s : DriverState F)
    (active : Bool) :
    (self.m_direction = mts.direction.input →
      (MasterStream.set_active self s active).2.m_streamOutputActive
        = s.m_streamOutputActive) ∧
    (self.m_direction = mts.direction.output →
      (MasterStream.set_active self s active).2.m_streamInputActive
        = s.m_streamInputActive) := by
  constructor
  · intro hdir
    unfold MasterStream.set_active MasterStream.isInput
    rw [hdir]
    simp only [decide_True, if_true]
    split_ifs <;> rfl
  · intro hdir
    unfold MasterStream.set_active MasterStream.isInput
    rw [hdir]
    rw [if_neg (by decide)]
    split_ifs <;> rfl

/-- The state `SetPropertyData` returns is the state the object's `set` returns. -/
theorem SetPropertyDataImpl_state [LinearOrderedField F] [FloorRing F] (cfg : Config F)
    (m : MathLib F) (s : DriverState F) (inObjectID : AudioObjectID) (a : Address) (qsz : Nat)
    (qd : Option CFStringRef) (dsz : Nat) (inData : Blob F) :
    (Driver.SetPropertyDataImpl cfg m s inObjectID (some a) qsz qd dsz inData).state
      = (callObject inObjectID (Driver.objSet cfg m s a qsz qd dsz inData 0)
          ⟨kAudioHardwareBadObjectError, s, 0, [], []⟩).state := by
  rw [SetPropertyDataImpl_eq]
  split_ifs <;> rfl

/-- The state after `set` of a mute control's value with 4 bytes of data: muted exactly when
the data is not zero. -/
theorem mute_control_set_state [LinearOrderedField F] (self : mute_control)
    (s : DriverState F) (sc : Scope) (el qsz : Nat) (qd : Option CFStringRef) (inData : Blob F)
    (n0 : Nat) :
    (self.set s ⟨kAudioBooleanControlPropertyValue, sc, el⟩ qsz qd sizeof_UInt32 inData
      n0).state.m_muteMasterValue = decide (inData.asUInt32 ≠ 0) := by
  simp only [mute_control.set]
  generalize decide (inData.asUInt32 ≠ 0) = v
  rw [if_neg (by simp)]
  by_cases hne : MasterMute.is_muted s ≠ v
  · rw [if_pos hne]
    rfl
  · rw [if_neg hne]
    simpa [MasterMute.is_muted] using hne

/-- The state after `set` of a volume control's scalar value with 4 bytes of data. -/
theorem volume_control_set_state [LinearOrderedField F] (cfg : Config F) (m : MathLib F)
    (self : volume_control) (s : DriverState F) (sc : Scope) (el qsz : Nat)
    (qd : Option CFStringRef) (inData : Blob F) (n0 : Nat) :
    (self.set cfg m s ⟨kAudioLevelControlPropertyScalarValue, sc, el⟩ qsz qd sizeof_Float32
      inData n0).state = (MasterVolume.set_volume_normalized cfg m s inData.asFloat32).2 := by
  simp only [volume_control.set]
  rw [if_neg (by simp)]
  by_cases hr : (MasterVolume.set_volume_normalized cfg m s inData.asFloat32).1 = true
  · rw [if_pos hr]
  · rw [if_neg hr]

/-- The state after `set` of a stream's active flag with 4 bytes of data. -/
theorem stream_set_state [LinearOrderedField F] [FloorRing F] (cfg : Config F) (self : stream)
    (s : DriverState F) (sc : Scope) (el qsz : Nat) (qd : Option CFStringRef) (inData : Blob F)
    (n0 : Nat) :
    (self.set cfg s ⟨kAudioStreamPropertyIsActive, sc, el⟩ qsz qd sizeof_UInt32 inData
      n0).state = (MasterStream.set_active self s (decide (inData.asUInt32 ≠ 0))).2 := by
  simp only [stream.set]
  generalize decide (inData.asUInt32 ≠ 0) = v
  rw [if_neg (by simp)]
  by_cases hr : (MasterStream.set_active self s v).1 = true
  · rw [if_pos hr]
  · rw [if_neg hr]

/-- C37: the two mute controls read one value and the two volume controls read one value. In
every state, `GetPropertyData` of the mute value answers the same through the input and the
output mute control, and likewise the scalar value and the decibel value through the two
volume controls; after a `SetPropertyData` of the mute value through the input control, the
output control reads the value set, and a set of the scalar or decibel value through one volume
control leaves a state in which both read the same. A set of the active flag of the input
stream leaves the flag of the output stream as it was, and the other way round. -/
theorem C37_master_controls_share_value [LinearOrderedField F] [FloorRing F]
    (cfg : Config F) (m : MathLib F) (env : Environment) (s : DriverState F) (sc : Scope)
    (el qsz : Nat) (qd : Option CFStringRef) (cap : Nat) (n0 : Option Nat)
    (d : Option (Blob F)) (inData : Blob F) :
    Driver.GetPropertyDataImpl cfg m env s ObjectID.MuteInputMaster.toAudioObjectID
        (some ⟨kAudioBooleanControlPropertyValue, sc, el⟩) qsz qd cap n0 d
      = Driver.GetPropertyDataImpl cfg m env s ObjectID.MuteOutputMaster.toAudioObjectID
        (some ⟨kAudioBooleanControlPropertyValue, sc, el⟩) qsz qd cap n0 d ∧
    (∀ sel ∈ [kAudioLevelControlPropertyScalarValue, kAudioLevelControlPropertyDecibelValue],
      Driver.GetPropertyDataImpl cfg m env s ObjectID.VolumeInputMaster.toAudioObjectID
          (some ⟨sel, sc, el⟩) qsz qd cap n0 d
        = Driver.GetPropertyDataImpl cfg m env s ObjectID.VolumeOutputMaster.toAudioObjectID
          (some ⟨sel, sc, el⟩) qsz qd cap n0 d) ∧
    Driver.GetPropertyDataImpl cfg m env
        (Driver.SetPropertyDataImpl cfg m s ObjectID.MuteInputMaster.toAudioObjectID
          (some ⟨kAudioBooleanControlPropertyValue, sc, el⟩) qsz qd sizeof_UInt32 inData).state
        ObjectID.MuteOutputMaster.toAudioObjectID
        (some ⟨kAudioBooleanControlPropertyValue, sc, el⟩) qsz qd sizeof_UInt32 (some 0)
        (some inData)
      = ⟨kAudioHardwareNoError, sizeof_UInt32,
          some (.uint32 (if inData.asUInt32 ≠ 0 then 1 else 0))⟩ ∧
    (Driver.SetPropertyDataImpl cfg m s ObjectID.VolumeInputMaster.toAudioObjectID
        (some ⟨kAudioLevelControlPropertyScalarValue, sc, el⟩) qsz qd sizeof_Float32
        inData).state.m_volumeMasterValue
      = mts.normalized_value_to_amplitude m inData.asFloat32 cfg.volume_min_db
          cfg.volume_max_db ∧
    (Driver.SetPropertyDataImpl cfg m s ObjectID.StreamInput.toAudioObjectID
        (some ⟨kAudioStreamPropertyIsActive, sc, el⟩) qsz qd sizeof_UInt32
        inData).state.m_streamOutputActive = s.m_streamOutputActive ∧
    (Driver.SetPropertyDataImpl cfg m s ObjectID.StreamOutput.toAudioObjectID
        (some ⟨kAudioStreamPropertyIsActive, sc, el⟩) qsz qd sizeof_UInt32
        inData).state.m_streamInputActive = s.m_streamInputActive := by
  refine ⟨?_, ?_, ?_, ?_, ?_, ?_⟩
  · cases n0 <;> cases d <;> rfl
  · intro sel hsel
    simp only [List.mem_cons, List.mem_singleton, List.not_mem_nil, or_false] at hsel
    rcases hsel with rfl | rfl <;> cases n0 <;> cases d <;> rfl
  · have hset : (Driver.SetPropertyDataImpl cfg m s ObjectID.MuteInputMaster.toAudioObjectID
        (some ⟨kAudioBooleanControlPropertyValue, sc, el⟩) qsz qd sizeof_UInt32
        inData).state.m_muteMasterValue = decide (inData.asUInt32 ≠ 0) := by
      rw [SetPropertyDataImpl_state]
      exact mute_control_set_state ⟨ObjectID.MuteInputMaster.toAudioObjectID,
        ObjectID.Device.toAudioObjectID, mts.direction.input⟩ s sc el qsz qd inData 0
    have hget : ∀ s1 : DriverState F,
        Driver.GetPropertyDataImpl cfg m env s1 ObjectID.MuteOutputMaster.toAudioObjectID
          (some ⟨kAudioBooleanControlPropertyValue, sc, el⟩) qsz qd sizeof_UInt32 (some 0)
          (some inData)
        = ⟨kAudioHardwareNoError, sizeof_UInt32,
            some (.uint32 (if s1.m_muteMasterValue then 1 else 0))⟩ := by
      intro s1
      simp [Driver.GetPropertyDataImpl, callObject, ObjectID.ofAudioObjectID,
        ObjectID.toAudioObjectID, kAudioObjectPlugInObject, Driver.objGet, mute_control.get,
        checkedAssign, MasterMute.is_muted]
    rw [hget, hset]
    simp
  · rw [SetPropertyDataImpl_state]
    show (volume_control.set cfg m ⟨ObjectID.VolumeInputMaster.toAudioObjectID,
      ObjectID.Device.toAudioObjectID, mts.direction.input⟩ s
      ⟨kAudioLevelControlPropertyScalarValue, sc, el⟩ qsz qd sizeof_Float32 inData
      0).state.m_volumeMasterValue = _
    rw [volume_control_set_state]
    exact set_volume_normalized_value cfg m s _
  · rw [SetPropertyDataImpl_state]
    show (stream.set cfg ⟨ObjectID.StreamInput.toAudioObjectID,
      ObjectID.Device.toAudioObjectID, mts.direction.input⟩ s
      ⟨kAudioStreamPropertyIsActive, sc, el⟩ qsz qd sizeof_UInt32 inData
      0).state.m_streamOutputActive = _
    rw [stream_set_state]
    exact (set_active_other_stream _ s _).1 rfl
  · rw [SetPropertyDataImpl_state]
    show (stream.set cfg ⟨ObjectID.StreamOutput.toAudioObjectID,
      ObjectID.Device.toAudioObjectID, mts.direction.output⟩ s
      ⟨kAudioStreamPropertyIsActive, sc, el⟩ qsz qd sizeof_UInt32 inData
      0).state.m_streamInputActive = _
    rw [stream_set_state]
    exact (set_active_other_stream _ s _).2 rfl

/-- C37 on the example: muting through the input control is read back through the output
control. -/
theorem C37_master_controls_share_value_witness :
    Driver.GetPropertyDataImpl exampleConfig exampleMathLib exampleEnvironment
        (Driver.SetPropertyDataImpl exampleConfig exampleMathLib
          (DriverState.initial exampleConfig) ObjectID.MuteInputMaster.toAudioObjectID
          (some ⟨kAudioBooleanControlPropertyValue, kAudioObjectPropertyScopeGlobal, 0⟩) 0 none
          sizeof_UInt32 { exampleBlob with asUInt32 := 1 }).state
        ObjectID.MuteOutputMaster.toAudioObjectID
        (some ⟨kAudioBooleanControlPropertyValue, kAudioObjectPropertyScopeGlobal, 0⟩) 0 none
        sizeof_UInt32 (some 0) (some { exampleBlob with asUInt32 := 1 })
      = ⟨kAudioHardwareNoError, 4, some (.uint32 1)⟩ :=
  (C37_master_controls_share_value exampleConfig exampleMathLib exampleEnvironment
    (DriverState.initial exampleConfig) kAudioObjectPropertyScopeGlobal 0 0 none 0 none none
    { exampleBlob with asUInt32 := 1 }).2.2.1.trans (by rfl)

/-! ## C38: the children of the device -/

theorem owned_object_resolves [LinearOrderedField F] [FloorRing F] (cfg : Config F)
    (m : MathLib F) (env : Environment) (s : DriverState F) (qsz : Nat)
    (qd : Option CFStringRef) (n0 : Nat) (d : Blob F) (dir : mts.direction)
    (ids : List ObjectID) (k : Nat) (id : AudioObjectID)
    (hids : (dir = mts.direction.input ∧ ids = [ObjectID.StreamInput,
        ObjectID.VolumeInputMaster, ObjectID.MuteInputMaster]) ∨
      (dir = mts.direction.output ∧ ids = [ObjectID.StreamOutput,
        ObjectID.VolumeOutputMaster, ObjectID.MuteOutputMaster]))
    (hid : id ∈ (ids.map ObjectID.toAudioObjectID).take k) :
    ∃ o : AnyObject,
      (∀ (R : Type) (fct : AnyObject → R) (ret : R), callObject id fct ret = fct o) ∧
      Driver.GetPropertyDataImpl cfg m env s id
          (some ⟨kAudioObjectPropertyOwner, kAudioObjectPropertyScopeGlobal, 0⟩) qsz qd
          sizeof_AudioObjectID (some n0) (some d)
        = ⟨kAudioHardwareNoError, sizeof_AudioObjectID,
            some (.objectID ObjectID.Device.toAudioObjectID)⟩ ∧
      ((∃ st : stream, o = .stream st) ↔
        id ∈ [ObjectID.StreamInput, ObjectID.StreamOutput].map ObjectID.toAudioObjectID) ∧
      ((∃ st : stream, o = .stream st) ↔
        id ∈ [if dir = mts.direction.input then ObjectID.StreamInput.toAudioObjectID
          else ObjectID.StreamOutput.toAudioObjectID]) ∧
      ((∃ st : stream, o = .stream st) →
        Driver.GetPropertyDataImpl cfg m env s id
            (some ⟨kAudioStreamPropertyDirection, kAudioObjectPropertyScopeGlobal, 0⟩) qsz qd
            sizeof_UInt32 (some n0) (some d)
          = ⟨kAudioHardwareNoError, sizeof_UInt32,
              some (.uint32 (if dir = mts.direction.input then 1 else 0))⟩) ∧
      (((∃ c : volume_control, o = .volume_control c) ∨
          (∃ c : mute_control, o = .mute_control c)) ↔
        id ∈ [ObjectID.VolumeInputMaster, ObjectID.MuteInputMaster,
          ObjectID.VolumeOutputMaster, ObjectID.MuteOutputMaster].map
            ObjectID.toAudioObjectID) ∧
      (((∃ c : volume_control, o = .volume_control c) ∨
          (∃ c : mute_control, o = .mute_control c)) →
        Driver.GetPropertyDataImpl cfg m env s id
            (some ⟨kAudioControlPropertyScope, kAudioObjectPropertyScopeGlobal, 0⟩) qsz qd
            sizeof_AudioObjectPropertyScope (some n0) (some d)
          = ⟨kAudioHardwareNoError, sizeof_AudioObjectPropertyScope,
              some (.scope (directionScope dir))⟩) := by
  have hmem := List.mem_of_mem_take hid
  rcases hids with ⟨hd, hl⟩ | ⟨hd, hl⟩ <;> subst hd <;> subst hl <;>
    simp only [List.map, List.mem_cons, List.mem_singleton, List.not_mem_nil, or_false] at hmem <;>
    rcases hmem with h | h | h <;> subst h
  all_goals
    refine ⟨_, fun _ _ _ => rfl, rfl, ?_, ?_, ?_, ?_, ?_⟩
  all_goals
    first
      | exact fun _ => rfl
      | (rintro (⟨c, h⟩ | ⟨c, h⟩) <;> exact AnyObject.noConfusion h)
      | (rintro ⟨st, h⟩; exact AnyObject.noConfusion h)
      | simp [ObjectID.toAudioObjectID, kAudioObjectPlugInObject]


/-- C38. The children of the device are registered consistently. With room for six
identifiers, `get` of the owned-objects property of the device in the global scope stores
exactly `StreamInput`, `VolumeInputMaster`, `MuteInputMaster`, `StreamOutput`,
`VolumeOutputMaster`, `MuteOutputMaster`. For each direction and every capacity, every
identifier stored by `get` of the owned-objects property in the scope of that direction (all
three of them when the capacity holds three identifiers) is handed by `callObject` to an
object whose owner property reads the device; that object is a stream exactly when the
identifier is in the streams list of the device (global, and of that scope), and then its
direction property reads that direction (1 for input, 0 for output); it is a control (volume
or mute) exactly when the identifier is in the control list, and then its scope property
reads the scope of that direction. -/
theorem C38_registry_consistency [LinearOrderedField F] [FloorRing F] (cfg : Config F)
    (m : MathLib F) (env : Environment) (s : DriverState F) (el qsz : Nat)
    (qd : Option CFStringRef) (cap n0 : Nat) (d : Blob F) :
    (Driver.GetPropertyDataImpl cfg m env s ObjectID.Device.toAudioObjectID
        (some ⟨kAudioObjectPropertyOwnedObjects, kAudioObjectPropertyScopeGlobal, el⟩) qsz qd
        (6 * sizeof_AudioObjectID) (some n0) (some d)).outData
      = some (.objectList [ObjectID.StreamInput.toAudioObjectID,
          ObjectID.VolumeInputMaster.toAudioObjectID, ObjectID.MuteInputMaster.toAudioObjectID,
          ObjectID.StreamOutput.toAudioObjectID, ObjectID.VolumeOutputMaster.toAudioObjectID,
          ObjectID.MuteOutputMaster.toAudioObjectID]) ∧
    ∀ dir : mts.direction, ∃ owned streams scopedStreams controls : List AudioObjectID,
      (Driver.GetPropertyDataImpl cfg m env s ObjectID.Device.toAudioObjectID
          (some ⟨kAudioObjectPropertyOwnedObjects, directionScope dir, el⟩) qsz qd
          cap (some n0) (some d)).outData = some (.objectList owned) ∧
      (Driver.GetPropertyDataImpl cfg m env s ObjectID.Device.toAudioObjectID
          (some ⟨kAudioDevicePropertyStreams, kAudioObjectPropertyScopeGlobal, el⟩) qsz qd
          (6 * sizeof_AudioObjectID) (some n0) (some d)).outData
        = some (.objectList streams) ∧
      (Driver.GetPropertyDataImpl cfg m env s ObjectID.Device.toAudioObjectID
          (some ⟨kAudioDevicePropertyStreams, directionScope dir, el⟩) qsz qd
          (6 * sizeof_AudioObjectID) (some n0) (some d)).outData
        = some (.objectList scopedStreams) ∧
      (Driver.GetPropertyDataImpl cfg m env s ObjectID.Device.toAudioObjectID
          (some ⟨kAudioObjectPropertyControlList, kAudioObjectPropertyScopeGlobal, el⟩) qsz qd
          (6 * sizeof_AudioObjectID) (some n0) (some d)).outData
        = some (.objectList controls) ∧
      (3 * sizeof_AudioObjectID ≤ cap → owned.length = 3) ∧
      ∀ id ∈ owned, ∃ o : AnyObject,
        (∀ (R : Type) (fct : AnyObject → R) (ret : R), callObject id fct ret = fct o) ∧
        Driver.GetPropertyDataImpl cfg m env s id
            (some ⟨kAudioObjectPropertyOwner, kAudioObjectPropertyScopeGlobal, 0⟩) qsz qd
            sizeof_AudioObjectID (some n0) (some d)
          = ⟨kAudioHardwareNoError, sizeof_AudioObjectID,
              some (.objectID ObjectID.Device.toAudioObjectID)⟩ ∧
        ((∃ st : stream, o = .stream st) ↔ id ∈ streams) ∧
        ((∃ st : stream, o = .stream st) ↔ id ∈ scopedStreams) ∧
        ((∃ st : stream, o = .stream st) →
          Driver.GetPropertyDataImpl cfg m env s id
              (some ⟨kAudioStreamPropertyDirection, kAudioObjectPropertyScopeGlobal, 0⟩) qsz qd
              sizeof_UInt32 (some n0) (some d)
            = ⟨kAudioHardwareNoError, sizeof_UInt32,
                some (.uint32 (if dir = mts.direction.input then 1 else 0))⟩) ∧
        (((∃ c : volume_control, o = .volume_control c) ∨
            (∃ c : mute_control, o = .mute_control c)) ↔ id ∈ controls) ∧
        (((∃ c : volume_control, o = .volume_control c) ∨
            (∃ c : mute_control, o = .mute_control c)) →
          Driver.GetPropertyDataImpl cfg m env s id
              (some ⟨kAudioControlPropertyScope, kAudioObjectPropertyScopeGlobal, 0⟩) qsz qd
              sizeof_AudioObjectPropertyScope (some n0) (some d)
            = ⟨kAudioHardwareNoError, sizeof_AudioObjectPropertyScope,
                some (.scope (directionScope dir))⟩) := by
  obtain ⟨-, hi, ho, -, -, -, -⟩ := device_lists (cap / sizeof_AudioObjectID)
  refine ⟨rfl, fun dir => ?_⟩
  cases dir
  · refine ⟨(device.get_input_object_list (cap / sizeof_AudioObjectID)).1, _, _, _,
      rfl, rfl, rfl, rfl, ?_, ?_⟩
    · intro hcap
      have h3 : 3 ≤ cap / sizeof_AudioObjectID :=
        (Nat.le_div_iff_mul_le (by decide)).2 hcap
      rw [hi, min_eq_right h3]
      rfl
    · intro id hid
      rw [hi] at hid
      exact owned_object_resolves cfg m env s qsz qd n0 d mts.direction.input _ _ id
        (Or.inl ⟨rfl, rfl⟩) hid
  · refine ⟨(device.get_output_object_list (cap / sizeof_AudioObjectID)).1, _, _, _,
      rfl, rfl, rfl, rfl, ?_, ?_⟩
    · intro hcap
      have h3 : 3 ≤ cap / sizeof_AudioObjectID :=
        (Nat.le_div_iff_mul_le (by decide)).2 hcap
      rw [ho, min_eq_right h3]
      rfl
    · intro id hid
      rw [ho] at hid
      exact owned_object_resolves cfg m env s qsz qd n0 d mts.direction.output _ _ id
        (Or.inr ⟨rfl, rfl⟩) hid

/-! ## C39: the filling loops end inside their arrays -/

theorem fillLoop_done (p : mts.object_description → Bool)
    (descs : List mts.object_description) (itemCount fuel i k : Nat) (t : FillTrace)
    (h : ¬ k < itemCount) : fillLoop p descs itemCount fuel i k t = .done t := by
  cases fuel <;> simp [fillLoop, h]

theorem fillLoop_fuel (p : mts.object_description → Bool)
    (descs : List mts.object_description) (itemCount extra : Nat) :
    ∀ (fuel i k : Nat) (t r : FillTrace),
      fillLoop p descs itemCount fuel i k t = .done r →
        fillLoop p descs itemCount (extra + fuel) i k t = .done r := by
  intro fuel
  induction fuel with
  | zero =>
    intro i k t r h
    by_cases hk : k < itemCount
    · simp [fillLoop, hk] at h
    · rw [fillLoop_done p descs itemCount _ i k t hk] at h ⊢
      exact h
  | succ fuel ih =>
    intro i k t r h
    by_cases hk : k < itemCount
    · rw [← Nat.add_assoc]
      unfold fillLoop at h ⊢
      simp only [hk, if_true] at h ⊢
      cases hd : descs[i]? with
      | none => simp [hd] at h
      | some o =>
        simp only [hd] at h ⊢
        by_cases hp : p o = true
        · simp only [hp, if_true] at h ⊢
          exact ih _ _ _ _ h
        · simp only [hp] at h ⊢
          exact ih _ _ _ _ h
    · rw [fillLoop_done p descs itemCount _ i k t hk] at h ⊢
      exact h

theorem run_filtered_list_terminates (p : mts.object_description → Bool) (n : Nat)
    (itemCount extra : Nat)
    (hn : countMatching p Device.objectsDescription = n)
    (hrun : ∀ k, k ≤ n → ∃ t : FillTrace,
      fillLoop p Device.objectsDescription k (extra + Device.objectsDescription.length) 0 0
        ⟨[], []⟩ = .done t ∧
      (∀ i ∈ t.reads, i < Device.objectsDescription.length) ∧
      (∀ w ∈ t.writes, w.1 < k) ∧
      t.writes.map Prod.snd = fillMatching p Device.objectsDescription k) :
    ∃ t : FillTrace,
      device.run_filtered_list p n itemCount (extra + Device.objectsDescription.length)
        = (.done t, (device.get_filtered_list p n itemCount).2) ∧
      (∀ i ∈ t.reads, i < Device.objectsDescription.length) ∧
      (∀ w ∈ t.writes, w.1 < min itemCount (countMatching p Device.objectsDescription)) ∧
      t.writes.map Prod.snd = (device.get_filtered_list p n itemCount).1 := by
  obtain ⟨t, h1, h2, h3, h4⟩ := hrun (min itemCount n) (min_le_right _ _)
  refine ⟨t, ?_, h2, ?_, ?_⟩
  · simp only [device.run_filtered_list, device.get_filtered_list, mts_min_eq, h1]
  · rw [hn]
    exact h3
  · simp only [device.get_filtered_list, mts_min_eq]
    exact h4

theorem input_object_list_run (extra k : Nat) (hk : k ≤ 3) :
    ∃ t : FillTrace,
      fillLoop device.isInput Device.objectsDescription k
        (extra + Device.objectsDescription.length) 0 0 ⟨[], []⟩ = .done t ∧
      (∀ i ∈ t.reads, i < Device.objectsDescription.length) ∧
      (∀ w ∈ t.writes, w.1 < k) ∧
      t.writes.map Prod.snd = fillMatching device.isInput Device.objectsDescription k := by
  interval_cases k
  all_goals
    exact ⟨_, fillLoop_fuel _ _ _ extra _ 0 0 _ _ rfl, by decide, by decide, rfl⟩

theorem output_object_list_run (extra k : Nat) (hk : k ≤ 3) :
    ∃ t : FillTrace,
      fillLoop device.isOutput Device.objectsDescription k
        (extra + Device.objectsDescription.length) 0 0 ⟨[], []⟩ = .done t ∧
      (∀ i ∈ t.reads, i < Device.objectsDescription.length) ∧
      (∀ w ∈ t.writes, w.1 < k) ∧
      t.writes.map Prod.snd = fillMatching device.isOutput Device.objectsDescription k := by
  interval_cases k
  all_goals
    exact ⟨_, fillLoop_fuel _ _ _ extra _ 0 0 _ _ rfl, by decide, by decide, rfl⟩

theorem global_stream_list_run (extra k : Nat) (hk : k ≤ 2) :
    ∃ t : FillTrace,
      fillLoop device.isStream Device.objectsDescription k
        (extra + Device.objectsDescription.length) 0 0 ⟨[], []⟩ = .done t ∧
      (∀ i ∈ t.reads, i < Device.objectsDescription.length) ∧
      (∀ w ∈ t.writes, w.1 < k) ∧
      t.writes.map Prod.snd = fillMatching device.isStream Device.objectsDescription k := by
  interval_cases k
  all_goals
    exact ⟨_, fillLoop_fuel _ _ _ extra _ 0 0 _ _ rfl, by decide, by decide, rfl⟩

theorem input_stream_list_run (extra k : Nat) (hk : k ≤ 1) :
    ∃ t : FillTrace,
      fillLoop (fun o => device.isStream o && device.isInput o) Device.objectsDescription k
        (extra + Device.objectsDescription.length) 0 0 ⟨[], []⟩ = .done t ∧
      (∀ i ∈ t.reads, i < Device.objectsDescription.length) ∧
      (∀ w ∈ t.writes, w.1 < k) ∧
      t.writes.map Prod.snd = fillMatching (fun o => device.isStream o && device.isInput o) Device.objectsDescription k := by
  interval_cases k
  all_goals
    exact ⟨_, fillLoop_fuel _ _ _ extra _ 0 0 _ _ rfl, by decide, by decide, rfl⟩

theorem output_stream_list_run (extra k : Nat) (hk : k ≤ 1) :
    ∃ t : FillTrace,
      fillLoop (fun o => device.isStream o && device.isOutput o) Device.objectsDescription k
        (extra + Device.objectsDescription.length) 0 0 ⟨[], []⟩ = .done t ∧
      (∀ i ∈ t.reads, i < Device.objectsDescription.length) ∧
      (∀ w ∈ t.writes, w.1 < k) ∧
      t.writes.map Prod.snd = fillMatching (fun o => device.isStream o && device.isOutput o) Device.objectsDescription k := by
  interval_cases k
  all_goals
    exact ⟨_, fillLoop_fuel _ _ _ extra _ 0 0 _ _ rfl, by decide, by decide, rfl⟩

theorem control_list_run (extra k : Nat) (hk : k ≤ 4) :
    ∃ t : FillTrace,
      fillLoop device.isControl Device.objectsDescription k
        (extra + Device.objectsDescription.length) 0 0 ⟨[], []⟩ = .done t ∧
      (∀ i ∈ t.reads, i < Device.objectsDescription.length) ∧
      (∀ w ∈ t.writes, w.1 < k) ∧
      t.writes.map Prod.snd = fillMatching device.isControl Device.objectsDescription k := by
  interval_cases k
  all_goals
    exact ⟨_, fillLoop_fuel _ _ _ extra _ 0 0 _ _ rfl, by decide, by decide, rfl⟩

/-- C39. The six filtered list builders of the device end and stay inside both arrays. For
every requested item count, each of `get_input_object_list`, `get_output_object_list`,
`get_global_stream_list`, `get_input_stream_list`, `get_output_stream_list` and
`get_control_list`, run step by step with at least as many iterations allowed as
`objectsDescription` has entries, ends because its loop condition became false: it does not
run out of iterations and does not read `objectsDescription` outside its bounds. Every index
at which it read `objectsDescription` is below the length of that array, every index at which
it stored into the output array is below the minimum of the requested count and the number
of matching entries, and the identifiers stored and the count returned are those of the
builder. -/
theorem C39_list_builders_terminate (itemCount extra : Nat) :
    ∀ b ∈ [(device.isInput, device.get_input_object_list_size, device.get_input_object_list),
        (device.isOutput, device.get_output_object_list_size, device.get_output_object_list),
        (device.isStream, device.get_global_stream_list_size, device.get_global_stream_list),
        ((fun o => device.isStream o && device.isInput o), device.get_input_stream_list_size,
          device.get_input_stream_list),
        ((fun o => device.isStream o && device.isOutput o), device.get_output_stream_list_size,
          device.get_output_stream_list),
        (device.isControl, device.get_control_list_size, device.get_control_list)],
      ∃ t : FillTrace,
        device.run_filtered_list b.1 b.2.1 itemCount
            (extra + Device.objectsDescription.length)
          = (.done t, (b.2.2 itemCount).2) ∧
        (∀ i ∈ t.reads, i < Device.objectsDescription.length) ∧
        (∀ w ∈ t.writes, w.1 < min itemCount (countMatching b.1 Device.objectsDescription)) ∧
        t.writes.map Prod.snd = (b.2.2 itemCount).1 := by
  intro b hb
  simp only [List.mem_cons, List.mem_singleton, List.not_mem_nil, or_false] at hb
  rcases hb with rfl | rfl | rfl | rfl | rfl | rfl
  · exact run_filtered_list_terminates _ _ itemCount extra rfl (input_object_list_run extra)
  · exact run_filtered_list_terminates _ _ itemCount extra rfl (output_object_list_run extra)
  · exact run_filtered_list_terminates _ _ itemCount extra rfl (global_stream_list_run extra)
  · exact run_filtered_list_terminates _ _ itemCount extra rfl (input_stream_list_run extra)
  · exact run_filtered_list_terminates _ _ itemCount extra rfl (output_stream_list_run extra)
  · exact run_filtered_list_terminates _ _ itemCount extra rfl (control_list_run extra)

/-- The output object list requested with room for five identifiers and exactly six
iterations allowed: the loop reads all six entries, stores the three output identifiers at
the indices 0, 1 and 2 and ends. With five iterations it would not have ended. -/
theorem C39_list_builders_terminate_witness :
    (∃ t : FillTrace,
      device.run_filtered_list device.isOutput device.get_output_object_list_size 5
          (0 + Device.objectsDescription.length)
        = (.done t, (device.get_output_object_list 5).2) ∧
      (∀ i ∈ t.reads, i < Device.objectsDescription.length) ∧
      (∀ w ∈ t.writes,
        w.1 < min 5 (countMatching device.isOutput Device.objectsDescription)) ∧
      t.writes.map Prod.snd = (device.get_output_object_list 5).1) ∧
    device.run_filtered_list device.isOutput device.get_output_object_list_size 5 6
      = (.done ⟨[0, 1, 2, 3, 4, 5], [(0, ObjectID.StreamOutput.toAudioObjectID),
          (1, ObjectID.VolumeOutputMaster.toAudioObjectID),
          (2, ObjectID.MuteOutputMaster.toAudioObjectID)]⟩, 3) ∧
    device.run_filtered_list device.isOutput device.get_output_object_list_size 5 5
      = (.outOfFuel ⟨[0, 1, 2, 3, 4], [(0, ObjectID.StreamOutput.toAudioObjectID),
          (1, ObjectID.VolumeOutputMaster.toAudioObjectID)]⟩, 3) :=
  ⟨C39_list_builders_terminate 5 0
      (device.isOutput, device.get_output_object_list_size, device.get_output_object_list)
      (by simp),
    rfl, rfl⟩

/-! ## C40: scalar and decibel values of the volume control -/

theorem clamp_eq_self [LinearOrderedField F] (d lo hi : F) (h1 : lo ≤ d) (h2 : d ≤ hi) :
    mts.clamp d lo hi = d := by
  unfold mts.clamp
  rw [if_neg (not_lt.2 h1)]
  exact if_neg (not_lt.2 h2)

/-- C40 fails in the code. For a scalar `v` strictly between 0 and 1, a gain range with
`volume_min_db < volume_max_db` and a mathematics library that is exact at the decibel value
`volume_min_db + v * (volume_max_db - volume_min_db)` (there the logarithm undoes the power,
and the power is at least `1e-23`): after a `set` of the scalar value to `v`, `get` of the
decibel value returns `volume_min_db + v * (volume_max_db - volume_min_db)`, whereas `get` of
the convert-scalar-to-decibels property for `v` returns
`volume_min_db + v * v * (volume_max_db - volume_min_db)`, which is strictly less. -/
theorem C40_scalar_decibel_mismatch [LinearOrderedField F] [FloorRing F] (cfg : Config F)
    (m : MathLib F) (env : Environment) (s : DriverState F) (sc : Scope) (el qsz : Nat)
    (qd : Option CFStringRef) (inData : Blob F) (n0 : Nat)
    (hv0 : 0 < inData.asFloat32) (hv1 : inData.asFloat32 < 1)
    (hrange : cfg.volume_min_db < cfg.volume_max_db)
    (hlog : m.log10 (m.pow 10 ((cfg.volume_min_db
        + inData.asFloat32 * (cfg.volume_max_db - cfg.volume_min_db)) / 20))
      = (cfg.volume_min_db + inData.asFloat32 * (cfg.volume_max_db - cfg.volume_min_db)) / 20)
    (hfloor : 1 / 10 ^ 23 ≤ m.pow 10 ((cfg.volume_min_db
        + inData.asFloat32 * (cfg.volume_max_db - cfg.volume_min_db)) / 20)) :
    Driver.GetPropertyDataImpl cfg m env
        (Driver.SetPropertyDataImpl cfg m s ObjectID.VolumeOutputMaster.toAudioObjectID
          (some ⟨kAudioLevelControlPropertyScalarValue, sc, el⟩) qsz qd sizeof_Float32
          inData).state
        ObjectID.VolumeOutputMaster.toAudioObjectID
        (some ⟨kAudioLevelControlPropertyDecibelValue, sc, el⟩) qsz qd sizeof_Float32
        (some n0) (some inData)
      = ⟨kAudioHardwareNoError, sizeof_Float32,
          some (.float32 (cfg.volume_min_db
            + inData.asFloat32 * (cfg.volume_max_db - cfg.volume_min_db)))⟩ ∧
    Driver.GetPropertyDataImpl cfg m env
        (Driver.SetPropertyDataImpl cfg m s ObjectID.VolumeOutputMaster.toAudioObjectID
          (some ⟨kAudioLevelControlPropertyScalarValue, sc, el⟩) qsz qd sizeof_Float32
          inData).state
        ObjectID.VolumeOutputMaster.toAudioObjectID
        (some ⟨kAudioLevelControlPropertyConvertScalarToDecibels, sc, el⟩) qsz qd
        sizeof_Float32 (some n0) (some inData)
      = ⟨kAudioHardwareNoError, sizeof_Float32,
          some (.float32 (cfg.volume_min_db
            + inData.asFloat32 * inData.asFloat32
              * (cfg.volume_max_db - cfg.volume_min_db)))⟩ ∧
    cfg.volume_min_db + inData.asFloat32 * inData.asFloat32
        * (cfg.volume_max_db - cfg.volume_min_db)
      < cfg.volume_min_db + inData.asFloat32 * (cfg.volume_max_db - cfg.volume_min_db) := by
  have hdiff : 0 < cfg.volume_max_db - cfg.volume_min_db := sub_pos.2 hrange
  have hclamp : mts.clamp inData.asFloat32 0 1 = inData.asFloat32 :=
    clamp_eq_self _ _ _ (le_of_lt hv0) (le_of_lt hv1)
  have hstate : (Driver.SetPropertyDataImpl cfg m s ObjectID.VolumeOutputMaster.toAudioObjectID
      (some ⟨kAudioLevelControlPropertyScalarValue, sc, el⟩) qsz qd sizeof_Float32
      inData).state.m_volumeMasterValue
      = m.pow 10 ((cfg.volume_min_db
        + inData.asFloat32 * (cfg.volume_max_db - cfg.volume_min_db)) / 20) := by
    rw [SetPropertyDataImpl_state]
    show (volume_control.set cfg m ⟨ObjectID.VolumeOutputMaster.toAudioObjectID,
      ObjectID.Device.toAudioObjectID, mts.direction.output⟩ s
      ⟨kAudioLevelControlPropertyScalarValue, sc, el⟩ qsz qd sizeof_Float32 inData
      0).state.m_volumeMasterValue = _
    rw [volume_control_set_state, set_volume_normalized_value]
    simp only [mts.normalized_value_to_amplitude, mts.decibel_to_amplitude, hclamp]
  have hget : ∀ s1 : DriverState F,
      Driver.GetPropertyDataImpl cfg m env s1 ObjectID.VolumeOutputMaster.toAudioObjectID
        (some ⟨kAudioLevelControlPropertyDecibelValue, sc, el⟩) qsz qd sizeof_Float32
        (some n0) (some inData)
      = ⟨kAudioHardwareNoError, sizeof_Float32,
          some (.float32 (mts.clamp (mts.amplitude_to_decibel m s1.m_volumeMasterValue)
            cfg.volume_min_db cfg.volume_max_db))⟩ := by
    intro s1
    rfl
  have hconv : ∀ s1 : DriverState F,
      Driver.GetPropertyDataImpl cfg m env s1 ObjectID.VolumeOutputMaster.toAudioObjectID
        (some ⟨kAudioLevelControlPropertyConvertScalarToDecibels, sc, el⟩) qsz qd
        sizeof_Float32 (some n0) (some inData)
      = ⟨kAudioHardwareNoError, sizeof_Float32,
          some (.float32 (MasterVolume.convert_normalized_to_decibel cfg
            inData.asFloat32))⟩ := by
    intro s1
    rfl
  have hmul : inData.asFloat32 * inData.asFloat32 < inData.asFloat32 := by
    have := mul_lt_mul_of_pos_left hv1 hv0
    simpa using this
  refine ⟨?_, ?_, ?_⟩
  · rw [hget, hstate]
    unfold mts.amplitude_to_decibel
    rw [if_neg (not_lt.2 hfloor), hlog]
    rw [mul_div_cancel₀ _ (by norm_num : (20 : F) ≠ 0)]
    rw [clamp_eq_self]
    · have := mul_nonneg (le_of_lt hv0) (le_of_lt hdiff)
      linarith
    · have := mul_le_mul_of_nonneg_right (le_of_lt hv1) (le_of_lt hdiff)
      linarith
  · rw [hconv]
    simp only [MasterVolume.convert_normalized_to_decibel, hclamp]
  · have := mul_lt_mul_of_pos_right hmul hdiff
    linarith


theorem exampleDecibelLib_exact (z : ℤ) :
    exampleDecibelLib.log10 (exampleDecibelLib.pow 10 (z : ℚ)) = (z : ℚ) ∧
      exampleDecibelLib.pow 10 (z : ℚ) = (10 : ℚ) ^ z := by
  have hpow : exampleDecibelLib.pow 10 (z : ℚ) = (10 : ℚ) ^ z := by
    show (10 : ℚ) ^ ⌊(z : ℚ)⌋ = (10 : ℚ) ^ z
    rw [Int.floor_intCast]
  refine ⟨?_, hpow⟩
  rw [hpow]
  show ((Int.log 10 ((10 : ℚ) ^ z) : ℤ) : ℚ) = (z : ℚ)
  have h := @Int.log_zpow ℚ _ _ 10 (by norm_num) z
  exact_mod_cast h

/-- C40 on the gain example (range -100 dB to 0 dB): after a set of the scalar value 1/5 the
decibel value reads -80 dB, and the conversion of the scalar 1/5 gives -96 dB. -/
theorem C40_scalar_decibel_mismatch_witness :
    Driver.GetPropertyDataImpl exampleGainConfig exampleDecibelLib exampleEnvironment
        (Driver.SetPropertyDataImpl exampleGainConfig exampleDecibelLib
          (DriverState.initial exampleGainConfig) ObjectID.VolumeOutputMaster.toAudioObjectID
          (some ⟨kAudioLevelControlPropertyScalarValue, kAudioObjectPropertyScopeGlobal, 0⟩)
          0 none sizeof_Float32 { exampleBlob with asFloat32 := 1 / 5 }).state
        ObjectID.VolumeOutputMaster.toAudioObjectID
        (some ⟨kAudioLevelControlPropertyDecibelValue, kAudioObjectPropertyScopeGlobal, 0⟩)
        0 none sizeof_Float32 (some 0) (some { exampleBlob with asFloat32 := 1 / 5 })
      = ⟨kAudioHardwareNoError, 4, some (.float32 (-80))⟩ ∧
    Driver.GetPropertyDataImpl exampleGainConfig exampleDecibelLib exampleEnvironment
        (Driver.SetPropertyDataImpl exampleGainConfig exampleDecibelLib
          (DriverState.initial exampleGainConfig) ObjectID.VolumeOutputMaster.toAudioObjectID
          (some ⟨kAudioLevelControlPropertyScalarValue, kAudioObjectPropertyScopeGlobal, 0⟩)
          0 none sizeof_Float32 { exampleBlob with asFloat32 := 1 / 5 }).state
        ObjectID.VolumeOutputMaster.toAudioObjectID
        (some ⟨kAudioLevelControlPropertyConvertScalarToDecibels,
          kAudioObjectPropertyScopeGlobal, 0⟩)
        0 none sizeof_Float32 (some 0) (some { exampleBlob with asFloat32 := 1 / 5 })
      = ⟨kAudioHardwareNoError, 4, some (.float32 (-96))⟩ :=
  have harg : (exampleGainConfig.volume_min_db
      + ({ exampleBlob with asFloat32 := 1 / 5 } : Blob ℚ).asFloat32
        * (exampleGainConfig.volume_max_db - exampleGainConfig.volume_min_db)) / 20
      = (((-4 : ℤ)) : ℚ) := by
    norm_num [exampleGainConfig, exampleConfig, exampleBlob]
  have h := C40_scalar_decibel_mismatch exampleGainConfig exampleDecibelLib exampleEnvironment
    (DriverState.initial exampleGainConfig) kAudioObjectPropertyScopeGlobal 0 0 none
    { exampleBlob with asFloat32 := 1 / 5 } 0
    (by norm_num) (by norm_num) (by norm_num [exampleGainConfig, exampleConfig])
    (by rw [harg]; exact (exampleDecibelLib_exact (-4)).1)
    (by rw [harg, (exampleDecibelLib_exact (-4)).2]; norm_num)
  ⟨h.1.trans (by norm_num [exampleGainConfig, exampleConfig, exampleBlob, sizeof_Float32]),
    h.2.1.trans (by norm_num [exampleGainConfig, exampleConfig, exampleBlob, sizeof_Float32])⟩

end Theorems

end MtsDriver
